import Mathlib

/-!
Verification of the barnarok chess engine core (a Rust bitboard chess engine).

The development shallowly embeds the final design of the engine:

* `src/board.rs`      — the `Board` state, `make_move`, `unmake_move`, `from_fen`;
* `src/masks.rs`      — the precomputed 64-entry geometry tables;
* `src/piece/*.rs`    — the per-piece move generators and the
                        Hyperbola-Quintessence slider routine;
* `src/ai.rs`         — `negamax`, `alpha_beta`, `alpha_beta_quiesce`, `quiesce`.

Machine integers (`u64`, `usize`) are embedded as `Nat`, reduced modulo `2 ^ 64`
exactly where the Rust semantics wraps.  Code whose declaration lives in the
modules that are absent from the source tree (`defines.rs`, `utils.rs`: the
`Move` record, `is_square_attacked`, `is_king_attacked`, `evaluate`, and the
final `get_legal_moves` aggregator) is modelled from the specification; each
such definition carries a doc comment starting with `Modelled from the spec:`.
-/

namespace Barnarok

/-- Bitboards are 64-bit unsigned integers; we keep them as `Nat` values that
are below `2 ^ 64` whenever the board is well formed. -/
abbrev Bitboard := Nat

/-- The modulus of 64-bit arithmetic. -/
def U64 : Nat := 2 ^ 64

/-- The all-ones 64-bit word. -/
def ones64 : Nat := 2 ^ 64 - 1

/-- Bitwise NOT on 64-bit words (`!x` in Rust), for arguments below `2 ^ 64`. -/
def not64 (x : Nat) : Nat := x ^^^ ones64

/-- Wrapping 64-bit subtraction (`a.wrapping_sub(b)` in Rust). -/
def wrapSub64 (a b : Nat) : Nat := (a % U64 + (U64 - b % U64)) % U64

/-- Trailing-zero count of a 64-bit word (`x.trailing_zeros()` in Rust),
which returns 64 on input 0. -/
def trailing_zeros (x : Nat) : Nat :=
  ((List.range 64).find? (fun i => x.testBit i)).getD 64

/-- Piece types are small integers, as in `defines.rs`/`chess.rs`. -/
abbrev Piece := Nat

def EMPTY : Piece := 0
def PAWN : Piece := 1
def ROOK : Piece := 2
def KNIGHT : Piece := 3
def BISHOP : Piece := 4
def QUEEN : Piece := 5
def KING : Piece := 6

/-- Move-kind tag.  The source uses the variants `None`, `EnPassant`,
`QueenSideCastle`, `KingSideCastle`, `DoubleStep` (all modules),
`Promotion(piece)` (`board.rs`) and `Capture(piece)` (`piece/pawn.rs`). -/
inductive MoveContext where
  | none : MoveContext
  | enPassant : MoveContext
  | queenSideCastle : MoveContext
  | kingSideCastle : MoveContext
  | doubleStep : MoveContext
  | promotion : Piece → MoveContext
  | capture : Piece → MoveContext
deriving DecidableEq, Repr

/-- Modelled from the spec: the `Move` record is declared in the missing
`defines.rs`; its fields are fixed by its uses in `board.rs` and
`piece/king.rs`/`knight.rs`/`rook.rs`/`bishop.rs`/`queen.rs` and by section 3
of the spec: origin, destination, move-kind tag, captured piece kind if any,
and a snapshot of the en-passant target and the four castling flags as they
were before the move.  The Rust field `end` is spelled `endSq` here because
`end` is a Lean keyword. -/
structure Move where
  start : Nat
  endSq : Nat
  context : MoveContext
  capture : Option Piece
  previous_ep_target : Option Nat
  previous_wqs : Bool
  previous_wks : Bool
  previous_bqs : Bool
  previous_bks : Bool
deriving DecidableEq, Repr

/-- The board state, exactly the fields of `Board` in `src/board.rs`. -/
@[ext] structure Board where
  white_pawns : Bitboard
  white_rooks : Bitboard
  white_knights : Bitboard
  white_bishops : Bitboard
  white_queens : Bitboard
  white_king : Nat
  black_pawns : Bitboard
  black_rooks : Bitboard
  black_knights : Bitboard
  black_bishops : Bitboard
  black_queens : Bitboard
  black_king : Nat
  white_pieces : Bitboard
  black_pieces : Bitboard
  pieces : Bitboard
  en_passant_target : Option Nat
  white_queen_side_castling_right : Bool
  white_king_side_castling_right : Bool
  black_queen_side_castling_right : Bool
  black_king_side_castling_right : Bool
  white_to_play : Bool
deriving DecidableEq, Repr

/-- Piece lookup on a square, as `get_piece_type_on_square` in `src/chess.rs`
(the copy re-exported to `board.rs` by the missing utility module). -/
def get_piece_type_on_square (b : Board) (sq : Nat) : Piece :=
  let sq_bb : Nat := 1 <<< sq
  if b.white_pieces &&& sq_bb ≠ 0 then
    if b.white_pawns &&& sq_bb ≠ 0 then PAWN
    else if b.white_rooks &&& sq_bb ≠ 0 then ROOK
    else if b.white_knights &&& sq_bb ≠ 0 then KNIGHT
    else if b.white_bishops &&& sq_bb ≠ 0 then BISHOP
    else if b.white_queens &&& sq_bb ≠ 0 then QUEEN
    else KING
  else if b.black_pieces &&& sq_bb ≠ 0 then
    if b.black_pawns &&& sq_bb ≠ 0 then PAWN
    else if b.black_rooks &&& sq_bb ≠ 0 then ROOK
    else if b.black_knights &&& sq_bb ≠ 0 then KNIGHT
    else if b.black_bishops &&& sq_bb ≠ 0 then BISHOP
    else if b.black_queens &&& sq_bb ≠ 0 then QUEEN
    else KING
  else EMPTY

/-- Applies a promotion on the white side inside `make_move`
(the `match promoted` block of `src/board.rs`, lines 74-97). -/
def makeMovePromoWhite (b : Board) (promoted : Piece) (to_mask : Nat) : Board :=
  if promoted = BISHOP then
    { b with white_bishops := b.white_bishops ||| to_mask,
             white_pawns := b.white_pawns &&& not64 to_mask }
  else if promoted = ROOK then
    { b with white_rooks := b.white_rooks ||| to_mask,
             white_pawns := b.white_pawns &&& not64 to_mask }
  else if promoted = KNIGHT then
    { b with white_knights := b.white_knights ||| to_mask,
             white_pawns := b.white_pawns &&& not64 to_mask }
  else if promoted = QUEEN then
    { b with white_queens := b.white_queens ||| to_mask,
             white_pawns := b.white_pawns &&& not64 to_mask }
  else b

/-- Applies a promotion on the black side inside `make_move`
(the `match promoted` block of `src/board.rs`, lines 200-223). -/
def makeMovePromoBlack (b : Board) (promoted : Piece) (to_mask : Nat) : Board :=
  if promoted = BISHOP then
    { b with black_bishops := b.black_bishops ||| to_mask,
             black_pawns := b.black_pawns &&& not64 to_mask }
  else if promoted = ROOK then
    { b with black_rooks := b.black_rooks ||| to_mask,
             black_pawns := b.black_pawns &&& not64 to_mask }
  else if promoted = KNIGHT then
    { b with black_knights := b.black_knights ||| to_mask,
             black_pawns := b.black_pawns &&& not64 to_mask }
  else if promoted = QUEEN then
    { b with black_queens := b.black_queens ||| to_mask,
             black_pawns := b.black_pawns &&& not64 to_mask }
  else b

/-- Removes a captured black piece from the black bitboards inside the white
branch of `make_move` (`src/board.rs`, lines 162-175). -/
def makeMoveCaptureBlack (b : Board) (piece_type : Piece) (to_mask : Nat) : Board :=
  let b := { b with black_pieces := b.black_pieces &&& not64 to_mask }
  if piece_type = PAWN then { b with black_pawns := b.black_pawns &&& not64 to_mask }
  else if piece_type = ROOK then { b with black_rooks := b.black_rooks &&& not64 to_mask }
  else if piece_type = KNIGHT then { b with black_knights := b.black_knights &&& not64 to_mask }
  else if piece_type = BISHOP then { b with black_bishops := b.black_bishops &&& not64 to_mask }
  else if piece_type = QUEEN then { b with black_queens := b.black_queens &&& not64 to_mask }
  else b

/-- Removes a captured white piece from the white bitboards inside the black
branch of `make_move` (`src/board.rs`, lines 287-300). -/
def makeMoveCaptureWhite (b : Board) (piece_type : Piece) (to_mask : Nat) : Board :=
  let b := { b with white_pieces := b.white_pieces &&& not64 to_mask }
  if piece_type = PAWN then { b with white_pawns := b.white_pawns &&& not64 to_mask }
  else if piece_type = ROOK then { b with white_rooks := b.white_rooks &&& not64 to_mask }
  else if piece_type = KNIGHT then { b with white_knights := b.white_knights &&& not64 to_mask }
  else if piece_type = BISHOP then { b with white_bishops := b.white_bishops &&& not64 to_mask }
  else if piece_type = QUEEN then { b with white_queens := b.white_queens &&& not64 to_mask }
  else b

/-- The white piece-type dispatch of `make_move` (`src/board.rs`, white
branch): moves the mover bit inside its type mask, clears a castling right
when a rook leaves its home square or the king moves, and relocates the rook
of a castle. -/
def whiteMover (b : Board) (mv : Move) : Board :=
  let fromSq := mv.start
  let toSq := mv.endSq
  let from_mask : Nat := 1 <<< fromSq
  let to_mask : Nat := 1 <<< toSq
  if b.white_pawns &&& from_mask ≠ 0 then
    let b := { b with white_pawns := (b.white_pawns &&& not64 from_mask) ||| to_mask }
    match mv.context with
    | MoveContext.promotion promoted => makeMovePromoWhite b promoted to_mask
    | _ => b
  else if b.white_rooks &&& from_mask ≠ 0 then
    let b :=
      if fromSq = 0 then { b with white_queen_side_castling_right := false }
      else if fromSq = 7 then { b with white_king_side_castling_right := false }
      else b
    { b with white_rooks := (b.white_rooks &&& not64 from_mask) ||| to_mask }
  else if b.white_knights &&& from_mask ≠ 0 then
    { b with white_knights := (b.white_knights &&& not64 from_mask) ||| to_mask }
  else if b.white_bishops &&& from_mask ≠ 0 then
    { b with white_bishops := (b.white_bishops &&& not64 from_mask) ||| to_mask }
  else if b.white_queens &&& from_mask ≠ 0 then
    { b with white_queens := (b.white_queens &&& not64 from_mask) ||| to_mask }
  else if b.white_king = fromSq then
    let b := { b with white_king_side_castling_right := false,
                      white_queen_side_castling_right := false }
    let b := { b with white_pieces := b.white_pieces &&& not64 (1 <<< b.white_king) }
    let b := { b with white_king := toSq }
    let b := { b with white_pieces := b.white_pieces ||| (1 <<< b.white_king) }
    if mv.context = MoveContext.queenSideCastle then
      -- Move rook from a1 (0) to d1 (3).
      let b := { b with white_rooks := (b.white_rooks &&& not64 1) ||| (1 <<< 3) }
      { b with white_pieces := (b.white_pieces &&& not64 1) ||| (1 <<< 3) }
    else if mv.context = MoveContext.kingSideCastle then
      -- Move rook from h1 (7) to f1 (5).
      let b := { b with white_rooks := (b.white_rooks &&& not64 (1 <<< 7)) ||| (1 <<< 5) }
      { b with white_pieces := (b.white_pieces &&& not64 (1 <<< 7)) ||| (1 <<< 5) }
    else b
  else
    b  -- Rust: panic, "make_move: no white piece on from".

/-- The black piece-type dispatch of `make_move` (`src/board.rs`, black
branch). -/
def blackMover (b : Board) (mv : Move) : Board :=
  let fromSq := mv.start
  let toSq := mv.endSq
  let from_mask : Nat := 1 <<< fromSq
  let to_mask : Nat := 1 <<< toSq
  if b.black_pawns &&& from_mask ≠ 0 then
    let b := { b with black_pawns := (b.black_pawns &&& not64 from_mask) ||| to_mask }
    match mv.context with
    | MoveContext.promotion promoted => makeMovePromoBlack b promoted to_mask
    | _ => b
  else if b.black_rooks &&& from_mask ≠ 0 then
    let b :=
      if fromSq = 56 then { b with black_queen_side_castling_right := false }
      else if fromSq = 63 then { b with black_king_side_castling_right := false }
      else b
    { b with black_rooks := (b.black_rooks &&& not64 from_mask) ||| to_mask }
  else if b.black_knights &&& from_mask ≠ 0 then
    { b with black_knights := (b.black_knights &&& not64 from_mask) ||| to_mask }
  else if b.black_bishops &&& from_mask ≠ 0 then
    { b with black_bishops := (b.black_bishops &&& not64 from_mask) ||| to_mask }
  else if b.black_queens &&& from_mask ≠ 0 then
    { b with black_queens := (b.black_queens &&& not64 from_mask) ||| to_mask }
  else if b.black_king = fromSq then
    let b := { b with black_king_side_castling_right := false,
                      black_queen_side_castling_right := false }
    let b := { b with black_pieces := b.black_pieces &&& not64 (1 <<< b.black_king) }
    let b := { b with black_king := toSq }
    let b := { b with black_pieces := b.black_pieces ||| (1 <<< b.black_king) }
    if mv.context = MoveContext.queenSideCastle then
      -- Move rook from a8 (56) to d8 (59).
      let b := { b with black_rooks := (b.black_rooks &&& not64 (1 <<< 56)) ||| (1 <<< 59) }
      { b with black_pieces := (b.black_pieces &&& not64 (1 <<< 56)) ||| (1 <<< 59) }
    else if mv.context = MoveContext.kingSideCastle then
      -- Move rook from h8 (63) to f8 (61).
      let b := { b with black_rooks := (b.black_rooks &&& not64 (1 <<< 63)) ||| (1 <<< 61) }
      { b with black_pieces := (b.black_pieces &&& not64 (1 <<< 63)) ||| (1 <<< 61) }
    else b
  else
    b  -- Rust: panic, "make_move: no black piece on from".

/-- The capture-and-en-passant removal block of the white branch of
`make_move` (`src/board.rs`): the en-passant removal is the else arm of the
capture match. -/
def whiteCaptureEp (b : Board) (mv : Move) : Board :=
  match mv.capture with
  | some piece_type => makeMoveCaptureBlack b piece_type (1 <<< mv.endSq)
  | Option.none =>
    if mv.context = MoveContext.enPassant then
      let cap_mask : Nat := 1 <<< (mv.endSq - 8)
      { b with black_pieces := b.black_pieces &&& not64 cap_mask,
               black_pawns := b.black_pawns &&& not64 cap_mask }
    else b

/-- The capture-and-en-passant removal block of the black branch of
`make_move`.  Unlike the white branch, the source tests for en passant with a
separate `if` after the capture match, not an else arm. -/
def blackCaptureEp (b : Board) (mv : Move) : Board :=
  let b :=
    match mv.capture with
    | some piece_type => makeMoveCaptureWhite b piece_type (1 <<< mv.endSq)
    | Option.none => b
  if mv.context = MoveContext.enPassant then
    let cap_mask : Nat := 1 <<< (mv.endSq + 8)
    { b with white_pieces := b.white_pieces &&& not64 cap_mask,
             white_pawns := b.white_pawns &&& not64 cap_mask }
  else b

/-- The castling-right clearing on the destination square shared by both
branches of `make_move` (`src/board.rs`): landing on a rook home square
revokes the corresponding right. -/
def clearRightsOnEnd (b : Board) (e : Nat) : Board :=
  if e = 0 then { b with white_queen_side_castling_right := false }
  else if e = 7 then { b with white_king_side_castling_right := false }
  else if e = 56 then { b with black_queen_side_castling_right := false }
  else if e = 63 then { b with black_king_side_castling_right := false }
  else b

/-- Applies a move, exactly `Board::make_move` from `src/board.rs`, assembled
from the labelled blocks above.  In the final `else` branch of the piece
dispatch (no mover found on the origin square) the Rust code panics; the
embedding leaves the piece-type masks untouched there, and `makeMovePanics`
below recognises that branch so that theorems can show it unreachable. -/
def makeMove (b : Board) (mv : Move) : Board :=
  if b.white_to_play then
    let b := { b with white_pieces :=
                 (b.white_pieces &&& not64 (1 <<< mv.start)) ||| (1 <<< mv.endSq) }
    let b := whiteMover b mv
    let b := whiteCaptureEp b mv
    let b := { b with en_passant_target :=
                 if mv.context = MoveContext.doubleStep then some (mv.endSq - 8)
                 else Option.none }
    let b := clearRightsOnEnd b mv.endSq
    let b := { b with pieces := b.white_pieces ||| b.black_pieces }
    { b with white_to_play := !b.white_to_play }
  else
    let b := { b with black_pieces :=
                 (b.black_pieces &&& not64 (1 <<< mv.start)) ||| (1 <<< mv.endSq) }
    let b := blackMover b mv
    let b := blackCaptureEp b mv
    let b := { b with en_passant_target :=
                 if mv.context = MoveContext.doubleStep then some (mv.endSq + 8)
                 else Option.none }
    let b := clearRightsOnEnd b mv.endSq
    let b := { b with pieces := b.white_pieces ||| b.black_pieces }
    { b with white_to_play := !b.white_to_play }

/-- True exactly when `Board::make_move` would hit its `panic!` branch
(no piece of the moving side found on the origin square). -/
def makeMovePanics (b : Board) (mv : Move) : Bool :=
  let from_mask : Nat := 1 <<< mv.start
  if b.white_to_play then
    b.white_pawns &&& from_mask = 0 ∧ b.white_rooks &&& from_mask = 0 ∧
    b.white_knights &&& from_mask = 0 ∧ b.white_bishops &&& from_mask = 0 ∧
    b.white_queens &&& from_mask = 0 ∧ b.white_king ≠ mv.start
  else
    b.black_pawns &&& from_mask = 0 ∧ b.black_rooks &&& from_mask = 0 ∧
    b.black_knights &&& from_mask = 0 ∧ b.black_bishops &&& from_mask = 0 ∧
    b.black_queens &&& from_mask = 0 ∧ b.black_king ≠ mv.start

/-- Restores a captured black piece inside the white branch of `unmake_move`
(`src/board.rs`, lines 429-444).  The final Rust arm is `unreachable!()`; the
embedding returns the board unchanged there. -/
def unmakeRestoreBlack (b : Board) (piece : Piece) (to_mask : Nat) (toSq : Nat) : Board :=
  let b := { b with black_pieces := b.black_pieces ||| to_mask }
  if piece = PAWN then { b with black_pawns := b.black_pawns ||| to_mask }
  else if piece = ROOK then { b with black_rooks := b.black_rooks ||| to_mask }
  else if piece = KNIGHT then { b with black_knights := b.black_knights ||| to_mask }
  else if piece = BISHOP then { b with black_bishops := b.black_bishops ||| to_mask }
  else if piece = QUEEN then { b with black_queens := b.black_queens ||| to_mask }
  else if piece = KING then { b with black_king := toSq }
  else b

/-- Restores a captured white piece inside the black branch of `unmake_move`
(`src/board.rs`, lines 543-558). -/
def unmakeRestoreWhite (b : Board) (piece : Piece) (to_mask : Nat) (toSq : Nat) : Board :=
  let b := { b with white_pieces := b.white_pieces ||| to_mask }
  if piece = PAWN then { b with white_pawns := b.white_pawns ||| to_mask }
  else if piece = ROOK then { b with white_rooks := b.white_rooks ||| to_mask }
  else if piece = KNIGHT then { b with white_knights := b.white_knights ||| to_mask }
  else if piece = BISHOP then { b with white_bishops := b.white_bishops ||| to_mask }
  else if piece = QUEEN then { b with white_queens := b.white_queens ||| to_mask }
  else if piece = KING then { b with white_king := toSq }
  else b

/-- The white detection-and-removal match of `unmake_move` (`src/board.rs`,
white branch): identify the moved piece by the mask holding the destination
bit, remove it there, and undo a castle rook relocation.  The `panic!` branch
(no mover found on the destination square) is modelled by the marker type
`EMPTY`, which leaves the board unchanged in the restore step. -/
def whiteUnmover (b : Board) (mv : Move) : Piece × Board :=
  let fromSq := mv.start
  let toSq := mv.endSq
  let to_mask : Nat := 1 <<< toSq
  match mv.context with
  | MoveContext.promotion promoted =>
    (PAWN,
      if promoted = BISHOP then { b with white_bishops := b.white_bishops &&& not64 to_mask }
      else if promoted = ROOK then { b with white_rooks := b.white_rooks &&& not64 to_mask }
      else if promoted = KNIGHT then
        { b with white_knights := b.white_knights &&& not64 to_mask }
      else if promoted = QUEEN then { b with white_queens := b.white_queens &&& not64 to_mask }
      else b)
  | _ =>
    if b.white_pawns &&& to_mask ≠ 0 then
      (PAWN, { b with white_pawns := b.white_pawns &&& not64 to_mask })
    else if b.white_rooks &&& to_mask ≠ 0 then
      (ROOK, { b with white_rooks := b.white_rooks &&& not64 to_mask })
    else if b.white_knights &&& to_mask ≠ 0 then
      (KNIGHT, { b with white_knights := b.white_knights &&& not64 to_mask })
    else if b.white_bishops &&& to_mask ≠ 0 then
      (BISHOP, { b with white_bishops := b.white_bishops &&& not64 to_mask })
    else if b.white_queens &&& to_mask ≠ 0 then
      (QUEEN, { b with white_queens := b.white_queens &&& not64 to_mask })
    else if b.white_king = toSq then
      let b := { b with white_pieces := b.white_pieces &&& not64 (1 <<< b.white_king) }
      let b := { b with white_king := fromSq }
      let b := { b with white_pieces := b.white_pieces ||| (1 <<< b.white_king) }
      let b :=
        if mv.context = MoveContext.queenSideCastle then
          let b := { b with white_rooks := (b.white_rooks &&& not64 (1 <<< 3)) ||| 1 }
          { b with white_pieces := (b.white_pieces &&& not64 (1 <<< 3)) ||| 1 }
        else if mv.context = MoveContext.kingSideCastle then
          let b := { b with white_rooks := (b.white_rooks &&& not64 (1 <<< 5)) ||| (1 <<< 7) }
          { b with white_pieces := (b.white_pieces &&& not64 (1 <<< 5)) ||| (1 <<< 7) }
        else b
      (KING, b)
    else
      (EMPTY, b)  -- Rust: panic, "unmake_move: no white piece on to".

/-- The black detection-and-removal match of `unmake_move` (`src/board.rs`,
black branch). -/
def blackUnmover (b : Board) (mv : Move) : Piece × Board :=
  let fromSq := mv.start
  let toSq := mv.endSq
  let to_mask : Nat := 1 <<< toSq
  match mv.context with
  | MoveContext.promotion promoted =>
    (PAWN,
      if promoted = BISHOP then { b with black_bishops := b.black_bishops &&& not64 to_mask }
      else if promoted = ROOK then { b with black_rooks := b.black_rooks &&& not64 to_mask }
      else if promoted = KNIGHT then
        { b with black_knights := b.black_knights &&& not64 to_mask }
      else if promoted = QUEEN then { b with black_queens := b.black_queens &&& not64 to_mask }
      else b)
  | _ =>
    if b.black_pawns &&& to_mask ≠ 0 then
      (PAWN, { b with black_pawns := b.black_pawns &&& not64 to_mask })
    else if b.black_rooks &&& to_mask ≠ 0 then
      (ROOK, { b with black_rooks := b.black_rooks &&& not64 to_mask })
    else if b.black_knights &&& to_mask ≠ 0 then
      (KNIGHT, { b with black_knights := b.black_knights &&& not64 to_mask })
    else if b.black_bishops &&& to_mask ≠ 0 then
      (BISHOP, { b with black_bishops := b.black_bishops &&& not64 to_mask })
    else if b.black_queens &&& to_mask ≠ 0 then
      (QUEEN, { b with black_queens := b.black_queens &&& not64 to_mask })
    else if b.black_king = toSq then
      let b := { b with black_pieces := b.black_pieces &&& not64 (1 <<< b.black_king) }
      let b := { b with black_king := fromSq }
      let b := { b with black_pieces := b.black_pieces ||| (1 <<< b.black_king) }
      let b :=
        if mv.context = MoveContext.queenSideCastle then
          let b := { b with black_rooks := (b.black_rooks &&& not64 (1 <<< 59)) ||| (1 <<< 56) }
          { b with black_pieces := (b.black_pieces &&& not64 (1 <<< 59)) ||| (1 <<< 56) }
        else if mv.context = MoveContext.kingSideCastle then
          let b := { b with black_rooks := (b.black_rooks &&& not64 (1 <<< 61)) ||| (1 <<< 63) }
          { b with black_pieces := (b.black_pieces &&& not64 (1 <<< 61)) ||| (1 <<< 63) }
        else b
      (KING, b)
    else
      (EMPTY, b)  -- Rust: panic, "unmake_move: no black piece on to".

/-- The capture-or-en-passant restore block of the white branch of
`unmake_move` (`src/board.rs`). -/
def whiteUncaptureEp (b : Board) (mv : Move) : Board :=
  match mv.capture with
  | some piece => unmakeRestoreBlack b piece (1 <<< mv.endSq) mv.endSq
  | Option.none =>
    if MoveContext.enPassant = mv.context then
      let cap_mask : Nat := 1 <<< (mv.endSq - 8)
      { b with black_pawns := b.black_pawns ||| cap_mask,
               black_pieces := b.black_pieces ||| cap_mask }
    else b

/-- The capture-or-en-passant restore block of the black branch of
`unmake_move` (`src/board.rs`). -/
def blackUncaptureEp (b : Board) (mv : Move) : Board :=
  match mv.capture with
  | some piece => unmakeRestoreWhite b piece (1 <<< mv.endSq) mv.endSq
  | Option.none =>
    if MoveContext.enPassant = mv.context then
      let cap_mask : Nat := 1 <<< (mv.endSq + 8)
      { b with white_pawns := b.white_pawns ||| cap_mask,
               white_pieces := b.white_pieces ||| cap_mask }
    else b

/-- The restore-the-mover step of the white branch of `unmake_move`
(`src/board.rs`): put the moved piece back on its origin square.  The final
arm (`EMPTY`) models the `unreachable!()` of the source. -/
def whiteRestoreMover (b : Board) (moved_piece_type : Piece) (fromSq : Nat) : Board :=
  let from_mask : Nat := 1 <<< fromSq
  if moved_piece_type = PAWN then { b with white_pawns := b.white_pawns ||| from_mask }
  else if moved_piece_type = ROOK then { b with white_rooks := b.white_rooks ||| from_mask }
  else if moved_piece_type = KNIGHT then
    { b with white_knights := b.white_knights ||| from_mask }
  else if moved_piece_type = BISHOP then
    { b with white_bishops := b.white_bishops ||| from_mask }
  else if moved_piece_type = QUEEN then
    { b with white_queens := b.white_queens ||| from_mask }
  else if moved_piece_type = KING then { b with white_king := fromSq }
  else b  -- Rust: unreachable.

/-- The restore-the-mover step of the black branch of `unmake_move`
(`src/board.rs`). -/
def blackRestoreMover (b : Board) (moved_piece_type : Piece) (fromSq : Nat) : Board :=
  let from_mask : Nat := 1 <<< fromSq
  if moved_piece_type = PAWN then { b with black_pawns := b.black_pawns ||| from_mask }
  else if moved_piece_type = ROOK then { b with black_rooks := b.black_rooks ||| from_mask }
  else if moved_piece_type = KNIGHT then
    { b with black_knights := b.black_knights ||| from_mask }
  else if moved_piece_type = BISHOP then
    { b with black_bishops := b.black_bishops ||| from_mask }
  else if moved_piece_type = QUEEN then
    { b with black_queens := b.black_queens ||| from_mask }
  else if moved_piece_type = KING then { b with black_king := fromSq }
  else b  -- Rust: unreachable.

/-- The shared tail of `unmake_move` (`src/board.rs`): restore the en-passant
target and the four castling rights from the move snapshot and recompute the
global occupancy. -/
def finishUnmake (b : Board) (mv : Move) : Board :=
  let b := { b with en_passant_target := mv.previous_ep_target }
  let b := { b with pieces := b.white_pieces ||| b.black_pieces }
  { b with white_queen_side_castling_right := mv.previous_wqs,
           white_king_side_castling_right := mv.previous_wks,
           black_queen_side_castling_right := mv.previous_bqs,
           black_king_side_castling_right := mv.previous_bks }

/-- Reverts a move, exactly `Board::unmake_move` from `src/board.rs`,
assembled from the labelled blocks above. -/
def unmakeMove (b : Board) (mv : Move) : Board :=
  let b := { b with white_to_play := !b.white_to_play }
  if b.white_to_play then
    let pr := whiteUnmover b mv
    let b := { pr.2 with white_pieces := pr.2.white_pieces &&& not64 (1 <<< mv.endSq) }
    let b := whiteUncaptureEp b mv
    let b := whiteRestoreMover b pr.1 mv.start
    let b := { b with white_pieces := b.white_pieces ||| (1 <<< mv.start) }
    finishUnmake b mv
  else
    let pr := blackUnmover b mv
    let b := { pr.2 with black_pieces := pr.2.black_pieces &&& not64 (1 <<< mv.endSq) }
    let b := blackUncaptureEp b mv
    let b := blackRestoreMover b pr.1 mv.start
    let b := { b with black_pieces := b.black_pieces ||| (1 <<< mv.start) }
    finishUnmake b mv

/-! ## Geometry tables (`src/masks.rs`)

The Rust module stores eight 64-entry const arrays, each filled by a local
`create_mask` helper.  The embedding defines each table entry directly as a
function of the square index, exactly following the corresponding
`create_mask` body. -/

/-- Entry of `RANK_MASKS` (`make_rank_masks`). -/
def rank_mask (sq : Nat) : Bitboard := 0xFF <<< (sq / 8 * 8)

/-- Entry of `FILE_MASKS` (`make_file_masks`). -/
def file_mask (sq : Nat) : Bitboard := (1 <<< (sq % 8)) * 0x0101010101010101

/-- Diagonal walk used by `make_diagonal_masks` and `make_antidiagonal_masks`:
starting from file `f` and rank `r`, repeatedly adds the bit of the current
square and steps by `(df, dr)` while the square stays on the board.  The
walks of the source start on the board and move monotonically, so the
combined bound check matches the one-sided checks of each Rust loop. -/
def walkBits (fuel : Nat) (f r df dr : Int) : Bitboard :=
  match fuel with
  | 0 => 0
  | Nat.succ fuel =>
    if 0 ≤ f ∧ f < 8 ∧ 0 ≤ r ∧ r < 8 then
      (1 <<< (r * 8 + f).toNat) ||| walkBits fuel (f + df) (r + dr) df dr
    else 0

/-- Entry of `ANTIDIAGONAL_MASKS` (`make_antidiagonal_masks`): the walk NW
(-1 file, +1 rank) joined with the walk SE (+1 file, -1 rank). -/
def antidiagonal_mask (sq : Nat) : Bitboard :=
  let file : Int := Int.ofNat (sq % 8)
  let rank : Int := Int.ofNat (sq / 8)
  walkBits 8 file rank (-1) 1 ||| walkBits 8 file rank 1 (-1)

/-- Entry of `DIAGONAL_MASKS` (`make_diagonal_masks`): the walk NE
(+1 file, +1 rank) joined with the walk SW (-1 file, -1 rank). -/
def diagonal_mask (sq : Nat) : Bitboard :=
  let file : Int := Int.ofNat (sq % 8)
  let rank : Int := Int.ofNat (sq / 8)
  walkBits 8 file rank 1 1 ||| walkBits 8 file rank (-1) (-1)

/-- Entry of `KNIGHT_MASKS` (`make_knight_masks`), with the exact boundary
conditions of the source. -/
def knight_mask (sq : Nat) : Bitboard :=
  let file := sq % 8
  let rank := sq / 8
  let m : Nat := 0
  let m := if file > 1 then
      (if rank > 1 then m ||| (1 <<< (sq - 10)) else m) |>
        (fun m => if rank < 7 then m ||| (1 <<< (sq + 6)) else m)
    else m
  let m := if file > 0 then
      (if rank > 2 then m ||| (1 <<< (sq - 17)) else m) |>
        (fun m => if rank < 6 then m ||| (1 <<< (sq + 15)) else m)
    else m
  let m := if file < 6 then
      (if rank < 7 then m ||| (1 <<< (sq + 10)) else m) |>
        (fun m => if rank > 1 then m ||| (1 <<< (sq - 6)) else m)
    else m
  let m := if file < 7 then
      (if rank < 6 then m ||| (1 <<< (sq + 17)) else m) |>
        (fun m => if rank > 2 then m ||| (1 <<< (sq - 15)) else m)
    else m
  m

/-- Entry of `KING_MASKS` (`make_king_masks`), with the exact boundary
conditions of the source (note that the west and south conditions are
`file > 1` and `rank > 1`). -/
def king_mask (sq : Nat) : Bitboard :=
  let file := sq % 8
  let rank := sq / 8
  let m : Nat := 0
  let m := if file > 1 then
      ((m ||| (1 <<< (sq - 1))) |>
        (fun m => if rank > 1 then m ||| (1 <<< (sq - 9)) else m)) |>
        (fun m => if rank < 7 then m ||| (1 <<< (sq + 7)) else m)
    else m
  let m := if file < 7 then
      ((m ||| (1 <<< (sq + 1))) |>
        (fun m => if rank > 1 then m ||| (1 <<< (sq - 7)) else m)) |>
        (fun m => if rank < 7 then m ||| (1 <<< (sq + 9)) else m)
    else m
  let m := if rank > 1 then m ||| (1 <<< (sq - 8)) else m
  let m := if rank < 7 then m ||| (1 <<< (sq + 8)) else m
  m

/-- Entry of `WHITE_KING_PAWN_MASKS` (`make_white_king_pawn_masks`): the
squares from which a black pawn attacks a white king on `sq`. -/
def white_king_pawn_mask (sq : Nat) : Bitboard :=
  let file := sq % 8
  let rank := sq / 8
  let m : Nat := 0
  if rank < 7 then
    (if file > 0 then m ||| (1 <<< (sq + 7)) else m) |>
      (fun m => if file < 7 then m ||| (1 <<< (sq + 9)) else m)
  else m

/-- Entry of `BLACK_KING_PAWN_MASKS` (`make_black_king_pawn_masks`): the
squares from which a white pawn attacks a black king on `sq`. -/
def black_king_pawn_mask (sq : Nat) : Bitboard :=
  let file := sq % 8
  let rank := sq / 8
  let m : Nat := 0
  if rank > 0 then
    (if file > 0 then m ||| (1 <<< (sq - 9)) else m) |>
      (fun m => if file < 7 then m ||| (1 <<< (sq - 7)) else m)
  else m

/-! ## The Hyperbola-Quintessence slider engine (`src/piece/slider.rs`) -/

/-- Bit reversal of the low `n` bits (discards higher bits), used to model
`u64::reverse_bits` with `n = 64`. -/
def rev : Nat → Nat → Nat
  | 0, _ => 0
  | Nat.succ n, x => (x &&& 1) * 2 ^ n + rev n (x >>> 1)

/-- The 64-bit bit-reversal intrinsic `u64::reverse_bits`. -/
def reverse_bits64 (x : Nat) : Nat := rev 64 x

/-- The Hyperbola-Quintessence routine, exactly `slider_attacks_hq` from
`src/piece/slider.rs` (the final copy, which shifts `bit` left by one rather
than multiplying by two, so a slider on square 63 wraps to zero instead of
overflowing). -/
def slider_attacks_hq (sq : Nat) (occ mask : Bitboard) : Bitboard :=
  let bit : Nat := 1 <<< sq
  let occ_masked := occ &&& mask
  let forward := wrapSub64 occ_masked ((bit <<< 1) % U64)
  let rev_masked := reverse_bits64 occ_masked
  let rev_bit := reverse_bits64 bit
  let reverse := reverse_bits64 (wrapSub64 rev_masked ((rev_bit <<< 1) % U64))
  (forward ^^^ reverse) &&& mask

/-- Rook reachability, `rook_attacks_hq` from `src/piece/rook.rs`. -/
def rook_attacks_hq (sq : Nat) (occ : Bitboard) : Bitboard :=
  let rm := rank_mask sq
  let fm := file_mask sq
  slider_attacks_hq sq occ rm ||| slider_attacks_hq sq occ fm

/-- Bishop reachability, `bishop_attacks_hq` from `src/piece/bishop.rs`. -/
def bishop_attacks_hq (sq : Nat) (occ : Bitboard) : Bitboard :=
  let m1 := antidiagonal_mask sq
  let m2 := diagonal_mask sq
  slider_attacks_hq sq occ m1 ||| slider_attacks_hq sq occ m2

/-- Queen reachability, `queen_attacks_hq` from `src/piece/queen.rs`. -/
def queen_attacks_hq (sq : Nat) (occ : Bitboard) : Bitboard :=
  rook_attacks_hq sq occ ||| bishop_attacks_hq sq occ

/-! ## King-safety probes

`is_square_attacked` and `is_king_attacked` are declared in the missing
utility module; they are modelled from spec sections 4.3 and 6. -/

/-- Inverse attack probe for a white attacker: pawns via the
pawn-attacks-a-king table, knights via the knight table, the king via the
king table, rooks/queens via the rank-file slider, bishops/queens via the
diagonal slider (spec section 4.3). -/
def attacked_by_white (b : Board) (sq : Nat) : Bool :=
  (black_king_pawn_mask sq &&& b.white_pawns != 0) ||
  (knight_mask sq &&& b.white_knights != 0) ||
  (king_mask sq &&& (1 <<< b.white_king) != 0) ||
  (rook_attacks_hq sq b.pieces &&& (b.white_rooks ||| b.white_queens) != 0) ||
  (bishop_attacks_hq sq b.pieces &&& (b.white_bishops ||| b.white_queens) != 0)

/-- Inverse attack probe for a black attacker (spec section 4.3). -/
def attacked_by_black (b : Board) (sq : Nat) : Bool :=
  (white_king_pawn_mask sq &&& b.black_pawns != 0) ||
  (knight_mask sq &&& b.black_knights != 0) ||
  (king_mask sq &&& (1 <<< b.black_king) != 0) ||
  (rook_attacks_hq sq b.pieces &&& (b.black_rooks ||| b.black_queens) != 0) ||
  (bishop_attacks_hq sq b.pieces &&& (b.black_bishops ||| b.black_queens) != 0)

/-- Modelled from the spec: `is_square_attacked(square, position, flag)` from
the missing utility module.  The call sites (castle generation passes `false`
while asking whether the opponent attacks a transit square) fix the flag to
mean "attacked by the side to move"; with `false` the attacker is the side
that is not to move. -/
def is_square_attacked (sq : Nat) (b : Board) (by_side_to_move : Bool) : Bool :=
  let attacker_is_white := b.white_to_play == by_side_to_move
  if attacker_is_white then attacked_by_white b sq else attacked_by_black b sq

/-- Modelled from the spec: `is_king_attacked(position, for_side_that_just_moved)`
is the square probe applied to the king square of the selected side (spec
section 6; the generators call it with `true` right after `make_move` to test
the mover, `ai.rs` and `play.rs` call it with `false` to test the side to
move for checkmate). -/
def is_king_attacked (b : Board) (for_side_that_just_moved : Bool) : Bool :=
  let check_white := b.white_to_play != for_side_that_just_moved
  let kingSq := if check_white then b.white_king else b.black_king
  is_square_attacked kingSq b for_side_that_just_moved

/-! ## Move generators (`src/piece/*.rs`)

The Rust generators receive `&mut Board` and run each candidate through a
make-probe-unmake cycle on that same board; the embedding threads the board
value through the loops and returns it next to the move list.  The `while`
loops over the set bits of a bitboard are modelled with an explicit fuel of
64, enough for any 64-bit word. -/

/-- One pass of the inner target loop shared verbatim by
`generate_rook_moves_hq`, `generate_bishop_moves_hq`, `generate_queen_moves_hq`,
`generate_knight_moves` and the square-move part of `generate_king_moves`:
pop the lowest target bit, build the move (with the capture field and the
rights/en-passant snapshot read from the current board), apply it, keep it if
the mover king is not attacked, revert it. -/
def pieceTargetLoop (fuel : Nat) (bCur : Board) (enemy : Bitboard) (fromSq : Nat)
    (t : Bitboard) (acc : List Move) : List Move × Board :=
  match fuel with
  | 0 => (acc, bCur)
  | Nat.succ fuel =>
    if t ≠ 0 then
      let toSq := trailing_zeros t
      let to_mask : Nat := 1 <<< toSq
      let mv : Move :=
        { start := fromSq
          endSq := toSq
          context := MoveContext.none
          previous_ep_target := bCur.en_passant_target
          previous_wqs := bCur.white_queen_side_castling_right
          previous_wks := bCur.white_king_side_castling_right
          previous_bqs := bCur.black_queen_side_castling_right
          previous_bks := bCur.black_king_side_castling_right
          capture :=
            if enemy &&& to_mask ≠ 0 then some (get_piece_type_on_square bCur toSq)
            else Option.none }
      let b1 := makeMove bCur mv
      let keep := !(is_king_attacked b1 true)
      let b2 := unmakeMove b1 mv
      pieceTargetLoop fuel b2 enemy fromSq (t &&& (t - 1)) (if keep then acc ++ [mv] else acc)
    else (acc, bCur)

/-- The outer loop over the set bits of the mover bitboard, shared by the
rook/bishop/queen/knight generators; `attackOf` is the pseudo-legal target
computation of the concrete generator (it captures the occupancy and friendly
masks read once before the loop, as the Rust code does). -/
def pieceBitsLoop (fuel : Nat) (attackOf : Nat → Bitboard) (friendly enemy : Bitboard)
    (bits : Bitboard) (bCur : Board) (acc : List Move) : List Move × Board :=
  match fuel with
  | 0 => (acc, bCur)
  | Nat.succ fuel =>
    if bits ≠ 0 then
      let fromSq := trailing_zeros bits
      let bits1 := bits &&& (bits - 1)
      let targets := attackOf fromSq &&& not64 friendly
      let res := pieceTargetLoop 64 bCur enemy fromSq targets acc
      pieceBitsLoop fuel attackOf friendly enemy bits1 res.2 res.1
    else (acc, bCur)

/-- Rook move generation, `generate_rook_moves_hq` from `src/piece/rook.rs`. -/
def generate_rook_moves_hq (b : Board) : List Move × Board :=
  let occ := b.pieces
  let enemy := if b.white_to_play then b.black_pieces else b.white_pieces
  let friendly := if b.white_to_play then b.white_pieces else b.black_pieces
  let rooks := if b.white_to_play then b.white_rooks else b.black_rooks
  pieceBitsLoop 64 (fun fromSq => rook_attacks_hq fromSq occ) friendly enemy rooks b []

/-- Bishop move generation, `generate_bishop_moves_hq` from `src/piece/bishop.rs`. -/
def generate_bishop_moves_hq (b : Board) : List Move × Board :=
  let occ := b.pieces
  let enemy := if b.white_to_play then b.black_pieces else b.white_pieces
  let friendly := if b.white_to_play then b.white_pieces else b.black_pieces
  let bishops := if b.white_to_play then b.white_bishops else b.black_bishops
  pieceBitsLoop 64 (fun fromSq => bishop_attacks_hq fromSq occ) friendly enemy bishops b []

/-- Queen move generation, `generate_queen_moves_hq` from `src/piece/queen.rs`. -/
def generate_queen_moves_hq (b : Board) : List Move × Board :=
  let occ := b.pieces
  let enemy := if b.white_to_play then b.black_pieces else b.white_pieces
  let friendly := if b.white_to_play then b.white_pieces else b.black_pieces
  let queens := if b.white_to_play then b.white_queens else b.black_queens
  pieceBitsLoop 64 (fun fromSq => queen_attacks_hq fromSq occ) friendly enemy queens b []

/-- Knight move generation, `generate_knight_moves` from `src/piece/knight.rs`. -/
def generate_knight_moves (b : Board) : List Move × Board :=
  let enemy := if b.white_to_play then b.black_pieces else b.white_pieces
  let friendly := if b.white_to_play then b.white_pieces else b.black_pieces
  let knights := if b.white_to_play then b.white_knights else b.black_knights
  pieceBitsLoop 64 (fun fromSq => knight_mask fromSq) friendly enemy knights b []

/-- Builds the castle move record pushed by `generate_king_moves`
(`src/piece/king.rs`, lines 104-114 and symmetric blocks). -/
def castleMove (b : Board) (fromSq endSq : Nat) (ctx : MoveContext) : Move :=
  { start := fromSq
    endSq := endSq
    context := ctx
    previous_ep_target := b.en_passant_target
    previous_wqs := b.white_queen_side_castling_right
    previous_wks := b.white_king_side_castling_right
    previous_bqs := b.black_queen_side_castling_right
    previous_bks := b.black_king_side_castling_right
    capture := Option.none }

/-- King move generation, `generate_king_moves` from `src/piece/king.rs`:
the probed square moves followed by the guarded castle pushes. -/
def generate_king_moves (b : Board) : List Move × Board :=
  let enemy := if b.white_to_play then b.black_pieces else b.white_pieces
  let friendly := if b.white_to_play then b.white_pieces else b.black_pieces
  let fromSq := if b.white_to_play then b.white_king else b.black_king
  let pl_moves_bb := king_mask fromSq
  let moves_bb := pl_moves_bb &&& not64 friendly
  let res := pieceTargetLoop 64 b enemy fromSq moves_bb []
  let b1 := res.2
  if b1.white_to_play then
    let acc :=
      if b1.white_queen_side_castling_right ∧ b1.pieces &&& 0x0e = 0 ∧
          is_square_attacked 2 b1 false = false ∧ is_square_attacked 3 b1 false = false ∧
          is_square_attacked 4 b1 false = false then
        res.1 ++ [castleMove b1 fromSq (fromSq - 2) MoveContext.queenSideCastle]
      else res.1
    let acc :=
      if b1.white_king_side_castling_right ∧ b1.pieces &&& 0x60 = 0 ∧
          is_square_attacked 4 b1 false = false ∧ is_square_attacked 5 b1 false = false ∧
          is_square_attacked 6 b1 false = false then
        acc ++ [castleMove b1 fromSq (fromSq + 2) MoveContext.kingSideCastle]
      else acc
    (acc, b1)
  else
    let acc :=
      if b1.black_queen_side_castling_right ∧ b1.pieces &&& (0x0e <<< 56) = 0 ∧
          is_square_attacked 58 b1 false = false ∧ is_square_attacked 59 b1 false = false ∧
          is_square_attacked 60 b1 false = false then
        res.1 ++ [castleMove b1 fromSq (fromSq - 2) MoveContext.queenSideCastle]
      else res.1
    let acc :=
      if b1.black_king_side_castling_right ∧ b1.pieces &&& (0x60 <<< 56) = 0 ∧
          is_square_attacked 60 b1 false = false ∧ is_square_attacked 61 b1 false = false ∧
          is_square_attacked 62 b1 false = false then
        acc ++ [castleMove b1 fromSq (fromSq + 2) MoveContext.kingSideCastle]
      else acc
    (acc, b1)

/-! ## Pawn move generation (`src/piece/pawn.rs`) -/

/-- File and rank constants of `generate_pawn_moves`. -/
def FILE_A : Bitboard := 0x0101010101010101
def FILE_H : Bitboard := 0x8080808080808080
def RANK_2 : Bitboard := 0x000000000000FF00
def RANK_7 : Bitboard := 0x00FF000000000000
def RANK_5 : Bitboard := 0x000000FF00000000
def RANK_4 : Bitboard := 0x00000000FF000000

/-- Inner loop of the pawn helper `bitboard_to_moves` from `src/piece/pawn.rs`
(lines 195-247).  The source builds each `Move` literal with only the fields
`start`, `end`, `context` and `previous_ep_target`; against the final `Move`
record the remaining fields are completed here with the current castling
rights of the board (the snapshot semantics of spec section 3) and with an
empty `capture` field — the capture information computed by this helper is
stored in the `context` field, exactly as the source writes it.  The probe
tests `is_king_attacked(&temp, false)` on a temporary copy, as the source
does. -/
def bitboard_to_moves_loop (fuel : Nat) (b : Board) (enemy : Bitboard) (shift : Int)
    (ep : Bool) (bits : Bitboard) (out : List Move) : List Move :=
  match fuel with
  | 0 => out
  | Nat.succ fuel =>
    if bits ≠ 0 then
      let toSq := trailing_zeros bits
      let to_mask : Nat := 1 <<< toSq
      let ctx :=
        if enemy &&& to_mask ≠ 0 then MoveContext.capture (get_piece_type_on_square b toSq)
        else MoveContext.none
      let fromSq := (Int.ofNat toSq - shift).toNat
      let mv : Move :=
        { start := fromSq
          endSq := toSq
          context :=
            if ep then MoveContext.enPassant
            else if shift = -16 ∨ shift = 16 then MoveContext.doubleStep
            else ctx
          previous_ep_target := b.en_passant_target
          previous_wqs := b.white_queen_side_castling_right
          previous_wks := b.white_king_side_castling_right
          previous_bqs := b.black_queen_side_castling_right
          previous_bks := b.black_king_side_castling_right
          capture := Option.none }
      let temp := makeMove b mv
      let out1 := if !(is_king_attacked temp false) then out ++ [mv] else out
      bitboard_to_moves_loop fuel b enemy shift ep (bits &&& (bits - 1)) out1
    else out

/-- The pawn helper `bitboard_to_moves` from `src/piece/pawn.rs`. -/
def bitboard_to_moves (b : Board) (to_bb : Bitboard) (shift : Int) (out : List Move)
    (ep : Bool) : List Move :=
  let enemy := if b.white_to_play then b.black_pieces else b.white_pieces
  bitboard_to_moves_loop 64 b enemy shift ep to_bb out

/-- Pawn move generation, `generate_pawn_moves` from `src/piece/pawn.rs`.
The board is only read (the probes use a copy), so no board is threaded. -/
def generate_pawn_moves (b : Board) : List Move :=
  let empty := not64 b.pieces
  if b.white_to_play then
    let wp := b.white_pawns
    let singles := (wp <<< 8) &&& empty
    let moves := bitboard_to_moves b singles 8 [] false
    let doubles := ((wp &&& RANK_2) <<< 16) &&& empty &&& (empty <<< 8)
    let moves := bitboard_to_moves b doubles 16 moves false
    let cap_nw := ((wp &&& not64 FILE_A) <<< 7) &&& b.black_pieces
    let cap_ne := ((wp &&& not64 FILE_H) <<< 9) &&& b.black_pieces
    let moves := bitboard_to_moves b cap_nw 7 moves false
    let moves := bitboard_to_moves b cap_ne 9 moves false
    match b.en_passant_target with
    | some ep_sq =>
      if ep_sq > 39 then
        let ep_bb : Nat := 1 <<< ep_sq
        let ep_from_right := ((wp &&& RANK_5 &&& not64 FILE_A) <<< 7) &&& ep_bb
        let moves := bitboard_to_moves b ep_from_right 7 moves true
        let ep_from_left := ((wp &&& RANK_5 &&& not64 FILE_H) <<< 9) &&& ep_bb
        bitboard_to_moves b ep_from_left 9 moves true
      else moves
    | Option.none => moves
  else
    let bp := b.black_pawns
    let singles := (bp >>> 8) &&& empty
    let moves := bitboard_to_moves b singles (-8) [] false
    let doubles := ((bp &&& RANK_7) >>> 16) &&& empty &&& (empty >>> 8)
    let moves := bitboard_to_moves b doubles (-16) moves false
    let cap_sw := ((bp &&& not64 FILE_A) >>> 9) &&& b.white_pieces
    let cap_se := ((bp &&& not64 FILE_H) >>> 7) &&& b.white_pieces
    let moves := bitboard_to_moves b cap_sw (-9) moves false
    let moves := bitboard_to_moves b cap_se (-7) moves false
    match b.en_passant_target with
    | some ep_sq =>
      if ep_sq < 24 then
        let ep_bb : Nat := 1 <<< ep_sq
        let ep_from_right := ((bp &&& RANK_4 &&& not64 FILE_A) >>> 7) &&& ep_bb
        let moves := bitboard_to_moves b ep_from_right (-7) moves true
        let ep_from_left := ((bp &&& RANK_4 &&& not64 FILE_H) >>> 9) &&& ep_bb
        bitboard_to_moves b ep_from_left (-9) moves true
      else moves
    | Option.none => moves

/-- Modelled from the spec: the final `get_legal_moves` aggregator lives in
the missing utility module (the copy in `src/moves.rs` is a historical
snapshot over the old board type).  Spec section 4.2 fixes the order: pawns,
then sliders, then knights, then king.  The same mutable board is passed to
every generator, so the board value is threaded through them. -/
def get_legal_moves (b : Board) : List Move :=
  let pawn := generate_pawn_moves b
  let rook := generate_rook_moves_hq b
  let bishop := generate_bishop_moves_hq rook.2
  let queen := generate_queen_moves_hq bishop.2
  let knight := generate_knight_moves queen.2
  let king := generate_king_moves knight.2
  pawn ++ rook.1 ++ bishop.1 ++ queen.1 ++ knight.1 ++ king.1

/-! ## Evaluation and search (`src/ai.rs`) -/

/-- Number of set bits among the low 64 bits. -/
def popcount64 (x : Bitboard) : Nat := ((List.range 64).filter (fun i => x.testBit i)).length

/-- Modelled from the spec: `Board::evaluate` lives in the missing utility
module; spec section 4.5 fixes its contract to a deterministic, zero-sum,
bounded material count from the perspective of the side to move.  The piece
values are the conventional centipawn material weights. -/
def evaluate (b : Board) : Int :=
  let white : Int := 100 * popcount64 b.white_pawns + 500 * popcount64 b.white_rooks +
    300 * popcount64 b.white_knights + 300 * popcount64 b.white_bishops +
    900 * popcount64 b.white_queens
  let black : Int := 100 * popcount64 b.black_pawns + 500 * popcount64 b.black_rooks +
    300 * popcount64 b.black_knights + 300 * popcount64 b.black_bishops +
    900 * popcount64 b.black_queens
  if b.white_to_play then white - black else black - white

/-- The search sentinel `INF` from `src/ai.rs`. -/
def INF : Int := 1000000

/-- The body of `negamax` for positive depth: enumerate the legal moves,
recurse through `rec` on each child, keep the maximum negated score
(`src/ai.rs`, lines 13-34). -/
def negamaxStep (recur : Board → Int × Option Move) (b : Board) : Int × Option Move :=
  let moves := get_legal_moves b
  if moves = [] then (-INF, Option.none)
  else
    moves.foldl
      (fun acc mv =>
        let score := -(recur (makeMove b mv)).1
        if score > acc.1 then (score, some mv) else acc)
      (-INF, Option.none)

/-- The plain negamax search, `negamax` from `src/ai.rs`.  The Rust code
makes and unmakes each move on the shared board; by the time a score is
compared the board is back in its entry state, so the embedding passes the
child position `makeMove b mv` to the recursive call directly. -/
def negamax (b : Board) (d : Nat) : Int × Option Move :=
  match d with
  | 0 => (evaluate b, Option.none)
  | Nat.succ d => negamaxStep (fun bb => negamax bb d) b

/-- The scan of the alpha-beta move loop (`src/ai.rs`, lines 117-136): state
`(max, best, alpha)`, early return once a score reaches beta. -/
def abLoop (recur : Board → Int → Int → Int × Option Move) (b : Board) (beta : Int) :
    List Move → Int → Int × Option Move → Int × Option Move
  | [], _, acc => acc
  | mv :: rest, alpha, acc =>
    let score := -(recur (makeMove b mv) (-beta) (-alpha)).1
    let acc1 := if score > acc.1 then (score, some mv) else acc
    let alpha1 := if score > acc.1 ∧ score > alpha then score else alpha
    if score ≥ beta then acc1
    else abLoop recur b beta rest alpha1 acc1

/-- Alpha-beta search, `alpha_beta` from `src/ai.rs`.  The Rust code shuffles
the move list with a thread rng before iterating; the embedding abstracts the
shuffle as a function `s` of the position and depth, quantified over in the
theorems (with the hypothesis that it permutes its input). -/
def alphaBeta (s : Board → Nat → List Move → List Move) (b : Board)
    (alpha beta : Int) (d : Nat) : Int × Option Move :=
  match d with
  | 0 => (evaluate b, Option.none)
  | Nat.succ d =>
    let moves := s b (Nat.succ d) (get_legal_moves b)
    if moves = [] then
      if is_king_attacked b false then (-INF, Option.none) else (0, Option.none)
    else
      abLoop (fun bb a2 b2 => alphaBeta s bb a2 b2 d) b beta moves alpha (-INF, Option.none)

/-- The search entry point `launch_alpha_beta` from `src/ai.rs`. -/
def launch_alpha_beta (s : Board → Nat → List Move → List Move) (b : Board) (d : Nat) :
    Int × Option Move :=
  alphaBeta s b (-INF) INF d

/-- The quiescence loop of `quiesce` (`src/ai.rs`, lines 152-173): candidates
whose capture field is not `None` are skipped with `continue`; the others are
recursed into.  The recursion of `quiesce` is not depth-bounded, so the
embedding carries a fuel for the recursion depth. -/
def quiesceLoop (recur : Board → Int → Int → Int) (b : Board) (beta : Int) :
    List Move → Int → Int → Int
  | [], _, best_value => best_value
  | mv :: rest, alpha, best_value =>
    if mv.capture ≠ Option.none then quiesceLoop recur b beta rest alpha best_value
    else
      let score := -(recur (makeMove b mv) (-beta) (-alpha))
      if score ≥ beta then score
      else
        let best1 := if score > best_value then score else best_value
        let alpha1 := if score > alpha then score else alpha
        quiesceLoop recur b beta rest alpha1 best1

/-- The quiescence search, `quiesce` from `src/ai.rs`, with an explicit fuel
for the (unbounded) recursion depth; exhausted fuel returns the stand-pat
value, which no theorem below depends on. -/
def quiesce (fuel : Nat) (b : Board) (alpha beta : Int) : Int :=
  match fuel with
  | 0 => evaluate b
  | Nat.succ fuel =>
    let best_value := evaluate b
    if best_value ≥ beta then best_value
    else
      let alpha1 := if best_value > alpha then best_value else alpha
      quiesceLoop (fun bb a2 b2 => quiesce fuel bb a2 b2) b beta (get_legal_moves b) alpha1
        best_value

/-- The quiescent alpha-beta driver, `alpha_beta_quiesce` from `src/ai.rs`:
at depth 0 it calls `quiesce`, at positive depth it runs the alpha-beta loop
whose recursive calls go to the plain `alpha_beta` (exactly as the source
does). -/
def alpha_beta_quiesce (s : Board → Nat → List Move → List Move) (fuel : Nat) (b : Board)
    (alpha beta : Int) (d : Nat) : Int × Option Move :=
  match d with
  | 0 => (quiesce fuel b alpha beta, Option.none)
  | Nat.succ d =>
    let moves := s b (Nat.succ d) (get_legal_moves b)
    if moves = [] then
      if is_king_attacked b false then (-INF, Option.none) else (0, Option.none)
    else
      abLoop (fun bb a2 b2 => alphaBeta s bb a2 b2 d) b beta moves alpha (-INF, Option.none)

/-- The search entry point `launch_alpha_beta_quiesce` from `src/ai.rs`. -/
def launch_alpha_beta_quiesce (s : Board → Nat → List Move → List Move) (fuel : Nat)
    (b : Board) (d : Nat) : Int × Option Move :=
  alpha_beta_quiesce s fuel b (-INF) INF d

/-! ## FEN parsing (`Board::from_fen` in `src/board.rs`)

The parser is embedded over `List Char`.  Its result type is
`Option (Except String Board)`: the `Except` layer is the `Result` of the
source, and the outer `Option` models the two places where the Rust code can
panic instead of returning an error (indexing `as_bytes()[1]` of a
one-character en-passant field; the byte subtractions are modelled with
release-profile wrapping arithmetic). -/

/-- Model of `str::split_whitespace`: maximal runs of non-whitespace. -/
def splitWsAux : List Char → List Char → List (List Char)
  | [], cur => if cur = [] then [] else [cur.reverse]
  | c :: rest, cur =>
    if c.isWhitespace then
      if cur = [] then splitWsAux rest [] else cur.reverse :: splitWsAux rest []
    else splitWsAux rest (c :: cur)

/-- Model of `str::split` on the slash character (keeps empty fields). -/
def splitSlashAux : List Char → List Char → List (List Char)
  | [], cur => [cur.reverse]
  | c :: rest, cur =>
    if c = '/' then cur.reverse :: splitSlashAux rest [] else splitSlashAux rest (c :: cur)

/-- The piece-placement accumulator of `from_fen`: ten bitboards and the two
optional king squares. -/
structure FenAcc where
  wp : Bitboard
  wr : Bitboard
  wn : Bitboard
  wb : Bitboard
  wq : Bitboard
  wk : Option Nat
  bp : Bitboard
  br : Bitboard
  bn : Bitboard
  bb : Bitboard
  bq : Bitboard
  bk : Option Nat
deriving DecidableEq, Repr

/-- The inner file loop of the placement parser (`src/board.rs`,
lines 652-712), for the rank with index `r_idx` (rank number `7 - r_idx`). -/
def parseRankChars (rank r_idx : Nat) : List Char → Nat → FenAcc → Except String FenAcc
  | [], file, acc =>
    if file ≠ 8 then
      Except.error ("Rank " ++ toString (8 - r_idx) ++ " has " ++ toString file ++
        " squares, but 8 were expected.")
    else Except.ok acc
  | c :: rest, file, acc =>
    if c.isDigit then parseRankChars rank r_idx rest (file + (c.toNat - 48)) acc
    else if file ≥ 8 then
      Except.error ("Rank " ++ toString (8 - r_idx) ++ " has too many squares.")
    else
      let sq := rank * 8 + file
      let file := file + 1
      if c = 'P' then parseRankChars rank r_idx rest file { acc with wp := acc.wp ||| (1 <<< sq) }
      else if c = 'p' then
        parseRankChars rank r_idx rest file { acc with bp := acc.bp ||| (1 <<< sq) }
      else if c = 'R' then
        parseRankChars rank r_idx rest file { acc with wr := acc.wr ||| (1 <<< sq) }
      else if c = 'r' then
        parseRankChars rank r_idx rest file { acc with br := acc.br ||| (1 <<< sq) }
      else if c = 'N' then
        parseRankChars rank r_idx rest file { acc with wn := acc.wn ||| (1 <<< sq) }
      else if c = 'n' then
        parseRankChars rank r_idx rest file { acc with bn := acc.bn ||| (1 <<< sq) }
      else if c = 'B' then
        parseRankChars rank r_idx rest file { acc with wb := acc.wb ||| (1 <<< sq) }
      else if c = 'b' then
        parseRankChars rank r_idx rest file { acc with bb := acc.bb ||| (1 <<< sq) }
      else if c = 'Q' then
        parseRankChars rank r_idx rest file { acc with wq := acc.wq ||| (1 <<< sq) }
      else if c = 'q' then
        parseRankChars rank r_idx rest file { acc with bq := acc.bq ||| (1 <<< sq) }
      else if c = 'K' then parseRankChars rank r_idx rest file { acc with wk := some sq }
      else if c = 'k' then parseRankChars rank r_idx rest file { acc with bk := some sq }
      else Except.error ("Invalid piece char " ++ toString c ++ ".")

/-- The outer rank loop of the placement parser. -/
def parseRanks : List (List Char) → Nat → FenAcc → Except String FenAcc
  | [], _, acc => Except.ok acc
  | rank_str :: rest, r_idx, acc =>
    match parseRankChars (7 - r_idx) r_idx rank_str 0 acc with
    | Except.error e => Except.error e
    | Except.ok acc1 => parseRanks rest (r_idx + 1) acc1

/-- The castling-rights loop of `from_fen` (`src/board.rs`, lines 719-737);
the result is `(wks, wqs, bks, bqs)`. -/
def parseCastling : List Char → (Bool × Bool × Bool × Bool) →
    Except String (Bool × Bool × Bool × Bool)
  | [], r => Except.ok r
  | c :: rest, (wks, wqs, bks, bqs) =>
    if c = 'K' then parseCastling rest (true, wqs, bks, bqs)
    else if c = 'Q' then parseCastling rest (wks, true, bks, bqs)
    else if c = 'k' then parseCastling rest (wks, wqs, true, bqs)
    else if c = 'q' then parseCastling rest (wks, wqs, bks, true)
    else Except.error ("Invalid castling char " ++ toString c ++ ".")

/-- The en-passant field parser of `from_fen` (`src/board.rs`, lines 739-756).
The source reads `as_bytes()[0]` and `as_bytes()[1]`: on a one-character
field the second index panics (modelled by the outer `Option.none`), and any
characters beyond the second are ignored.  The two byte subtractions wrap as
in a release build. -/
def parseEp : List Char → Option (Except String (Option Nat))
  | ['-'] => some (Except.ok Option.none)
  | c0 :: c1 :: _ =>
    let file := (c0.toNat % 256 + 256 - 97) % 256
    let rank := (c1.toNat % 256 + 256 - 49) % 256
    if file > 7 ∨ rank > 7 then some (Except.error "Invalid en passant square.")
    else some (Except.ok (some (rank * 8 + file)))
  | [_] => Option.none
  | [] => Option.none

/-- The FEN constructor, `Board::from_fen` from `src/board.rs`. -/
def fromFen (fen : String) : Option (Except String Board) :=
  let parts := splitWsAux fen.data []
  if parts.length = 4 then
    match parts with
    | [placement, active_color, castling, en_passant] =>
      let ranks := splitSlashAux placement []
      if ranks.length ≠ 8 then some (Except.error "Expected 8 ranks in placement.")
      else
        match parseRanks ranks 0 ⟨0, 0, 0, 0, 0, Option.none, 0, 0, 0, 0, 0, Option.none⟩ with
        | Except.error e => some (Except.error e)
        | Except.ok acc =>
          match acc.wk with
          | Option.none => some (Except.error "Missing white king.")
          | some white_king =>
            match acc.bk with
            | Option.none => some (Except.error "Missing black king.")
            | some black_king =>
              match (if castling = ['-'] then Except.ok (false, false, false, false)
                     else parseCastling castling (false, false, false, false)) with
              | Except.error e => some (Except.error e)
              | Except.ok (wks, wqs, bks, bqs) =>
                match parseEp en_passant with
                | Option.none => Option.none
                | some (Except.error e) => some (Except.error e)
                | some (Except.ok en_passant_target) =>
                  let white_to_play :=
                    if active_color = ['w'] then Except.ok true
                    else if active_color = ['b'] then Except.ok false
                    else Except.error "Invalid active color."
                  match white_to_play with
                  | Except.error e => some (Except.error e)
                  | Except.ok white_to_play =>
                    let white_pieces := acc.wp ||| acc.wr ||| acc.wn ||| acc.wb ||| acc.wq |||
                      (1 <<< white_king)
                    let black_pieces := acc.bp ||| acc.br ||| acc.bn ||| acc.bb ||| acc.bq |||
                      (1 <<< black_king)
                    some (Except.ok
                      { white_pawns := acc.wp
                        white_rooks := acc.wr
                        white_knights := acc.wn
                        white_bishops := acc.wb
                        white_queens := acc.wq
                        white_king := white_king
                        black_pawns := acc.bp
                        black_rooks := acc.br
                        black_knights := acc.bn
                        black_bishops := acc.bb
                        black_queens := acc.bq
                        black_king := black_king
                        white_pieces := white_pieces
                        black_pieces := black_pieces
                        pieces := white_pieces ||| black_pieces
                        en_passant_target := en_passant_target
                        white_queen_side_castling_right := wqs
                        white_king_side_castling_right := wks
                        black_queen_side_castling_right := bqs
                        black_king_side_castling_right := bks
                        white_to_play := white_to_play })
    | _ => Option.none
  else some (Except.error "FEN strings must have exactly 4 fields.")

/-! ## Concrete positions used by the analyses below

Each board literal is exactly the `from_fen` image of the FEN string named in
its doc comment; the claim theorems include that equation. -/

/-- The position `k7/7P/8/8/8/8/8/K7 w - -`: a white pawn on h7, one push
away from the back rank. -/
def boardPromo : Board :=
  { white_pawns := 36028797018963968
    white_rooks := 0
    white_knights := 0
    white_bishops := 0
    white_queens := 0
    white_king := 0
    black_pawns := 0
    black_rooks := 0
    black_knights := 0
    black_bishops := 0
    black_queens := 0
    black_king := 56
    white_pieces := 36028797018963969
    black_pieces := 72057594037927936
    pieces := 108086391056891905
    en_passant_target := Option.none
    white_queen_side_castling_right := false
    white_king_side_castling_right := false
    black_queen_side_castling_right := false
    black_king_side_castling_right := false
    white_to_play := true }

/-- The plain pawn push h7-h8 generated in `boardPromo`. -/
def mvPromoPush : Move :=
  { start := 55
    endSq := 63
    context := MoveContext.none
    capture := Option.none
    previous_ep_target := Option.none
    previous_wqs := false
    previous_wks := false
    previous_bqs := false
    previous_bks := false }

/-- The position `k3r3/8/8/8/8/3p4/4P3/4K3 w - -`: the white pawn e2 is
pinned against the king e1 by the rook e8, the black pawn d3 offers a
capture. -/
def boardPinnedPawn : Board :=
  { white_pawns := 4096
    white_rooks := 0
    white_knights := 0
    white_bishops := 0
    white_queens := 0
    white_king := 4
    black_pawns := 524288
    black_rooks := 1152921504606846976
    black_knights := 0
    black_bishops := 0
    black_queens := 0
    black_king := 56
    white_pieces := 4112
    black_pieces := 1224979098645299200
    pieces := 1224979098645303312
    en_passant_target := Option.none
    white_queen_side_castling_right := false
    white_king_side_castling_right := false
    black_queen_side_castling_right := false
    black_king_side_castling_right := false
    white_to_play := true }

/-- The pawn capture e2xd3 in `boardPinnedPawn`, as the pawn generator
builds it. -/
def mvPinnedPawnCapture : Move :=
  { start := 12
    endSq := 19
    context := MoveContext.capture PAWN
    capture := Option.none
    previous_ep_target := Option.none
    previous_wqs := false
    previous_wks := false
    previous_bqs := false
    previous_bks := false }

/-- The position `7k/5K2/6Q1/8/8/8/8/8 b - -`: black to move is stalemated
(no legal move, king not attacked). -/
def boardStalemate : Board :=
  { white_pawns := 0
    white_rooks := 0
    white_knights := 0
    white_bishops := 0
    white_queens := 70368744177664
    white_king := 53
    black_pawns := 0
    black_rooks := 0
    black_knights := 0
    black_bishops := 0
    black_queens := 0
    black_king := 63
    white_pieces := 9077567998918656
    black_pieces := 9223372036854775808
    pieces := 9232449604853694464
    en_passant_target := Option.none
    white_queen_side_castling_right := false
    white_king_side_castling_right := false
    black_queen_side_castling_right := false
    black_king_side_castling_right := false
    white_to_play := false }

/-- The position `k7/8/8/8/8/8/8/4K3 w Q -`: the white queen-side castling
right is recorded although no rook stands on a1. -/
def boardRogueQCastle : Board :=
  { white_pawns := 0
    white_rooks := 0
    white_knights := 0
    white_bishops := 0
    white_queens := 0
    white_king := 4
    black_pawns := 0
    black_rooks := 0
    black_knights := 0
    black_bishops := 0
    black_queens := 0
    black_king := 56
    white_pieces := 16
    black_pieces := 72057594037927936
    pieces := 72057594037927952
    en_passant_target := Option.none
    white_queen_side_castling_right := true
    white_king_side_castling_right := false
    black_queen_side_castling_right := false
    black_king_side_castling_right := false
    white_to_play := true }

/-- The queen-side castle generated in `boardRogueQCastle`. -/
def mvRogueQCastle : Move :=
  { start := 4
    endSq := 2
    context := MoveContext.queenSideCastle
    capture := Option.none
    previous_ep_target := Option.none
    previous_wqs := true
    previous_wks := false
    previous_bqs := false
    previous_bks := false }

/-- The position `k7/8/8/1N6/7K/8/8/8 w K -`: the white king-side castling
right is recorded although the king stands on h4 and no rook is on h1; a
white knight occupies b5, the square two to the right of nothing relevant
but exactly the castle destination square h4 + 2 = 33. -/
def boardRogueKCastle : Board :=
  { white_pawns := 0
    white_rooks := 0
    white_knights := 8589934592
    white_bishops := 0
    white_queens := 0
    white_king := 31
    black_pawns := 0
    black_rooks := 0
    black_knights := 0
    black_bishops := 0
    black_queens := 0
    black_king := 56
    white_pieces := 10737418240
    black_pieces := 72057594037927936
    pieces := 72057604775346176
    en_passant_target := Option.none
    white_queen_side_castling_right := false
    white_king_side_castling_right := true
    black_queen_side_castling_right := false
    black_king_side_castling_right := false
    white_to_play := true }

/-- The king-side castle generated in `boardRogueKCastle`. -/
def mvRogueKCastle : Move :=
  { start := 31
    endSq := 33
    context := MoveContext.kingSideCastle
    capture := Option.none
    previous_ep_target := Option.none
    previous_wqs := false
    previous_wks := true
    previous_bqs := false
    previous_bks := false }

/-- The position `7k/8/8/8/8/8/1r6/K7 w - -`: the only legal move for white
is the capture Kxb2. -/
def boardCaptureOnly : Board :=
  { white_pawns := 0
    white_rooks := 0
    white_knights := 0
    white_bishops := 0
    white_queens := 0
    white_king := 0
    black_pawns := 0
    black_rooks := 512
    black_knights := 0
    black_bishops := 0
    black_queens := 0
    black_king := 63
    white_pieces := 1
    black_pieces := 9223372036854776320
    pieces := 9223372036854776321
    en_passant_target := Option.none
    white_queen_side_castling_right := false
    white_king_side_castling_right := false
    black_queen_side_castling_right := false
    black_king_side_castling_right := false
    white_to_play := true }

/-- The two-kings board produced by `from_fen` for the en-passant field
`e3x` (the trailing junk character is silently ignored). -/
def boardKingsEp : Board :=
  { white_pawns := 0
    white_rooks := 0
    white_knights := 0
    white_bishops := 0
    white_queens := 0
    white_king := 0
    black_pawns := 0
    black_rooks := 0
    black_knights := 0
    black_bishops := 0
    black_queens := 0
    black_king := 56
    white_pieces := 1
    black_pieces := 72057594037927936
    pieces := 72057594037927937
    en_passant_target := some 20
    white_queen_side_castling_right := false
    white_king_side_castling_right := false
    black_queen_side_castling_right := false
    black_king_side_castling_right := false
    white_to_play := true }

/-- The identity shuffle, one admissible outcome of the random shuffle of
the alpha-beta move loop. -/
def idShuffle : Board → Nat → List Move → List Move := fun _ _ l => l

/-- Recognises a promotion move-kind tag. -/
def isPromotionCtx : MoveContext → Bool
  | MoveContext.promotion _ => true
  | _ => false

/-- The set of squares one king step away from `sq` (horizontally,
vertically or diagonally adjacent, staying on the board), as the claim about
the king table words it. -/
def kingAdjacentMask (sq : Nat) : Bitboard :=
  ((List.range 64).filter (fun i =>
      i ≠ sq ∧ (Int.ofNat (i % 8) - Int.ofNat (sq % 8)).natAbs ≤ 1 ∧
        (Int.ofNat (i / 8) - Int.ofNat (sq / 8)).natAbs ≤ 1)).foldl
    (fun m i => m ||| (1 <<< i)) 0

/-- White aggregate consistency: the white occupancy mask equals the union of
the five white per-type masks plus the white king bit. -/
def whiteAggOk (b : Board) : Prop :=
  b.white_pieces = b.white_pawns ||| b.white_rooks ||| b.white_knights ||| b.white_bishops |||
    b.white_queens ||| (1 <<< b.white_king)

/-- Black aggregate consistency. -/
def blackAggOk (b : Board) : Prop :=
  b.black_pieces = b.black_pawns ||| b.black_rooks ||| b.black_knights ||| b.black_bishops |||
    b.black_queens ||| (1 <<< b.black_king)

/-- Global aggregate consistency. -/
def globalAggOk (b : Board) : Prop := b.pieces = b.white_pieces ||| b.black_pieces

/-- The three derived-mask invariants together (spec section 3). -/
def aggInv (b : Board) : Prop := whiteAggOk b ∧ blackAggOk b ∧ globalAggOk b

instance (b : Board) : Decidable (whiteAggOk b) := by unfold whiteAggOk; infer_instance

instance (b : Board) : Decidable (blackAggOk b) := by unfold blackAggOk; infer_instance

instance (b : Board) : Decidable (globalAggOk b) := by unfold globalAggOk; infer_instance

instance (b : Board) : Decidable (aggInv b) := by unfold aggInv; infer_instance

/-- The capture Kxb2, the only legal move in `boardCaptureOnly`. -/
def mvCaptureOnly : Move :=
  { start := 0
    endSq := 9
    context := MoveContext.none
    capture := some ROOK
    previous_ep_target := Option.none
    previous_wqs := false
    previous_wks := false
    previous_bqs := false
    previous_bks := false }

/-! ## Claim analyses -/

/-- C3: the claim states that `quiesce` recurses only into moves with a
non-empty capture field and skips capture-less candidates, and that it is
invoked at the depth-0 leaves of `alpha_beta_quiesce`.  The code does the
opposite on both counts: its loop guard, which continues past any move whose capture
field is not None, skips exactly the capture moves, and `alpha_beta_quiesce` recurses into the
plain `alpha_beta`, so `quiesce` runs only when the root depth itself is 0.
In `boardCaptureOnly` the single legal move is the winning capture Kxb2, yet
`quiesce` returns the stand-pat material score -500 at every recursion
budget, never exploring it; and the value of `alpha_beta_quiesce` at any
positive depth is independent of the quiescence budget, i.e. `quiesce` is
never reached below a positive-depth root. -/
theorem quiesce_filter_inverted :
    (fromFen "7k/8/8/8/8/8/1r6/K7 w - -" = some (Except.ok boardCaptureOnly)) ∧
    (get_legal_moves boardCaptureOnly = [mvCaptureOnly]) ∧
    (evaluate boardCaptureOnly = -500) ∧
    (∀ fuel : Nat, quiesce (fuel + 1) boardCaptureOnly (-INF) INF = -500) ∧
    (∀ (s : Board → Nat → List Move → List Move) (f1 f2 : Nat) (b : Board)
      (alpha beta : Int) (d : Nat),
      alpha_beta_quiesce s f1 b alpha beta (d + 1) = alpha_beta_quiesce s f2 b alpha beta (d + 1)) := by
  refine ⟨by rfl, by decide, by decide, ?_, fun _ _ _ _ _ _ _ => rfl⟩
  intro fuel
  have h : get_legal_moves boardCaptureOnly = [mvCaptureOnly] := by decide
  have he : evaluate boardCaptureOnly = -500 := by decide
  have step : quiesce (fuel + 1) boardCaptureOnly (-INF) INF =
      quiesceLoop (fun bb a2 b2 => quiesce fuel bb a2 b2) boardCaptureOnly INF
        (get_legal_moves boardCaptureOnly) (-500) (-500) := by
    simp only [quiesce, he, INF]
    norm_num
  rw [step, h]
  simp only [quiesceLoop]
  norm_num [mvCaptureOnly]
  intro hco
  exact absurd hco (Option.some_ne_none _)

/-- C4: the claim states that a pawn push or capture to the farthest rank is
generated as the four promotion variants in place of the single plain move.
In `boardPromo` the pawn on h7 has the push h7-h8 to rank 8, and the
generated list contains exactly the single plain move (context `None`) and
no move with a `Promotion` context at all: `generate_pawn_moves` has no
promotion logic, although `make_move`/`unmake_move` fully implement the
application of `Promotion` moves. -/
theorem promotion_variants_not_generated :
    (fromFen "k7/7P/8/8/8/8/8/K7 w - -" = some (Except.ok boardPromo)) ∧
    mvPromoPush ∈ get_legal_moves boardPromo ∧
    mvPromoPush.endSq / 8 = 7 ∧ mvPromoPush.context = MoveContext.none ∧
    (get_legal_moves boardPromo).filter (fun m => isPromotionCtx m.context) = [] :=
  ⟨by rfl, by decide, by decide, by decide, by decide⟩

/-- C5: the claim states that `king_mask sq` is exactly the set of squares
one king step away from `sq`.  The builder tests `file > 1` for the west
step and `rank > 1` for the south step (instead of `> 0`), so on b2
(square 9) the table holds only c2, b3, c3 (the word 394240) while the true
adjacency set is a1, b1, c1, a2, c2, a3, b3, c3 (the word 460039): the five squares on the
a-file and rank 1 are missing. -/
theorem king_mask_misses_adjacent_squares :
    king_mask 9 = 394240 ∧ kingAdjacentMask 9 = 460039 ∧
    king_mask 9 ≠ kingAdjacentMask 9 ∧ Nat.testBit (king_mask 9) 8 = false := by
  decide

/-- C6: the claim states that no generated move leaves the mover king
attacked.  In `boardPinnedPawn` the pawn e2 is pinned by the rook e8, yet
the capture e2xd3 is in the generated list: the pawn legality probe calls
`is_king_attacked(&temp, false)`, which tests the king of the side to move
after the move — the opponent — instead of the mover (every other generator
passes `true` there).  After applying the move, the mover king is attacked. -/
theorem pawn_probe_keeps_self_check :
    (fromFen "k3r3/8/8/8/8/3p4/4P3/4K3 w - -" = some (Except.ok boardPinnedPawn)) ∧
    mvPinnedPawnCapture ∈ get_legal_moves boardPinnedPawn ∧
    is_king_attacked (makeMove boardPinnedPawn mvPinnedPawnCapture) true = true :=
  ⟨by rfl, by decide, by decide⟩

/-- C10: the claim states that `from_fen` returns a descriptive error and
never crashes on malformed castling or en-passant fields.  A one-character
en-passant field reaches `as_bytes()[1]` and panics with an index
out-of-bounds (modelled by `Option.none`), and a field with trailing junk
after a valid square name is silently accepted instead of rejected. -/
theorem from_fen_ep_field_panics :
    fromFen "k7/8/8/8/8/8/8/K7 w - e" = Option.none ∧
    fromFen "k7/8/8/8/8/8/8/K7 w - e3x" = some (Except.ok boardKingsEp) ∧
    boardKingsEp.en_passant_target = some 20 :=
  ⟨by rfl, by rfl, by rfl⟩

/-- C1, counterexample: in `boardRogueQCastle` (a position produced by
`from_fen`, with the white queen-side right recorded but no rook on a1) the
generated queen-side castle is not reversible: `unmake_move` after
`make_move` materialises a white rook on a1 that was never there. -/
theorem castle_make_unmake_not_inverse :
    (fromFen "k7/8/8/8/8/8/8/4K3 w Q -" = some (Except.ok boardRogueQCastle)) ∧
    mvRogueQCastle ∈ get_legal_moves boardRogueQCastle ∧
    unmakeMove (makeMove boardRogueQCastle mvRogueQCastle) mvRogueQCastle ≠ boardRogueQCastle ∧
    (unmakeMove (makeMove boardRogueQCastle mvRogueQCastle) mvRogueQCastle).white_rooks = 1 ∧
    boardRogueQCastle.white_rooks = 0 :=
  ⟨by rfl, by decide, by decide, by decide, by rfl⟩

/-- C2, counterexample: in the stalemate position `boardStalemate` (black to
move, no legal moves, king not attacked) `alpha_beta` with the full window
returns 0 while `negamax` returns the lost sentinel -1000000 at the same
depth, because the two functions score a move-less position differently.
The identity shuffle used here is one admissible outcome of the random
shuffle. -/
theorem alpha_beta_negamax_disagree_on_stalemate :
    (fromFen "7k/5K2/6Q1/8/8/8/8/8 b - -" = some (Except.ok boardStalemate)) ∧
    get_legal_moves boardStalemate = [] ∧
    is_king_attacked boardStalemate false = false ∧
    (launch_alpha_beta idShuffle boardStalemate 1).1 = 0 ∧
    (negamax boardStalemate 1).1 = -1000000 :=
  ⟨by rfl, by decide, by decide, by decide, by decide⟩

/-- C8, counterexample: in `boardRogueKCastle` (produced by `from_fen`, with
the white king-side right recorded although the king is on h4 and no rook is
on h1) the generated "castle" relocates the king onto the friendly knight on
b5; after `unmake_move` the white aggregate mask no longer equals the union
of the white per-type masks and king bit. -/
theorem aggregate_mask_broken_after_unmake :
    (fromFen "k7/8/8/1N6/7K/8/8/8 w K -" = some (Except.ok boardRogueKCastle)) ∧
    mvRogueKCastle ∈ get_legal_moves boardRogueKCastle ∧
    aggInv boardRogueKCastle ∧
    ¬ whiteAggOk (unmakeMove (makeMove boardRogueKCastle mvRogueKCastle) mvRogueKCastle) :=
  ⟨by rfl, by decide, by decide, by decide⟩

end Barnarok

namespace Barnarok

theorem rev_lt (n x : Nat) : rev n x < 2 ^ n := by
  induction n generalizing x with
  | zero => simp [rev]
  | succ n ih =>
    have h1 : x &&& 1 ≤ 1 := Nat.and_le_right
    have h2 : rev n (x >>> 1) < 2 ^ n := ih _
    calc rev (n + 1) x = (x &&& 1) * 2 ^ n + rev n (x >>> 1) := rfl
      _ < (x &&& 1) * 2 ^ n + 2 ^ n := by omega
      _ ≤ 1 * 2 ^ n + 2 ^ n := by
          have := Nat.mul_le_mul_right (2 ^ n) h1
          omega
      _ ≤ 2 ^ (n + 1) := by rw [Nat.pow_succ]; omega

theorem testBit_rev (n x i : Nat) (h : i < n) :
    Nat.testBit (rev n x) i = Nat.testBit x (n - 1 - i) := by
  induction n generalizing x i with
  | zero => omega
  | succ n ih =>
    have hb : rev n (x >>> 1) < 2 ^ n := rev_lt n _
    have hrevEq : rev (n + 1) x = 2 ^ n * (x &&& 1) + rev n (x >>> 1) := by
      show (x &&& 1) * 2 ^ n + rev n (x >>> 1) = 2 ^ n * (x &&& 1) + rev n (x >>> 1)
      rw [Nat.mul_comm]
    have key : Nat.testBit (rev (n + 1) x) i =
        if i < n then Nat.testBit (rev n (x >>> 1)) i else Nat.testBit (x &&& 1) (i - n) := by
      rw [hrevEq]
      exact Nat.testBit_mul_pow_two_add (x &&& 1) hb i
    rcases Nat.lt_or_ge i n with hin | hin
    · rw [key, if_pos hin, ih _ _ hin]
      rw [Nat.testBit_shiftRight]
      congr 1
      omega
    · have hieq : i = n := by omega
      rw [key, if_neg (by omega)]
      rw [hieq]
      simp only [Nat.sub_self, Nat.add_sub_cancel]
      rw [Nat.testBit_zero, Nat.testBit_zero]
      rcases Nat.even_or_odd x with he | ho
      · simp [Nat.and_one_is_mod, Nat.even_iff.mp he]
      · simp [Nat.and_one_is_mod, Nat.odd_iff.mp ho]

theorem testBit_rev_ge (n x i : Nat) (h : n ≤ i) : Nat.testBit (rev n x) i = false :=
  Nat.testBit_lt_two_pow (Nat.lt_of_lt_of_le (rev_lt n x) (Nat.pow_le_pow_right (by omega) h))

theorem rev_rev (n x : Nat) (hx : x < 2 ^ n) : rev n (rev n x) = x := by
  apply Nat.eq_of_testBit_eq
  intro i
  rcases Nat.lt_or_ge i n with h | h
  · rw [testBit_rev n _ i h, testBit_rev n x (n - 1 - i) (by omega)]
    congr 1
    omega
  · rw [testBit_rev_ge n _ i h, Nat.testBit_lt_two_pow
      (Nat.lt_of_lt_of_le hx (Nat.pow_le_pow_right (by omega) h))]

end Barnarok

namespace Barnarok

theorem mod_two_pow_succ_of_testBit (x sq : Nat) (hbit : Nat.testBit x sq = true) :
    x % 2 ^ (sq + 1) = 2 ^ sq + x % 2 ^ sq := by
  have hq : x % 2 ^ (sq + 1) / 2 ^ sq = x / 2 ^ sq % 2 := by
    have h1 : (2 : Nat) ^ (sq + 1) = 2 ^ sq * 2 := by rw [Nat.pow_succ]
    rw [h1, Nat.mod_mul_right_div_self]
  have hr : x % 2 ^ (sq + 1) % 2 ^ sq = x % 2 ^ sq :=
    Nat.mod_mod_of_dvd x (Nat.pow_dvd_pow 2 (Nat.le_succ sq))
  have hb : x / 2 ^ sq % 2 = 1 := by
    have := Nat.testBit_to_div_mod (x := x) (i := sq)
    rw [hbit] at this
    exact of_decide_eq_true this.symm
  have := Nat.div_add_mod (x % 2 ^ (sq + 1)) (2 ^ sq)
  rw [hq, hb, hr] at this
  omega

theorem decomp_at_bit (x t : Nat) (hbit : Nat.testBit x t = true) :
    x = (x >>> (t + 1)) * 2 ^ (t + 1) + 2 ^ t + x % 2 ^ t := by
  have h1 : x >>> (t + 1) = x / 2 ^ (t + 1) := Nat.shiftRight_eq_div_pow x (t + 1)
  rw [h1]
  have h2 := Nat.div_add_mod x (2 ^ (t + 1))
  rw [Nat.mul_comm (2 ^ (t + 1)) (x / 2 ^ (t + 1))] at h2
  have h3 := mod_two_pow_succ_of_testBit x t hbit
  omega

theorem wrapSub64_of_le (a b : Nat) (ha : a < 2 ^ 64) (hb : b ≤ a) : wrapSub64 a b = a - b := by
  unfold wrapSub64 U64
  rw [Nat.mod_eq_of_lt ha, Nat.mod_eq_of_lt (Nat.lt_of_le_of_lt hb ha)]
  have h1 : a + (2 ^ 64 - b) = (a - b) + 2 ^ 64 := by omega
  rw [h1, Nat.add_mod_right, Nat.mod_eq_of_lt (by omega)]

theorem wrapSub64_of_gt (a b : Nat) (ha : a < 2 ^ 64) (hab : a < b) (hb : b < 2 ^ 64) :
    wrapSub64 a b = a + (2 ^ 64 - b) := by
  unfold wrapSub64 U64
  rw [Nat.mod_eq_of_lt ha, Nat.mod_eq_of_lt hb, Nat.mod_eq_of_lt (by omega)]

theorem pow_sub_pow_ones (u v : Nat) (huv : v ≤ u) :
    2 ^ u - 2 ^ v = (2 ^ (u - v) - 1) * 2 ^ v := by
  have hp : (2 : Nat) ^ u = 2 ^ (u - v) * 2 ^ v := by
    rw [← Nat.pow_add]
    congr 1
    omega
  have h1 : (1 : Nat) ≤ 2 ^ (u - v) := Nat.one_le_two_pow
  rw [Nat.sub_mul, one_mul, ← hp]

theorem exists_min_bit (x sq : Nat) (hex : ∃ j, sq < j ∧ Nat.testBit x j = true) :
    ∃ t, (sq < t ∧ Nat.testBit x t = true) ∧ ∀ j, sq < j → j < t → Nat.testBit x j = false := by
  classical
  refine ⟨Nat.find hex, Nat.find_spec hex, ?_⟩
  intro j hj1 hj2
  have hmin := Nat.find_min hex hj2
  simp only [not_and] at hmin
  cases hjb : Nat.testBit x j
  · rfl
  · exact absurd hjb (hmin hj1)

theorem forward_run (x sq : Nat) (hx : x < 2 ^ 64) (hsq : sq < 64)
    (hbit : Nat.testBit x sq = true) (i : Nat) :
    (Nat.testBit (x ^^^ wrapSub64 x (2 ^ (sq + 1) % U64)) i = true) ↔
      (sq < i ∧ i < 64 ∧ ∀ j, sq < j → j < i → Nat.testBit x j = false) := by
  rcases Nat.lt_or_ge sq 63 with hsq63 | hsq63
  · -- sq < 63, so the subtrahend does not wrap
    have hslt : (2 : Nat) ^ (sq + 1) < 2 ^ 64 := Nat.pow_lt_pow_right (by omega) (by omega)
    have hsmod : 2 ^ (sq + 1) % U64 = 2 ^ (sq + 1) := by
      unfold U64
      exact Nat.mod_eq_of_lt hslt
    rw [hsmod]
    rcases Nat.eq_zero_or_pos (x >>> (sq + 1)) with hhi | hhi
    · -- no blocker above sq: x < 2 ^ (sq + 1)
      have hxlt : x < 2 ^ (sq + 1) := by
        have hsr := Nat.shiftRight_eq_div_pow x (sq + 1)
        have hdiv : x / 2 ^ (sq + 1) = 0 := by omega
        exact (Nat.div_eq_zero_iff (Nat.pos_pow_of_pos _ (by omega))).mp hdiv
      have hfwd : wrapSub64 x (2 ^ (sq + 1)) = (2 ^ (63 - sq) - 1) * 2 ^ (sq + 1) + x := by
        rw [wrapSub64_of_gt x _ hx hxlt hslt]
        rw [pow_sub_pow_ones 64 (sq + 1) (by omega)]
        have h63 : 64 - (sq + 1) = 63 - sq := by omega
        rw [h63, Nat.add_comm]
      rw [hfwd]
      have hxbith : ∀ j, sq + 1 ≤ j → Nat.testBit x j = false := by
        intro j hj
        exact Nat.testBit_lt_two_pow (Nat.lt_of_lt_of_le hxlt
          (Nat.pow_le_pow_right (by omega) hj))
      have hfbit : ∀ j, Nat.testBit ((2 ^ (63 - sq) - 1) * 2 ^ (sq + 1) + x) j =
          if j < sq + 1 then Nat.testBit x j else decide (j - (sq + 1) < 63 - sq) := by
        intro j
        have hk := Nat.testBit_mul_pow_two_add (2 ^ (63 - sq) - 1) hxlt j
        rw [Nat.mul_comm (2 ^ (sq + 1)) _] at hk
        rw [hk]
        split
        · rfl
        · exact Nat.testBit_two_pow_sub_one _ _
      rw [Nat.testBit_xor, hfbit i]
      rcases Nat.lt_or_ge i (sq + 1) with hi | hi
      · rw [if_pos hi]
        simp only [bne_self_eq_false]
        constructor
        · intro h
          exact absurd h (by simp)
        · intro h
          omega
      · rw [if_neg (by omega), hxbith i hi]
        simp only [Bool.false_bne, decide_eq_true_eq]
        constructor
        · intro h
          exact ⟨by omega, by omega, fun j hj1 hj2 => hxbith j (by omega)⟩
        · intro ⟨h1, h2, h3⟩
          omega
    · -- there is a blocker above sq: take the lowest one, t
      have hex : ∃ j, sq < j ∧ Nat.testBit x j = true := by
        obtain ⟨m, hm⟩ := Nat.ne_zero_implies_bit_true (Nat.pos_iff_ne_zero.mp hhi)
        refine ⟨sq + 1 + m, by omega, ?_⟩
        rw [Nat.testBit_shiftRight] at hm
        exact hm
      obtain ⟨t, ⟨ht1, ht2⟩, htmin⟩ := exists_min_bit x sq hex
      have ht64 : t < 64 := by
        have h1 : 2 ^ t ≤ x := Nat.testBit_implies_ge ht2
        by_contra hc
        have h2 : (2 : Nat) ^ 64 ≤ 2 ^ t := Nat.pow_le_pow_right (by omega) (by omega)
        omega
      have hdec := decomp_at_bit x t ht2
      have hmodeq : x % 2 ^ t = x % 2 ^ (sq + 1) := by
        apply Nat.eq_of_testBit_eq
        intro j
        rw [Nat.testBit_mod_two_pow, Nat.testBit_mod_two_pow]
        rcases Nat.lt_or_ge j (sq + 1) with hj | hj
        · have hjt : j < t := by omega
          simp [hj, hjt]
        · rcases Nat.lt_or_ge j t with hjt | hjt
          · have hjz := htmin j (by omega) hjt
            simp [hjz]
          · simp [show ¬ (j < t) by omega, show ¬ (j < sq + 1) by omega]
      have hElt : x % 2 ^ (sq + 1) < 2 ^ (sq + 1) :=
        Nat.mod_lt x (Nat.pos_pow_of_pos _ (by omega))
      have hsle : (2 : Nat) ^ (sq + 1) ≤ 2 ^ t := Nat.pow_le_pow_right (by omega) (by omega)
      have hxge : 2 ^ (sq + 1) ≤ x := by
        have h1 : 2 ^ t ≤ x := Nat.testBit_implies_ge ht2
        omega
      have hfwd0 : wrapSub64 x (2 ^ (sq + 1)) = x - 2 ^ (sq + 1) :=
        wrapSub64_of_le x _ hx hxge
      have hmid : (2 : Nat) ^ t - 2 ^ (sq + 1) = (2 ^ (t - (sq + 1)) - 1) * 2 ^ (sq + 1) :=
        pow_sub_pow_ones t (sq + 1) (by omega)
      have hfwd : wrapSub64 x (2 ^ (sq + 1)) =
          (x >>> (t + 1)) * 2 ^ (t + 1) +
            ((2 ^ (t - (sq + 1)) - 1) * 2 ^ (sq + 1) + x % 2 ^ (sq + 1)) := by
        rw [hfwd0, ← hmodeq]
        set A2 := (x >>> (t + 1)) * 2 ^ (t + 1) with hA2
        set M := (2 ^ (t - (sq + 1)) - 1) * 2 ^ (sq + 1) with hM
        clear_value A2 M
        omega
      have hCbound : (2 ^ (t - (sq + 1)) - 1) * 2 ^ (sq + 1) + x % 2 ^ (sq + 1) < 2 ^ (t + 1) := by
        have hpp : (2 : Nat) ^ (t + 1) = 2 ^ t * 2 := by rw [Nat.pow_succ]
        set M := (2 ^ (t - (sq + 1)) - 1) * 2 ^ (sq + 1) with hM
        clear_value M
        omega
      have hxbit : ∀ j, Nat.testBit x j =
          if j < t + 1 then (if j < t then Nat.testBit (x % 2 ^ (sq + 1)) j else true)
          else Nat.testBit (x >>> (t + 1)) (j - (t + 1)) := by
        intro j
        conv_lhs => rw [hdec]
        have hBlt : (2 : Nat) ^ t + x % 2 ^ t < 2 ^ (t + 1) := by
          have hm := Nat.mod_lt x (y := 2 ^ t) (Nat.pos_pow_of_pos _ (by omega))
          have hpp : (2 : Nat) ^ (t + 1) = 2 ^ t * 2 := by rw [Nat.pow_succ]
          omega
        have hadd : (x >>> (t + 1)) * 2 ^ (t + 1) + 2 ^ t + x % 2 ^ t =
            (x >>> (t + 1)) * 2 ^ (t + 1) + (2 ^ t + x % 2 ^ t) := by omega
        rw [hadd]
        have hk := Nat.testBit_mul_pow_two_add (x >>> (t + 1)) hBlt j
        rw [Nat.mul_comm (2 ^ (t + 1)) _] at hk
        rw [hk]
        split
        · have hmod2 : (2 : Nat) ^ t + x % 2 ^ t = 1 * 2 ^ t + x % 2 ^ t := by omega
          rw [hmod2]
          have hk2 := Nat.testBit_mul_pow_two_add 1
            (Nat.mod_lt x (y := 2 ^ t) (Nat.pos_pow_of_pos _ (by omega))) j
          rw [Nat.mul_comm (2 ^ t) 1] at hk2
          rw [hk2]
          split
          · rw [hmodeq]
          · next hjt =>
            have hjeq : j = t := by omega
            rw [hjeq, Nat.sub_self]
            rfl
        · rfl
      have hfbit : ∀ j, Nat.testBit (wrapSub64 x (2 ^ (sq + 1))) j =
          if j < t + 1 then
            (if j < sq + 1 then Nat.testBit (x % 2 ^ (sq + 1)) j
             else decide (j - (sq + 1) < t - (sq + 1)))
          else Nat.testBit (x >>> (t + 1)) (j - (t + 1)) := by
        intro j
        rw [hfwd]
        have hk := Nat.testBit_mul_pow_two_add (x >>> (t + 1)) hCbound j
        rw [Nat.mul_comm (2 ^ (t + 1)) _] at hk
        rw [hk]
        split
        · have hk2 := Nat.testBit_mul_pow_two_add (2 ^ (t - (sq + 1)) - 1) hElt j
          rw [Nat.mul_comm (2 ^ (sq + 1)) _] at hk2
          rw [hk2]
          split
          · rfl
          · exact Nat.testBit_two_pow_sub_one _ _
        · rfl
      rw [Nat.testBit_xor, hxbit i, hfbit i]
      rcases Nat.lt_or_ge i (sq + 1) with hi1 | hi1
      · rw [if_pos (show i < t + 1 by omega), if_pos (show i < t by omega),
            if_pos (show i < t + 1 by omega), if_pos (show i < sq + 1 by omega)]
        simp only [bne_self_eq_false]
        constructor
        · intro h
          exact absurd h (by simp)
        · intro h
          omega
      · rcases Nat.lt_or_ge i t with hi2 | hi2
        · -- sq < i < t : x-bit is a cleared between-bit, forward bit is 1
          rw [if_pos (show i < t + 1 by omega), if_pos (show i < t by omega),
              if_pos (show i < t + 1 by omega), if_neg (show ¬ i < sq + 1 by omega)]
          have hmb : Nat.testBit (x % 2 ^ (sq + 1)) i = false := by
            rw [Nat.testBit_mod_two_pow]
            simp [show ¬ (i < sq + 1) by omega]
          rw [hmb]
          simp only [Bool.false_bne, decide_eq_true_eq]
          constructor
          · intro _
            exact ⟨by omega, by omega, fun j hj1 hj2 => htmin j hj1 (by omega)⟩
          · intro _
            omega
        · rcases Nat.eq_or_lt_of_le hi2 with hieq | hi3
          · -- i = t : x-bit is 1, forward bit is 0
            rw [if_pos (show i < t + 1 by omega), if_neg (show ¬ i < t by omega),
                if_pos (show i < t + 1 by omega), if_neg (show ¬ i < sq + 1 by omega)]
            have hdt : decide (i - (sq + 1) < t - (sq + 1)) = false := by
              simp only [decide_eq_false_iff_not]
              omega
            rw [hdt]
            simp only [Bool.bne_false]
            constructor
            · intro _
              exact ⟨by omega, by omega, fun j hj1 hj2 => htmin j hj1 (by omega)⟩
            · intro _
              simp
          · -- i > t : both bits come from the untouched high part
            rw [if_neg (show ¬ i < t + 1 by omega), if_neg (show ¬ i < t + 1 by omega)]
            simp only [bne_self_eq_false]
            constructor
            · intro h
              exact absurd h (by simp)
            · intro ⟨h1, h2, h3⟩
              have hcl := h3 t ht1 (by omega)
              rw [ht2] at hcl
              exact absurd hcl (by simp)
  · -- sq = 63 : the subtrahend wraps to zero and nothing is reachable above
    have hsq' : sq = 63 := by omega
    subst hsq'
    have hz : (2 : Nat) ^ 64 % U64 = 0 := by unfold U64; simp
    rw [hz]
    have hws : wrapSub64 x 0 = x := by
      unfold wrapSub64 U64
      rw [Nat.mod_eq_of_lt hx]
      simp
      omega
    rw [hws]
    simp only [Nat.xor_self, Nat.zero_testBit]
    constructor
    · intro h
      exact absurd h (by simp)
    · intro h
      omega

end Barnarok

namespace Barnarok

theorem rev64_lt (x : Nat) : reverse_bits64 x < 2 ^ 64 := rev_lt 64 x

theorem testBit_rev64 (x i : Nat) (h : i < 64) :
    Nat.testBit (reverse_bits64 x) i = Nat.testBit x (63 - i) :=
  testBit_rev 64 x i h

theorem rev64_one_shl (sq : Nat) (hsq : sq < 64) :
    reverse_bits64 (1 <<< sq) = 1 <<< (63 - sq) := by
  apply Nat.eq_of_testBit_eq
  intro i
  rcases Nat.lt_or_ge i 64 with hi | hi
  · rw [testBit_rev64 _ _ hi, Nat.shiftLeft_eq, Nat.shiftLeft_eq, one_mul, one_mul,
      Nat.testBit_two_pow, Nat.testBit_two_pow]
    simp only [decide_eq_decide]
    omega
  · have hne : 63 - sq ≠ i := by omega
    rw [Nat.testBit_lt_two_pow (Nat.lt_of_lt_of_le (rev64_lt _)
      (Nat.pow_le_pow_right (by omega) hi))]
    rw [Nat.shiftLeft_eq, one_mul, Nat.testBit_two_pow]
    simp [hne]

theorem shl_one_eq (k : Nat) : (1 <<< k) <<< 1 = 2 ^ (k + 1) := by
  rw [Nat.shiftLeft_eq, Nat.shiftLeft_eq]
  ring

theorem xor_rev64_testBit (a b i : Nat) (ha : a < 2 ^ 64) (hi : i < 64) :
    Nat.testBit (a ^^^ reverse_bits64 b) i =
      Nat.testBit (reverse_bits64 a ^^^ b) (63 - i) := by
  rw [Nat.testBit_xor, Nat.testBit_xor, testBit_rev64 b i hi,
    testBit_rev64 a (63 - i) (by omega)]
  have he : 63 - (63 - i) = i := by omega
  rw [he]

set_option maxHeartbeats 1000000 in
theorem backward_run (x sq : Nat) (hx : x < 2 ^ 64) (hsq : sq < 64)
    (hbit : Nat.testBit x sq = true) (i : Nat) :
    (Nat.testBit (x ^^^ reverse_bits64 (wrapSub64 (reverse_bits64 x)
        ((reverse_bits64 (1 <<< sq) <<< 1) % U64))) i = true) ↔
      (i < sq ∧ ∀ j, i < j → j < sq → Nat.testBit x j = false) := by
  have hy : reverse_bits64 x < 2 ^ 64 := rev64_lt x
  have hsub : (reverse_bits64 (1 <<< sq) <<< 1) % U64 = 2 ^ (63 - sq + 1) % U64 := by
    rw [rev64_one_shl sq hsq, shl_one_eq]
  rw [hsub]
  have hybit : Nat.testBit (reverse_bits64 x) (63 - sq) = true := by
    rw [testBit_rev64 x (63 - sq) (by omega)]
    have h1 : 63 - (63 - sq) = sq := by omega
    rw [h1, hbit]
  have hmain := forward_run (reverse_bits64 x) (63 - sq) hy (by omega) hybit
  rcases Nat.lt_or_ge i 64 with hi | hi
  · have hxr := xor_rev64_testBit x
      (wrapSub64 (reverse_bits64 x) (2 ^ (63 - sq + 1) % U64)) i hx hi
    rw [hxr, hmain (63 - i)]
    constructor
    · intro ⟨h1, _, h3⟩
      refine ⟨by omega, ?_⟩
      intro j hj1 hj2
      have hv := h3 (63 - j) (by omega) (by omega)
      rw [testBit_rev64 x (63 - j) (by omega)] at hv
      have he : 63 - (63 - j) = j := by omega
      rw [he] at hv
      exact hv
    · intro ⟨h1, h2⟩
      refine ⟨by omega, by omega, ?_⟩
      intro j hj1 hj2
      rw [testBit_rev64 x j (by omega)]
      exact h2 (63 - j) (by omega) (by omega)
  · constructor
    · intro h
      have hbig : Nat.testBit (x ^^^ reverse_bits64 (wrapSub64 (reverse_bits64 x)
          (2 ^ (63 - sq + 1) % U64))) i = false := by
        apply Nat.testBit_lt_two_pow
        have h1 := Nat.xor_lt_two_pow (n := 64) hx
          (rev64_lt (wrapSub64 (reverse_bits64 x) (2 ^ (63 - sq + 1) % U64)))
        exact Nat.lt_of_lt_of_le h1 (Nat.pow_le_pow_right (by omega) hi)
      rw [hbig] at h
      exact absurd h (by simp)
    · intro ⟨h1, _⟩
      omega

end Barnarok

namespace Barnarok

/-- The reachability set described by the slider claim: a square is returned
exactly when it lies on the axis, differs from the slider square, and every
axis square strictly between it and the slider is unoccupied (so the first
occupied square in each direction is included and nothing beyond it). -/
def sliderReach (sq : Nat) (occ mask : Bitboard) (i : Nat) : Prop :=
  Nat.testBit mask i = true ∧ i ≠ sq ∧
  ∀ u, Nat.testBit mask u = true → ((sq < u ∧ u < i) ∨ (i < u ∧ u < sq)) →
    Nat.testBit occ u = false

theorem xor_cancel_testBit (x a b k : Nat) :
    Nat.testBit (a ^^^ b) k = ((Nat.testBit (x ^^^ a) k) != (Nat.testBit (x ^^^ b) k)) := by
  simp only [Nat.testBit_xor]
  cases Nat.testBit x k <;> cases Nat.testBit a k <;> cases Nat.testBit b k <;> rfl

set_option maxHeartbeats 1000000 in
theorem slider_attacks_hq_spec (sq : Nat) (occ mask : Bitboard) (hsq : sq < 64)
    (hocc : occ < 2 ^ 64) (hmask : mask < 2 ^ 64)
    (hbit : Nat.testBit occ sq = true) (hmbit : Nat.testBit mask sq = true) (i : Nat) :
    Nat.testBit (slider_attacks_hq sq occ mask) i = true ↔ sliderReach sq occ mask i := by
  have hx : occ &&& mask < 2 ^ 64 := Nat.lt_of_le_of_lt Nat.and_le_left hocc
  have hxbit : Nat.testBit (occ &&& mask) sq = true := by
    rw [Nat.testBit_and, hbit, hmbit]
    rfl
  have hF := forward_run (occ &&& mask) sq hx hsq hxbit i
  have hB := backward_run (occ &&& mask) sq hx hsq hxbit i
  have hunfold : slider_attacks_hq sq occ mask =
      (wrapSub64 (occ &&& mask) (((1 <<< sq) <<< 1) % U64) ^^^
        reverse_bits64 (wrapSub64 (reverse_bits64 (occ &&& mask))
          ((reverse_bits64 (1 <<< sq) <<< 1) % U64))) &&& mask := rfl
  rw [hunfold, Nat.testBit_and, shl_one_eq,
    xor_cancel_testBit (occ &&& mask)
      (wrapSub64 (occ &&& mask) (2 ^ (sq + 1) % U64))
      (reverse_bits64 (wrapSub64 (reverse_bits64 (occ &&& mask))
        ((reverse_bits64 (1 <<< sq) <<< 1) % U64))) i]
  constructor
  · intro hgoal
    rw [Bool.and_eq_true] at hgoal
    obtain ⟨hne, hmi⟩ := hgoal
    have hAorB : (sq < i ∧ i < 64 ∧
          (∀ j, sq < j → j < i → Nat.testBit (occ &&& mask) j = false)) ∨
        (i < sq ∧ ∀ j, i < j → j < sq → Nat.testBit (occ &&& mask) j = false) := by
      cases hvF : Nat.testBit ((occ &&& mask) ^^^
          wrapSub64 (occ &&& mask) (2 ^ (sq + 1) % U64)) i with
      | true => exact Or.inl (hF.mp hvF)
      | false =>
        cases hvR : Nat.testBit ((occ &&& mask) ^^^
            reverse_bits64 (wrapSub64 (reverse_bits64 (occ &&& mask))
              ((reverse_bits64 (1 <<< sq) <<< 1) % U64))) i with
        | true => exact Or.inr (hB.mp hvR)
        | false =>
          rw [hvF, hvR] at hne
          exact absurd hne (by simp)
    refine ⟨hmi, ?_, ?_⟩
    · rcases hAorB with hA | hB2
      · omega
      · omega
    · intro u hmu hrange
      rcases hAorB with hA | hB2
      · rcases hrange with h1 | h2
        · have hv := hA.2.2 u h1.1 h1.2
          rw [Nat.testBit_and, hmu, Bool.and_true] at hv
          exact hv
        · omega
      · rcases hrange with h1 | h2
        · omega
        · have hv := hB2.2 u h2.1 h2.2
          rw [Nat.testBit_and, hmu, Bool.and_true] at hv
          exact hv
  · intro ⟨hmi, hne, hclear⟩
    rw [Bool.and_eq_true]
    refine ⟨?_, hmi⟩
    have hi64 : i < 64 := by
      by_contra hc
      have h2 : mask < 2 ^ i :=
        Nat.lt_of_lt_of_le hmask (Nat.pow_le_pow_right (by omega) (by omega))
      rw [Nat.testBit_lt_two_pow h2] at hmi
      exact absurd hmi (by simp)
    have hclearx : ∀ j, ((sq < j ∧ j < i) ∨ (i < j ∧ j < sq)) →
        Nat.testBit (occ &&& mask) j = false := by
      intro j hj
      rw [Nat.testBit_and]
      cases hmj : Nat.testBit mask j with
      | false => simp
      | true =>
        rw [hclear j hmj hj]
        rfl
    rcases Nat.lt_or_ge i sq with hisq | hisq
    · have hvR : Nat.testBit ((occ &&& mask) ^^^
          reverse_bits64 (wrapSub64 (reverse_bits64 (occ &&& mask))
            ((reverse_bits64 (1 <<< sq) <<< 1) % U64))) i = true :=
        hB.mpr ⟨hisq, fun j hj1 hj2 => hclearx j (Or.inr ⟨hj1, hj2⟩)⟩
      have hvF : Nat.testBit ((occ &&& mask) ^^^
          wrapSub64 (occ &&& mask) (2 ^ (sq + 1) % U64)) i = false := by
        cases hv : Nat.testBit ((occ &&& mask) ^^^
            wrapSub64 (occ &&& mask) (2 ^ (sq + 1) % U64)) i with
        | false => rfl
        | true =>
          have := hF.mp hv
          omega
      rw [hvF, hvR]
      rfl
    · have hsqi : sq < i := by omega
      have hvF : Nat.testBit ((occ &&& mask) ^^^
          wrapSub64 (occ &&& mask) (2 ^ (sq + 1) % U64)) i = true :=
        hF.mpr ⟨hsqi, hi64, fun j hj1 hj2 => hclearx j (Or.inl ⟨hj1, hj2⟩)⟩
      have hvR : Nat.testBit ((occ &&& mask) ^^^
          reverse_bits64 (wrapSub64 (reverse_bits64 (occ &&& mask))
            ((reverse_bits64 (1 <<< sq) <<< 1) % U64))) i = false := by
        cases hv : Nat.testBit ((occ &&& mask) ^^^
            reverse_bits64 (wrapSub64 (reverse_bits64 (occ &&& mask))
              ((reverse_bits64 (1 <<< sq) <<< 1) % U64))) i with
        | false => rfl
        | true =>
          have := hB.mp hv
          omega
      rw [hvF, hvR]
      rfl

end Barnarok

namespace Barnarok

theorem axis_mask_facts : ∀ sq : Fin 64,
    rank_mask sq < 2 ^ 64 ∧ Nat.testBit (rank_mask sq) sq = true ∧
    file_mask sq < 2 ^ 64 ∧ Nat.testBit (file_mask sq) sq = true ∧
    diagonal_mask sq < 2 ^ 64 ∧ Nat.testBit (diagonal_mask sq) sq = true ∧
    antidiagonal_mask sq < 2 ^ 64 ∧ Nat.testBit (antidiagonal_mask sq) sq = true := by
  decide

/-- C9: for every square sq whose bit is set in the occupancy occ and every of the
four axis masks through sq (rank, file, diagonal, anti-diagonal), the
Hyperbola-Quintessence routine slider_attacks_hq returns exactly the squares of
that axis other than sq such that every axis square strictly between them and sq
is unoccupied — that is, both rays from sq up to and including the first occupied
square, excluding sq itself. -/
theorem slider_attacks_hq_correct (sq : Nat) (occ mask : Bitboard) (hsq : sq < 64)
    (hocc : occ < 2 ^ 64) (hbit : Nat.testBit occ sq = true)
    (haxis : mask = rank_mask sq ∨ mask = file_mask sq ∨
      mask = diagonal_mask sq ∨ mask = antidiagonal_mask sq) :
    ∀ i, Nat.testBit (slider_attacks_hq sq occ mask) i = true ↔ sliderReach sq occ mask i := by
  have hfacts := axis_mask_facts ⟨sq, hsq⟩
  intro i
  rcases haxis with h | h | h | h <;> subst h
  · exact slider_attacks_hq_spec sq occ _ hsq hocc hfacts.1 hbit hfacts.2.1 i
  · exact slider_attacks_hq_spec sq occ _ hsq hocc hfacts.2.2.1 hbit hfacts.2.2.2.1 i
  · exact slider_attacks_hq_spec sq occ _ hsq hocc hfacts.2.2.2.2.1 hbit
      hfacts.2.2.2.2.2.1 i
  · exact slider_attacks_hq_spec sq occ _ hsq hocc hfacts.2.2.2.2.2.2.1 hbit
      hfacts.2.2.2.2.2.2.2 i

theorem slider_attacks_hq_correct_witness :
    sliderReach 27 ((1 <<< 27) ||| (1 <<< 29)) (rank_mask 27) 28 :=
  (slider_attacks_hq_correct 27 ((1 <<< 27) ||| (1 <<< 29)) (rank_mask 27)
    (by decide) (by decide) (by decide) (Or.inl rfl) 28).mp (by decide)

end Barnarok

namespace Barnarok

/-! ## Alpha-beta versus negamax (claim C2) -/

/-- Fold of the running maximum of the move loops of `negamax` and
`alpha_beta` (`src/ai.rs`): the first component of the accumulator pair. -/
def foldMax (g : Move → Int) (a : Int) (l : List Move) : Int :=
  l.foldl (fun m mv => max m (g mv)) a

theorem foldMax_ge_init (g : Move → Int) : ∀ (l : List Move) (a : Int), a ≤ foldMax g a l
  | [], _ => le_refl _
  | mv :: rest, a => le_trans (le_max_left a (g mv)) (foldMax_ge_init g rest (max a (g mv)))

theorem foldMax_pull (g : Move → Int) :
    ∀ (l : List Move) (a c : Int), foldMax g (max a c) l = max (foldMax g a l) c
  | [], _, _ => rfl
  | mv :: rest, a, c => by
    show foldMax g (max (max a c) (g mv)) rest = max (foldMax g (max a (g mv)) rest) c
    rw [show max (max a c) (g mv) = max (max a (g mv)) c by omega]
    exact foldMax_pull g rest (max a (g mv)) c

theorem foldMax_cons (g : Move → Int) (mv : Move) (rest : List Move) (a : Int) :
    foldMax g a (mv :: rest) = max (foldMax g a rest) (g mv) := by
  show foldMax g (max a (g mv)) rest = _
  exact foldMax_pull g rest a (g mv)

theorem foldMax_le (g : Move → Int) :
    ∀ (l : List Move) (a X : Int), a ≤ X → (∀ mv ∈ l, g mv ≤ X) → foldMax g a l ≤ X
  | [], _, _, ha, _ => ha
  | mv :: rest, a, X, ha, hl => by
    show foldMax g (max a (g mv)) rest ≤ X
    exact foldMax_le g rest (max a (g mv)) X
      (by have := hl mv (List.mem_cons_self mv rest); omega)
      (fun mv2 h2 => hl mv2 (List.mem_cons_of_mem mv h2))

theorem foldMax_perm (g : Move → Int) {l1 l2 : List Move} (h : List.Perm l1 l2) :
    ∀ a, foldMax g a l1 = foldMax g a l2 := by
  induction h with
  | nil => intro a; rfl
  | cons x _ ih => intro a; exact ih (max a (g x))
  | swap x y l =>
    intro a
    show foldMax g (max (max a (g y)) (g x)) l = foldMax g (max (max a (g x)) (g y)) l
    rw [show max (max a (g y)) (g x) = max (max a (g x)) (g y) by omega]
  | trans _ _ ih1 ih2 => intro a; rw [ih1 a, ih2 a]

theorem foldPair_fst (g : Move → Int) :
    ∀ (l : List Move) (acc : Int × Option Move),
      (l.foldl (fun acc mv => if g mv > acc.1 then (g mv, some mv) else acc) acc).1 =
        foldMax g acc.1 l
  | [], _ => rfl
  | mv :: rest, acc => by
    show (rest.foldl _ (if g mv > acc.1 then (g mv, some mv) else acc)).1 =
      foldMax g (max acc.1 (g mv)) rest
    by_cases h : g mv > acc.1
    · rw [if_pos h, foldPair_fst g rest (g mv, some mv)]
      rw [show max acc.1 (g mv) = g mv by omega]
    · rw [if_neg h, foldPair_fst g rest acc]
      rw [show max acc.1 (g mv) = acc.1 by omega]

/-- The value of `negamax` at positive depth: minus infinity on a move-less
node, otherwise the maximum of the negated child scores. -/
theorem negamax_succ_val (b : Board) (d : Nat) :
    (negamax b (Nat.succ d)).1 =
      if get_legal_moves b = [] then -INF
      else foldMax (fun mv => -(negamax (makeMove b mv) d).1) (-INF) (get_legal_moves b) := by
  show (negamaxStep (fun bb => negamax bb d) b).1 = _
  unfold negamaxStep
  by_cases h : get_legal_moves b = []
  · rw [if_pos h, if_pos h]
  · rw [if_neg h, if_neg h]
    exact foldPair_fst (fun mv => -(negamax (makeMove b mv) d).1) (get_legal_moves b)
      (-INF, Option.none)

theorem popcount64_le (x : Bitboard) : popcount64 x ≤ 64 :=
  le_trans (List.length_filter_le _ _) (by simp)

theorem evaluate_bounds (b : Board) : -134400 ≤ evaluate b ∧ evaluate b ≤ 134400 := by
  have h1 := popcount64_le b.white_pawns
  have h2 := popcount64_le b.white_rooks
  have h3 := popcount64_le b.white_knights
  have h4 := popcount64_le b.white_bishops
  have h5 := popcount64_le b.white_queens
  have h6 := popcount64_le b.black_pawns
  have h7 := popcount64_le b.black_rooks
  have h8 := popcount64_le b.black_knights
  have h9 := popcount64_le b.black_bishops
  have h10 := popcount64_le b.black_queens
  simp only [evaluate]
  split <;> omega

theorem negamax_bounds : ∀ (d : Nat) (b : Board),
    -INF ≤ (negamax b d).1 ∧ (negamax b d).1 ≤ INF
  | 0, b => by
    have := evaluate_bounds b
    show -INF ≤ evaluate b ∧ evaluate b ≤ INF
    simp only [INF]
    omega
  | Nat.succ d, b => by
    rw [negamax_succ_val]
    by_cases h : get_legal_moves b = []
    · rw [if_pos h]
      simp only [INF]
      omega
    · rw [if_neg h]
      constructor
      · exact foldMax_ge_init _ _ _
      · refine foldMax_le _ _ _ _ (by simp only [INF]; omega) (fun mv _ => ?_)
        have := negamax_bounds d (makeMove b mv)
        omega

/-- No stalemate within the search horizon: every node the positive-depth
search can reach either has a legal move or is in check.  At such nodes the
0-for-stalemate branch of `alpha_beta` never fires. -/
def noStalemateWithin (b : Board) : Nat → Bool
  | 0 => true
  | Nat.succ d =>
    let moves := get_legal_moves b
    if moves = [] then is_king_attacked b false
    else moves.all (fun mv => noStalemateWithin (makeMove b mv) d)

/-- Fail-soft invariant of the alpha-beta move loop: if every remaining
child score relates to its window in the three-way fail-soft fashion, so
does the loop value, relative to the fold of the running maximum with the
true child scores. -/
theorem abLoop_spec (recur : Board → Int → Int → Int × Option Move) (b : Board)
    (beta : Int) (c : Move → Int) :
    ∀ (r : List Move) (alpha m : Int) (bst : Option Move),
      m ≤ alpha → alpha < beta →
      (∀ mv ∈ r, ∀ a : Int, alpha ≤ a → a < beta →
        ((c mv ≤ a → c mv ≤ -(recur (makeMove b mv) (-beta) (-a)).1 ∧
            -(recur (makeMove b mv) (-beta) (-a)).1 ≤ a) ∧
         (a < c mv → c mv < beta → -(recur (makeMove b mv) (-beta) (-a)).1 = c mv) ∧
         (beta ≤ c mv → beta ≤ -(recur (makeMove b mv) (-beta) (-a)).1 ∧
            -(recur (makeMove b mv) (-beta) (-a)).1 ≤ c mv))) →
      ((foldMax c m r ≤ alpha →
          foldMax c m r ≤ (abLoop recur b beta r alpha (m, bst)).1 ∧
          (abLoop recur b beta r alpha (m, bst)).1 ≤ alpha) ∧
       (alpha < foldMax c m r → foldMax c m r < beta →
          (abLoop recur b beta r alpha (m, bst)).1 = foldMax c m r) ∧
       (beta ≤ foldMax c m r →
          beta ≤ (abLoop recur b beta r alpha (m, bst)).1 ∧
          (abLoop recur b beta r alpha (m, bst)).1 ≤ foldMax c m r))
  | [], alpha, m, bst, hma, hab, _ => by
    refine ⟨fun h => ⟨le_refl _, h⟩, fun h1 _ => rfl, fun h => ⟨h, le_refl _⟩⟩
  | mv :: rest, alpha, m, bst, hma, hab, hchild => by
    have hcmv := hchild mv (List.mem_cons_self mv rest) alpha (le_refl alpha) hab
    set s := -(recur (makeMove b mv) (-beta) (-alpha)).1 with hs
    have hK : foldMax c m (mv :: rest) = max (foldMax c m rest) (c mv) :=
      foldMax_cons c mv rest m
    have hR := foldMax_ge_init c rest m
    set R := foldMax c m rest with hRdef
    by_cases hbc : beta ≤ c mv
    · obtain ⟨hsb, hsc⟩ := hcmv.2.2 hbc
      have hloop : abLoop recur b beta (mv :: rest) alpha (m, bst) = (s, some mv) := by
        show (if s ≥ beta then _ else _) = _
        rw [if_pos (by omega)]
        show (if s > m then ((s, some mv) : Int × Option Move) else (m, bst)) = _
        rw [if_pos (by omega)]
      rw [hloop, hK]
      refine ⟨fun h => absurd h (by omega), fun h1 h2 => absurd h2 (by omega),
        fun _ => ⟨by omega, by omega⟩⟩
    · push_neg at hbc
      by_cases hca : c mv ≤ alpha
      · obtain ⟨hcs, hsa⟩ := hcmv.1 hca
        have hnocut : ¬ s ≥ beta := by omega
        have halpha1 : (if s > m ∧ s > alpha then s else alpha) = alpha := by
          by_cases h : s > m ∧ s > alpha
          · omega
          · rw [if_neg h]
        have hloop : abLoop recur b beta (mv :: rest) alpha (m, bst) =
            abLoop recur b beta rest alpha
              (if s > m then (s, some mv) else (m, bst)) := by
          show (if s ≥ beta then _ else _) = _
          rw [if_neg hnocut, halpha1]
        rw [hloop, hK]
        by_cases hsm : s > m
        · rw [if_pos hsm]
          have ih := abLoop_spec recur b beta c rest alpha s (some mv) (by omega) hab
            (fun mv2 h2 => hchild mv2 (List.mem_cons_of_mem mv h2))
          have hK2 : foldMax c s rest = max R s := by
            have h1 := foldMax_pull c rest m s
            rw [show max m s = s by omega] at h1
            exact h1
          rw [hK2] at ih
          refine ⟨fun h => ?_, fun h1 h2 => ?_, fun h => ?_⟩
          · have := ih.1 (by omega)
            exact ⟨by omega, this.2⟩
          · have := ih.2.1 (by omega) (by omega)
            omega
          · have := ih.2.2 (by omega)
            omega
        · rw [if_neg hsm]
          have ih := abLoop_spec recur b beta c rest alpha m bst (by omega) hab
            (fun mv2 h2 => hchild mv2 (List.mem_cons_of_mem mv h2))
          refine ⟨fun h => ?_, fun h1 h2 => ?_, fun h => ?_⟩
          · have := ih.1 (by omega)
            exact ⟨by omega, this.2⟩
          · have := ih.2.1 (by omega) (by omega)
            omega
          · have := ih.2.2 (by omega)
            omega
      · push_neg at hca
        have hsc : s = c mv := hcmv.2.1 hca hbc
        have hnocut : ¬ s ≥ beta := by omega
        have hsm : s > m := by omega
        have halpha1 : (if s > m ∧ s > alpha then s else alpha) = s := by
          rw [if_pos ⟨hsm, by omega⟩]
        have hloop : abLoop recur b beta (mv :: rest) alpha (m, bst) =
            abLoop recur b beta rest s (s, some mv) := by
          show (if s ≥ beta then _ else _) = _
          rw [if_neg hnocut, halpha1, if_pos hsm]
        rw [hloop, hK]
        have ih := abLoop_spec recur b beta c rest s s (some mv) (le_refl s) (by omega)
          (fun mv2 h2 a ha2 hb2 =>
            hchild mv2 (List.mem_cons_of_mem mv h2) a (by omega) hb2)
        have hK2 : foldMax c s rest = max R s := by
          have h1 := foldMax_pull c rest m s
          rw [show max m s = s by omega] at h1
          exact h1
        rw [hK2] at ih
        refine ⟨fun h => absurd h (by omega), fun h1 h2 => ?_, fun h => ?_⟩
        · by_cases hRs : R ≤ s
          · have := ih.1 (by omega)
            omega
          · have := ih.2.1 (by omega) (by omega)
            omega
        · have := ih.2.2 (by omega)
          omega

end Barnarok

namespace Barnarok

/-- Fail-soft correctness of `alpha_beta` against `negamax`: within a
sub-infinite window and with no stalemate inside the horizon, the alpha-beta
value is exact inside the window and a correctly-sided bound outside it. -/
theorem ab_spec (s : Board → Nat → List Move → List Move)
    (hs : ∀ b n l, List.Perm (s b n l) l) :
    ∀ (d : Nat) (b : Board) (alpha beta : Int), -INF ≤ alpha → beta ≤ INF → alpha < beta →
      noStalemateWithin b d = true →
      (((negamax b d).1 ≤ alpha →
          (negamax b d).1 ≤ (alphaBeta s b alpha beta d).1 ∧
          (alphaBeta s b alpha beta d).1 ≤ alpha) ∧
       (alpha < (negamax b d).1 → (negamax b d).1 < beta →
          (alphaBeta s b alpha beta d).1 = (negamax b d).1) ∧
       (beta ≤ (negamax b d).1 →
          beta ≤ (alphaBeta s b alpha beta d).1 ∧
          (alphaBeta s b alpha beta d).1 ≤ (negamax b d).1)) := by
  intro d
  induction d with
  | zero =>
    intro b alpha beta hA hB hab hns
    show ((evaluate b ≤ alpha → evaluate b ≤ evaluate b ∧ evaluate b ≤ alpha) ∧ _ ∧ _)
    exact ⟨fun h => ⟨le_refl _, h⟩, fun _ _ => rfl, fun h => ⟨h, le_refl _⟩⟩
  | succ d ih =>
    intro b alpha beta hA hB hab hns
    have hperm := hs b (Nat.succ d) (get_legal_moves b)
    by_cases hmv : get_legal_moves b = []
    · have hsh : s b (Nat.succ d) (get_legal_moves b) = [] :=
        List.Perm.eq_nil (hmv ▸ hperm)
      have hatt : is_king_attacked b false = true := by
        have : noStalemateWithin b (Nat.succ d) =
            (if get_legal_moves b = [] then is_king_attacked b false
             else (get_legal_moves b).all (fun mv => noStalemateWithin (makeMove b mv) d)) :=
          rfl
        rw [this, if_pos hmv] at hns
        exact hns
      have hN : (negamax b (Nat.succ d)).1 = -INF := by
        rw [negamax_succ_val, if_pos hmv]
      have hv : (alphaBeta s b alpha beta (Nat.succ d)).1 = -INF := by
        show (if s b (Nat.succ d) (get_legal_moves b) = [] then _ else _ :
          Int × Option Move).1 = -INF
        rw [if_pos hsh, hatt]
        show ((-INF, Option.none) : Int × Option Move).1 = -INF
        rfl
      rw [hN, hv]
      simp only [INF] at hA hB ⊢
      refine ⟨fun h => ⟨by omega, by omega⟩, fun h1 _ => by omega, fun h => by omega⟩
    · have hshne : s b (Nat.succ d) (get_legal_moves b) ≠ [] := by
        intro h
        exact hmv (List.Perm.nil_eq (h ▸ hperm)).symm
      have hall : ∀ mv ∈ get_legal_moves b, noStalemateWithin (makeMove b mv) d = true := by
        have : noStalemateWithin b (Nat.succ d) =
            (if get_legal_moves b = [] then is_king_attacked b false
             else (get_legal_moves b).all (fun mv => noStalemateWithin (makeMove b mv) d)) :=
          rfl
        rw [this, if_neg hmv, List.all_eq_true] at hns
        exact hns
      have hN : (negamax b (Nat.succ d)).1 =
          foldMax (fun mv => -(negamax (makeMove b mv) d).1) (-INF) (get_legal_moves b) := by
        rw [negamax_succ_val, if_neg hmv]
      have hv : alphaBeta s b alpha beta (Nat.succ d) =
          abLoop (fun bb a2 b2 => alphaBeta s bb a2 b2 d) b beta
            (s b (Nat.succ d) (get_legal_moves b)) alpha (-INF, Option.none) := by
        show (if s b (Nat.succ d) (get_legal_moves b) = [] then _ else _ :
          Int × Option Move) = _
        rw [if_neg hshne]
      have hloop := abLoop_spec (fun bb a2 b2 => alphaBeta s bb a2 b2 d) b beta
        (fun mv => -(negamax (makeMove b mv) d).1)
        (s b (Nat.succ d) (get_legal_moves b)) alpha (-INF) Option.none hA hab
        (fun mv hmem a ha hb2 => by
          dsimp only
          have hmem2 : mv ∈ get_legal_moves b := (List.Perm.mem_iff hperm).mp hmem
          have hchild := ih (makeMove b mv) (-beta) (-a) (by simp only [INF] at hB ⊢; omega)
            (by simp only [INF] at hA ⊢; omega) (by omega) (hall mv hmem2)
          refine ⟨fun h1 => ?_, fun h1 h2 => ?_, fun h1 => ?_⟩
          · have := hchild.2.2 (by omega)
            omega
          · have := hchild.2.1 (by omega) (by omega)
            omega
          · have := hchild.1 (by omega)
            omega)
      rw [foldMax_perm (fun mv => -(negamax (makeMove b mv) d).1) hperm (-INF)] at hloop
      rw [hN, hv]
      exact hloop

/-- C2: on every position from which the bounded-depth search meets no
stalemate (a move-less node whose king is not attacked), `launch_alpha_beta`
returns the same score as `negamax` at the same depth, whatever permutation
the random shuffle applies to each move list.  (Unqualified over stalemates
the claim fails: `negamax` scores every move-less node `-INF` while
`alpha_beta` scores a stalemate 0.) -/
theorem alpha_beta_agrees_with_negamax (s : Board → Nat → List Move → List Move)
    (hs : ∀ b n l, List.Perm (s b n l) l) (b : Board) (d : Nat)
    (hns : noStalemateWithin b d = true) :
    (launch_alpha_beta s b d).1 = (negamax b d).1 := by
  have htrio := ab_spec s hs d b (-INF) INF (le_refl _) (le_refl _)
    (by simp only [INF]; omega) hns
  have hbnd := negamax_bounds d b
  show (alphaBeta s b (-INF) INF d).1 = (negamax b d).1
  by_cases h1 : (negamax b d).1 ≤ -INF
  · have := htrio.1 h1
    omega
  · by_cases h2 : INF ≤ (negamax b d).1
    · have := htrio.2.2 h2
      omega
    · exact htrio.2.1 (by omega) (by omega)

theorem alpha_beta_agrees_with_negamax_witness :
    (launch_alpha_beta idShuffle boardKingsEp 1).1 = (negamax boardKingsEp 1).1 ∧
      (negamax boardKingsEp 1).1 = 0 :=
  ⟨alpha_beta_agrees_with_negamax idShuffle (fun b n l => List.Perm.refl l)
    boardKingsEp 1 (by decide), by decide⟩

end Barnarok

namespace Barnarok

/-! ## Bit-level identities used by the make and unmake analysis -/

theorem testBit_ones64 (i : Nat) : Nat.testBit ones64 i = decide (i < 64) := by
  have h : ones64 = 2 ^ 64 - 1 := rfl
  rw [h, Nat.testBit_two_pow_sub_one]

theorem testBit_not64 (x i : Nat) :
    Nat.testBit (not64 x) i = (Nat.testBit x i != decide (i < 64)) := by
  rw [not64, Nat.testBit_xor, testBit_ones64]

theorem testBit_high (x i : Nat) (hx : x < 2 ^ 64) (hi : 64 ≤ i) :
    Nat.testBit x i = false :=
  Nat.testBit_lt_two_pow (lt_of_lt_of_le hx (Nat.pow_le_pow_right (by omega) hi))

theorem testBit_single (k i : Nat) : Nat.testBit (1 <<< k) i = decide (k = i) := by
  rw [Nat.shiftLeft_eq, one_mul, Nat.testBit_two_pow]

theorem and_eq_zero_iff_bits (x y : Nat) :
    x &&& y = 0 ↔ ∀ i, ¬(Nat.testBit x i = true ∧ Nat.testBit y i = true) := by
  constructor
  · intro h i hc
    have hb : Nat.testBit (x &&& y) i = true := by
      rw [Nat.testBit_and, hc.1, hc.2]
      rfl
    rw [h] at hb
    simp at hb
  · intro h
    apply Nat.eq_of_testBit_eq
    intro i
    rw [Nat.testBit_and, Nat.zero_testBit]
    have := h i
    cases hx : Nat.testBit x i <;> cases hy : Nat.testBit y i <;> simp_all

theorem single_sub (k x : Nat) (h : x &&& (1 <<< k) ≠ 0) : Nat.testBit x k = true := by
  by_contra hc
  apply h
  rw [and_eq_zero_iff_bits]
  intro i hi
  rw [testBit_single] at hi
  have h2 := hi.2
  simp at h2
  subst h2
  simp [hi.1] at hc

theorem sub_single (k x : Nat) (h : Nat.testBit x k = true) : x &&& (1 <<< k) ≠ 0 := by
  intro hc
  rw [and_eq_zero_iff_bits] at hc
  exact hc k ⟨h, by rw [testBit_single]; simp⟩

theorem single_and_zero (k x : Nat) (h : Nat.testBit x k = false) : x &&& (1 <<< k) = 0 := by
  rw [and_eq_zero_iff_bits]
  intro i hi
  rw [testBit_single] at hi
  have h2 := hi.2
  simp at h2
  subst h2
  rw [h] at hi
  simp at hi

theorem or_and_not_cancel (x n : Nat) (hx : x < 2 ^ 64) (hn : n < 2 ^ 64)
    (h : x &&& n = 0) : (x ||| n) &&& not64 n = x := by
  apply Nat.eq_of_testBit_eq
  intro i
  rw [Nat.testBit_and, Nat.testBit_or, testBit_not64]
  rw [and_eq_zero_iff_bits] at h
  have hi := h i
  by_cases hlt : i < 64
  · cases hxi : Nat.testBit x i <;> cases hni : Nat.testBit n i <;> simp_all
  · rw [testBit_high x i hx (by omega), testBit_high n i hn (by omega)]
    simp

theorem and_not_or_cancel (x k : Nat) (hx : x < 2 ^ 64) (hk : k < 64)
    (h : Nat.testBit x k = true) : (x &&& not64 (1 <<< k)) ||| (1 <<< k) = x := by
  apply Nat.eq_of_testBit_eq
  intro i
  rw [Nat.testBit_or, Nat.testBit_and, testBit_not64, testBit_single]
  by_cases hik : k = i
  · subst hik
    simp [h, hk]
  · by_cases hlt : i < 64
    · simp [hik, hlt]
    · rw [testBit_high x i hx (by omega)]
      simp [hik, hlt]

theorem and_not_self (x n : Nat) (hx : x < 2 ^ 64) (h : x &&& n = 0) :
    x &&& not64 n = x := by
  apply Nat.eq_of_testBit_eq
  intro i
  rw [Nat.testBit_and, testBit_not64]
  rw [and_eq_zero_iff_bits] at h
  have hi := h i
  by_cases hlt : i < 64
  · cases hxi : Nat.testBit x i <;> cases hni : Nat.testBit n i <;> simp_all
  · rw [testBit_high x i hx (by omega)]
    simp

theorem or_single_self (x k : Nat) (h : Nat.testBit x k = true) : x ||| (1 <<< k) = x := by
  apply Nat.eq_of_testBit_eq
  intro i
  rw [Nat.testBit_or, testBit_single]
  by_cases hik : k = i
  · subst hik
    simp [h]
  · simp [hik]

theorem and_and_zero (x y n : Nat) (h : x &&& n = 0) : (x &&& y) &&& n = 0 := by
  rw [and_eq_zero_iff_bits] at h ⊢
  intro i hi
  rw [Nat.testBit_and] at hi
  exact h i ⟨(Bool.and_eq_true _ _ ▸ hi.1).1, hi.2⟩

theorem or_and_zero (x y n : Nat) (h1 : x &&& n = 0) (h2 : y &&& n = 0) :
    (x ||| y) &&& n = 0 := by
  rw [and_eq_zero_iff_bits] at h1 h2 ⊢
  intro i hi
  obtain ⟨ha, hb⟩ := hi
  rw [Nat.testBit_or] at ha
  cases hx : Nat.testBit x i
  · cases hy : Nat.testBit y i
    · simp [hx, hy] at ha
    · exact h2 i ⟨hy, hb⟩
  · exact h1 i ⟨hx, hb⟩

theorem and_bound (x y : Nat) (hx : x < 2 ^ 64) : x &&& y < 2 ^ 64 :=
  Nat.lt_of_le_of_lt Nat.and_le_left hx

theorem or_bound (x y : Nat) (hx : x < 2 ^ 64) (hy : y < 2 ^ 64) : x ||| y < 2 ^ 64 :=
  Nat.or_lt_two_pow hx hy

theorem shl_bound (k : Nat) (hk : k < 64) : (1 : Nat) <<< k < 2 ^ 64 := by
  rw [Nat.shiftLeft_eq, one_mul]
  exact Nat.pow_lt_pow_right (by omega) hk

theorem testBit_of_lt_64 (x k : Nat) (hx : x < 2 ^ 64) (h : Nat.testBit x k = true) :
    k < 64 := by
  by_contra hc
  rw [testBit_high x k hx (by omega)] at h
  exact absurd h (by simp)

/-! ## Redundancy consistency of a board -/

/-- The union of the white piece masks and the white king bit; the white
aggregate of a consistent board equals it. -/
def wunion (b : Board) : Bitboard :=
  b.white_pawns ||| b.white_rooks ||| b.white_knights ||| b.white_bishops |||
    b.white_queens ||| (1 <<< b.white_king)

/-- The union of the black piece masks and the black king bit. -/
def bunion (b : Board) : Bitboard :=
  b.black_pawns ||| b.black_rooks ||| b.black_knights ||| b.black_bishops |||
    b.black_queens ||| (1 <<< b.black_king)

/-- Consistency of the redundant board data: all masks are 64-bit, the two
king squares are on the board, the piece masks of each side are pairwise
disjoint and disjoint from the king bit, the two side aggregates equal the
unions of their components, the sides do not overlap, and the global
occupancy is the union of the side aggregates. -/
def Consistent (b : Board) : Bool :=
  decide (b.white_pawns < 2 ^ 64) && decide (b.white_rooks < 2 ^ 64) &&
  decide (b.white_knights < 2 ^ 64) && decide (b.white_bishops < 2 ^ 64) &&
  decide (b.white_queens < 2 ^ 64) && decide (b.white_king < 64) &&
  decide (b.black_pawns < 2 ^ 64) && decide (b.black_rooks < 2 ^ 64) &&
  decide (b.black_knights < 2 ^ 64) && decide (b.black_bishops < 2 ^ 64) &&
  decide (b.black_queens < 2 ^ 64) && decide (b.black_king < 64) &&
  (b.white_pieces == wunion b) && (b.black_pieces == bunion b) &&
  (b.pieces == b.white_pieces ||| b.black_pieces) &&
  (b.white_pieces &&& b.black_pieces == 0) &&
  (b.white_pawns &&& b.white_rooks == 0) && (b.white_pawns &&& b.white_knights == 0) &&
  (b.white_pawns &&& b.white_bishops == 0) && (b.white_pawns &&& b.white_queens == 0) &&
  (b.white_pawns &&& (1 <<< b.white_king) == 0) &&
  (b.white_rooks &&& b.white_knights == 0) && (b.white_rooks &&& b.white_bishops == 0) &&
  (b.white_rooks &&& b.white_queens == 0) && (b.white_rooks &&& (1 <<< b.white_king) == 0) &&
  (b.white_knights &&& b.white_bishops == 0) && (b.white_knights &&& b.white_queens == 0) &&
  (b.white_knights &&& (1 <<< b.white_king) == 0) &&
  (b.white_bishops &&& b.white_queens == 0) &&
  (b.white_bishops &&& (1 <<< b.white_king) == 0) &&
  (b.white_queens &&& (1 <<< b.white_king) == 0) &&
  (b.black_pawns &&& b.black_rooks == 0) && (b.black_pawns &&& b.black_knights == 0) &&
  (b.black_pawns &&& b.black_bishops == 0) && (b.black_pawns &&& b.black_queens == 0) &&
  (b.black_pawns &&& (1 <<< b.black_king) == 0) &&
  (b.black_rooks &&& b.black_knights == 0) && (b.black_rooks &&& b.black_bishops == 0) &&
  (b.black_rooks &&& b.black_queens == 0) && (b.black_rooks &&& (1 <<< b.black_king) == 0) &&
  (b.black_knights &&& b.black_bishops == 0) && (b.black_knights &&& b.black_queens == 0) &&
  (b.black_knights &&& (1 <<< b.black_king) == 0) &&
  (b.black_bishops &&& b.black_queens == 0) &&
  (b.black_bishops &&& (1 <<< b.black_king) == 0) &&
  (b.black_queens &&& (1 <<< b.black_king) == 0)

end Barnarok

namespace Barnarok

/-! ## Stage lemmas for `make_move` and `unmake_move` -/

/-- Named bundle of the conjuncts of `Consistent`. -/
structure ConsistentFacts (b : Board) : Prop where
  wp_lt : b.white_pawns < 2 ^ 64
  wr_lt : b.white_rooks < 2 ^ 64
  wn_lt : b.white_knights < 2 ^ 64
  wb_lt : b.white_bishops < 2 ^ 64
  wq_lt : b.white_queens < 2 ^ 64
  wk_lt : b.white_king < 64
  bp_lt : b.black_pawns < 2 ^ 64
  br_lt : b.black_rooks < 2 ^ 64
  bn_lt : b.black_knights < 2 ^ 64
  bb_lt : b.black_bishops < 2 ^ 64
  bq_lt : b.black_queens < 2 ^ 64
  bk_lt : b.black_king < 64
  wagg : b.white_pieces = wunion b
  bagg : b.black_pieces = bunion b
  gagg : b.pieces = b.white_pieces ||| b.black_pieces
  wbd : b.white_pieces &&& b.black_pieces = 0
  wp_wr : b.white_pawns &&& b.white_rooks = 0
  wp_wn : b.white_pawns &&& b.white_knights = 0
  wp_wb : b.white_pawns &&& b.white_bishops = 0
  wp_wq : b.white_pawns &&& b.white_queens = 0
  wp_wk : b.white_pawns &&& (1 <<< b.white_king) = 0
  wr_wn : b.white_rooks &&& b.white_knights = 0
  wr_wb : b.white_rooks &&& b.white_bishops = 0
  wr_wq : b.white_rooks &&& b.white_queens = 0
  wr_wk : b.white_rooks &&& (1 <<< b.white_king) = 0
  wn_wb : b.white_knights &&& b.white_bishops = 0
  wn_wq : b.white_knights &&& b.white_queens = 0
  wn_wk : b.white_knights &&& (1 <<< b.white_king) = 0
  wb_wq : b.white_bishops &&& b.white_queens = 0
  wb_wk : b.white_bishops &&& (1 <<< b.white_king) = 0
  wq_wk : b.white_queens &&& (1 <<< b.white_king) = 0
  bp_br : b.black_pawns &&& b.black_rooks = 0
  bp_bn : b.black_pawns &&& b.black_knights = 0
  bp_bb : b.black_pawns &&& b.black_bishops = 0
  bp_bq : b.black_pawns &&& b.black_queens = 0
  bp_bk : b.black_pawns &&& (1 <<< b.black_king) = 0
  br_bn : b.black_rooks &&& b.black_knights = 0
  br_bb : b.black_rooks &&& b.black_bishops = 0
  br_bq : b.black_rooks &&& b.black_queens = 0
  br_bk : b.black_rooks &&& (1 <<< b.black_king) = 0
  bn_bb : b.black_knights &&& b.black_bishops = 0
  bn_bq : b.black_knights &&& b.black_queens = 0
  bn_bk : b.black_knights &&& (1 <<< b.black_king) = 0
  bb_bq : b.black_bishops &&& b.black_queens = 0
  bb_bk : b.black_bishops &&& (1 <<< b.black_king) = 0
  bq_bk : b.black_queens &&& (1 <<< b.black_king) = 0

theorem consistent_facts (b : Board) (hc : Consistent b = true) : ConsistentFacts b := by
  unfold Consistent at hc
  simp only [Bool.and_eq_true, decide_eq_true_eq, beq_iff_eq] at hc
  obtain ⟨⟨⟨⟨⟨⟨⟨⟨⟨⟨⟨⟨⟨⟨⟨⟨⟨⟨⟨⟨⟨⟨⟨⟨⟨⟨⟨⟨⟨⟨⟨⟨⟨⟨⟨⟨⟨⟨⟨⟨⟨⟨⟨⟨⟨h1, h2⟩, h3⟩, h4⟩, h5⟩, h6⟩, h7⟩,
    h8⟩, h9⟩, h10⟩, h11⟩, h12⟩, h13⟩, h14⟩, h15⟩, h16⟩, h17⟩, h18⟩, h19⟩, h20⟩, h21⟩,
    h22⟩, h23⟩, h24⟩, h25⟩, h26⟩, h27⟩, h28⟩, h29⟩, h30⟩, h31⟩, h32⟩, h33⟩, h34⟩, h35⟩,
    h36⟩, h37⟩, h38⟩, h39⟩, h40⟩, h41⟩, h42⟩, h43⟩, h44⟩, h45⟩, h46⟩ := hc
  exact ⟨h1, h2, h3, h4, h5, h6, h7, h8, h9, h10, h11, h12, h13, h14, h15, h16, h17, h18,
    h19, h20, h21, h22, h23, h24, h25, h26, h27, h28, h29, h30, h31, h32, h33, h34, h35,
    h36, h37, h38, h39, h40, h41, h42, h43, h44, h45, h46⟩

theorem wpieces_lt (b : Board) (h : ConsistentFacts b) : b.white_pieces < 2 ^ 64 := by
  rw [h.wagg]
  unfold wunion
  exact or_bound _ _ (or_bound _ _ (or_bound _ _ (or_bound _ _ (or_bound _ _ h.wp_lt
    h.wr_lt) h.wn_lt) h.wb_lt) h.wq_lt) (shl_bound _ h.wk_lt)

theorem bpieces_lt (b : Board) (h : ConsistentFacts b) : b.black_pieces < 2 ^ 64 := by
  rw [h.bagg]
  unfold bunion
  exact or_bound _ _ (or_bound _ _ (or_bound _ _ (or_bound _ _ (or_bound _ _ h.bp_lt
    h.br_lt) h.bn_lt) h.bb_lt) h.bq_lt) (shl_bound _ h.bk_lt)

theorem makeMove_white (b : Board) (mv : Move) (h : b.white_to_play = true) :
    makeMove b mv =
      (let b1 := { b with white_pieces :=
          (b.white_pieces &&& not64 (1 <<< mv.start)) ||| (1 <<< mv.endSq) }
       let b2 := whiteMover b1 mv
       let b3 := whiteCaptureEp b2 mv
       let b4 := { b3 with en_passant_target :=
          if mv.context = MoveContext.doubleStep then some (mv.endSq - 8) else Option.none }
       let b5 := clearRightsOnEnd b4 mv.endSq
       let b6 := { b5 with pieces := b5.white_pieces ||| b5.black_pieces }
       { b6 with white_to_play := !b6.white_to_play }) := by
  simp only [makeMove, h, if_true]

theorem makeMove_black (b : Board) (mv : Move) (h : b.white_to_play = false) :
    makeMove b mv =
      (let b1 := { b with black_pieces :=
          (b.black_pieces &&& not64 (1 <<< mv.start)) ||| (1 <<< mv.endSq) }
       let b2 := blackMover b1 mv
       let b3 := blackCaptureEp b2 mv
       let b4 := { b3 with en_passant_target :=
          if mv.context = MoveContext.doubleStep then some (mv.endSq + 8) else Option.none }
       let b5 := clearRightsOnEnd b4 mv.endSq
       let b6 := { b5 with pieces := b5.white_pieces ||| b5.black_pieces }
       { b6 with white_to_play := !b6.white_to_play }) := by
  simp only [makeMove, h, if_false, Bool.false_eq_true]

theorem unmakeMove_white (b : Board) (mv : Move) (h : b.white_to_play = false) :
    unmakeMove b mv =
      (let b0 := { b with white_to_play := true }
       let pr := whiteUnmover b0 mv
       let b1 := { pr.2 with white_pieces := pr.2.white_pieces &&& not64 (1 <<< mv.endSq) }
       let b2 := whiteUncaptureEp b1 mv
       let b3 := whiteRestoreMover b2 pr.1 mv.start
       let b4 := { b3 with white_pieces := b3.white_pieces ||| (1 <<< mv.start) }
       finishUnmake b4 mv) := by
  simp only [unmakeMove, h, Bool.not_false, if_true]

theorem unmakeMove_black (b : Board) (mv : Move) (h : b.white_to_play = true) :
    unmakeMove b mv =
      (let b0 := { b with white_to_play := false }
       let pr := blackUnmover b0 mv
       let b1 := { pr.2 with black_pieces := pr.2.black_pieces &&& not64 (1 <<< mv.endSq) }
       let b2 := blackUncaptureEp b1 mv
       let b3 := blackRestoreMover b2 pr.1 mv.start
       let b4 := { b3 with black_pieces := b3.black_pieces ||| (1 <<< mv.start) }
       finishUnmake b4 mv) := by
  simp only [unmakeMove, h, Bool.not_true, if_false, Bool.false_eq_true]

end Barnarok

namespace Barnarok

theorem whiteMover_pawn (b : Board) (mv : Move)
    (hp : b.white_pawns &&& (1 <<< mv.start) ≠ 0)
    (hnp : ∀ p, mv.context ≠ MoveContext.promotion p) :
    whiteMover b mv =
      { b with white_pawns :=
          (b.white_pawns &&& not64 (1 <<< mv.start)) ||| (1 <<< mv.endSq) } := by
  simp only [whiteMover]
  rw [if_pos hp]

theorem whiteMover_rook (b : Board) (mv : Move)
    (h1 : b.white_pawns &&& (1 <<< mv.start) = 0)
    (hr : b.white_rooks &&& (1 <<< mv.start) ≠ 0) :
    ∃ q1 q2 : Bool, whiteMover b mv =
      { b with white_rooks := (b.white_rooks &&& not64 (1 <<< mv.start)) ||| (1 <<< mv.endSq)
               white_queen_side_castling_right := q1
               white_king_side_castling_right := q2 } := by
  simp only [whiteMover]
  rw [if_neg (by simp [h1]), if_pos hr]
  by_cases h0 : mv.start = 0
  · rw [if_pos h0]
    exact ⟨false, b.white_king_side_castling_right, rfl⟩
  · rw [if_neg h0]
    by_cases h7 : mv.start = 7
    · rw [if_pos h7]
      exact ⟨b.white_queen_side_castling_right, false, rfl⟩
    · rw [if_neg h7]
      exact ⟨b.white_queen_side_castling_right, b.white_king_side_castling_right, rfl⟩

theorem whiteMover_knight (b : Board) (mv : Move)
    (h1 : b.white_pawns &&& (1 <<< mv.start) = 0)
    (h2 : b.white_rooks &&& (1 <<< mv.start) = 0)
    (hn : b.white_knights &&& (1 <<< mv.start) ≠ 0) :
    whiteMover b mv =
      { b with white_knights :=
          (b.white_knights &&& not64 (1 <<< mv.start)) ||| (1 <<< mv.endSq) } := by
  simp only [whiteMover]
  rw [if_neg (by simp [h1]), if_neg (by simp [h2]), if_pos hn]

theorem whiteMover_bishop (b : Board) (mv : Move)
    (h1 : b.white_pawns &&& (1 <<< mv.start) = 0)
    (h2 : b.white_rooks &&& (1 <<< mv.start) = 0)
    (h3 : b.white_knights &&& (1 <<< mv.start) = 0)
    (hb : b.white_bishops &&& (1 <<< mv.start) ≠ 0) :
    whiteMover b mv =
      { b with white_bishops :=
          (b.white_bishops &&& not64 (1 <<< mv.start)) ||| (1 <<< mv.endSq) } := by
  simp only [whiteMover]
  rw [if_neg (by simp [h1]), if_neg (by simp [h2]), if_neg (by simp [h3]), if_pos hb]

theorem whiteMover_queen (b : Board) (mv : Move)
    (h1 : b.white_pawns &&& (1 <<< mv.start) = 0)
    (h2 : b.white_rooks &&& (1 <<< mv.start) = 0)
    (h3 : b.white_knights &&& (1 <<< mv.start) = 0)
    (h4 : b.white_bishops &&& (1 <<< mv.start) = 0)
    (hq : b.white_queens &&& (1 <<< mv.start) ≠ 0) :
    whiteMover b mv =
      { b with white_queens :=
          (b.white_queens &&& not64 (1 <<< mv.start)) ||| (1 <<< mv.endSq) } := by
  simp only [whiteMover]
  rw [if_neg (by simp [h1]), if_neg (by simp [h2]), if_neg (by simp [h3]),
    if_neg (by simp [h4]), if_pos hq]

theorem whiteMover_king (b : Board) (mv : Move)
    (h1 : b.white_pawns &&& (1 <<< mv.start) = 0)
    (h2 : b.white_rooks &&& (1 <<< mv.start) = 0)
    (h3 : b.white_knights &&& (1 <<< mv.start) = 0)
    (h4 : b.white_bishops &&& (1 <<< mv.start) = 0)
    (h5 : b.white_queens &&& (1 <<< mv.start) = 0)
    (hk : b.white_king = mv.start)
    (hq : mv.context ≠ MoveContext.queenSideCastle)
    (hks : mv.context ≠ MoveContext.kingSideCastle) :
    whiteMover b mv =
      { b with white_pieces :=
          (b.white_pieces &&& not64 (1 <<< b.white_king)) ||| (1 <<< mv.endSq)
               white_king := mv.endSq
               white_queen_side_castling_right := false
               white_king_side_castling_right := false } := by
  simp only [whiteMover]
  rw [if_neg (by simp [h1]), if_neg (by simp [h2]), if_neg (by simp [h3]),
    if_neg (by simp [h4]), if_neg (by simp [h5]), if_pos hk, if_neg hq, if_neg hks]

theorem whiteMover_castle_q (b : Board) (mv : Move)
    (h1 : b.white_pawns &&& (1 <<< mv.start) = 0)
    (h2 : b.white_rooks &&& (1 <<< mv.start) = 0)
    (h3 : b.white_knights &&& (1 <<< mv.start) = 0)
    (h4 : b.white_bishops &&& (1 <<< mv.start) = 0)
    (h5 : b.white_queens &&& (1 <<< mv.start) = 0)
    (hk : b.white_king = mv.start)
    (hq : mv.context = MoveContext.queenSideCastle) :
    whiteMover b mv =
      { b with white_pieces :=
          ((((b.white_pieces &&& not64 (1 <<< b.white_king)) ||| (1 <<< mv.endSq)) &&&
            not64 1) ||| (1 <<< 3))
               white_king := mv.endSq
               white_rooks := (b.white_rooks &&& not64 1) ||| (1 <<< 3)
               white_queen_side_castling_right := false
               white_king_side_castling_right := false } := by
  simp only [whiteMover]
  rw [if_neg (by simp [h1]), if_neg (by simp [h2]), if_neg (by simp [h3]),
    if_neg (by simp [h4]), if_neg (by simp [h5]), if_pos hk, if_pos hq]

theorem whiteMover_castle_k (b : Board) (mv : Move)
    (h1 : b.white_pawns &&& (1 <<< mv.start) = 0)
    (h2 : b.white_rooks &&& (1 <<< mv.start) = 0)
    (h3 : b.white_knights &&& (1 <<< mv.start) = 0)
    (h4 : b.white_bishops &&& (1 <<< mv.start) = 0)
    (h5 : b.white_queens &&& (1 <<< mv.start) = 0)
    (hk : b.white_king = mv.start)
    (hq : mv.context = MoveContext.kingSideCastle) :
    whiteMover b mv =
      { b with white_pieces :=
          ((((b.white_pieces &&& not64 (1 <<< b.white_king)) ||| (1 <<< mv.endSq)) &&&
            not64 (1 <<< 7)) ||| (1 <<< 5))
               white_king := mv.endSq
               white_rooks := (b.white_rooks &&& not64 (1 <<< 7)) ||| (1 <<< 5)
               white_queen_side_castling_right := false
               white_king_side_castling_right := false } := by
  simp only [whiteMover]
  rw [if_neg (by simp [h1]), if_neg (by simp [h2]), if_neg (by simp [h3]),
    if_neg (by simp [h4]), if_neg (by simp [h5]), if_pos hk]
  rw [if_neg (by rw [hq]; intro hc; exact absurd hc (by simp)), if_pos hq]

theorem blackMover_pawn (b : Board) (mv : Move)
    (hp : b.black_pawns &&& (1 <<< mv.start) ≠ 0)
    (hnp : ∀ p, mv.context ≠ MoveContext.promotion p) :
    blackMover b mv =
      { b with black_pawns :=
          (b.black_pawns &&& not64 (1 <<< mv.start)) ||| (1 <<< mv.endSq) } := by
  simp only [blackMover]
  rw [if_pos hp]

theorem blackMover_rook (b : Board) (mv : Move)
    (h1 : b.black_pawns &&& (1 <<< mv.start) = 0)
    (hr : b.black_rooks &&& (1 <<< mv.start) ≠ 0) :
    ∃ q1 q2 : Bool, blackMover b mv =
      { b with black_rooks := (b.black_rooks &&& not64 (1 <<< mv.start)) ||| (1 <<< mv.endSq)
               black_queen_side_castling_right := q1
               black_king_side_castling_right := q2 } := by
  simp only [blackMover]
  rw [if_neg (by simp [h1]), if_pos hr]
  by_cases h0 : mv.start = 56
  · rw [if_pos h0]
    exact ⟨false, b.black_king_side_castling_right, rfl⟩
  · rw [if_neg h0]
    by_cases h7 : mv.start = 63
    · rw [if_pos h7]
      exact ⟨b.black_queen_side_castling_right, false, rfl⟩
    · rw [if_neg h7]
      exact ⟨b.black_queen_side_castling_right, b.black_king_side_castling_right, rfl⟩

theorem blackMover_knight (b : Board) (mv : Move)
    (h1 : b.black_pawns &&& (1 <<< mv.start) = 0)
    (h2 : b.black_rooks &&& (1 <<< mv.start) = 0)
    (hn : b.black_knights &&& (1 <<< mv.start) ≠ 0) :
    blackMover b mv =
      { b with black_knights :=
          (b.black_knights &&& not64 (1 <<< mv.start)) ||| (1 <<< mv.endSq) } := by
  simp only [blackMover]
  rw [if_neg (by simp [h1]), if_neg (by simp [h2]), if_pos hn]

theorem blackMover_bishop (b : Board) (mv : Move)
    (h1 : b.black_pawns &&& (1 <<< mv.start) = 0)
    (h2 : b.black_rooks &&& (1 <<< mv.start) = 0)
    (h3 : b.black_knights &&& (1 <<< mv.start) = 0)
    (hb : b.black_bishops &&& (1 <<< mv.start) ≠ 0) :
    blackMover b mv =
      { b with black_bishops :=
          (b.black_bishops &&& not64 (1 <<< mv.start)) ||| (1 <<< mv.endSq) } := by
  simp only [blackMover]
  rw [if_neg (by simp [h1]), if_neg (by simp [h2]), if_neg (by simp [h3]), if_pos hb]

theorem blackMover_queen (b : Board) (mv : Move)
    (h1 : b.black_pawns &&& (1 <<< mv.start) = 0)
    (h2 : b.black_rooks &&& (1 <<< mv.start) = 0)
    (h3 : b.black_knights &&& (1 <<< mv.start) = 0)
    (h4 : b.black_bishops &&& (1 <<< mv.start) = 0)
    (hq : b.black_queens &&& (1 <<< mv.start) ≠ 0) :
    blackMover b mv =
      { b with black_queens :=
          (b.black_queens &&& not64 (1 <<< mv.start)) ||| (1 <<< mv.endSq) } := by
  simp only [blackMover]
  rw [if_neg (by simp [h1]), if_neg (by simp [h2]), if_neg (by simp [h3]),
    if_neg (by simp [h4]), if_pos hq]

theorem blackMover_king (b : Board) (mv : Move)
    (h1 : b.black_pawns &&& (1 <<< mv.start) = 0)
    (h2 : b.black_rooks &&& (1 <<< mv.start) = 0)
    (h3 : b.black_knights &&& (1 <<< mv.start) = 0)
    (h4 : b.black_bishops &&& (1 <<< mv.start) = 0)
    (h5 : b.black_queens &&& (1 <<< mv.start) = 0)
    (hk : b.black_king = mv.start)
    (hq : mv.context ≠ MoveContext.queenSideCastle)
    (hks : mv.context ≠ MoveContext.kingSideCastle) :
    blackMover b mv =
      { b with black_pieces :=
          (b.black_pieces &&& not64 (1 <<< b.black_king)) ||| (1 <<< mv.endSq)
               black_king := mv.endSq
               black_queen_side_castling_right := false
               black_king_side_castling_right := false } := by
  simp only [blackMover]
  rw [if_neg (by simp [h1]), if_neg (by simp [h2]), if_neg (by simp [h3]),
    if_neg (by simp [h4]), if_neg (by simp [h5]), if_pos hk, if_neg hq, if_neg hks]

theorem blackMover_castle_q (b : Board) (mv : Move)
    (h1 : b.black_pawns &&& (1 <<< mv.start) = 0)
    (h2 : b.black_rooks &&& (1 <<< mv.start) = 0)
    (h3 : b.black_knights &&& (1 <<< mv.start) = 0)
    (h4 : b.black_bishops &&& (1 <<< mv.start) = 0)
    (h5 : b.black_queens &&& (1 <<< mv.start) = 0)
    (hk : b.black_king = mv.start)
    (hq : mv.context = MoveContext.queenSideCastle) :
    blackMover b mv =
      { b with black_pieces :=
          ((((b.black_pieces &&& not64 (1 <<< b.black_king)) ||| (1 <<< mv.endSq)) &&&
            not64 (1 <<< 56)) ||| (1 <<< 59))
               black_king := mv.endSq
               black_rooks := (b.black_rooks &&& not64 (1 <<< 56)) ||| (1 <<< 59)
               black_queen_side_castling_right := false
               black_king_side_castling_right := false } := by
  simp only [blackMover]
  rw [if_neg (by simp [h1]), if_neg (by simp [h2]), if_neg (by simp [h3]),
    if_neg (by simp [h4]), if_neg (by simp [h5]), if_pos hk, if_pos hq]

theorem blackMover_castle_k (b : Board) (mv : Move)
    (h1 : b.black_pawns &&& (1 <<< mv.start) = 0)
    (h2 : b.black_rooks &&& (1 <<< mv.start) = 0)
    (h3 : b.black_knights &&& (1 <<< mv.start) = 0)
    (h4 : b.black_bishops &&& (1 <<< mv.start) = 0)
    (h5 : b.black_queens &&& (1 <<< mv.start) = 0)
    (hk : b.black_king = mv.start)
    (hq : mv.context = MoveContext.kingSideCastle) :
    blackMover b mv =
      { b with black_pieces :=
          ((((b.black_pieces &&& not64 (1 <<< b.black_king)) ||| (1 <<< mv.endSq)) &&&
            not64 (1 <<< 63)) ||| (1 <<< 61))
               black_king := mv.endSq
               black_rooks := (b.black_rooks &&& not64 (1 <<< 63)) ||| (1 <<< 61)
               black_queen_side_castling_right := false
               black_king_side_castling_right := false } := by
  simp only [blackMover]
  rw [if_neg (by simp [h1]), if_neg (by simp [h2]), if_neg (by simp [h3]),
    if_neg (by simp [h4]), if_neg (by simp [h5]), if_pos hk]
  rw [if_neg (by rw [hq]; intro hc; exact absurd hc (by simp)), if_pos hq]

end Barnarok

namespace Barnarok

theorem whiteCaptureEp_none (b : Board) (mv : Move)
    (hc : mv.capture = Option.none) (he : mv.context ≠ MoveContext.enPassant) :
    whiteCaptureEp b mv = b := by
  simp only [whiteCaptureEp, hc]
  rw [if_neg he]

theorem whiteCaptureEp_ep (b : Board) (mv : Move)
    (hc : mv.capture = Option.none) (he : mv.context = MoveContext.enPassant) :
    whiteCaptureEp b mv =
      { b with black_pieces := b.black_pieces &&& not64 (1 <<< (mv.endSq - 8))
               black_pawns := b.black_pawns &&& not64 (1 <<< (mv.endSq - 8)) } := by
  simp only [whiteCaptureEp, hc]
  rw [if_pos he]

theorem whiteCaptureEp_some (b : Board) (mv : Move) (pt : Piece)
    (hc : mv.capture = some pt) :
    whiteCaptureEp b mv = makeMoveCaptureBlack b pt (1 <<< mv.endSq) := by
  simp only [whiteCaptureEp, hc]

theorem blackCaptureEp_none (b : Board) (mv : Move)
    (hc : mv.capture = Option.none) (he : mv.context ≠ MoveContext.enPassant) :
    blackCaptureEp b mv = b := by
  simp only [blackCaptureEp, hc]
  rw [if_neg he]

theorem blackCaptureEp_ep (b : Board) (mv : Move)
    (hc : mv.capture = Option.none) (he : mv.context = MoveContext.enPassant) :
    blackCaptureEp b mv =
      { b with white_pieces := b.white_pieces &&& not64 (1 <<< (mv.endSq + 8))
               white_pawns := b.white_pawns &&& not64 (1 <<< (mv.endSq + 8)) } := by
  simp only [blackCaptureEp, hc]
  rw [if_pos he]

theorem blackCaptureEp_some (b : Board) (mv : Move) (pt : Piece)
    (hc : mv.capture = some pt) (he : mv.context ≠ MoveContext.enPassant) :
    blackCaptureEp b mv = makeMoveCaptureWhite b pt (1 <<< mv.endSq) := by
  simp only [blackCaptureEp, hc]
  rw [if_neg he]

theorem whiteUncaptureEp_none (b : Board) (mv : Move)
    (hc : mv.capture = Option.none) (he : mv.context ≠ MoveContext.enPassant) :
    whiteUncaptureEp b mv = b := by
  simp only [whiteUncaptureEp, hc]
  rw [if_neg (fun h => he h.symm)]

theorem whiteUncaptureEp_ep (b : Board) (mv : Move)
    (hc : mv.capture = Option.none) (he : mv.context = MoveContext.enPassant) :
    whiteUncaptureEp b mv =
      { b with black_pawns := b.black_pawns ||| (1 <<< (mv.endSq - 8))
               black_pieces := b.black_pieces ||| (1 <<< (mv.endSq - 8)) } := by
  simp only [whiteUncaptureEp, hc]
  rw [if_pos he.symm]

theorem whiteUncaptureEp_some (b : Board) (mv : Move) (pt : Piece)
    (hc : mv.capture = some pt) :
    whiteUncaptureEp b mv = unmakeRestoreBlack b pt (1 <<< mv.endSq) mv.endSq := by
  simp only [whiteUncaptureEp, hc]

theorem blackUncaptureEp_none (b : Board) (mv : Move)
    (hc : mv.capture = Option.none) (he : mv.context ≠ MoveContext.enPassant) :
    blackUncaptureEp b mv = b := by
  simp only [blackUncaptureEp, hc]
  rw [if_neg (fun h => he h.symm)]

theorem blackUncaptureEp_ep (b : Board) (mv : Move)
    (hc : mv.capture = Option.none) (he : mv.context = MoveContext.enPassant) :
    blackUncaptureEp b mv =
      { b with white_pawns := b.white_pawns ||| (1 <<< (mv.endSq + 8))
               white_pieces := b.white_pieces ||| (1 <<< (mv.endSq + 8)) } := by
  simp only [blackUncaptureEp, hc]
  rw [if_pos he.symm]

theorem blackUncaptureEp_some (b : Board) (mv : Move) (pt : Piece)
    (hc : mv.capture = some pt) :
    blackUncaptureEp b mv = unmakeRestoreWhite b pt (1 <<< mv.endSq) mv.endSq := by
  simp only [blackUncaptureEp, hc]

theorem whiteUnmover_pawn (b : Board) (mv : Move)
    (hnp : ∀ p, mv.context ≠ MoveContext.promotion p)
    (hp : b.white_pawns &&& (1 <<< mv.endSq) ≠ 0) :
    whiteUnmover b mv =
      (PAWN, { b with white_pawns := b.white_pawns &&& not64 (1 <<< mv.endSq) }) := by
  simp only [whiteUnmover]
  rw [if_pos hp]

theorem whiteUnmover_rook (b : Board) (mv : Move)
    (hnp : ∀ p, mv.context ≠ MoveContext.promotion p)
    (h1 : b.white_pawns &&& (1 <<< mv.endSq) = 0)
    (hr : b.white_rooks &&& (1 <<< mv.endSq) ≠ 0) :
    whiteUnmover b mv =
      (ROOK, { b with white_rooks := b.white_rooks &&& not64 (1 <<< mv.endSq) }) := by
  simp only [whiteUnmover]
  rw [if_neg (by simp [h1]), if_pos hr]

theorem whiteUnmover_knight (b : Board) (mv : Move)
    (hnp : ∀ p, mv.context ≠ MoveContext.promotion p)
    (h1 : b.white_pawns &&& (1 <<< mv.endSq) = 0)
    (h2 : b.white_rooks &&& (1 <<< mv.endSq) = 0)
    (hn : b.white_knights &&& (1 <<< mv.endSq) ≠ 0) :
    whiteUnmover b mv =
      (KNIGHT, { b with white_knights := b.white_knights &&& not64 (1 <<< mv.endSq) }) := by
  simp only [whiteUnmover]
  rw [if_neg (by simp [h1]), if_neg (by simp [h2]), if_pos hn]

theorem whiteUnmover_bishop (b : Board) (mv : Move)
    (hnp : ∀ p, mv.context ≠ MoveContext.promotion p)
    (h1 : b.white_pawns &&& (1 <<< mv.endSq) = 0)
    (h2 : b.white_rooks &&& (1 <<< mv.endSq) = 0)
    (h3 : b.white_knights &&& (1 <<< mv.endSq) = 0)
    (hb : b.white_bishops &&& (1 <<< mv.endSq) ≠ 0) :
    whiteUnmover b mv =
      (BISHOP, { b with white_bishops := b.white_bishops &&& not64 (1 <<< mv.endSq) }) := by
  simp only [whiteUnmover]
  rw [if_neg (by simp [h1]), if_neg (by simp [h2]), if_neg (by simp [h3]), if_pos hb]

theorem whiteUnmover_queen (b : Board) (mv : Move)
    (hnp : ∀ p, mv.context ≠ MoveContext.promotion p)
    (h1 : b.white_pawns &&& (1 <<< mv.endSq) = 0)
    (h2 : b.white_rooks &&& (1 <<< mv.endSq) = 0)
    (h3 : b.white_knights &&& (1 <<< mv.endSq) = 0)
    (h4 : b.white_bishops &&& (1 <<< mv.endSq) = 0)
    (hq : b.white_queens &&& (1 <<< mv.endSq) ≠ 0) :
    whiteUnmover b mv =
      (QUEEN, { b with white_queens := b.white_queens &&& not64 (1 <<< mv.endSq) }) := by
  simp only [whiteUnmover]
  rw [if_neg (by simp [h1]), if_neg (by simp [h2]), if_neg (by simp [h3]),
    if_neg (by simp [h4]), if_pos hq]

theorem whiteUnmover_king (b : Board) (mv : Move)
    (hnp : ∀ p, mv.context ≠ MoveContext.promotion p)
    (h1 : b.white_pawns &&& (1 <<< mv.endSq) = 0)
    (h2 : b.white_rooks &&& (1 <<< mv.endSq) = 0)
    (h3 : b.white_knights &&& (1 <<< mv.endSq) = 0)
    (h4 : b.white_bishops &&& (1 <<< mv.endSq) = 0)
    (h5 : b.white_queens &&& (1 <<< mv.endSq) = 0)
    (hk : b.white_king = mv.endSq)
    (hcq : mv.context ≠ MoveContext.queenSideCastle)
    (hck : mv.context ≠ MoveContext.kingSideCastle) :
    whiteUnmover b mv =
      (KING, { b with white_pieces := (b.white_pieces &&& not64 (1 <<< b.white_king)) ||| (1 <<< mv.start)
                      white_king := mv.start }) := by
  simp only [whiteUnmover]
  rw [if_neg (by simp [h1]), if_neg (by simp [h2]), if_neg (by simp [h3]),
    if_neg (by simp [h4]), if_neg (by simp [h5]), if_pos hk, if_neg hcq, if_neg hck]

theorem whiteUnmover_castle_q (b : Board) (mv : Move)
    (hnp : ∀ p, mv.context ≠ MoveContext.promotion p)
    (h1 : b.white_pawns &&& (1 <<< mv.endSq) = 0)
    (h2 : b.white_rooks &&& (1 <<< mv.endSq) = 0)
    (h3 : b.white_knights &&& (1 <<< mv.endSq) = 0)
    (h4 : b.white_bishops &&& (1 <<< mv.endSq) = 0)
    (h5 : b.white_queens &&& (1 <<< mv.endSq) = 0)
    (hk : b.white_king = mv.endSq)
    (hcq : mv.context = MoveContext.queenSideCastle) :
    whiteUnmover b mv =
      (KING, { b with white_pieces := ((((b.white_pieces &&& not64 (1 <<< b.white_king)) ||| (1 <<< mv.start)) &&& not64 (1 <<< 3)) ||| 1)
                      white_king := mv.start
                      white_rooks := (b.white_rooks &&& not64 (1 <<< 3)) ||| 1 }) := by
  simp only [whiteUnmover]
  rw [if_neg (by simp [h1]), if_neg (by simp [h2]), if_neg (by simp [h3]),
    if_neg (by simp [h4]), if_neg (by simp [h5]), if_pos hk, if_pos hcq]

theorem whiteUnmover_castle_k (b : Board) (mv : Move)
    (hnp : ∀ p, mv.context ≠ MoveContext.promotion p)
    (h1 : b.white_pawns &&& (1 <<< mv.endSq) = 0)
    (h2 : b.white_rooks &&& (1 <<< mv.endSq) = 0)
    (h3 : b.white_knights &&& (1 <<< mv.endSq) = 0)
    (h4 : b.white_bishops &&& (1 <<< mv.endSq) = 0)
    (h5 : b.white_queens &&& (1 <<< mv.endSq) = 0)
    (hk : b.white_king = mv.endSq)
    (hck : mv.context = MoveContext.kingSideCastle) :
    whiteUnmover b mv =
      (KING, { b with white_pieces := ((((b.white_pieces &&& not64 (1 <<< b.white_king)) ||| (1 <<< mv.start)) &&& not64 (1 <<< 5)) ||| (1 <<< 7))
                      white_king := mv.start
                      white_rooks := (b.white_rooks &&& not64 (1 <<< 5)) ||| (1 <<< 7) }) := by
  simp only [whiteUnmover]
  rw [if_neg (by simp [h1]), if_neg (by simp [h2]), if_neg (by simp [h3]),
    if_neg (by simp [h4]), if_neg (by simp [h5]), if_pos hk]
  rw [if_neg (by rw [hck]; intro hc; exact absurd hc (by simp)), if_pos hck]

theorem blackUnmover_pawn (b : Board) (mv : Move)
    (hnp : ∀ p, mv.context ≠ MoveContext.promotion p)
    (hp : b.black_pawns &&& (1 <<< mv.endSq) ≠ 0) :
    blackUnmover b mv =
      (PAWN, { b with black_pawns := b.black_pawns &&& not64 (1 <<< mv.endSq) }) := by
  simp only [blackUnmover]
  rw [if_pos hp]

theorem blackUnmover_rook (b : Board) (mv : Move)
    (hnp : ∀ p, mv.context ≠ MoveContext.promotion p)
    (h1 : b.black_pawns &&& (1 <<< mv.endSq) = 0)
    (hr : b.black_rooks &&& (1 <<< mv.endSq) ≠ 0) :
    blackUnmover b mv =
      (ROOK, { b with black_rooks := b.black_rooks &&& not64 (1 <<< mv.endSq) }) := by
  simp only [blackUnmover]
  rw [if_neg (by simp [h1]), if_pos hr]

theorem blackUnmover_knight (b : Board) (mv : Move)
    (hnp : ∀ p, mv.context ≠ MoveContext.promotion p)
    (h1 : b.black_pawns &&& (1 <<< mv.endSq) = 0)
    (h2 : b.black_rooks &&& (1 <<< mv.endSq) = 0)
    (hn : b.black_knights &&& (1 <<< mv.endSq) ≠ 0) :
    blackUnmover b mv =
      (KNIGHT, { b with black_knights := b.black_knights &&& not64 (1 <<< mv.endSq) }) := by
  simp only [blackUnmover]
  rw [if_neg (by simp [h1]), if_neg (by simp [h2]), if_pos hn]

theorem blackUnmover_bishop (b : Board) (mv : Move)
    (hnp : ∀ p, mv.context ≠ MoveContext.promotion p)
    (h1 : b.black_pawns &&& (1 <<< mv.endSq) = 0)
    (h2 : b.black_rooks &&& (1 <<< mv.endSq) = 0)
    (h3 : b.black_knights &&& (1 <<< mv.endSq) = 0)
    (hb : b.black_bishops &&& (1 <<< mv.endSq) ≠ 0) :
    blackUnmover b mv =
      (BISHOP, { b with black_bishops := b.black_bishops &&& not64 (1 <<< mv.endSq) }) := by
  simp only [blackUnmover]
  rw [if_neg (by simp [h1]), if_neg (by simp [h2]), if_neg (by simp [h3]), if_pos hb]

theorem blackUnmover_queen (b : Board) (mv : Move)
    (hnp : ∀ p, mv.context ≠ MoveContext.promotion p)
    (h1 : b.black_pawns &&& (1 <<< mv.endSq) = 0)
    (h2 : b.black_rooks &&& (1 <<< mv.endSq) = 0)
    (h3 : b.black_knights &&& (1 <<< mv.endSq) = 0)
    (h4 : b.black_bishops &&& (1 <<< mv.endSq) = 0)
    (hq : b.black_queens &&& (1 <<< mv.endSq) ≠ 0) :
    blackUnmover b mv =
      (QUEEN, { b with black_queens := b.black_queens &&& not64 (1 <<< mv.endSq) }) := by
  simp only [blackUnmover]
  rw [if_neg (by simp [h1]), if_neg (by simp [h2]), if_neg (by simp [h3]),
    if_neg (by simp [h4]), if_pos hq]

theorem blackUnmover_king (b : Board) (mv : Move)
    (hnp : ∀ p, mv.context ≠ MoveContext.promotion p)
    (h1 : b.black_pawns &&& (1 <<< mv.endSq) = 0)
    (h2 : b.black_rooks &&& (1 <<< mv.endSq) = 0)
    (h3 : b.black_knights &&& (1 <<< mv.endSq) = 0)
    (h4 : b.black_bishops &&& (1 <<< mv.endSq) = 0)
    (h5 : b.black_queens &&& (1 <<< mv.endSq) = 0)
    (hk : b.black_king = mv.endSq)
    (hcq : mv.context ≠ MoveContext.queenSideCastle)
    (hck : mv.context ≠ MoveContext.kingSideCastle) :
    blackUnmover b mv =
      (KING, { b with black_pieces := (b.black_pieces &&& not64 (1 <<< b.black_king)) ||| (1 <<< mv.start)
                      black_king := mv.start }) := by
  simp only [blackUnmover]
  rw [if_neg (by simp [h1]), if_neg (by simp [h2]), if_neg (by simp [h3]),
    if_neg (by simp [h4]), if_neg (by simp [h5]), if_pos hk, if_neg hcq, if_neg hck]

theorem blackUnmover_castle_q (b : Board) (mv : Move)
    (hnp : ∀ p, mv.context ≠ MoveContext.promotion p)
    (h1 : b.black_pawns &&& (1 <<< mv.endSq) = 0)
    (h2 : b.black_rooks &&& (1 <<< mv.endSq) = 0)
    (h3 : b.black_knights &&& (1 <<< mv.endSq) = 0)
    (h4 : b.black_bishops &&& (1 <<< mv.endSq) = 0)
    (h5 : b.black_queens &&& (1 <<< mv.endSq) = 0)
    (hk : b.black_king = mv.endSq)
    (hcq : mv.context = MoveContext.queenSideCastle) :
    blackUnmover b mv =
      (KING, { b with black_pieces := ((((b.black_pieces &&& not64 (1 <<< b.black_king)) ||| (1 <<< mv.start)) &&& not64 (1 <<< 59)) ||| (1 <<< 56))
                      black_king := mv.start
                      black_rooks := (b.black_rooks &&& not64 (1 <<< 59)) ||| (1 <<< 56) }) := by
  simp only [blackUnmover]
  rw [if_neg (by simp [h1]), if_neg (by simp [h2]), if_neg (by simp [h3]),
    if_neg (by simp [h4]), if_neg (by simp [h5]), if_pos hk, if_pos hcq]

theorem blackUnmover_castle_k (b : Board) (mv : Move)
    (hnp : ∀ p, mv.context ≠ MoveContext.promotion p)
    (h1 : b.black_pawns &&& (1 <<< mv.endSq) = 0)
    (h2 : b.black_rooks &&& (1 <<< mv.endSq) = 0)
    (h3 : b.black_knights &&& (1 <<< mv.endSq) = 0)
    (h4 : b.black_bishops &&& (1 <<< mv.endSq) = 0)
    (h5 : b.black_queens &&& (1 <<< mv.endSq) = 0)
    (hk : b.black_king = mv.endSq)
    (hck : mv.context = MoveContext.kingSideCastle) :
    blackUnmover b mv =
      (KING, { b with black_pieces := ((((b.black_pieces &&& not64 (1 <<< b.black_king)) ||| (1 <<< mv.start)) &&& not64 (1 <<< 61)) ||| (1 <<< 63))
                      black_king := mv.start
                      black_rooks := (b.black_rooks &&& not64 (1 <<< 61)) ||| (1 <<< 63) }) := by
  simp only [blackUnmover]
  rw [if_neg (by simp [h1]), if_neg (by simp [h2]), if_neg (by simp [h3]),
    if_neg (by simp [h4]), if_neg (by simp [h5]), if_pos hk]
  rw [if_neg (by rw [hck]; intro hc; exact absurd hc (by simp)), if_pos hck]

theorem makeMoveCaptureBlack_pawn (b : Board) (t : Nat) :
    makeMoveCaptureBlack b PAWN t =
      { b with black_pieces := b.black_pieces &&& not64 t
               black_pawns := b.black_pawns &&& not64 t } := rfl

theorem makeMoveCaptureBlack_rook (b : Board) (t : Nat) :
    makeMoveCaptureBlack b ROOK t =
      { b with black_pieces := b.black_pieces &&& not64 t
               black_rooks := b.black_rooks &&& not64 t } := rfl

theorem makeMoveCaptureBlack_knight (b : Board) (t : Nat) :
    makeMoveCaptureBlack b KNIGHT t =
      { b with black_pieces := b.black_pieces &&& not64 t
               black_knights := b.black_knights &&& not64 t } := rfl

theorem makeMoveCaptureBlack_bishop (b : Board) (t : Nat) :
    makeMoveCaptureBlack b BISHOP t =
      { b with black_pieces := b.black_pieces &&& not64 t
               black_bishops := b.black_bishops &&& not64 t } := rfl

theorem makeMoveCaptureBlack_queen (b : Board) (t : Nat) :
    makeMoveCaptureBlack b QUEEN t =
      { b with black_pieces := b.black_pieces &&& not64 t
               black_queens := b.black_queens &&& not64 t } := rfl

theorem makeMoveCaptureBlack_king (b : Board) (t : Nat) :
    makeMoveCaptureBlack b KING t =
      { b with black_pieces := b.black_pieces &&& not64 t } := rfl

theorem unmakeRestoreBlack_pawn (b : Board) (t k : Nat) :
    unmakeRestoreBlack b PAWN t k =
      { b with black_pieces := b.black_pieces ||| t
               black_pawns := b.black_pawns ||| t } := rfl

theorem unmakeRestoreBlack_rook (b : Board) (t k : Nat) :
    unmakeRestoreBlack b ROOK t k =
      { b with black_pieces := b.black_pieces ||| t
               black_rooks := b.black_rooks ||| t } := rfl

theorem unmakeRestoreBlack_knight (b : Board) (t k : Nat) :
    unmakeRestoreBlack b KNIGHT t k =
      { b with black_pieces := b.black_pieces ||| t
               black_knights := b.black_knights ||| t } := rfl

theorem unmakeRestoreBlack_bishop (b : Board) (t k : Nat) :
    unmakeRestoreBlack b BISHOP t k =
      { b with black_pieces := b.black_pieces ||| t
               black_bishops := b.black_bishops ||| t } := rfl

theorem unmakeRestoreBlack_queen (b : Board) (t k : Nat) :
    unmakeRestoreBlack b QUEEN t k =
      { b with black_pieces := b.black_pieces ||| t
               black_queens := b.black_queens ||| t } := rfl

theorem unmakeRestoreBlack_king (b : Board) (t k : Nat) :
    unmakeRestoreBlack b KING t k =
      { b with black_pieces := b.black_pieces ||| t
               black_king := k } := rfl

theorem whiteRestoreMover_pawn (b : Board) (f : Nat) :
    whiteRestoreMover b PAWN f = { b with white_pawns := b.white_pawns ||| (1 <<< f) } := rfl

theorem whiteRestoreMover_rook (b : Board) (f : Nat) :
    whiteRestoreMover b ROOK f = { b with white_rooks := b.white_rooks ||| (1 <<< f) } := rfl

theorem whiteRestoreMover_knight (b : Board) (f : Nat) :
    whiteRestoreMover b KNIGHT f =
      { b with white_knights := b.white_knights ||| (1 <<< f) } := rfl

theorem whiteRestoreMover_bishop (b : Board) (f : Nat) :
    whiteRestoreMover b BISHOP f =
      { b with white_bishops := b.white_bishops ||| (1 <<< f) } := rfl

theorem whiteRestoreMover_queen (b : Board) (f : Nat) :
    whiteRestoreMover b QUEEN f =
      { b with white_queens := b.white_queens ||| (1 <<< f) } := rfl

theorem whiteRestoreMover_king (b : Board) (f : Nat) :
    whiteRestoreMover b KING f = { b with white_king := f } := rfl

theorem makeMoveCaptureWhite_pawn (b : Board) (t : Nat) :
    makeMoveCaptureWhite b PAWN t =
      { b with white_pieces := b.white_pieces &&& not64 t
               white_pawns := b.white_pawns &&& not64 t } := rfl

theorem makeMoveCaptureWhite_rook (b : Board) (t : Nat) :
    makeMoveCaptureWhite b ROOK t =
      { b with white_pieces := b.white_pieces &&& not64 t
               white_rooks := b.white_rooks &&& not64 t } := rfl

theorem makeMoveCaptureWhite_knight (b : Board) (t : Nat) :
    makeMoveCaptureWhite b KNIGHT t =
      { b with white_pieces := b.white_pieces &&& not64 t
               white_knights := b.white_knights &&& not64 t } := rfl

theorem makeMoveCaptureWhite_bishop (b : Board) (t : Nat) :
    makeMoveCaptureWhite b BISHOP t =
      { b with white_pieces := b.white_pieces &&& not64 t
               white_bishops := b.white_bishops &&& not64 t } := rfl

theorem makeMoveCaptureWhite_queen (b : Board) (t : Nat) :
    makeMoveCaptureWhite b QUEEN t =
      { b with white_pieces := b.white_pieces &&& not64 t
               white_queens := b.white_queens &&& not64 t } := rfl

theorem makeMoveCaptureWhite_king (b : Board) (t : Nat) :
    makeMoveCaptureWhite b KING t =
      { b with white_pieces := b.white_pieces &&& not64 t } := rfl

theorem unmakeRestoreWhite_pawn (b : Board) (t k : Nat) :
    unmakeRestoreWhite b PAWN t k =
      { b with white_pieces := b.white_pieces ||| t
               white_pawns := b.white_pawns ||| t } := rfl

theorem unmakeRestoreWhite_rook (b : Board) (t k : Nat) :
    unmakeRestoreWhite b ROOK t k =
      { b with white_pieces := b.white_pieces ||| t
               white_rooks := b.white_rooks ||| t } := rfl

theorem unmakeRestoreWhite_knight (b : Board) (t k : Nat) :
    unmakeRestoreWhite b KNIGHT t k =
      { b with white_pieces := b.white_pieces ||| t
               white_knights := b.white_knights ||| t } := rfl

theorem unmakeRestoreWhite_bishop (b : Board) (t k : Nat) :
    unmakeRestoreWhite b BISHOP t k =
      { b with white_pieces := b.white_pieces ||| t
               white_bishops := b.white_bishops ||| t } := rfl

theorem unmakeRestoreWhite_queen (b : Board) (t k : Nat) :
    unmakeRestoreWhite b QUEEN t k =
      { b with white_pieces := b.white_pieces ||| t
               white_queens := b.white_queens ||| t } := rfl

theorem unmakeRestoreWhite_king (b : Board) (t k : Nat) :
    unmakeRestoreWhite b KING t k =
      { b with white_pieces := b.white_pieces ||| t
               white_king := k } := rfl

theorem blackRestoreMover_pawn (b : Board) (f : Nat) :
    blackRestoreMover b PAWN f = { b with black_pawns := b.black_pawns ||| (1 <<< f) } := rfl

theorem blackRestoreMover_rook (b : Board) (f : Nat) :
    blackRestoreMover b ROOK f = { b with black_rooks := b.black_rooks ||| (1 <<< f) } := rfl

theorem blackRestoreMover_knight (b : Board) (f : Nat) :
    blackRestoreMover b KNIGHT f =
      { b with black_knights := b.black_knights ||| (1 <<< f) } := rfl

theorem blackRestoreMover_bishop (b : Board) (f : Nat) :
    blackRestoreMover b BISHOP f =
      { b with black_bishops := b.black_bishops ||| (1 <<< f) } := rfl

theorem blackRestoreMover_queen (b : Board) (f : Nat) :
    blackRestoreMover b QUEEN f =
      { b with black_queens := b.black_queens ||| (1 <<< f) } := rfl

theorem blackRestoreMover_king (b : Board) (f : Nat) :
    blackRestoreMover b KING f = { b with black_king := f } := rfl

end Barnarok

namespace Barnarok

theorem disj_bit (x y : Nat) (k : Nat) (h : x &&& y = 0) (hy : Nat.testBit y k = true) :
    Nat.testBit x k = false := by
  rw [and_eq_zero_iff_bits] at h
  have := h k
  cases hx : Nat.testBit x k
  · rfl
  · exact absurd ⟨hx, hy⟩ this

theorem bit_in_or_left (x y k : Nat) (h : Nat.testBit x k = true) :
    Nat.testBit (x ||| y) k = true := by
  rw [Nat.testBit_or, h]
  rfl

theorem bit_in_or_right (x y k : Nat) (h : Nat.testBit y k = true) :
    Nat.testBit (x ||| y) k = true := by
  rw [Nat.testBit_or, h]
  simp

theorem or_bit_false (x y k : Nat) (h : Nat.testBit (x ||| y) k = false) :
    Nat.testBit x k = false ∧ Nat.testBit y k = false := by
  rw [Nat.testBit_or] at h
  cases hx : Nat.testBit x k <;> cases hy : Nat.testBit y k <;> simp_all

theorem wunion_bits (b : Board) (hcf : ConsistentFacts b) (k : Nat)
    (h : Nat.testBit b.white_pieces k = true) :
    Nat.testBit b.white_pawns k = true ∨ Nat.testBit b.white_rooks k = true ∨
    Nat.testBit b.white_knights k = true ∨ Nat.testBit b.white_bishops k = true ∨
    Nat.testBit b.white_queens k = true ∨ b.white_king = k := by
  rw [hcf.wagg] at h
  unfold wunion at h
  simp only [Nat.testBit_or, Bool.or_eq_true, testBit_single, decide_eq_true_eq] at h
  tauto

theorem bunion_bits (b : Board) (hcf : ConsistentFacts b) (k : Nat)
    (h : Nat.testBit b.black_pieces k = true) :
    Nat.testBit b.black_pawns k = true ∨ Nat.testBit b.black_rooks k = true ∨
    Nat.testBit b.black_knights k = true ∨ Nat.testBit b.black_bishops k = true ∨
    Nat.testBit b.black_queens k = true ∨ b.black_king = k := by
  rw [hcf.bagg] at h
  unfold bunion at h
  simp only [Nat.testBit_or, Bool.or_eq_true, testBit_single, decide_eq_true_eq] at h
  tauto

theorem wunion_bit_of (b : Board) (hcf : ConsistentFacts b) (k : Nat) :
    (Nat.testBit b.white_pawns k = true ∨ Nat.testBit b.white_rooks k = true ∨
     Nat.testBit b.white_knights k = true ∨ Nat.testBit b.white_bishops k = true ∨
     Nat.testBit b.white_queens k = true ∨ b.white_king = k) →
    Nat.testBit b.white_pieces k = true := by
  intro h
  rw [hcf.wagg]
  unfold wunion
  simp only [Nat.testBit_or, Bool.or_eq_true, testBit_single, decide_eq_true_eq]
  tauto

theorem bunion_bit_of (b : Board) (hcf : ConsistentFacts b) (k : Nat) :
    (Nat.testBit b.black_pawns k = true ∨ Nat.testBit b.black_rooks k = true ∨
     Nat.testBit b.black_knights k = true ∨ Nat.testBit b.black_bishops k = true ∨
     Nat.testBit b.black_queens k = true ∨ b.black_king = k) →
    Nat.testBit b.black_pieces k = true := by
  intro h
  rw [hcf.bagg]
  unfold bunion
  simp only [Nat.testBit_or, Bool.or_eq_true, testBit_single, decide_eq_true_eq]
  tauto

theorem clearRightsOnEnd_ex (b : Board) (e : Nat) :
    ∃ q1 q2 q3 q4 : Bool, clearRightsOnEnd b e =
      { b with white_queen_side_castling_right := q1
               white_king_side_castling_right := q2
               black_queen_side_castling_right := q3
               black_king_side_castling_right := q4 } := by
  unfold clearRightsOnEnd
  split
  · exact ⟨_, _, _, _, rfl⟩
  · split
    · exact ⟨_, _, _, _, rfl⟩
    · split
      · exact ⟨_, _, _, _, rfl⟩
      · split
        · exact ⟨_, _, _, _, rfl⟩
        · exact ⟨_, _, _, _, rfl⟩

theorem makeMoveCaptureBlack_ex (b : Board) (pt : Piece) (t : Nat) :
    ∃ p2 bp2 br2 bn2 bb2 bq2, makeMoveCaptureBlack b pt t =
      { b with black_pieces := p2
               black_pawns := bp2
               black_rooks := br2
               black_knights := bn2
               black_bishops := bb2
               black_queens := bq2 } := by
  unfold makeMoveCaptureBlack
  split
  · exact ⟨_, _, _, _, _, _, rfl⟩
  · split
    · exact ⟨_, _, _, _, _, _, rfl⟩
    · split
      · exact ⟨_, _, _, _, _, _, rfl⟩
      · split
        · exact ⟨_, _, _, _, _, _, rfl⟩
        · split
          · exact ⟨_, _, _, _, _, _, rfl⟩
          · exact ⟨_, _, _, _, _, _, rfl⟩

theorem makeMoveCaptureWhite_ex (b : Board) (pt : Piece) (t : Nat) :
    ∃ p2 wp2 wr2 wn2 wb2 wq2, makeMoveCaptureWhite b pt t =
      { b with white_pieces := p2
               white_pawns := wp2
               white_rooks := wr2
               white_knights := wn2
               white_bishops := wb2
               white_queens := wq2 } := by
  unfold makeMoveCaptureWhite
  split
  · exact ⟨_, _, _, _, _, _, rfl⟩
  · split
    · exact ⟨_, _, _, _, _, _, rfl⟩
    · split
      · exact ⟨_, _, _, _, _, _, rfl⟩
      · split
        · exact ⟨_, _, _, _, _, _, rfl⟩
        · split
          · exact ⟨_, _, _, _, _, _, rfl⟩
          · exact ⟨_, _, _, _, _, _, rfl⟩

theorem get_piece_black (b : Board) (sq : Nat)
    (hw : b.white_pieces &&& (1 <<< sq) = 0)
    (hb : b.black_pieces &&& (1 <<< sq) ≠ 0) :
    get_piece_type_on_square b sq =
      (if b.black_pawns &&& (1 <<< sq) ≠ 0 then PAWN
       else if b.black_rooks &&& (1 <<< sq) ≠ 0 then ROOK
       else if b.black_knights &&& (1 <<< sq) ≠ 0 then KNIGHT
       else if b.black_bishops &&& (1 <<< sq) ≠ 0 then BISHOP
       else if b.black_queens &&& (1 <<< sq) ≠ 0 then QUEEN
       else KING) := by
  simp only [get_piece_type_on_square]
  rw [if_neg (by simp [hw]), if_pos hb]

theorem get_piece_white (b : Board) (sq : Nat)
    (hw : b.white_pieces &&& (1 <<< sq) ≠ 0) :
    get_piece_type_on_square b sq =
      (if b.white_pawns &&& (1 <<< sq) ≠ 0 then PAWN
       else if b.white_rooks &&& (1 <<< sq) ≠ 0 then ROOK
       else if b.white_knights &&& (1 <<< sq) ≠ 0 then KNIGHT
       else if b.white_bishops &&& (1 <<< sq) ≠ 0 then BISHOP
       else if b.white_queens &&& (1 <<< sq) ≠ 0 then QUEEN
       else KING) := by
  simp only [get_piece_type_on_square]
  rw [if_pos hw]

end Barnarok

namespace Barnarok

theorem clearRightsOnEnd_proj_white_pawns (b : Board) (e : Nat) :
    (clearRightsOnEnd b e).white_pawns = b.white_pawns := by
  unfold clearRightsOnEnd
  repeat any_goals split
  all_goals rfl

theorem clearRightsOnEnd_proj_white_rooks (b : Board) (e : Nat) :
    (clearRightsOnEnd b e).white_rooks = b.white_rooks := by
  unfold clearRightsOnEnd
  repeat any_goals split
  all_goals rfl

theorem clearRightsOnEnd_proj_white_knights (b : Board) (e : Nat) :
    (clearRightsOnEnd b e).white_knights = b.white_knights := by
  unfold clearRightsOnEnd
  repeat any_goals split
  all_goals rfl

theorem clearRightsOnEnd_proj_white_bishops (b : Board) (e : Nat) :
    (clearRightsOnEnd b e).white_bishops = b.white_bishops := by
  unfold clearRightsOnEnd
  repeat any_goals split
  all_goals rfl

theorem clearRightsOnEnd_proj_white_queens (b : Board) (e : Nat) :
    (clearRightsOnEnd b e).white_queens = b.white_queens := by
  unfold clearRightsOnEnd
  repeat any_goals split
  all_goals rfl

theorem clearRightsOnEnd_proj_white_king (b : Board) (e : Nat) :
    (clearRightsOnEnd b e).white_king = b.white_king := by
  unfold clearRightsOnEnd
  repeat any_goals split
  all_goals rfl

theorem clearRightsOnEnd_proj_black_pawns (b : Board) (e : Nat) :
    (clearRightsOnEnd b e).black_pawns = b.black_pawns := by
  unfold clearRightsOnEnd
  repeat any_goals split
  all_goals rfl

theorem clearRightsOnEnd_proj_black_rooks (b : Board) (e : Nat) :
    (clearRightsOnEnd b e).black_rooks = b.black_rooks := by
  unfold clearRightsOnEnd
  repeat any_goals split
  all_goals rfl

theorem clearRightsOnEnd_proj_black_knights (b : Board) (e : Nat) :
    (clearRightsOnEnd b e).black_knights = b.black_knights := by
  unfold clearRightsOnEnd
  repeat any_goals split
  all_goals rfl

theorem clearRightsOnEnd_proj_black_bishops (b : Board) (e : Nat) :
    (clearRightsOnEnd b e).black_bishops = b.black_bishops := by
  unfold clearRightsOnEnd
  repeat any_goals split
  all_goals rfl

theorem clearRightsOnEnd_proj_black_queens (b : Board) (e : Nat) :
    (clearRightsOnEnd b e).black_queens = b.black_queens := by
  unfold clearRightsOnEnd
  repeat any_goals split
  all_goals rfl

theorem clearRightsOnEnd_proj_black_king (b : Board) (e : Nat) :
    (clearRightsOnEnd b e).black_king = b.black_king := by
  unfold clearRightsOnEnd
  repeat any_goals split
  all_goals rfl

theorem clearRightsOnEnd_proj_white_pieces (b : Board) (e : Nat) :
    (clearRightsOnEnd b e).white_pieces = b.white_pieces := by
  unfold clearRightsOnEnd
  repeat any_goals split
  all_goals rfl

theorem clearRightsOnEnd_proj_black_pieces (b : Board) (e : Nat) :
    (clearRightsOnEnd b e).black_pieces = b.black_pieces := by
  unfold clearRightsOnEnd
  repeat any_goals split
  all_goals rfl

theorem clearRightsOnEnd_proj_pieces (b : Board) (e : Nat) :
    (clearRightsOnEnd b e).pieces = b.pieces := by
  unfold clearRightsOnEnd
  repeat any_goals split
  all_goals rfl

theorem clearRightsOnEnd_proj_en_passant_target (b : Board) (e : Nat) :
    (clearRightsOnEnd b e).en_passant_target = b.en_passant_target := by
  unfold clearRightsOnEnd
  repeat any_goals split
  all_goals rfl

theorem clearRightsOnEnd_proj_white_to_play (b : Board) (e : Nat) :
    (clearRightsOnEnd b e).white_to_play = b.white_to_play := by
  unfold clearRightsOnEnd
  repeat any_goals split
  all_goals rfl

theorem makeMoveCaptureBlack_proj_white_pawns (b : Board) (pt : Piece) (t : Nat) :
    (makeMoveCaptureBlack b pt t).white_pawns = b.white_pawns := by
  unfold makeMoveCaptureBlack
  repeat any_goals split
  all_goals rfl

theorem makeMoveCaptureBlack_proj_white_rooks (b : Board) (pt : Piece) (t : Nat) :
    (makeMoveCaptureBlack b pt t).white_rooks = b.white_rooks := by
  unfold makeMoveCaptureBlack
  repeat any_goals split
  all_goals rfl

theorem makeMoveCaptureBlack_proj_white_knights (b : Board) (pt : Piece) (t : Nat) :
    (makeMoveCaptureBlack b pt t).white_knights = b.white_knights := by
  unfold makeMoveCaptureBlack
  repeat any_goals split
  all_goals rfl

theorem makeMoveCaptureBlack_proj_white_bishops (b : Board) (pt : Piece) (t : Nat) :
    (makeMoveCaptureBlack b pt t).white_bishops = b.white_bishops := by
  unfold makeMoveCaptureBlack
  repeat any_goals split
  all_goals rfl

theorem makeMoveCaptureBlack_proj_white_queens (b : Board) (pt : Piece) (t : Nat) :
    (makeMoveCaptureBlack b pt t).white_queens = b.white_queens := by
  unfold makeMoveCaptureBlack
  repeat any_goals split
  all_goals rfl

theorem makeMoveCaptureBlack_proj_white_king (b : Board) (pt : Piece) (t : Nat) :
    (makeMoveCaptureBlack b pt t).white_king = b.white_king := by
  unfold makeMoveCaptureBlack
  repeat any_goals split
  all_goals rfl

theorem makeMoveCaptureBlack_proj_black_king (b : Board) (pt : Piece) (t : Nat) :
    (makeMoveCaptureBlack b pt t).black_king = b.black_king := by
  unfold makeMoveCaptureBlack
  repeat any_goals split
  all_goals rfl

theorem makeMoveCaptureBlack_proj_white_pieces (b : Board) (pt : Piece) (t : Nat) :
    (makeMoveCaptureBlack b pt t).white_pieces = b.white_pieces := by
  unfold makeMoveCaptureBlack
  repeat any_goals split
  all_goals rfl

theorem makeMoveCaptureBlack_proj_pieces (b : Board) (pt : Piece) (t : Nat) :
    (makeMoveCaptureBlack b pt t).pieces = b.pieces := by
  unfold makeMoveCaptureBlack
  repeat any_goals split
  all_goals rfl

theorem makeMoveCaptureBlack_proj_en_passant_target (b : Board) (pt : Piece) (t : Nat) :
    (makeMoveCaptureBlack b pt t).en_passant_target = b.en_passant_target := by
  unfold makeMoveCaptureBlack
  repeat any_goals split
  all_goals rfl

theorem makeMoveCaptureBlack_proj_white_queen_side_castling_right (b : Board) (pt : Piece) (t : Nat) :
    (makeMoveCaptureBlack b pt t).white_queen_side_castling_right = b.white_queen_side_castling_right := by
  unfold makeMoveCaptureBlack
  repeat any_goals split
  all_goals rfl

theorem makeMoveCaptureBlack_proj_white_king_side_castling_right (b : Board) (pt : Piece) (t : Nat) :
    (makeMoveCaptureBlack b pt t).white_king_side_castling_right = b.white_king_side_castling_right := by
  unfold makeMoveCaptureBlack
  repeat any_goals split
  all_goals rfl

theorem makeMoveCaptureBlack_proj_black_queen_side_castling_right (b : Board) (pt : Piece) (t : Nat) :
    (makeMoveCaptureBlack b pt t).black_queen_side_castling_right = b.black_queen_side_castling_right := by
  unfold makeMoveCaptureBlack
  repeat any_goals split
  all_goals rfl

theorem makeMoveCaptureBlack_proj_black_king_side_castling_right (b : Board) (pt : Piece) (t : Nat) :
    (makeMoveCaptureBlack b pt t).black_king_side_castling_right = b.black_king_side_castling_right := by
  unfold makeMoveCaptureBlack
  repeat any_goals split
  all_goals rfl

theorem makeMoveCaptureBlack_proj_white_to_play (b : Board) (pt : Piece) (t : Nat) :
    (makeMoveCaptureBlack b pt t).white_to_play = b.white_to_play := by
  unfold makeMoveCaptureBlack
  repeat any_goals split
  all_goals rfl

theorem makeMoveCaptureWhite_proj_white_king (b : Board) (pt : Piece) (t : Nat) :
    (makeMoveCaptureWhite b pt t).white_king = b.white_king := by
  unfold makeMoveCaptureWhite
  repeat any_goals split
  all_goals rfl

theorem makeMoveCaptureWhite_proj_black_pawns (b : Board) (pt : Piece) (t : Nat) :
    (makeMoveCaptureWhite b pt t).black_pawns = b.black_pawns := by
  unfold makeMoveCaptureWhite
  repeat any_goals split
  all_goals rfl

theorem makeMoveCaptureWhite_proj_black_rooks (b : Board) (pt : Piece) (t : Nat) :
    (makeMoveCaptureWhite b pt t).black_rooks = b.black_rooks := by
  unfold makeMoveCaptureWhite
  repeat any_goals split
  all_goals rfl

theorem makeMoveCaptureWhite_proj_black_knights (b : Board) (pt : Piece) (t : Nat) :
    (makeMoveCaptureWhite b pt t).black_knights = b.black_knights := by
  unfold makeMoveCaptureWhite
  repeat any_goals split
  all_goals rfl

theorem makeMoveCaptureWhite_proj_black_bishops (b : Board) (pt : Piece) (t : Nat) :
    (makeMoveCaptureWhite b pt t).black_bishops = b.black_bishops := by
  unfold makeMoveCaptureWhite
  repeat any_goals split
  all_goals rfl

theorem makeMoveCaptureWhite_proj_black_queens (b : Board) (pt : Piece) (t : Nat) :
    (makeMoveCaptureWhite b pt t).black_queens = b.black_queens := by
  unfold makeMoveCaptureWhite
  repeat any_goals split
  all_goals rfl

theorem makeMoveCaptureWhite_proj_black_king (b : Board) (pt : Piece) (t : Nat) :
    (makeMoveCaptureWhite b pt t).black_king = b.black_king := by
  unfold makeMoveCaptureWhite
  repeat any_goals split
  all_goals rfl

theorem makeMoveCaptureWhite_proj_black_pieces (b : Board) (pt : Piece) (t : Nat) :
    (makeMoveCaptureWhite b pt t).black_pieces = b.black_pieces := by
  unfold makeMoveCaptureWhite
  repeat any_goals split
  all_goals rfl

theorem makeMoveCaptureWhite_proj_pieces (b : Board) (pt : Piece) (t : Nat) :
    (makeMoveCaptureWhite b pt t).pieces = b.pieces := by
  unfold makeMoveCaptureWhite
  repeat any_goals split
  all_goals rfl

theorem makeMoveCaptureWhite_proj_en_passant_target (b : Board) (pt : Piece) (t : Nat) :
    (makeMoveCaptureWhite b pt t).en_passant_target = b.en_passant_target := by
  unfold makeMoveCaptureWhite
  repeat any_goals split
  all_goals rfl

theorem makeMoveCaptureWhite_proj_white_queen_side_castling_right (b : Board) (pt : Piece) (t : Nat) :
    (makeMoveCaptureWhite b pt t).white_queen_side_castling_right = b.white_queen_side_castling_right := by
  unfold makeMoveCaptureWhite
  repeat any_goals split
  all_goals rfl

theorem makeMoveCaptureWhite_proj_white_king_side_castling_right (b : Board) (pt : Piece) (t : Nat) :
    (makeMoveCaptureWhite b pt t).white_king_side_castling_right = b.white_king_side_castling_right := by
  unfold makeMoveCaptureWhite
  repeat any_goals split
  all_goals rfl

theorem makeMoveCaptureWhite_proj_black_queen_side_castling_right (b : Board) (pt : Piece) (t : Nat) :
    (makeMoveCaptureWhite b pt t).black_queen_side_castling_right = b.black_queen_side_castling_right := by
  unfold makeMoveCaptureWhite
  repeat any_goals split
  all_goals rfl

theorem makeMoveCaptureWhite_proj_black_king_side_castling_right (b : Board) (pt : Piece) (t : Nat) :
    (makeMoveCaptureWhite b pt t).black_king_side_castling_right = b.black_king_side_castling_right := by
  unfold makeMoveCaptureWhite
  repeat any_goals split
  all_goals rfl

theorem makeMoveCaptureWhite_proj_white_to_play (b : Board) (pt : Piece) (t : Nat) :
    (makeMoveCaptureWhite b pt t).white_to_play = b.white_to_play := by
  unfold makeMoveCaptureWhite
  repeat any_goals split
  all_goals rfl

theorem unmakeRestoreBlack_proj_white_pawns (b : Board) (pt : Piece) (t k : Nat) :
    (unmakeRestoreBlack b pt t k).white_pawns = b.white_pawns := by
  unfold unmakeRestoreBlack
  repeat any_goals split
  all_goals rfl

theorem unmakeRestoreBlack_proj_white_rooks (b : Board) (pt : Piece) (t k : Nat) :
    (unmakeRestoreBlack b pt t k).white_rooks = b.white_rooks := by
  unfold unmakeRestoreBlack
  repeat any_goals split
  all_goals rfl

theorem unmakeRestoreBlack_proj_white_knights (b : Board) (pt : Piece) (t k : Nat) :
    (unmakeRestoreBlack b pt t k).white_knights = b.white_knights := by
  unfold unmakeRestoreBlack
  repeat any_goals split
  all_goals rfl

theorem unmakeRestoreBlack_proj_white_bishops (b : Board) (pt : Piece) (t k : Nat) :
    (unmakeRestoreBlack b pt t k).white_bishops = b.white_bishops := by
  unfold unmakeRestoreBlack
  repeat any_goals split
  all_goals rfl

theorem unmakeRestoreBlack_proj_white_queens (b : Board) (pt : Piece) (t k : Nat) :
    (unmakeRestoreBlack b pt t k).white_queens = b.white_queens := by
  unfold unmakeRestoreBlack
  repeat any_goals split
  all_goals rfl

theorem unmakeRestoreBlack_proj_white_king (b : Board) (pt : Piece) (t k : Nat) :
    (unmakeRestoreBlack b pt t k).white_king = b.white_king := by
  unfold unmakeRestoreBlack
  repeat any_goals split
  all_goals rfl

theorem unmakeRestoreBlack_proj_white_pieces (b : Board) (pt : Piece) (t k : Nat) :
    (unmakeRestoreBlack b pt t k).white_pieces = b.white_pieces := by
  unfold unmakeRestoreBlack
  repeat any_goals split
  all_goals rfl

theorem unmakeRestoreBlack_proj_pieces (b : Board) (pt : Piece) (t k : Nat) :
    (unmakeRestoreBlack b pt t k).pieces = b.pieces := by
  unfold unmakeRestoreBlack
  repeat any_goals split
  all_goals rfl

theorem unmakeRestoreBlack_proj_en_passant_target (b : Board) (pt : Piece) (t k : Nat) :
    (unmakeRestoreBlack b pt t k).en_passant_target = b.en_passant_target := by
  unfold unmakeRestoreBlack
  repeat any_goals split
  all_goals rfl

theorem unmakeRestoreBlack_proj_white_queen_side_castling_right (b : Board) (pt : Piece) (t k : Nat) :
    (unmakeRestoreBlack b pt t k).white_queen_side_castling_right = b.white_queen_side_castling_right := by
  unfold unmakeRestoreBlack
  repeat any_goals split
  all_goals rfl

theorem unmakeRestoreBlack_proj_white_king_side_castling_right (b : Board) (pt : Piece) (t k : Nat) :
    (unmakeRestoreBlack b pt t k).white_king_side_castling_right = b.white_king_side_castling_right := by
  unfold unmakeRestoreBlack
  repeat any_goals split
  all_goals rfl

theorem unmakeRestoreBlack_proj_black_queen_side_castling_right (b : Board) (pt : Piece) (t k : Nat) :
    (unmakeRestoreBlack b pt t k).black_queen_side_castling_right = b.black_queen_side_castling_right := by
  unfold unmakeRestoreBlack
  repeat any_goals split
  all_goals rfl

theorem unmakeRestoreBlack_proj_black_king_side_castling_right (b : Board) (pt : Piece) (t k : Nat) :
    (unmakeRestoreBlack b pt t k).black_king_side_castling_right = b.black_king_side_castling_right := by
  unfold unmakeRestoreBlack
  repeat any_goals split
  all_goals rfl

theorem unmakeRestoreBlack_proj_white_to_play (b : Board) (pt : Piece) (t k : Nat) :
    (unmakeRestoreBlack b pt t k).white_to_play = b.white_to_play := by
  unfold unmakeRestoreBlack
  repeat any_goals split
  all_goals rfl

theorem unmakeRestoreWhite_proj_black_pawns (b : Board) (pt : Piece) (t k : Nat) :
    (unmakeRestoreWhite b pt t k).black_pawns = b.black_pawns := by
  unfold unmakeRestoreWhite
  repeat any_goals split
  all_goals rfl

theorem unmakeRestoreWhite_proj_black_rooks (b : Board) (pt : Piece) (t k : Nat) :
    (unmakeRestoreWhite b pt t k).black_rooks = b.black_rooks := by
  unfold unmakeRestoreWhite
  repeat any_goals split
  all_goals rfl

theorem unmakeRestoreWhite_proj_black_knights (b : Board) (pt : Piece) (t k : Nat) :
    (unmakeRestoreWhite b pt t k).black_knights = b.black_knights := by
  unfold unmakeRestoreWhite
  repeat any_goals split
  all_goals rfl

theorem unmakeRestoreWhite_proj_black_bishops (b : Board) (pt : Piece) (t k : Nat) :
    (unmakeRestoreWhite b pt t k).black_bishops = b.black_bishops := by
  unfold unmakeRestoreWhite
  repeat any_goals split
  all_goals rfl

theorem unmakeRestoreWhite_proj_black_queens (b : Board) (pt : Piece) (t k : Nat) :
    (unmakeRestoreWhite b pt t k).black_queens = b.black_queens := by
  unfold unmakeRestoreWhite
  repeat any_goals split
  all_goals rfl

theorem unmakeRestoreWhite_proj_black_king (b : Board) (pt : Piece) (t k : Nat) :
    (unmakeRestoreWhite b pt t k).black_king = b.black_king := by
  unfold unmakeRestoreWhite
  repeat any_goals split
  all_goals rfl

theorem unmakeRestoreWhite_proj_black_pieces (b : Board) (pt : Piece) (t k : Nat) :
    (unmakeRestoreWhite b pt t k).black_pieces = b.black_pieces := by
  unfold unmakeRestoreWhite
  repeat any_goals split
  all_goals rfl

theorem unmakeRestoreWhite_proj_pieces (b : Board) (pt : Piece) (t k : Nat) :
    (unmakeRestoreWhite b pt t k).pieces = b.pieces := by
  unfold unmakeRestoreWhite
  repeat any_goals split
  all_goals rfl

theorem unmakeRestoreWhite_proj_en_passant_target (b : Board) (pt : Piece) (t k : Nat) :
    (unmakeRestoreWhite b pt t k).en_passant_target = b.en_passant_target := by
  unfold unmakeRestoreWhite
  repeat any_goals split
  all_goals rfl

theorem unmakeRestoreWhite_proj_white_queen_side_castling_right (b : Board) (pt : Piece) (t k : Nat) :
    (unmakeRestoreWhite b pt t k).white_queen_side_castling_right = b.white_queen_side_castling_right := by
  unfold unmakeRestoreWhite
  repeat any_goals split
  all_goals rfl

theorem unmakeRestoreWhite_proj_white_king_side_castling_right (b : Board) (pt : Piece) (t k : Nat) :
    (unmakeRestoreWhite b pt t k).white_king_side_castling_right = b.white_king_side_castling_right := by
  unfold unmakeRestoreWhite
  repeat any_goals split
  all_goals rfl

theorem unmakeRestoreWhite_proj_black_queen_side_castling_right (b : Board) (pt : Piece) (t k : Nat) :
    (unmakeRestoreWhite b pt t k).black_queen_side_castling_right = b.black_queen_side_castling_right := by
  unfold unmakeRestoreWhite
  repeat any_goals split
  all_goals rfl

theorem unmakeRestoreWhite_proj_black_king_side_castling_right (b : Board) (pt : Piece) (t k : Nat) :
    (unmakeRestoreWhite b pt t k).black_king_side_castling_right = b.black_king_side_castling_right := by
  unfold unmakeRestoreWhite
  repeat any_goals split
  all_goals rfl

theorem unmakeRestoreWhite_proj_white_to_play (b : Board) (pt : Piece) (t k : Nat) :
    (unmakeRestoreWhite b pt t k).white_to_play = b.white_to_play := by
  unfold unmakeRestoreWhite
  repeat any_goals split
  all_goals rfl

end Barnarok

namespace Barnarok

theorem black_capture_roundtrip (b bX c : Board) (e : Nat) (pt : Piece)
    (hcf : ConsistentFacts b)
    (hX1 : bX.black_pieces = b.black_pieces) (hX2 : bX.black_pawns = b.black_pawns)
    (hX3 : bX.black_rooks = b.black_rooks) (hX4 : bX.black_knights = b.black_knights)
    (hX5 : bX.black_bishops = b.black_bishops) (hX6 : bX.black_queens = b.black_queens)
    (hX7 : bX.black_king = b.black_king)
    (hc1 : c.black_pieces = (makeMoveCaptureBlack bX pt (1 <<< e)).black_pieces)
    (hc2 : c.black_pawns = (makeMoveCaptureBlack bX pt (1 <<< e)).black_pawns)
    (hc3 : c.black_rooks = (makeMoveCaptureBlack bX pt (1 <<< e)).black_rooks)
    (hc4 : c.black_knights = (makeMoveCaptureBlack bX pt (1 <<< e)).black_knights)
    (hc5 : c.black_bishops = (makeMoveCaptureBlack bX pt (1 <<< e)).black_bishops)
    (hc6 : c.black_queens = (makeMoveCaptureBlack bX pt (1 <<< e)).black_queens)
    (hc7 : c.black_king = (makeMoveCaptureBlack bX pt (1 <<< e)).black_king)
    (he64 : e < 64)
    (ht : Nat.testBit b.black_pieces e = true)
    (hpt : pt = (if b.black_pawns &&& (1 <<< e) ≠ 0 then PAWN
       else if b.black_rooks &&& (1 <<< e) ≠ 0 then ROOK
       else if b.black_knights &&& (1 <<< e) ≠ 0 then KNIGHT
       else if b.black_bishops &&& (1 <<< e) ≠ 0 then BISHOP
       else if b.black_queens &&& (1 <<< e) ≠ 0 then QUEEN
       else KING)) :
    (unmakeRestoreBlack c pt (1 <<< e) e).black_pieces = b.black_pieces ∧
    (unmakeRestoreBlack c pt (1 <<< e) e).black_pawns = b.black_pawns ∧
    (unmakeRestoreBlack c pt (1 <<< e) e).black_rooks = b.black_rooks ∧
    (unmakeRestoreBlack c pt (1 <<< e) e).black_knights = b.black_knights ∧
    (unmakeRestoreBlack c pt (1 <<< e) e).black_bishops = b.black_bishops ∧
    (unmakeRestoreBlack c pt (1 <<< e) e).black_queens = b.black_queens ∧
    (unmakeRestoreBlack c pt (1 <<< e) e).black_king = b.black_king := by
  have hplt := bpieces_lt b hcf
  by_cases h1 : b.black_pawns &&& (1 <<< e) ≠ 0
  · rw [if_pos h1] at hpt
    subst hpt
    simp only [makeMoveCaptureBlack_pawn] at hc1 hc2 hc3 hc4 hc5 hc6 hc7
    rw [unmakeRestoreBlack_pawn]
    refine ⟨?_, ?_, ?_, ?_, ?_, ?_, ?_⟩
    · show c.black_pieces ||| (1 <<< e) = b.black_pieces
      rw [hc1, hX1]
      exact and_not_or_cancel _ _ hplt he64 ht
    · show c.black_pawns ||| (1 <<< e) = b.black_pawns
      rw [hc2, hX2]
      exact and_not_or_cancel _ _ hcf.bp_lt he64 (single_sub _ _ h1)
    · show c.black_rooks = b.black_rooks
      rw [hc3, hX3]
    · show c.black_knights = b.black_knights
      rw [hc4, hX4]
    · show c.black_bishops = b.black_bishops
      rw [hc5, hX5]
    · show c.black_queens = b.black_queens
      rw [hc6, hX6]
    · show c.black_king = b.black_king
      rw [hc7, hX7]
  · rw [if_neg h1] at hpt
    by_cases h2 : b.black_rooks &&& (1 <<< e) ≠ 0
    · rw [if_pos h2] at hpt
      subst hpt
      simp only [makeMoveCaptureBlack_rook] at hc1 hc2 hc3 hc4 hc5 hc6 hc7
      rw [unmakeRestoreBlack_rook]
      refine ⟨?_, ?_, ?_, ?_, ?_, ?_, ?_⟩
      · show c.black_pieces ||| (1 <<< e) = b.black_pieces
        rw [hc1, hX1]
        exact and_not_or_cancel _ _ hplt he64 ht
      · show c.black_pawns = b.black_pawns
        rw [hc2, hX2]
      · show c.black_rooks ||| (1 <<< e) = b.black_rooks
        rw [hc3, hX3]
        exact and_not_or_cancel _ _ hcf.br_lt he64 (single_sub _ _ h2)
      · show c.black_knights = b.black_knights
        rw [hc4, hX4]
      · show c.black_bishops = b.black_bishops
        rw [hc5, hX5]
      · show c.black_queens = b.black_queens
        rw [hc6, hX6]
      · show c.black_king = b.black_king
        rw [hc7, hX7]
    · rw [if_neg h2] at hpt
      by_cases h3 : b.black_knights &&& (1 <<< e) ≠ 0
      · rw [if_pos h3] at hpt
        subst hpt
        simp only [makeMoveCaptureBlack_knight] at hc1 hc2 hc3 hc4 hc5 hc6 hc7
        rw [unmakeRestoreBlack_knight]
        refine ⟨?_, ?_, ?_, ?_, ?_, ?_, ?_⟩
        · show c.black_pieces ||| (1 <<< e) = b.black_pieces
          rw [hc1, hX1]
          exact and_not_or_cancel _ _ hplt he64 ht
        · show c.black_pawns = b.black_pawns
          rw [hc2, hX2]
        · show c.black_rooks = b.black_rooks
          rw [hc3, hX3]
        · show c.black_knights ||| (1 <<< e) = b.black_knights
          rw [hc4, hX4]
          exact and_not_or_cancel _ _ hcf.bn_lt he64 (single_sub _ _ h3)
        · show c.black_bishops = b.black_bishops
          rw [hc5, hX5]
        · show c.black_queens = b.black_queens
          rw [hc6, hX6]
        · show c.black_king = b.black_king
          rw [hc7, hX7]
      · rw [if_neg h3] at hpt
        by_cases h4 : b.black_bishops &&& (1 <<< e) ≠ 0
        · rw [if_pos h4] at hpt
          subst hpt
          simp only [makeMoveCaptureBlack_bishop] at hc1 hc2 hc3 hc4 hc5 hc6 hc7
          rw [unmakeRestoreBlack_bishop]
          refine ⟨?_, ?_, ?_, ?_, ?_, ?_, ?_⟩
          · show c.black_pieces ||| (1 <<< e) = b.black_pieces
            rw [hc1, hX1]
            exact and_not_or_cancel _ _ hplt he64 ht
          · show c.black_pawns = b.black_pawns
            rw [hc2, hX2]
          · show c.black_rooks = b.black_rooks
            rw [hc3, hX3]
          · show c.black_knights = b.black_knights
            rw [hc4, hX4]
          · show c.black_bishops ||| (1 <<< e) = b.black_bishops
            rw [hc5, hX5]
            exact and_not_or_cancel _ _ hcf.bb_lt he64 (single_sub _ _ h4)
          · show c.black_queens = b.black_queens
            rw [hc6, hX6]
          · show c.black_king = b.black_king
            rw [hc7, hX7]
        · rw [if_neg h4] at hpt
          by_cases h5 : b.black_queens &&& (1 <<< e) ≠ 0
          · rw [if_pos h5] at hpt
            subst hpt
            simp only [makeMoveCaptureBlack_queen] at hc1 hc2 hc3 hc4 hc5 hc6 hc7
            rw [unmakeRestoreBlack_queen]
            refine ⟨?_, ?_, ?_, ?_, ?_, ?_, ?_⟩
            · show c.black_pieces ||| (1 <<< e) = b.black_pieces
              rw [hc1, hX1]
              exact and_not_or_cancel _ _ hplt he64 ht
            · show c.black_pawns = b.black_pawns
              rw [hc2, hX2]
            · show c.black_rooks = b.black_rooks
              rw [hc3, hX3]
            · show c.black_knights = b.black_knights
              rw [hc4, hX4]
            · show c.black_bishops = b.black_bishops
              rw [hc5, hX5]
            · show c.black_queens ||| (1 <<< e) = b.black_queens
              rw [hc6, hX6]
              exact and_not_or_cancel _ _ hcf.bq_lt he64 (single_sub _ _ h5)
            · show c.black_king = b.black_king
              rw [hc7, hX7]
          · rw [if_neg h5] at hpt
            subst hpt
            have hke : b.black_king = e := by
              rcases bunion_bits b hcf e ht with hx | hx | hx | hx | hx | hx
              · exact absurd (sub_single _ _ hx) h1
              · exact absurd (sub_single _ _ hx) h2
              · exact absurd (sub_single _ _ hx) h3
              · exact absurd (sub_single _ _ hx) h4
              · exact absurd (sub_single _ _ hx) h5
              · exact hx
            simp only [makeMoveCaptureBlack_king] at hc1 hc2 hc3 hc4 hc5 hc6 hc7
            rw [unmakeRestoreBlack_king]
            refine ⟨?_, ?_, ?_, ?_, ?_, ?_, ?_⟩
            · show c.black_pieces ||| (1 <<< e) = b.black_pieces
              rw [hc1, hX1]
              exact and_not_or_cancel _ _ hplt he64 ht
            · show c.black_pawns = b.black_pawns
              rw [hc2, hX2]
            · show c.black_rooks = b.black_rooks
              rw [hc3, hX3]
            · show c.black_knights = b.black_knights
              rw [hc4, hX4]
            · show c.black_bishops = b.black_bishops
              rw [hc5, hX5]
            · show c.black_queens = b.black_queens
              rw [hc6, hX6]
            · show e = b.black_king
              exact hke.symm

theorem white_capture_roundtrip (b bX c : Board) (e : Nat) (pt : Piece)
    (hcf : ConsistentFacts b)
    (hX1 : bX.white_pieces = b.white_pieces) (hX2 : bX.white_pawns = b.white_pawns)
    (hX3 : bX.white_rooks = b.white_rooks) (hX4 : bX.white_knights = b.white_knights)
    (hX5 : bX.white_bishops = b.white_bishops) (hX6 : bX.white_queens = b.white_queens)
    (hX7 : bX.white_king = b.white_king)
    (hc1 : c.white_pieces = (makeMoveCaptureWhite bX pt (1 <<< e)).white_pieces)
    (hc2 : c.white_pawns = (makeMoveCaptureWhite bX pt (1 <<< e)).white_pawns)
    (hc3 : c.white_rooks = (makeMoveCaptureWhite bX pt (1 <<< e)).white_rooks)
    (hc4 : c.white_knights = (makeMoveCaptureWhite bX pt (1 <<< e)).white_knights)
    (hc5 : c.white_bishops = (makeMoveCaptureWhite bX pt (1 <<< e)).white_bishops)
    (hc6 : c.white_queens = (makeMoveCaptureWhite bX pt (1 <<< e)).white_queens)
    (hc7 : c.white_king = (makeMoveCaptureWhite bX pt (1 <<< e)).white_king)
    (he64 : e < 64)
    (ht : Nat.testBit b.white_pieces e = true)
    (hpt : pt = (if b.white_pawns &&& (1 <<< e) ≠ 0 then PAWN
       else if b.white_rooks &&& (1 <<< e) ≠ 0 then ROOK
       else if b.white_knights &&& (1 <<< e) ≠ 0 then KNIGHT
       else if b.white_bishops &&& (1 <<< e) ≠ 0 then BISHOP
       else if b.white_queens &&& (1 <<< e) ≠ 0 then QUEEN
       else KING)) :
    (unmakeRestoreWhite c pt (1 <<< e) e).white_pieces = b.white_pieces ∧
    (unmakeRestoreWhite c pt (1 <<< e) e).white_pawns = b.white_pawns ∧
    (unmakeRestoreWhite c pt (1 <<< e) e).white_rooks = b.white_rooks ∧
    (unmakeRestoreWhite c pt (1 <<< e) e).white_knights = b.white_knights ∧
    (unmakeRestoreWhite c pt (1 <<< e) e).white_bishops = b.white_bishops ∧
    (unmakeRestoreWhite c pt (1 <<< e) e).white_queens = b.white_queens ∧
    (unmakeRestoreWhite c pt (1 <<< e) e).white_king = b.white_king := by
  have hplt := wpieces_lt b hcf
  by_cases h1 : b.white_pawns &&& (1 <<< e) ≠ 0
  · rw [if_pos h1] at hpt
    subst hpt
    simp only [makeMoveCaptureWhite_pawn] at hc1 hc2 hc3 hc4 hc5 hc6 hc7
    rw [unmakeRestoreWhite_pawn]
    refine ⟨?_, ?_, ?_, ?_, ?_, ?_, ?_⟩
    · show c.white_pieces ||| (1 <<< e) = b.white_pieces
      rw [hc1, hX1]
      exact and_not_or_cancel _ _ hplt he64 ht
    · show c.white_pawns ||| (1 <<< e) = b.white_pawns
      rw [hc2, hX2]
      exact and_not_or_cancel _ _ hcf.wp_lt he64 (single_sub _ _ h1)
    · show c.white_rooks = b.white_rooks
      rw [hc3, hX3]
    · show c.white_knights = b.white_knights
      rw [hc4, hX4]
    · show c.white_bishops = b.white_bishops
      rw [hc5, hX5]
    · show c.white_queens = b.white_queens
      rw [hc6, hX6]
    · show c.white_king = b.white_king
      rw [hc7, hX7]
  · rw [if_neg h1] at hpt
    by_cases h2 : b.white_rooks &&& (1 <<< e) ≠ 0
    · rw [if_pos h2] at hpt
      subst hpt
      simp only [makeMoveCaptureWhite_rook] at hc1 hc2 hc3 hc4 hc5 hc6 hc7
      rw [unmakeRestoreWhite_rook]
      refine ⟨?_, ?_, ?_, ?_, ?_, ?_, ?_⟩
      · show c.white_pieces ||| (1 <<< e) = b.white_pieces
        rw [hc1, hX1]
        exact and_not_or_cancel _ _ hplt he64 ht
      · show c.white_pawns = b.white_pawns
        rw [hc2, hX2]
      · show c.white_rooks ||| (1 <<< e) = b.white_rooks
        rw [hc3, hX3]
        exact and_not_or_cancel _ _ hcf.wr_lt he64 (single_sub _ _ h2)
      · show c.white_knights = b.white_knights
        rw [hc4, hX4]
      · show c.white_bishops = b.white_bishops
        rw [hc5, hX5]
      · show c.white_queens = b.white_queens
        rw [hc6, hX6]
      · show c.white_king = b.white_king
        rw [hc7, hX7]
    · rw [if_neg h2] at hpt
      by_cases h3 : b.white_knights &&& (1 <<< e) ≠ 0
      · rw [if_pos h3] at hpt
        subst hpt
        simp only [makeMoveCaptureWhite_knight] at hc1 hc2 hc3 hc4 hc5 hc6 hc7
        rw [unmakeRestoreWhite_knight]
        refine ⟨?_, ?_, ?_, ?_, ?_, ?_, ?_⟩
        · show c.white_pieces ||| (1 <<< e) = b.white_pieces
          rw [hc1, hX1]
          exact and_not_or_cancel _ _ hplt he64 ht
        · show c.white_pawns = b.white_pawns
          rw [hc2, hX2]
        · show c.white_rooks = b.white_rooks
          rw [hc3, hX3]
        · show c.white_knights ||| (1 <<< e) = b.white_knights
          rw [hc4, hX4]
          exact and_not_or_cancel _ _ hcf.wn_lt he64 (single_sub _ _ h3)
        · show c.white_bishops = b.white_bishops
          rw [hc5, hX5]
        · show c.white_queens = b.white_queens
          rw [hc6, hX6]
        · show c.white_king = b.white_king
          rw [hc7, hX7]
      · rw [if_neg h3] at hpt
        by_cases h4 : b.white_bishops &&& (1 <<< e) ≠ 0
        · rw [if_pos h4] at hpt
          subst hpt
          simp only [makeMoveCaptureWhite_bishop] at hc1 hc2 hc3 hc4 hc5 hc6 hc7
          rw [unmakeRestoreWhite_bishop]
          refine ⟨?_, ?_, ?_, ?_, ?_, ?_, ?_⟩
          · show c.white_pieces ||| (1 <<< e) = b.white_pieces
            rw [hc1, hX1]
            exact and_not_or_cancel _ _ hplt he64 ht
          · show c.white_pawns = b.white_pawns
            rw [hc2, hX2]
          · show c.white_rooks = b.white_rooks
            rw [hc3, hX3]
          · show c.white_knights = b.white_knights
            rw [hc4, hX4]
          · show c.white_bishops ||| (1 <<< e) = b.white_bishops
            rw [hc5, hX5]
            exact and_not_or_cancel _ _ hcf.wb_lt he64 (single_sub _ _ h4)
          · show c.white_queens = b.white_queens
            rw [hc6, hX6]
          · show c.white_king = b.white_king
            rw [hc7, hX7]
        · rw [if_neg h4] at hpt
          by_cases h5 : b.white_queens &&& (1 <<< e) ≠ 0
          · rw [if_pos h5] at hpt
            subst hpt
            simp only [makeMoveCaptureWhite_queen] at hc1 hc2 hc3 hc4 hc5 hc6 hc7
            rw [unmakeRestoreWhite_queen]
            refine ⟨?_, ?_, ?_, ?_, ?_, ?_, ?_⟩
            · show c.white_pieces ||| (1 <<< e) = b.white_pieces
              rw [hc1, hX1]
              exact and_not_or_cancel _ _ hplt he64 ht
            · show c.white_pawns = b.white_pawns
              rw [hc2, hX2]
            · show c.white_rooks = b.white_rooks
              rw [hc3, hX3]
            · show c.white_knights = b.white_knights
              rw [hc4, hX4]
            · show c.white_bishops = b.white_bishops
              rw [hc5, hX5]
            · show c.white_queens ||| (1 <<< e) = b.white_queens
              rw [hc6, hX6]
              exact and_not_or_cancel _ _ hcf.wq_lt he64 (single_sub _ _ h5)
            · show c.white_king = b.white_king
              rw [hc7, hX7]
          · rw [if_neg h5] at hpt
            subst hpt
            have hke : b.white_king = e := by
              rcases wunion_bits b hcf e ht with hx | hx | hx | hx | hx | hx
              · exact absurd (sub_single _ _ hx) h1
              · exact absurd (sub_single _ _ hx) h2
              · exact absurd (sub_single _ _ hx) h3
              · exact absurd (sub_single _ _ hx) h4
              · exact absurd (sub_single _ _ hx) h5
              · exact hx
            simp only [makeMoveCaptureWhite_king] at hc1 hc2 hc3 hc4 hc5 hc6 hc7
            rw [unmakeRestoreWhite_king]
            refine ⟨?_, ?_, ?_, ?_, ?_, ?_, ?_⟩
            · show c.white_pieces ||| (1 <<< e) = b.white_pieces
              rw [hc1, hX1]
              exact and_not_or_cancel _ _ hplt he64 ht
            · show c.white_pawns = b.white_pawns
              rw [hc2, hX2]
            · show c.white_rooks = b.white_rooks
              rw [hc3, hX3]
            · show c.white_knights = b.white_knights
              rw [hc4, hX4]
            · show c.white_bishops = b.white_bishops
              rw [hc5, hX5]
            · show c.white_queens = b.white_queens
              rw [hc6, hX6]
            · show e = b.white_king
              exact hke.symm

end Barnarok

namespace Barnarok

set_option maxHeartbeats 2000000 in
/-- Roundtrip of `make_move` then `unmake_move` for a plain (white) piece move:
tag `None`, capture field holding exactly the enemy piece found on the
destination, and the previous-state fields holding the current state. -/
theorem make_unmake_simple_white (b : Board) (mv : Move)
    (hcf : ConsistentFacts b)
    (hwtp : b.white_to_play = true)
    (hctx : mv.context = MoveContext.none)
    (hstart : Nat.testBit b.white_pieces mv.start = true)
    (hend : Nat.testBit b.white_pieces mv.endSq = false)
    (he64 : mv.endSq < 64)
    (hcap : mv.capture = (if b.black_pieces &&& (1 <<< mv.endSq) ≠ 0
        then some (get_piece_type_on_square b mv.endSq) else Option.none))
    (hpe : mv.previous_ep_target = b.en_passant_target)
    (hpq1 : mv.previous_wqs = b.white_queen_side_castling_right)
    (hpq2 : mv.previous_wks = b.white_king_side_castling_right)
    (hpq3 : mv.previous_bqs = b.black_queen_side_castling_right)
    (hpq4 : mv.previous_bks = b.black_king_side_castling_right) :
    unmakeMove (makeMove b mv) mv = b := by
  have hwplt := wpieces_lt b hcf
  have hoplt := bpieces_lt b hcf
  have hs64 : mv.start < 64 := testBit_of_lt_64 _ _ hwplt hstart
  have hnp : ∀ p, mv.context ≠ MoveContext.promotion p := by
    rw [hctx]
    intro p h
    exact absurd h (by simp)
  have hcq : mv.context ≠ MoveContext.queenSideCastle := by rw [hctx]; simp
  have hck : mv.context ≠ MoveContext.kingSideCastle := by rw [hctx]; simp
  have hcep : mv.context ≠ MoveContext.enPassant := by rw [hctx]; simp
  have hcds : mv.context ≠ MoveContext.doubleStep := by rw [hctx]; simp
  have hnotw : Nat.testBit b.white_pieces mv.endSq = true → False := by
    intro h
    rw [h] at hend
    exact absurd hend (by simp)
  have hendP : Nat.testBit b.white_pawns mv.endSq = false := by
    cases hx : Nat.testBit b.white_pawns mv.endSq
    · rfl
    · exact absurd (wunion_bit_of b hcf _ (Or.inl hx)) hnotw
  have hendR : Nat.testBit b.white_rooks mv.endSq = false := by
    cases hx : Nat.testBit b.white_rooks mv.endSq
    · rfl
    · exact absurd (wunion_bit_of b hcf _ (Or.inr (Or.inl hx))) hnotw
  have hendN : Nat.testBit b.white_knights mv.endSq = false := by
    cases hx : Nat.testBit b.white_knights mv.endSq
    · rfl
    · exact absurd (wunion_bit_of b hcf _ (Or.inr (Or.inr (Or.inl hx)))) hnotw
  have hendB : Nat.testBit b.white_bishops mv.endSq = false := by
    cases hx : Nat.testBit b.white_bishops mv.endSq
    · rfl
    · exact absurd (wunion_bit_of b hcf _ (Or.inr (Or.inr (Or.inr (Or.inl hx))))) hnotw
  have hendQ : Nat.testBit b.white_queens mv.endSq = false := by
    cases hx : Nat.testBit b.white_queens mv.endSq
    · rfl
    · exact absurd (wunion_bit_of b hcf _ (Or.inr (Or.inr (Or.inr (Or.inr (Or.inl hx)))))) hnotw
  have hendK : b.white_king ≠ mv.endSq := by
    intro h
    exact hnotw (wunion_bit_of b hcf _ (Or.inr (Or.inr (Or.inr (Or.inr (Or.inr h))))))
  have hendP0 : b.white_pawns &&& (1 <<< mv.endSq) = 0 := single_and_zero _ _ hendP
  have hendR0 : b.white_rooks &&& (1 <<< mv.endSq) = 0 := single_and_zero _ _ hendR
  have hendN0 : b.white_knights &&& (1 <<< mv.endSq) = 0 := single_and_zero _ _ hendN
  have hendB0 : b.white_bishops &&& (1 <<< mv.endSq) = 0 := single_and_zero _ _ hendB
  have hendQ0 : b.white_queens &&& (1 <<< mv.endSq) = 0 := single_and_zero _ _ hendQ
  have hendW0 : b.white_pieces &&& (1 <<< mv.endSq) = 0 := single_and_zero _ _ hend
  rcases wunion_bits b hcf mv.start hstart with hT | hT | hT | hT | hT | hT
  · -- pawn
    have hsT : b.white_pawns &&& (1 <<< mv.start) ≠ 0 := sub_single _ _ hT
    have hmT : ((b.white_pawns &&& not64 (1 <<< mv.start)) ||| (1 <<< mv.endSq)) &&&
        (1 <<< mv.endSq) ≠ 0 :=
      sub_single _ _ (bit_in_or_right _ _ _ (by rw [testBit_single]; simp))
    by_cases hcapb : b.black_pieces &&& (1 <<< mv.endSq) ≠ 0
    · have hcapS : mv.capture = some (get_piece_type_on_square b mv.endSq) := by
        rw [hcap, if_pos hcapb]
      have htB : Nat.testBit b.black_pieces mv.endSq = true := single_sub _ _ hcapb
      have hptdef := get_piece_black b mv.endSq hendW0 hcapb
      simp only [makeMove_white b mv hwtp]
      rw [whiteMover_pawn { b with white_pieces := (b.white_pieces &&& not64 (1 <<< mv.start)) ||| (1 <<< mv.endSq) } mv hsT hnp]
      dsimp only
      rw [whiteCaptureEp_some { b with white_pieces := (b.white_pieces &&& not64 (1 <<< mv.start)) ||| (1 <<< mv.endSq), white_pawns := (b.white_pawns &&& not64 (1 <<< mv.start)) ||| (1 <<< mv.endSq) } mv (get_piece_type_on_square b mv.endSq) hcapS]
      rw [if_neg hcds]
      simp only [clearRightsOnEnd_proj_white_pawns, clearRightsOnEnd_proj_white_rooks, clearRightsOnEnd_proj_white_knights, clearRightsOnEnd_proj_white_bishops, clearRightsOnEnd_proj_white_queens, clearRightsOnEnd_proj_white_king, clearRightsOnEnd_proj_black_pawns, clearRightsOnEnd_proj_black_rooks, clearRightsOnEnd_proj_black_knights, clearRightsOnEnd_proj_black_bishops, clearRightsOnEnd_proj_black_queens, clearRightsOnEnd_proj_black_king, clearRightsOnEnd_proj_white_pieces, clearRightsOnEnd_proj_black_pieces, clearRightsOnEnd_proj_pieces, clearRightsOnEnd_proj_en_passant_target, clearRightsOnEnd_proj_white_to_play]
      rw [unmakeMove_white]
      dsimp only
      rw [whiteUnmover_pawn]
      dsimp only
      rw [whiteUncaptureEp_some _ mv (get_piece_type_on_square b mv.endSq) hcapS]
      rw [whiteRestoreMover_pawn]
      simp only [finishUnmake]
      simp only [makeMoveCaptureBlack_proj_white_pawns, makeMoveCaptureBlack_proj_white_rooks, makeMoveCaptureBlack_proj_white_knights, makeMoveCaptureBlack_proj_white_bishops, makeMoveCaptureBlack_proj_white_queens, makeMoveCaptureBlack_proj_white_king, makeMoveCaptureBlack_proj_white_pieces, makeMoveCaptureBlack_proj_pieces, makeMoveCaptureBlack_proj_en_passant_target, makeMoveCaptureBlack_proj_white_queen_side_castling_right, makeMoveCaptureBlack_proj_white_king_side_castling_right, makeMoveCaptureBlack_proj_black_queen_side_castling_right, makeMoveCaptureBlack_proj_black_king_side_castling_right, makeMoveCaptureBlack_proj_white_to_play]
      simp only [unmakeRestoreBlack_proj_white_pawns, unmakeRestoreBlack_proj_white_rooks, unmakeRestoreBlack_proj_white_knights, unmakeRestoreBlack_proj_white_bishops, unmakeRestoreBlack_proj_white_queens, unmakeRestoreBlack_proj_white_king, unmakeRestoreBlack_proj_white_pieces, unmakeRestoreBlack_proj_pieces, unmakeRestoreBlack_proj_en_passant_target, unmakeRestoreBlack_proj_white_queen_side_castling_right, unmakeRestoreBlack_proj_white_king_side_castling_right, unmakeRestoreBlack_proj_black_queen_side_castling_right, unmakeRestoreBlack_proj_black_king_side_castling_right, unmakeRestoreBlack_proj_white_to_play]
      apply Board.ext
      · apply Nat.eq_of_testBit_eq
        intro i
        simp only [Nat.testBit_or, Nat.testBit_and, testBit_not64, testBit_single]
        by_cases hs : mv.start = i
        · subst hs
          simp [hT, hs64]
        · by_cases he : mv.endSq = i
          · subst he
            simp [hendP, he64, hs]
          · by_cases hl : i < 64
            · simp [hs, he, hl]
            · simp [hs, he, hl, testBit_high _ i hcf.wp_lt (by omega)]
      · rfl
      · rfl
      · rfl
      · rfl
      · rfl
      · refine (black_capture_roundtrip b { b with white_pieces := (b.white_pieces &&& not64 (1 <<< mv.start)) ||| (1 <<< mv.endSq), white_pawns := (b.white_pawns &&& not64 (1 <<< mv.start)) ||| (1 <<< mv.endSq) } ?_ mv.endSq (get_piece_type_on_square b mv.endSq) hcf ?_ ?_ ?_ ?_ ?_ ?_ ?_ ?_ ?_ ?_ ?_ ?_ ?_ ?_ he64 htB hptdef).2.1 <;> first | rfl | exact (makeMoveCaptureBlack_proj_black_king _ _ _).symm
      · refine (black_capture_roundtrip b { b with white_pieces := (b.white_pieces &&& not64 (1 <<< mv.start)) ||| (1 <<< mv.endSq), white_pawns := (b.white_pawns &&& not64 (1 <<< mv.start)) ||| (1 <<< mv.endSq) } ?_ mv.endSq (get_piece_type_on_square b mv.endSq) hcf ?_ ?_ ?_ ?_ ?_ ?_ ?_ ?_ ?_ ?_ ?_ ?_ ?_ ?_ he64 htB hptdef).2.2.1 <;> first | rfl | exact (makeMoveCaptureBlack_proj_black_king _ _ _).symm
      · refine (black_capture_roundtrip b { b with white_pieces := (b.white_pieces &&& not64 (1 <<< mv.start)) ||| (1 <<< mv.endSq), white_pawns := (b.white_pawns &&& not64 (1 <<< mv.start)) ||| (1 <<< mv.endSq) } ?_ mv.endSq (get_piece_type_on_square b mv.endSq) hcf ?_ ?_ ?_ ?_ ?_ ?_ ?_ ?_ ?_ ?_ ?_ ?_ ?_ ?_ he64 htB hptdef).2.2.2.1 <;> first | rfl | exact (makeMoveCaptureBlack_proj_black_king _ _ _).symm
      · refine (black_capture_roundtrip b { b with white_pieces := (b.white_pieces &&& not64 (1 <<< mv.start)) ||| (1 <<< mv.endSq), white_pawns := (b.white_pawns &&& not64 (1 <<< mv.start)) ||| (1 <<< mv.endSq) } ?_ mv.endSq (get_piece_type_on_square b mv.endSq) hcf ?_ ?_ ?_ ?_ ?_ ?_ ?_ ?_ ?_ ?_ ?_ ?_ ?_ ?_ he64 htB hptdef).2.2.2.2.1 <;> first | rfl | exact (makeMoveCaptureBlack_proj_black_king _ _ _).symm
      · refine (black_capture_roundtrip b { b with white_pieces := (b.white_pieces &&& not64 (1 <<< mv.start)) ||| (1 <<< mv.endSq), white_pawns := (b.white_pawns &&& not64 (1 <<< mv.start)) ||| (1 <<< mv.endSq) } ?_ mv.endSq (get_piece_type_on_square b mv.endSq) hcf ?_ ?_ ?_ ?_ ?_ ?_ ?_ ?_ ?_ ?_ ?_ ?_ ?_ ?_ he64 htB hptdef).2.2.2.2.2.1 <;> first | rfl | exact (makeMoveCaptureBlack_proj_black_king _ _ _).symm
      · refine (black_capture_roundtrip b { b with white_pieces := (b.white_pieces &&& not64 (1 <<< mv.start)) ||| (1 <<< mv.endSq), white_pawns := (b.white_pawns &&& not64 (1 <<< mv.start)) ||| (1 <<< mv.endSq) } ?_ mv.endSq (get_piece_type_on_square b mv.endSq) hcf ?_ ?_ ?_ ?_ ?_ ?_ ?_ ?_ ?_ ?_ ?_ ?_ ?_ ?_ he64 htB hptdef).2.2.2.2.2.2 <;> first | rfl | exact (makeMoveCaptureBlack_proj_black_king _ _ _).symm
      · apply Nat.eq_of_testBit_eq
        intro i
        simp only [Nat.testBit_or, Nat.testBit_and, testBit_not64, testBit_single]
        by_cases hs : mv.start = i
        · subst hs
          simp [hstart, hs64]
        · by_cases he : mv.endSq = i
          · subst he
            simp [hend, he64, hs]
          · by_cases hl : i < 64
            · simp [hs, he, hl]
            · simp [hs, he, hl, testBit_high _ i hwplt (by omega)]
      · refine (black_capture_roundtrip b { b with white_pieces := (b.white_pieces &&& not64 (1 <<< mv.start)) ||| (1 <<< mv.endSq), white_pawns := (b.white_pawns &&& not64 (1 <<< mv.start)) ||| (1 <<< mv.endSq) } ?_ mv.endSq (get_piece_type_on_square b mv.endSq) hcf ?_ ?_ ?_ ?_ ?_ ?_ ?_ ?_ ?_ ?_ ?_ ?_ ?_ ?_ he64 htB hptdef).1 <;> first | rfl | exact (makeMoveCaptureBlack_proj_black_king _ _ _).symm
      · conv_rhs => rw [hcf.gagg]
        refine congrArg₂ (fun x y => x ||| y) ?_ ?_
        · apply Nat.eq_of_testBit_eq
          intro i
          simp only [Nat.testBit_or, Nat.testBit_and, testBit_not64, testBit_single]
          by_cases hs : mv.start = i
          · subst hs
            simp [hstart, hs64]
          · by_cases he : mv.endSq = i
            · subst he
              simp [hend, he64, hs]
            · by_cases hl : i < 64
              · simp [hs, he, hl]
              · simp [hs, he, hl, testBit_high _ i hwplt (by omega)]
        · refine (black_capture_roundtrip b { b with white_pieces := (b.white_pieces &&& not64 (1 <<< mv.start)) ||| (1 <<< mv.endSq), white_pawns := (b.white_pawns &&& not64 (1 <<< mv.start)) ||| (1 <<< mv.endSq) } ?_ mv.endSq (get_piece_type_on_square b mv.endSq) hcf ?_ ?_ ?_ ?_ ?_ ?_ ?_ ?_ ?_ ?_ ?_ ?_ ?_ ?_ he64 htB hptdef).1 <;> first | rfl | exact (makeMoveCaptureBlack_proj_black_king _ _ _).symm
      · exact hpe
      · exact hpq1
      · exact hpq2
      · exact hpq3
      · exact hpq4
      · exact hwtp.symm
      all_goals try simp only [makeMoveCaptureBlack_proj_white_pawns, makeMoveCaptureBlack_proj_white_rooks, makeMoveCaptureBlack_proj_white_knights, makeMoveCaptureBlack_proj_white_bishops, makeMoveCaptureBlack_proj_white_queens, makeMoveCaptureBlack_proj_white_king, makeMoveCaptureBlack_proj_black_king, makeMoveCaptureBlack_proj_white_pieces, makeMoveCaptureBlack_proj_pieces, makeMoveCaptureBlack_proj_en_passant_target, makeMoveCaptureBlack_proj_white_queen_side_castling_right, makeMoveCaptureBlack_proj_white_king_side_castling_right, makeMoveCaptureBlack_proj_black_queen_side_castling_right, makeMoveCaptureBlack_proj_black_king_side_castling_right, makeMoveCaptureBlack_proj_white_to_play]
      all_goals first
        | (exact hnp)
        | (exact hmT)
        | (simp [hwtp])
    · have hcap0 : mv.capture = Option.none := by
        rw [hcap, if_neg hcapb]
      simp only [makeMove_white b mv hwtp]
      rw [whiteMover_pawn { b with white_pieces := (b.white_pieces &&& not64 (1 <<< mv.start)) ||| (1 <<< mv.endSq) } mv hsT hnp]
      dsimp only
      rw [whiteCaptureEp_none { b with white_pieces := (b.white_pieces &&& not64 (1 <<< mv.start)) ||| (1 <<< mv.endSq), white_pawns := (b.white_pawns &&& not64 (1 <<< mv.start)) ||| (1 <<< mv.endSq) } mv hcap0 hcep]
      rw [if_neg hcds]
      simp only [clearRightsOnEnd_proj_white_pawns, clearRightsOnEnd_proj_white_rooks, clearRightsOnEnd_proj_white_knights, clearRightsOnEnd_proj_white_bishops, clearRightsOnEnd_proj_white_queens, clearRightsOnEnd_proj_white_king, clearRightsOnEnd_proj_black_pawns, clearRightsOnEnd_proj_black_rooks, clearRightsOnEnd_proj_black_knights, clearRightsOnEnd_proj_black_bishops, clearRightsOnEnd_proj_black_queens, clearRightsOnEnd_proj_black_king, clearRightsOnEnd_proj_white_pieces, clearRightsOnEnd_proj_black_pieces, clearRightsOnEnd_proj_pieces, clearRightsOnEnd_proj_en_passant_target, clearRightsOnEnd_proj_white_to_play]
      rw [unmakeMove_white]
      dsimp only
      rw [whiteUnmover_pawn]
      dsimp only
      rw [whiteUncaptureEp_none _ mv hcap0 hcep]
      rw [whiteRestoreMover_pawn]
      simp only [finishUnmake]
      apply Board.ext
      · apply Nat.eq_of_testBit_eq
        intro i
        simp only [Nat.testBit_or, Nat.testBit_and, testBit_not64, testBit_single]
        by_cases hs : mv.start = i
        · subst hs
          simp [hT, hs64]
        · by_cases he : mv.endSq = i
          · subst he
            simp [hendP, he64, hs]
          · by_cases hl : i < 64
            · simp [hs, he, hl]
            · simp [hs, he, hl, testBit_high _ i hcf.wp_lt (by omega)]
      · rfl
      · rfl
      · rfl
      · rfl
      · rfl
      · rfl
      · rfl
      · rfl
      · rfl
      · rfl
      · rfl
      · apply Nat.eq_of_testBit_eq
        intro i
        simp only [Nat.testBit_or, Nat.testBit_and, testBit_not64, testBit_single]
        by_cases hs : mv.start = i
        · subst hs
          simp [hstart, hs64]
        · by_cases he : mv.endSq = i
          · subst he
            simp [hend, he64, hs]
          · by_cases hl : i < 64
            · simp [hs, he, hl]
            · simp [hs, he, hl, testBit_high _ i hwplt (by omega)]
      · rfl
      · conv_rhs => rw [hcf.gagg]
        refine congrArg₂ (fun x y => x ||| y) ?_ ?_
        · apply Nat.eq_of_testBit_eq
          intro i
          simp only [Nat.testBit_or, Nat.testBit_and, testBit_not64, testBit_single]
          by_cases hs : mv.start = i
          · subst hs
            simp [hstart, hs64]
          · by_cases he : mv.endSq = i
            · subst he
              simp [hend, he64, hs]
            · by_cases hl : i < 64
              · simp [hs, he, hl]
              · simp [hs, he, hl, testBit_high _ i hwplt (by omega)]
        · rfl
      · exact hpe
      · exact hpq1
      · exact hpq2
      · exact hpq3
      · exact hpq4
      · exact hwtp.symm
      all_goals first
        | (exact hnp)
        | (exact hmT)
        | (simp [hwtp])
  · -- rook
    have hz1 : b.white_pawns &&& (1 <<< mv.start) = 0 :=
      single_and_zero _ _ (disj_bit _ _ _ hcf.wp_wr hT)
    have hsT : b.white_rooks &&& (1 <<< mv.start) ≠ 0 := sub_single _ _ hT
    have hmT : ((b.white_rooks &&& not64 (1 <<< mv.start)) ||| (1 <<< mv.endSq)) &&&
        (1 <<< mv.endSq) ≠ 0 :=
      sub_single _ _ (bit_in_or_right _ _ _ (by rw [testBit_single]; simp))
    by_cases hcapb : b.black_pieces &&& (1 <<< mv.endSq) ≠ 0
    · have hcapS : mv.capture = some (get_piece_type_on_square b mv.endSq) := by
        rw [hcap, if_pos hcapb]
      have htB : Nat.testBit b.black_pieces mv.endSq = true := single_sub _ _ hcapb
      have hptdef := get_piece_black b mv.endSq hendW0 hcapb
      simp only [makeMove_white b mv hwtp]
      obtain ⟨qq1, qq2, hwmv⟩ := whiteMover_rook { b with white_pieces := (b.white_pieces &&& not64 (1 <<< mv.start)) ||| (1 <<< mv.endSq) } mv hz1 hsT
      rw [hwmv]
      dsimp only
      rw [whiteCaptureEp_some { b with white_pieces := (b.white_pieces &&& not64 (1 <<< mv.start)) ||| (1 <<< mv.endSq), white_rooks := (b.white_rooks &&& not64 (1 <<< mv.start)) ||| (1 <<< mv.endSq), white_queen_side_castling_right := qq1, white_king_side_castling_right := qq2 } mv (get_piece_type_on_square b mv.endSq) hcapS]
      rw [if_neg hcds]
      simp only [clearRightsOnEnd_proj_white_pawns, clearRightsOnEnd_proj_white_rooks, clearRightsOnEnd_proj_white_knights, clearRightsOnEnd_proj_white_bishops, clearRightsOnEnd_proj_white_queens, clearRightsOnEnd_proj_white_king, clearRightsOnEnd_proj_black_pawns, clearRightsOnEnd_proj_black_rooks, clearRightsOnEnd_proj_black_knights, clearRightsOnEnd_proj_black_bishops, clearRightsOnEnd_proj_black_queens, clearRightsOnEnd_proj_black_king, clearRightsOnEnd_proj_white_pieces, clearRightsOnEnd_proj_black_pieces, clearRightsOnEnd_proj_pieces, clearRightsOnEnd_proj_en_passant_target, clearRightsOnEnd_proj_white_to_play]
      rw [unmakeMove_white]
      dsimp only
      rw [whiteUnmover_rook]
      dsimp only
      rw [whiteUncaptureEp_some _ mv (get_piece_type_on_square b mv.endSq) hcapS]
      rw [whiteRestoreMover_rook]
      simp only [finishUnmake]
      simp only [makeMoveCaptureBlack_proj_white_pawns, makeMoveCaptureBlack_proj_white_rooks, makeMoveCaptureBlack_proj_white_knights, makeMoveCaptureBlack_proj_white_bishops, makeMoveCaptureBlack_proj_white_queens, makeMoveCaptureBlack_proj_white_king, makeMoveCaptureBlack_proj_white_pieces, makeMoveCaptureBlack_proj_pieces, makeMoveCaptureBlack_proj_en_passant_target, makeMoveCaptureBlack_proj_white_queen_side_castling_right, makeMoveCaptureBlack_proj_white_king_side_castling_right, makeMoveCaptureBlack_proj_black_queen_side_castling_right, makeMoveCaptureBlack_proj_black_king_side_castling_right, makeMoveCaptureBlack_proj_white_to_play]
      simp only [unmakeRestoreBlack_proj_white_pawns, unmakeRestoreBlack_proj_white_rooks, unmakeRestoreBlack_proj_white_knights, unmakeRestoreBlack_proj_white_bishops, unmakeRestoreBlack_proj_white_queens, unmakeRestoreBlack_proj_white_king, unmakeRestoreBlack_proj_white_pieces, unmakeRestoreBlack_proj_pieces, unmakeRestoreBlack_proj_en_passant_target, unmakeRestoreBlack_proj_white_queen_side_castling_right, unmakeRestoreBlack_proj_white_king_side_castling_right, unmakeRestoreBlack_proj_black_queen_side_castling_right, unmakeRestoreBlack_proj_black_king_side_castling_right, unmakeRestoreBlack_proj_white_to_play]
      apply Board.ext
      · rfl
      · apply Nat.eq_of_testBit_eq
        intro i
        simp only [Nat.testBit_or, Nat.testBit_and, testBit_not64, testBit_single]
        by_cases hs : mv.start = i
        · subst hs
          simp [hT, hs64]
        · by_cases he : mv.endSq = i
          · subst he
            simp [hendR, he64, hs]
          · by_cases hl : i < 64
            · simp [hs, he, hl]
            · simp [hs, he, hl, testBit_high _ i hcf.wr_lt (by omega)]
      · rfl
      · rfl
      · rfl
      · rfl
      · refine (black_capture_roundtrip b { b with white_pieces := (b.white_pieces &&& not64 (1 <<< mv.start)) ||| (1 <<< mv.endSq), white_rooks := (b.white_rooks &&& not64 (1 <<< mv.start)) ||| (1 <<< mv.endSq), white_queen_side_castling_right := qq1, white_king_side_castling_right := qq2 } ?_ mv.endSq (get_piece_type_on_square b mv.endSq) hcf ?_ ?_ ?_ ?_ ?_ ?_ ?_ ?_ ?_ ?_ ?_ ?_ ?_ ?_ he64 htB hptdef).2.1 <;> first | rfl | exact (makeMoveCaptureBlack_proj_black_king _ _ _).symm
      · refine (black_capture_roundtrip b { b with white_pieces := (b.white_pieces &&& not64 (1 <<< mv.start)) ||| (1 <<< mv.endSq), white_rooks := (b.white_rooks &&& not64 (1 <<< mv.start)) ||| (1 <<< mv.endSq), white_queen_side_castling_right := qq1, white_king_side_castling_right := qq2 } ?_ mv.endSq (get_piece_type_on_square b mv.endSq) hcf ?_ ?_ ?_ ?_ ?_ ?_ ?_ ?_ ?_ ?_ ?_ ?_ ?_ ?_ he64 htB hptdef).2.2.1 <;> first | rfl | exact (makeMoveCaptureBlack_proj_black_king _ _ _).symm
      · refine (black_capture_roundtrip b { b with white_pieces := (b.white_pieces &&& not64 (1 <<< mv.start)) ||| (1 <<< mv.endSq), white_rooks := (b.white_rooks &&& not64 (1 <<< mv.start)) ||| (1 <<< mv.endSq), white_queen_side_castling_right := qq1, white_king_side_castling_right := qq2 } ?_ mv.endSq (get_piece_type_on_square b mv.endSq) hcf ?_ ?_ ?_ ?_ ?_ ?_ ?_ ?_ ?_ ?_ ?_ ?_ ?_ ?_ he64 htB hptdef).2.2.2.1 <;> first | rfl | exact (makeMoveCaptureBlack_proj_black_king _ _ _).symm
      · refine (black_capture_roundtrip b { b with white_pieces := (b.white_pieces &&& not64 (1 <<< mv.start)) ||| (1 <<< mv.endSq), white_rooks := (b.white_rooks &&& not64 (1 <<< mv.start)) ||| (1 <<< mv.endSq), white_queen_side_castling_right := qq1, white_king_side_castling_right := qq2 } ?_ mv.endSq (get_piece_type_on_square b mv.endSq) hcf ?_ ?_ ?_ ?_ ?_ ?_ ?_ ?_ ?_ ?_ ?_ ?_ ?_ ?_ he64 htB hptdef).2.2.2.2.1 <;> first | rfl | exact (makeMoveCaptureBlack_proj_black_king _ _ _).symm
      · refine (black_capture_roundtrip b { b with white_pieces := (b.white_pieces &&& not64 (1 <<< mv.start)) ||| (1 <<< mv.endSq), white_rooks := (b.white_rooks &&& not64 (1 <<< mv.start)) ||| (1 <<< mv.endSq), white_queen_side_castling_right := qq1, white_king_side_castling_right := qq2 } ?_ mv.endSq (get_piece_type_on_square b mv.endSq) hcf ?_ ?_ ?_ ?_ ?_ ?_ ?_ ?_ ?_ ?_ ?_ ?_ ?_ ?_ he64 htB hptdef).2.2.2.2.2.1 <;> first | rfl | exact (makeMoveCaptureBlack_proj_black_king _ _ _).symm
      · refine (black_capture_roundtrip b { b with white_pieces := (b.white_pieces &&& not64 (1 <<< mv.start)) ||| (1 <<< mv.endSq), white_rooks := (b.white_rooks &&& not64 (1 <<< mv.start)) ||| (1 <<< mv.endSq), white_queen_side_castling_right := qq1, white_king_side_castling_right := qq2 } ?_ mv.endSq (get_piece_type_on_square b mv.endSq) hcf ?_ ?_ ?_ ?_ ?_ ?_ ?_ ?_ ?_ ?_ ?_ ?_ ?_ ?_ he64 htB hptdef).2.2.2.2.2.2 <;> first | rfl | exact (makeMoveCaptureBlack_proj_black_king _ _ _).symm
      · apply Nat.eq_of_testBit_eq
        intro i
        simp only [Nat.testBit_or, Nat.testBit_and, testBit_not64, testBit_single]
        by_cases hs : mv.start = i
        · subst hs
          simp [hstart, hs64]
        · by_cases he : mv.endSq = i
          · subst he
            simp [hend, he64, hs]
          · by_cases hl : i < 64
            · simp [hs, he, hl]
            · simp [hs, he, hl, testBit_high _ i hwplt (by omega)]
      · refine (black_capture_roundtrip b { b with white_pieces := (b.white_pieces &&& not64 (1 <<< mv.start)) ||| (1 <<< mv.endSq), white_rooks := (b.white_rooks &&& not64 (1 <<< mv.start)) ||| (1 <<< mv.endSq), white_queen_side_castling_right := qq1, white_king_side_castling_right := qq2 } ?_ mv.endSq (get_piece_type_on_square b mv.endSq) hcf ?_ ?_ ?_ ?_ ?_ ?_ ?_ ?_ ?_ ?_ ?_ ?_ ?_ ?_ he64 htB hptdef).1 <;> first | rfl | exact (makeMoveCaptureBlack_proj_black_king _ _ _).symm
      · conv_rhs => rw [hcf.gagg]
        refine congrArg₂ (fun x y => x ||| y) ?_ ?_
        · apply Nat.eq_of_testBit_eq
          intro i
          simp only [Nat.testBit_or, Nat.testBit_and, testBit_not64, testBit_single]
          by_cases hs : mv.start = i
          · subst hs
            simp [hstart, hs64]
          · by_cases he : mv.endSq = i
            · subst he
              simp [hend, he64, hs]
            · by_cases hl : i < 64
              · simp [hs, he, hl]
              · simp [hs, he, hl, testBit_high _ i hwplt (by omega)]
        · refine (black_capture_roundtrip b { b with white_pieces := (b.white_pieces &&& not64 (1 <<< mv.start)) ||| (1 <<< mv.endSq), white_rooks := (b.white_rooks &&& not64 (1 <<< mv.start)) ||| (1 <<< mv.endSq), white_queen_side_castling_right := qq1, white_king_side_castling_right := qq2 } ?_ mv.endSq (get_piece_type_on_square b mv.endSq) hcf ?_ ?_ ?_ ?_ ?_ ?_ ?_ ?_ ?_ ?_ ?_ ?_ ?_ ?_ he64 htB hptdef).1 <;> first | rfl | exact (makeMoveCaptureBlack_proj_black_king _ _ _).symm
      · exact hpe
      · exact hpq1
      · exact hpq2
      · exact hpq3
      · exact hpq4
      · exact hwtp.symm
      all_goals try simp only [makeMoveCaptureBlack_proj_white_pawns, makeMoveCaptureBlack_proj_white_rooks, makeMoveCaptureBlack_proj_white_knights, makeMoveCaptureBlack_proj_white_bishops, makeMoveCaptureBlack_proj_white_queens, makeMoveCaptureBlack_proj_white_king, makeMoveCaptureBlack_proj_black_king, makeMoveCaptureBlack_proj_white_pieces, makeMoveCaptureBlack_proj_pieces, makeMoveCaptureBlack_proj_en_passant_target, makeMoveCaptureBlack_proj_white_queen_side_castling_right, makeMoveCaptureBlack_proj_white_king_side_castling_right, makeMoveCaptureBlack_proj_black_queen_side_castling_right, makeMoveCaptureBlack_proj_black_king_side_castling_right, makeMoveCaptureBlack_proj_white_to_play]
      all_goals first
        | (exact hnp)
        | (exact hendP0)
        | (exact hmT)
        | (simp [hwtp])
    · have hcap0 : mv.capture = Option.none := by
        rw [hcap, if_neg hcapb]
      simp only [makeMove_white b mv hwtp]
      obtain ⟨qq1, qq2, hwmv⟩ := whiteMover_rook { b with white_pieces := (b.white_pieces &&& not64 (1 <<< mv.start)) ||| (1 <<< mv.endSq) } mv hz1 hsT
      rw [hwmv]
      dsimp only
      rw [whiteCaptureEp_none { b with white_pieces := (b.white_pieces &&& not64 (1 <<< mv.start)) ||| (1 <<< mv.endSq), white_rooks := (b.white_rooks &&& not64 (1 <<< mv.start)) ||| (1 <<< mv.endSq), white_queen_side_castling_right := qq1, white_king_side_castling_right := qq2 } mv hcap0 hcep]
      rw [if_neg hcds]
      simp only [clearRightsOnEnd_proj_white_pawns, clearRightsOnEnd_proj_white_rooks, clearRightsOnEnd_proj_white_knights, clearRightsOnEnd_proj_white_bishops, clearRightsOnEnd_proj_white_queens, clearRightsOnEnd_proj_white_king, clearRightsOnEnd_proj_black_pawns, clearRightsOnEnd_proj_black_rooks, clearRightsOnEnd_proj_black_knights, clearRightsOnEnd_proj_black_bishops, clearRightsOnEnd_proj_black_queens, clearRightsOnEnd_proj_black_king, clearRightsOnEnd_proj_white_pieces, clearRightsOnEnd_proj_black_pieces, clearRightsOnEnd_proj_pieces, clearRightsOnEnd_proj_en_passant_target, clearRightsOnEnd_proj_white_to_play]
      rw [unmakeMove_white]
      dsimp only
      rw [whiteUnmover_rook]
      dsimp only
      rw [whiteUncaptureEp_none _ mv hcap0 hcep]
      rw [whiteRestoreMover_rook]
      simp only [finishUnmake]
      apply Board.ext
      · rfl
      · apply Nat.eq_of_testBit_eq
        intro i
        simp only [Nat.testBit_or, Nat.testBit_and, testBit_not64, testBit_single]
        by_cases hs : mv.start = i
        · subst hs
          simp [hT, hs64]
        · by_cases he : mv.endSq = i
          · subst he
            simp [hendR, he64, hs]
          · by_cases hl : i < 64
            · simp [hs, he, hl]
            · simp [hs, he, hl, testBit_high _ i hcf.wr_lt (by omega)]
      · rfl
      · rfl
      · rfl
      · rfl
      · rfl
      · rfl
      · rfl
      · rfl
      · rfl
      · rfl
      · apply Nat.eq_of_testBit_eq
        intro i
        simp only [Nat.testBit_or, Nat.testBit_and, testBit_not64, testBit_single]
        by_cases hs : mv.start = i
        · subst hs
          simp [hstart, hs64]
        · by_cases he : mv.endSq = i
          · subst he
            simp [hend, he64, hs]
          · by_cases hl : i < 64
            · simp [hs, he, hl]
            · simp [hs, he, hl, testBit_high _ i hwplt (by omega)]
      · rfl
      · conv_rhs => rw [hcf.gagg]
        refine congrArg₂ (fun x y => x ||| y) ?_ ?_
        · apply Nat.eq_of_testBit_eq
          intro i
          simp only [Nat.testBit_or, Nat.testBit_and, testBit_not64, testBit_single]
          by_cases hs : mv.start = i
          · subst hs
            simp [hstart, hs64]
          · by_cases he : mv.endSq = i
            · subst he
              simp [hend, he64, hs]
            · by_cases hl : i < 64
              · simp [hs, he, hl]
              · simp [hs, he, hl, testBit_high _ i hwplt (by omega)]
        · rfl
      · exact hpe
      · exact hpq1
      · exact hpq2
      · exact hpq3
      · exact hpq4
      · exact hwtp.symm
      all_goals first
        | (exact hnp)
        | (exact hendP0)
        | (exact hmT)
        | (simp [hwtp])
  · -- knight
    have hz1 : b.white_pawns &&& (1 <<< mv.start) = 0 :=
      single_and_zero _ _ (disj_bit _ _ _ hcf.wp_wn hT)
    have hz2 : b.white_rooks &&& (1 <<< mv.start) = 0 :=
      single_and_zero _ _ (disj_bit _ _ _ hcf.wr_wn hT)
    have hsT : b.white_knights &&& (1 <<< mv.start) ≠ 0 := sub_single _ _ hT
    have hmT : ((b.white_knights &&& not64 (1 <<< mv.start)) ||| (1 <<< mv.endSq)) &&&
        (1 <<< mv.endSq) ≠ 0 :=
      sub_single _ _ (bit_in_or_right _ _ _ (by rw [testBit_single]; simp))
    by_cases hcapb : b.black_pieces &&& (1 <<< mv.endSq) ≠ 0
    · have hcapS : mv.capture = some (get_piece_type_on_square b mv.endSq) := by
        rw [hcap, if_pos hcapb]
      have htB : Nat.testBit b.black_pieces mv.endSq = true := single_sub _ _ hcapb
      have hptdef := get_piece_black b mv.endSq hendW0 hcapb
      simp only [makeMove_white b mv hwtp]
      rw [whiteMover_knight { b with white_pieces := (b.white_pieces &&& not64 (1 <<< mv.start)) ||| (1 <<< mv.endSq) } mv hz1 hz2 hsT]
      dsimp only
      rw [whiteCaptureEp_some { b with white_pieces := (b.white_pieces &&& not64 (1 <<< mv.start)) ||| (1 <<< mv.endSq), white_knights := (b.white_knights &&& not64 (1 <<< mv.start)) ||| (1 <<< mv.endSq) } mv (get_piece_type_on_square b mv.endSq) hcapS]
      rw [if_neg hcds]
      simp only [clearRightsOnEnd_proj_white_pawns, clearRightsOnEnd_proj_white_rooks, clearRightsOnEnd_proj_white_knights, clearRightsOnEnd_proj_white_bishops, clearRightsOnEnd_proj_white_queens, clearRightsOnEnd_proj_white_king, clearRightsOnEnd_proj_black_pawns, clearRightsOnEnd_proj_black_rooks, clearRightsOnEnd_proj_black_knights, clearRightsOnEnd_proj_black_bishops, clearRightsOnEnd_proj_black_queens, clearRightsOnEnd_proj_black_king, clearRightsOnEnd_proj_white_pieces, clearRightsOnEnd_proj_black_pieces, clearRightsOnEnd_proj_pieces, clearRightsOnEnd_proj_en_passant_target, clearRightsOnEnd_proj_white_to_play]
      rw [unmakeMove_white]
      dsimp only
      rw [whiteUnmover_knight]
      dsimp only
      rw [whiteUncaptureEp_some _ mv (get_piece_type_on_square b mv.endSq) hcapS]
      rw [whiteRestoreMover_knight]
      simp only [finishUnmake]
      simp only [makeMoveCaptureBlack_proj_white_pawns, makeMoveCaptureBlack_proj_white_rooks, makeMoveCaptureBlack_proj_white_knights, makeMoveCaptureBlack_proj_white_bishops, makeMoveCaptureBlack_proj_white_queens, makeMoveCaptureBlack_proj_white_king, makeMoveCaptureBlack_proj_white_pieces, makeMoveCaptureBlack_proj_pieces, makeMoveCaptureBlack_proj_en_passant_target, makeMoveCaptureBlack_proj_white_queen_side_castling_right, makeMoveCaptureBlack_proj_white_king_side_castling_right, makeMoveCaptureBlack_proj_black_queen_side_castling_right, makeMoveCaptureBlack_proj_black_king_side_castling_right, makeMoveCaptureBlack_proj_white_to_play]
      simp only [unmakeRestoreBlack_proj_white_pawns, unmakeRestoreBlack_proj_white_rooks, unmakeRestoreBlack_proj_white_knights, unmakeRestoreBlack_proj_white_bishops, unmakeRestoreBlack_proj_white_queens, unmakeRestoreBlack_proj_white_king, unmakeRestoreBlack_proj_white_pieces, unmakeRestoreBlack_proj_pieces, unmakeRestoreBlack_proj_en_passant_target, unmakeRestoreBlack_proj_white_queen_side_castling_right, unmakeRestoreBlack_proj_white_king_side_castling_right, unmakeRestoreBlack_proj_black_queen_side_castling_right, unmakeRestoreBlack_proj_black_king_side_castling_right, unmakeRestoreBlack_proj_white_to_play]
      apply Board.ext
      · rfl
      · rfl
      · apply Nat.eq_of_testBit_eq
        intro i
        simp only [Nat.testBit_or, Nat.testBit_and, testBit_not64, testBit_single]
        by_cases hs : mv.start = i
        · subst hs
          simp [hT, hs64]
        · by_cases he : mv.endSq = i
          · subst he
            simp [hendN, he64, hs]
          · by_cases hl : i < 64
            · simp [hs, he, hl]
            · simp [hs, he, hl, testBit_high _ i hcf.wn_lt (by omega)]
      · rfl
      · rfl
      · rfl
      · refine (black_capture_roundtrip b { b with white_pieces := (b.white_pieces &&& not64 (1 <<< mv.start)) ||| (1 <<< mv.endSq), white_knights := (b.white_knights &&& not64 (1 <<< mv.start)) ||| (1 <<< mv.endSq) } ?_ mv.endSq (get_piece_type_on_square b mv.endSq) hcf ?_ ?_ ?_ ?_ ?_ ?_ ?_ ?_ ?_ ?_ ?_ ?_ ?_ ?_ he64 htB hptdef).2.1 <;> first | rfl | exact (makeMoveCaptureBlack_proj_black_king _ _ _).symm
      · refine (black_capture_roundtrip b { b with white_pieces := (b.white_pieces &&& not64 (1 <<< mv.start)) ||| (1 <<< mv.endSq), white_knights := (b.white_knights &&& not64 (1 <<< mv.start)) ||| (1 <<< mv.endSq) } ?_ mv.endSq (get_piece_type_on_square b mv.endSq) hcf ?_ ?_ ?_ ?_ ?_ ?_ ?_ ?_ ?_ ?_ ?_ ?_ ?_ ?_ he64 htB hptdef).2.2.1 <;> first | rfl | exact (makeMoveCaptureBlack_proj_black_king _ _ _).symm
      · refine (black_capture_roundtrip b { b with white_pieces := (b.white_pieces &&& not64 (1 <<< mv.start)) ||| (1 <<< mv.endSq), white_knights := (b.white_knights &&& not64 (1 <<< mv.start)) ||| (1 <<< mv.endSq) } ?_ mv.endSq (get_piece_type_on_square b mv.endSq) hcf ?_ ?_ ?_ ?_ ?_ ?_ ?_ ?_ ?_ ?_ ?_ ?_ ?_ ?_ he64 htB hptdef).2.2.2.1 <;> first | rfl | exact (makeMoveCaptureBlack_proj_black_king _ _ _).symm
      · refine (black_capture_roundtrip b { b with white_pieces := (b.white_pieces &&& not64 (1 <<< mv.start)) ||| (1 <<< mv.endSq), white_knights := (b.white_knights &&& not64 (1 <<< mv.start)) ||| (1 <<< mv.endSq) } ?_ mv.endSq (get_piece_type_on_square b mv.endSq) hcf ?_ ?_ ?_ ?_ ?_ ?_ ?_ ?_ ?_ ?_ ?_ ?_ ?_ ?_ he64 htB hptdef).2.2.2.2.1 <;> first | rfl | exact (makeMoveCaptureBlack_proj_black_king _ _ _).symm
      · refine (black_capture_roundtrip b { b with white_pieces := (b.white_pieces &&& not64 (1 <<< mv.start)) ||| (1 <<< mv.endSq), white_knights := (b.white_knights &&& not64 (1 <<< mv.start)) ||| (1 <<< mv.endSq) } ?_ mv.endSq (get_piece_type_on_square b mv.endSq) hcf ?_ ?_ ?_ ?_ ?_ ?_ ?_ ?_ ?_ ?_ ?_ ?_ ?_ ?_ he64 htB hptdef).2.2.2.2.2.1 <;> first | rfl | exact (makeMoveCaptureBlack_proj_black_king _ _ _).symm
      · refine (black_capture_roundtrip b { b with white_pieces := (b.white_pieces &&& not64 (1 <<< mv.start)) ||| (1 <<< mv.endSq), white_knights := (b.white_knights &&& not64 (1 <<< mv.start)) ||| (1 <<< mv.endSq) } ?_ mv.endSq (get_piece_type_on_square b mv.endSq) hcf ?_ ?_ ?_ ?_ ?_ ?_ ?_ ?_ ?_ ?_ ?_ ?_ ?_ ?_ he64 htB hptdef).2.2.2.2.2.2 <;> first | rfl | exact (makeMoveCaptureBlack_proj_black_king _ _ _).symm
      · apply Nat.eq_of_testBit_eq
        intro i
        simp only [Nat.testBit_or, Nat.testBit_and, testBit_not64, testBit_single]
        by_cases hs : mv.start = i
        · subst hs
          simp [hstart, hs64]
        · by_cases he : mv.endSq = i
          · subst he
            simp [hend, he64, hs]
          · by_cases hl : i < 64
            · simp [hs, he, hl]
            · simp [hs, he, hl, testBit_high _ i hwplt (by omega)]
      · refine (black_capture_roundtrip b { b with white_pieces := (b.white_pieces &&& not64 (1 <<< mv.start)) ||| (1 <<< mv.endSq), white_knights := (b.white_knights &&& not64 (1 <<< mv.start)) ||| (1 <<< mv.endSq) } ?_ mv.endSq (get_piece_type_on_square b mv.endSq) hcf ?_ ?_ ?_ ?_ ?_ ?_ ?_ ?_ ?_ ?_ ?_ ?_ ?_ ?_ he64 htB hptdef).1 <;> first | rfl | exact (makeMoveCaptureBlack_proj_black_king _ _ _).symm
      · conv_rhs => rw [hcf.gagg]
        refine congrArg₂ (fun x y => x ||| y) ?_ ?_
        · apply Nat.eq_of_testBit_eq
          intro i
          simp only [Nat.testBit_or, Nat.testBit_and, testBit_not64, testBit_single]
          by_cases hs : mv.start = i
          · subst hs
            simp [hstart, hs64]
          · by_cases he : mv.endSq = i
            · subst he
              simp [hend, he64, hs]
            · by_cases hl : i < 64
              · simp [hs, he, hl]
              · simp [hs, he, hl, testBit_high _ i hwplt (by omega)]
        · refine (black_capture_roundtrip b { b with white_pieces := (b.white_pieces &&& not64 (1 <<< mv.start)) ||| (1 <<< mv.endSq), white_knights := (b.white_knights &&& not64 (1 <<< mv.start)) ||| (1 <<< mv.endSq) } ?_ mv.endSq (get_piece_type_on_square b mv.endSq) hcf ?_ ?_ ?_ ?_ ?_ ?_ ?_ ?_ ?_ ?_ ?_ ?_ ?_ ?_ he64 htB hptdef).1 <;> first | rfl | exact (makeMoveCaptureBlack_proj_black_king _ _ _).symm
      · exact hpe
      · exact hpq1
      · exact hpq2
      · exact hpq3
      · exact hpq4
      · exact hwtp.symm
      all_goals try simp only [makeMoveCaptureBlack_proj_white_pawns, makeMoveCaptureBlack_proj_white_rooks, makeMoveCaptureBlack_proj_white_knights, makeMoveCaptureBlack_proj_white_bishops, makeMoveCaptureBlack_proj_white_queens, makeMoveCaptureBlack_proj_white_king, makeMoveCaptureBlack_proj_black_king, makeMoveCaptureBlack_proj_white_pieces, makeMoveCaptureBlack_proj_pieces, makeMoveCaptureBlack_proj_en_passant_target, makeMoveCaptureBlack_proj_white_queen_side_castling_right, makeMoveCaptureBlack_proj_white_king_side_castling_right, makeMoveCaptureBlack_proj_black_queen_side_castling_right, makeMoveCaptureBlack_proj_black_king_side_castling_right, makeMoveCaptureBlack_proj_white_to_play]
      all_goals first
        | (exact hnp)
        | (exact hendP0)
        | (exact hendR0)
        | (exact hmT)
        | (simp [hwtp])
    · have hcap0 : mv.capture = Option.none := by
        rw [hcap, if_neg hcapb]
      simp only [makeMove_white b mv hwtp]
      rw [whiteMover_knight { b with white_pieces := (b.white_pieces &&& not64 (1 <<< mv.start)) ||| (1 <<< mv.endSq) } mv hz1 hz2 hsT]
      dsimp only
      rw [whiteCaptureEp_none { b with white_pieces := (b.white_pieces &&& not64 (1 <<< mv.start)) ||| (1 <<< mv.endSq), white_knights := (b.white_knights &&& not64 (1 <<< mv.start)) ||| (1 <<< mv.endSq) } mv hcap0 hcep]
      rw [if_neg hcds]
      simp only [clearRightsOnEnd_proj_white_pawns, clearRightsOnEnd_proj_white_rooks, clearRightsOnEnd_proj_white_knights, clearRightsOnEnd_proj_white_bishops, clearRightsOnEnd_proj_white_queens, clearRightsOnEnd_proj_white_king, clearRightsOnEnd_proj_black_pawns, clearRightsOnEnd_proj_black_rooks, clearRightsOnEnd_proj_black_knights, clearRightsOnEnd_proj_black_bishops, clearRightsOnEnd_proj_black_queens, clearRightsOnEnd_proj_black_king, clearRightsOnEnd_proj_white_pieces, clearRightsOnEnd_proj_black_pieces, clearRightsOnEnd_proj_pieces, clearRightsOnEnd_proj_en_passant_target, clearRightsOnEnd_proj_white_to_play]
      rw [unmakeMove_white]
      dsimp only
      rw [whiteUnmover_knight]
      dsimp only
      rw [whiteUncaptureEp_none _ mv hcap0 hcep]
      rw [whiteRestoreMover_knight]
      simp only [finishUnmake]
      apply Board.ext
      · rfl
      · rfl
      · apply Nat.eq_of_testBit_eq
        intro i
        simp only [Nat.testBit_or, Nat.testBit_and, testBit_not64, testBit_single]
        by_cases hs : mv.start = i
        · subst hs
          simp [hT, hs64]
        · by_cases he : mv.endSq = i
          · subst he
            simp [hendN, he64, hs]
          · by_cases hl : i < 64
            · simp [hs, he, hl]
            · simp [hs, he, hl, testBit_high _ i hcf.wn_lt (by omega)]
      · rfl
      · rfl
      · rfl
      · rfl
      · rfl
      · rfl
      · rfl
      · rfl
      · rfl
      · apply Nat.eq_of_testBit_eq
        intro i
        simp only [Nat.testBit_or, Nat.testBit_and, testBit_not64, testBit_single]
        by_cases hs : mv.start = i
        · subst hs
          simp [hstart, hs64]
        · by_cases he : mv.endSq = i
          · subst he
            simp [hend, he64, hs]
          · by_cases hl : i < 64
            · simp [hs, he, hl]
            · simp [hs, he, hl, testBit_high _ i hwplt (by omega)]
      · rfl
      · conv_rhs => rw [hcf.gagg]
        refine congrArg₂ (fun x y => x ||| y) ?_ ?_
        · apply Nat.eq_of_testBit_eq
          intro i
          simp only [Nat.testBit_or, Nat.testBit_and, testBit_not64, testBit_single]
          by_cases hs : mv.start = i
          · subst hs
            simp [hstart, hs64]
          · by_cases he : mv.endSq = i
            · subst he
              simp [hend, he64, hs]
            · by_cases hl : i < 64
              · simp [hs, he, hl]
              · simp [hs, he, hl, testBit_high _ i hwplt (by omega)]
        · rfl
      · exact hpe
      · exact hpq1
      · exact hpq2
      · exact hpq3
      · exact hpq4
      · exact hwtp.symm
      all_goals first
        | (exact hnp)
        | (exact hendP0)
        | (exact hendR0)
        | (exact hmT)
        | (simp [hwtp])
  · -- bishop
    have hz1 : b.white_pawns &&& (1 <<< mv.start) = 0 :=
      single_and_zero _ _ (disj_bit _ _ _ hcf.wp_wb hT)
    have hz2 : b.white_rooks &&& (1 <<< mv.start) = 0 :=
      single_and_zero _ _ (disj_bit _ _ _ hcf.wr_wb hT)
    have hz3 : b.white_knights &&& (1 <<< mv.start) = 0 :=
      single_and_zero _ _ (disj_bit _ _ _ hcf.wn_wb hT)
    have hsT : b.white_bishops &&& (1 <<< mv.start) ≠ 0 := sub_single _ _ hT
    have hmT : ((b.white_bishops &&& not64 (1 <<< mv.start)) ||| (1 <<< mv.endSq)) &&&
        (1 <<< mv.endSq) ≠ 0 :=
      sub_single _ _ (bit_in_or_right _ _ _ (by rw [testBit_single]; simp))
    by_cases hcapb : b.black_pieces &&& (1 <<< mv.endSq) ≠ 0
    · have hcapS : mv.capture = some (get_piece_type_on_square b mv.endSq) := by
        rw [hcap, if_pos hcapb]
      have htB : Nat.testBit b.black_pieces mv.endSq = true := single_sub _ _ hcapb
      have hptdef := get_piece_black b mv.endSq hendW0 hcapb
      simp only [makeMove_white b mv hwtp]
      rw [whiteMover_bishop { b with white_pieces := (b.white_pieces &&& not64 (1 <<< mv.start)) ||| (1 <<< mv.endSq) } mv hz1 hz2 hz3 hsT]
      dsimp only
      rw [whiteCaptureEp_some { b with white_pieces := (b.white_pieces &&& not64 (1 <<< mv.start)) ||| (1 <<< mv.endSq), white_bishops := (b.white_bishops &&& not64 (1 <<< mv.start)) ||| (1 <<< mv.endSq) } mv (get_piece_type_on_square b mv.endSq) hcapS]
      rw [if_neg hcds]
      simp only [clearRightsOnEnd_proj_white_pawns, clearRightsOnEnd_proj_white_rooks, clearRightsOnEnd_proj_white_knights, clearRightsOnEnd_proj_white_bishops, clearRightsOnEnd_proj_white_queens, clearRightsOnEnd_proj_white_king, clearRightsOnEnd_proj_black_pawns, clearRightsOnEnd_proj_black_rooks, clearRightsOnEnd_proj_black_knights, clearRightsOnEnd_proj_black_bishops, clearRightsOnEnd_proj_black_queens, clearRightsOnEnd_proj_black_king, clearRightsOnEnd_proj_white_pieces, clearRightsOnEnd_proj_black_pieces, clearRightsOnEnd_proj_pieces, clearRightsOnEnd_proj_en_passant_target, clearRightsOnEnd_proj_white_to_play]
      rw [unmakeMove_white]
      dsimp only
      rw [whiteUnmover_bishop]
      dsimp only
      rw [whiteUncaptureEp_some _ mv (get_piece_type_on_square b mv.endSq) hcapS]
      rw [whiteRestoreMover_bishop]
      simp only [finishUnmake]
      simp only [makeMoveCaptureBlack_proj_white_pawns, makeMoveCaptureBlack_proj_white_rooks, makeMoveCaptureBlack_proj_white_knights, makeMoveCaptureBlack_proj_white_bishops, makeMoveCaptureBlack_proj_white_queens, makeMoveCaptureBlack_proj_white_king, makeMoveCaptureBlack_proj_white_pieces, makeMoveCaptureBlack_proj_pieces, makeMoveCaptureBlack_proj_en_passant_target, makeMoveCaptureBlack_proj_white_queen_side_castling_right, makeMoveCaptureBlack_proj_white_king_side_castling_right, makeMoveCaptureBlack_proj_black_queen_side_castling_right, makeMoveCaptureBlack_proj_black_king_side_castling_right, makeMoveCaptureBlack_proj_white_to_play]
      simp only [unmakeRestoreBlack_proj_white_pawns, unmakeRestoreBlack_proj_white_rooks, unmakeRestoreBlack_proj_white_knights, unmakeRestoreBlack_proj_white_bishops, unmakeRestoreBlack_proj_white_queens, unmakeRestoreBlack_proj_white_king, unmakeRestoreBlack_proj_white_pieces, unmakeRestoreBlack_proj_pieces, unmakeRestoreBlack_proj_en_passant_target, unmakeRestoreBlack_proj_white_queen_side_castling_right, unmakeRestoreBlack_proj_white_king_side_castling_right, unmakeRestoreBlack_proj_black_queen_side_castling_right, unmakeRestoreBlack_proj_black_king_side_castling_right, unmakeRestoreBlack_proj_white_to_play]
      apply Board.ext
      · rfl
      · rfl
      · rfl
      · apply Nat.eq_of_testBit_eq
        intro i
        simp only [Nat.testBit_or, Nat.testBit_and, testBit_not64, testBit_single]
        by_cases hs : mv.start = i
        · subst hs
          simp [hT, hs64]
        · by_cases he : mv.endSq = i
          · subst he
            simp [hendB, he64, hs]
          · by_cases hl : i < 64
            · simp [hs, he, hl]
            · simp [hs, he, hl, testBit_high _ i hcf.wb_lt (by omega)]
      · rfl
      · rfl
      · refine (black_capture_roundtrip b { b with white_pieces := (b.white_pieces &&& not64 (1 <<< mv.start)) ||| (1 <<< mv.endSq), white_bishops := (b.white_bishops &&& not64 (1 <<< mv.start)) ||| (1 <<< mv.endSq) } ?_ mv.endSq (get_piece_type_on_square b mv.endSq) hcf ?_ ?_ ?_ ?_ ?_ ?_ ?_ ?_ ?_ ?_ ?_ ?_ ?_ ?_ he64 htB hptdef).2.1 <;> first | rfl | exact (makeMoveCaptureBlack_proj_black_king _ _ _).symm
      · refine (black_capture_roundtrip b { b with white_pieces := (b.white_pieces &&& not64 (1 <<< mv.start)) ||| (1 <<< mv.endSq), white_bishops := (b.white_bishops &&& not64 (1 <<< mv.start)) ||| (1 <<< mv.endSq) } ?_ mv.endSq (get_piece_type_on_square b mv.endSq) hcf ?_ ?_ ?_ ?_ ?_ ?_ ?_ ?_ ?_ ?_ ?_ ?_ ?_ ?_ he64 htB hptdef).2.2.1 <;> first | rfl | exact (makeMoveCaptureBlack_proj_black_king _ _ _).symm
      · refine (black_capture_roundtrip b { b with white_pieces := (b.white_pieces &&& not64 (1 <<< mv.start)) ||| (1 <<< mv.endSq), white_bishops := (b.white_bishops &&& not64 (1 <<< mv.start)) ||| (1 <<< mv.endSq) } ?_ mv.endSq (get_piece_type_on_square b mv.endSq) hcf ?_ ?_ ?_ ?_ ?_ ?_ ?_ ?_ ?_ ?_ ?_ ?_ ?_ ?_ he64 htB hptdef).2.2.2.1 <;> first | rfl | exact (makeMoveCaptureBlack_proj_black_king _ _ _).symm
      · refine (black_capture_roundtrip b { b with white_pieces := (b.white_pieces &&& not64 (1 <<< mv.start)) ||| (1 <<< mv.endSq), white_bishops := (b.white_bishops &&& not64 (1 <<< mv.start)) ||| (1 <<< mv.endSq) } ?_ mv.endSq (get_piece_type_on_square b mv.endSq) hcf ?_ ?_ ?_ ?_ ?_ ?_ ?_ ?_ ?_ ?_ ?_ ?_ ?_ ?_ he64 htB hptdef).2.2.2.2.1 <;> first | rfl | exact (makeMoveCaptureBlack_proj_black_king _ _ _).symm
      · refine (black_capture_roundtrip b { b with white_pieces := (b.white_pieces &&& not64 (1 <<< mv.start)) ||| (1 <<< mv.endSq), white_bishops := (b.white_bishops &&& not64 (1 <<< mv.start)) ||| (1 <<< mv.endSq) } ?_ mv.endSq (get_piece_type_on_square b mv.endSq) hcf ?_ ?_ ?_ ?_ ?_ ?_ ?_ ?_ ?_ ?_ ?_ ?_ ?_ ?_ he64 htB hptdef).2.2.2.2.2.1 <;> first | rfl | exact (makeMoveCaptureBlack_proj_black_king _ _ _).symm
      · refine (black_capture_roundtrip b { b with white_pieces := (b.white_pieces &&& not64 (1 <<< mv.start)) ||| (1 <<< mv.endSq), white_bishops := (b.white_bishops &&& not64 (1 <<< mv.start)) ||| (1 <<< mv.endSq) } ?_ mv.endSq (get_piece_type_on_square b mv.endSq) hcf ?_ ?_ ?_ ?_ ?_ ?_ ?_ ?_ ?_ ?_ ?_ ?_ ?_ ?_ he64 htB hptdef).2.2.2.2.2.2 <;> first | rfl | exact (makeMoveCaptureBlack_proj_black_king _ _ _).symm
      · apply Nat.eq_of_testBit_eq
        intro i
        simp only [Nat.testBit_or, Nat.testBit_and, testBit_not64, testBit_single]
        by_cases hs : mv.start = i
        · subst hs
          simp [hstart, hs64]
        · by_cases he : mv.endSq = i
          · subst he
            simp [hend, he64, hs]
          · by_cases hl : i < 64
            · simp [hs, he, hl]
            · simp [hs, he, hl, testBit_high _ i hwplt (by omega)]
      · refine (black_capture_roundtrip b { b with white_pieces := (b.white_pieces &&& not64 (1 <<< mv.start)) ||| (1 <<< mv.endSq), white_bishops := (b.white_bishops &&& not64 (1 <<< mv.start)) ||| (1 <<< mv.endSq) } ?_ mv.endSq (get_piece_type_on_square b mv.endSq) hcf ?_ ?_ ?_ ?_ ?_ ?_ ?_ ?_ ?_ ?_ ?_ ?_ ?_ ?_ he64 htB hptdef).1 <;> first | rfl | exact (makeMoveCaptureBlack_proj_black_king _ _ _).symm
      · conv_rhs => rw [hcf.gagg]
        refine congrArg₂ (fun x y => x ||| y) ?_ ?_
        · apply Nat.eq_of_testBit_eq
          intro i
          simp only [Nat.testBit_or, Nat.testBit_and, testBit_not64, testBit_single]
          by_cases hs : mv.start = i
          · subst hs
            simp [hstart, hs64]
          · by_cases he : mv.endSq = i
            · subst he
              simp [hend, he64, hs]
            · by_cases hl : i < 64
              · simp [hs, he, hl]
              · simp [hs, he, hl, testBit_high _ i hwplt (by omega)]
        · refine (black_capture_roundtrip b { b with white_pieces := (b.white_pieces &&& not64 (1 <<< mv.start)) ||| (1 <<< mv.endSq), white_bishops := (b.white_bishops &&& not64 (1 <<< mv.start)) ||| (1 <<< mv.endSq) } ?_ mv.endSq (get_piece_type_on_square b mv.endSq) hcf ?_ ?_ ?_ ?_ ?_ ?_ ?_ ?_ ?_ ?_ ?_ ?_ ?_ ?_ he64 htB hptdef).1 <;> first | rfl | exact (makeMoveCaptureBlack_proj_black_king _ _ _).symm
      · exact hpe
      · exact hpq1
      · exact hpq2
      · exact hpq3
      · exact hpq4
      · exact hwtp.symm
      all_goals try simp only [makeMoveCaptureBlack_proj_white_pawns, makeMoveCaptureBlack_proj_white_rooks, makeMoveCaptureBlack_proj_white_knights, makeMoveCaptureBlack_proj_white_bishops, makeMoveCaptureBlack_proj_white_queens, makeMoveCaptureBlack_proj_white_king, makeMoveCaptureBlack_proj_black_king, makeMoveCaptureBlack_proj_white_pieces, makeMoveCaptureBlack_proj_pieces, makeMoveCaptureBlack_proj_en_passant_target, makeMoveCaptureBlack_proj_white_queen_side_castling_right, makeMoveCaptureBlack_proj_white_king_side_castling_right, makeMoveCaptureBlack_proj_black_queen_side_castling_right, makeMoveCaptureBlack_proj_black_king_side_castling_right, makeMoveCaptureBlack_proj_white_to_play]
      all_goals first
        | (exact hnp)
        | (exact hendP0)
        | (exact hendR0)
        | (exact hendN0)
        | (exact hmT)
        | (simp [hwtp])
    · have hcap0 : mv.capture = Option.none := by
        rw [hcap, if_neg hcapb]
      simp only [makeMove_white b mv hwtp]
      rw [whiteMover_bishop { b with white_pieces := (b.white_pieces &&& not64 (1 <<< mv.start)) ||| (1 <<< mv.endSq) } mv hz1 hz2 hz3 hsT]
      dsimp only
      rw [whiteCaptureEp_none { b with white_pieces := (b.white_pieces &&& not64 (1 <<< mv.start)) ||| (1 <<< mv.endSq), white_bishops := (b.white_bishops &&& not64 (1 <<< mv.start)) ||| (1 <<< mv.endSq) } mv hcap0 hcep]
      rw [if_neg hcds]
      simp only [clearRightsOnEnd_proj_white_pawns, clearRightsOnEnd_proj_white_rooks, clearRightsOnEnd_proj_white_knights, clearRightsOnEnd_proj_white_bishops, clearRightsOnEnd_proj_white_queens, clearRightsOnEnd_proj_white_king, clearRightsOnEnd_proj_black_pawns, clearRightsOnEnd_proj_black_rooks, clearRightsOnEnd_proj_black_knights, clearRightsOnEnd_proj_black_bishops, clearRightsOnEnd_proj_black_queens, clearRightsOnEnd_proj_black_king, clearRightsOnEnd_proj_white_pieces, clearRightsOnEnd_proj_black_pieces, clearRightsOnEnd_proj_pieces, clearRightsOnEnd_proj_en_passant_target, clearRightsOnEnd_proj_white_to_play]
      rw [unmakeMove_white]
      dsimp only
      rw [whiteUnmover_bishop]
      dsimp only
      rw [whiteUncaptureEp_none _ mv hcap0 hcep]
      rw [whiteRestoreMover_bishop]
      simp only [finishUnmake]
      apply Board.ext
      · rfl
      · rfl
      · rfl
      · apply Nat.eq_of_testBit_eq
        intro i
        simp only [Nat.testBit_or, Nat.testBit_and, testBit_not64, testBit_single]
        by_cases hs : mv.start = i
        · subst hs
          simp [hT, hs64]
        · by_cases he : mv.endSq = i
          · subst he
            simp [hendB, he64, hs]
          · by_cases hl : i < 64
            · simp [hs, he, hl]
            · simp [hs, he, hl, testBit_high _ i hcf.wb_lt (by omega)]
      · rfl
      · rfl
      · rfl
      · rfl
      · rfl
      · rfl
      · rfl
      · rfl
      · apply Nat.eq_of_testBit_eq
        intro i
        simp only [Nat.testBit_or, Nat.testBit_and, testBit_not64, testBit_single]
        by_cases hs : mv.start = i
        · subst hs
          simp [hstart, hs64]
        · by_cases he : mv.endSq = i
          · subst he
            simp [hend, he64, hs]
          · by_cases hl : i < 64
            · simp [hs, he, hl]
            · simp [hs, he, hl, testBit_high _ i hwplt (by omega)]
      · rfl
      · conv_rhs => rw [hcf.gagg]
        refine congrArg₂ (fun x y => x ||| y) ?_ ?_
        · apply Nat.eq_of_testBit_eq
          intro i
          simp only [Nat.testBit_or, Nat.testBit_and, testBit_not64, testBit_single]
          by_cases hs : mv.start = i
          · subst hs
            simp [hstart, hs64]
          · by_cases he : mv.endSq = i
            · subst he
              simp [hend, he64, hs]
            · by_cases hl : i < 64
              · simp [hs, he, hl]
              · simp [hs, he, hl, testBit_high _ i hwplt (by omega)]
        · rfl
      · exact hpe
      · exact hpq1
      · exact hpq2
      · exact hpq3
      · exact hpq4
      · exact hwtp.symm
      all_goals first
        | (exact hnp)
        | (exact hendP0)
        | (exact hendR0)
        | (exact hendN0)
        | (exact hmT)
        | (simp [hwtp])
  · -- queen
    have hz1 : b.white_pawns &&& (1 <<< mv.start) = 0 :=
      single_and_zero _ _ (disj_bit _ _ _ hcf.wp_wq hT)
    have hz2 : b.white_rooks &&& (1 <<< mv.start) = 0 :=
      single_and_zero _ _ (disj_bit _ _ _ hcf.wr_wq hT)
    have hz3 : b.white_knights &&& (1 <<< mv.start) = 0 :=
      single_and_zero _ _ (disj_bit _ _ _ hcf.wn_wq hT)
    have hz4 : b.white_bishops &&& (1 <<< mv.start) = 0 :=
      single_and_zero _ _ (disj_bit _ _ _ hcf.wb_wq hT)
    have hsT : b.white_queens &&& (1 <<< mv.start) ≠ 0 := sub_single _ _ hT
    have hmT : ((b.white_queens &&& not64 (1 <<< mv.start)) ||| (1 <<< mv.endSq)) &&&
        (1 <<< mv.endSq) ≠ 0 :=
      sub_single _ _ (bit_in_or_right _ _ _ (by rw [testBit_single]; simp))
    by_cases hcapb : b.black_pieces &&& (1 <<< mv.endSq) ≠ 0
    · have hcapS : mv.capture = some (get_piece_type_on_square b mv.endSq) := by
        rw [hcap, if_pos hcapb]
      have htB : Nat.testBit b.black_pieces mv.endSq = true := single_sub _ _ hcapb
      have hptdef := get_piece_black b mv.endSq hendW0 hcapb
      simp only [makeMove_white b mv hwtp]
      rw [whiteMover_queen { b with white_pieces := (b.white_pieces &&& not64 (1 <<< mv.start)) ||| (1 <<< mv.endSq) } mv hz1 hz2 hz3 hz4 hsT]
      dsimp only
      rw [whiteCaptureEp_some { b with white_pieces := (b.white_pieces &&& not64 (1 <<< mv.start)) ||| (1 <<< mv.endSq), white_queens := (b.white_queens &&& not64 (1 <<< mv.start)) ||| (1 <<< mv.endSq) } mv (get_piece_type_on_square b mv.endSq) hcapS]
      rw [if_neg hcds]
      simp only [clearRightsOnEnd_proj_white_pawns, clearRightsOnEnd_proj_white_rooks, clearRightsOnEnd_proj_white_knights, clearRightsOnEnd_proj_white_bishops, clearRightsOnEnd_proj_white_queens, clearRightsOnEnd_proj_white_king, clearRightsOnEnd_proj_black_pawns, clearRightsOnEnd_proj_black_rooks, clearRightsOnEnd_proj_black_knights, clearRightsOnEnd_proj_black_bishops, clearRightsOnEnd_proj_black_queens, clearRightsOnEnd_proj_black_king, clearRightsOnEnd_proj_white_pieces, clearRightsOnEnd_proj_black_pieces, clearRightsOnEnd_proj_pieces, clearRightsOnEnd_proj_en_passant_target, clearRightsOnEnd_proj_white_to_play]
      rw [unmakeMove_white]
      dsimp only
      rw [whiteUnmover_queen]
      dsimp only
      rw [whiteUncaptureEp_some _ mv (get_piece_type_on_square b mv.endSq) hcapS]
      rw [whiteRestoreMover_queen]
      simp only [finishUnmake]
      simp only [makeMoveCaptureBlack_proj_white_pawns, makeMoveCaptureBlack_proj_white_rooks, makeMoveCaptureBlack_proj_white_knights, makeMoveCaptureBlack_proj_white_bishops, makeMoveCaptureBlack_proj_white_queens, makeMoveCaptureBlack_proj_white_king, makeMoveCaptureBlack_proj_white_pieces, makeMoveCaptureBlack_proj_pieces, makeMoveCaptureBlack_proj_en_passant_target, makeMoveCaptureBlack_proj_white_queen_side_castling_right, makeMoveCaptureBlack_proj_white_king_side_castling_right, makeMoveCaptureBlack_proj_black_queen_side_castling_right, makeMoveCaptureBlack_proj_black_king_side_castling_right, makeMoveCaptureBlack_proj_white_to_play]
      simp only [unmakeRestoreBlack_proj_white_pawns, unmakeRestoreBlack_proj_white_rooks, unmakeRestoreBlack_proj_white_knights, unmakeRestoreBlack_proj_white_bishops, unmakeRestoreBlack_proj_white_queens, unmakeRestoreBlack_proj_white_king, unmakeRestoreBlack_proj_white_pieces, unmakeRestoreBlack_proj_pieces, unmakeRestoreBlack_proj_en_passant_target, unmakeRestoreBlack_proj_white_queen_side_castling_right, unmakeRestoreBlack_proj_white_king_side_castling_right, unmakeRestoreBlack_proj_black_queen_side_castling_right, unmakeRestoreBlack_proj_black_king_side_castling_right, unmakeRestoreBlack_proj_white_to_play]
      apply Board.ext
      · rfl
      · rfl
      · rfl
      · rfl
      · apply Nat.eq_of_testBit_eq
        intro i
        simp only [Nat.testBit_or, Nat.testBit_and, testBit_not64, testBit_single]
        by_cases hs : mv.start = i
        · subst hs
          simp [hT, hs64]
        · by_cases he : mv.endSq = i
          · subst he
            simp [hendQ, he64, hs]
          · by_cases hl : i < 64
            · simp [hs, he, hl]
            · simp [hs, he, hl, testBit_high _ i hcf.wq_lt (by omega)]
      · rfl
      · refine (black_capture_roundtrip b { b with white_pieces := (b.white_pieces &&& not64 (1 <<< mv.start)) ||| (1 <<< mv.endSq), white_queens := (b.white_queens &&& not64 (1 <<< mv.start)) ||| (1 <<< mv.endSq) } ?_ mv.endSq (get_piece_type_on_square b mv.endSq) hcf ?_ ?_ ?_ ?_ ?_ ?_ ?_ ?_ ?_ ?_ ?_ ?_ ?_ ?_ he64 htB hptdef).2.1 <;> first | rfl | exact (makeMoveCaptureBlack_proj_black_king _ _ _).symm
      · refine (black_capture_roundtrip b { b with white_pieces := (b.white_pieces &&& not64 (1 <<< mv.start)) ||| (1 <<< mv.endSq), white_queens := (b.white_queens &&& not64 (1 <<< mv.start)) ||| (1 <<< mv.endSq) } ?_ mv.endSq (get_piece_type_on_square b mv.endSq) hcf ?_ ?_ ?_ ?_ ?_ ?_ ?_ ?_ ?_ ?_ ?_ ?_ ?_ ?_ he64 htB hptdef).2.2.1 <;> first | rfl | exact (makeMoveCaptureBlack_proj_black_king _ _ _).symm
      · refine (black_capture_roundtrip b { b with white_pieces := (b.white_pieces &&& not64 (1 <<< mv.start)) ||| (1 <<< mv.endSq), white_queens := (b.white_queens &&& not64 (1 <<< mv.start)) ||| (1 <<< mv.endSq) } ?_ mv.endSq (get_piece_type_on_square b mv.endSq) hcf ?_ ?_ ?_ ?_ ?_ ?_ ?_ ?_ ?_ ?_ ?_ ?_ ?_ ?_ he64 htB hptdef).2.2.2.1 <;> first | rfl | exact (makeMoveCaptureBlack_proj_black_king _ _ _).symm
      · refine (black_capture_roundtrip b { b with white_pieces := (b.white_pieces &&& not64 (1 <<< mv.start)) ||| (1 <<< mv.endSq), white_queens := (b.white_queens &&& not64 (1 <<< mv.start)) ||| (1 <<< mv.endSq) } ?_ mv.endSq (get_piece_type_on_square b mv.endSq) hcf ?_ ?_ ?_ ?_ ?_ ?_ ?_ ?_ ?_ ?_ ?_ ?_ ?_ ?_ he64 htB hptdef).2.2.2.2.1 <;> first | rfl | exact (makeMoveCaptureBlack_proj_black_king _ _ _).symm
      · refine (black_capture_roundtrip b { b with white_pieces := (b.white_pieces &&& not64 (1 <<< mv.start)) ||| (1 <<< mv.endSq), white_queens := (b.white_queens &&& not64 (1 <<< mv.start)) ||| (1 <<< mv.endSq) } ?_ mv.endSq (get_piece_type_on_square b mv.endSq) hcf ?_ ?_ ?_ ?_ ?_ ?_ ?_ ?_ ?_ ?_ ?_ ?_ ?_ ?_ he64 htB hptdef).2.2.2.2.2.1 <;> first | rfl | exact (makeMoveCaptureBlack_proj_black_king _ _ _).symm
      · refine (black_capture_roundtrip b { b with white_pieces := (b.white_pieces &&& not64 (1 <<< mv.start)) ||| (1 <<< mv.endSq), white_queens := (b.white_queens &&& not64 (1 <<< mv.start)) ||| (1 <<< mv.endSq) } ?_ mv.endSq (get_piece_type_on_square b mv.endSq) hcf ?_ ?_ ?_ ?_ ?_ ?_ ?_ ?_ ?_ ?_ ?_ ?_ ?_ ?_ he64 htB hptdef).2.2.2.2.2.2 <;> first | rfl | exact (makeMoveCaptureBlack_proj_black_king _ _ _).symm
      · apply Nat.eq_of_testBit_eq
        intro i
        simp only [Nat.testBit_or, Nat.testBit_and, testBit_not64, testBit_single]
        by_cases hs : mv.start = i
        · subst hs
          simp [hstart, hs64]
        · by_cases he : mv.endSq = i
          · subst he
            simp [hend, he64, hs]
          · by_cases hl : i < 64
            · simp [hs, he, hl]
            · simp [hs, he, hl, testBit_high _ i hwplt (by omega)]
      · refine (black_capture_roundtrip b { b with white_pieces := (b.white_pieces &&& not64 (1 <<< mv.start)) ||| (1 <<< mv.endSq), white_queens := (b.white_queens &&& not64 (1 <<< mv.start)) ||| (1 <<< mv.endSq) } ?_ mv.endSq (get_piece_type_on_square b mv.endSq) hcf ?_ ?_ ?_ ?_ ?_ ?_ ?_ ?_ ?_ ?_ ?_ ?_ ?_ ?_ he64 htB hptdef).1 <;> first | rfl | exact (makeMoveCaptureBlack_proj_black_king _ _ _).symm
      · conv_rhs => rw [hcf.gagg]
        refine congrArg₂ (fun x y => x ||| y) ?_ ?_
        · apply Nat.eq_of_testBit_eq
          intro i
          simp only [Nat.testBit_or, Nat.testBit_and, testBit_not64, testBit_single]
          by_cases hs : mv.start = i
          · subst hs
            simp [hstart, hs64]
          · by_cases he : mv.endSq = i
            · subst he
              simp [hend, he64, hs]
            · by_cases hl : i < 64
              · simp [hs, he, hl]
              · simp [hs, he, hl, testBit_high _ i hwplt (by omega)]
        · refine (black_capture_roundtrip b { b with white_pieces := (b.white_pieces &&& not64 (1 <<< mv.start)) ||| (1 <<< mv.endSq), white_queens := (b.white_queens &&& not64 (1 <<< mv.start)) ||| (1 <<< mv.endSq) } ?_ mv.endSq (get_piece_type_on_square b mv.endSq) hcf ?_ ?_ ?_ ?_ ?_ ?_ ?_ ?_ ?_ ?_ ?_ ?_ ?_ ?_ he64 htB hptdef).1 <;> first | rfl | exact (makeMoveCaptureBlack_proj_black_king _ _ _).symm
      · exact hpe
      · exact hpq1
      · exact hpq2
      · exact hpq3
      · exact hpq4
      · exact hwtp.symm
      all_goals try simp only [makeMoveCaptureBlack_proj_white_pawns, makeMoveCaptureBlack_proj_white_rooks, makeMoveCaptureBlack_proj_white_knights, makeMoveCaptureBlack_proj_white_bishops, makeMoveCaptureBlack_proj_white_queens, makeMoveCaptureBlack_proj_white_king, makeMoveCaptureBlack_proj_black_king, makeMoveCaptureBlack_proj_white_pieces, makeMoveCaptureBlack_proj_pieces, makeMoveCaptureBlack_proj_en_passant_target, makeMoveCaptureBlack_proj_white_queen_side_castling_right, makeMoveCaptureBlack_proj_white_king_side_castling_right, makeMoveCaptureBlack_proj_black_queen_side_castling_right, makeMoveCaptureBlack_proj_black_king_side_castling_right, makeMoveCaptureBlack_proj_white_to_play]
      all_goals first
        | (exact hnp)
        | (exact hendP0)
        | (exact hendR0)
        | (exact hendN0)
        | (exact hendB0)
        | (exact hmT)
        | (simp [hwtp])
    · have hcap0 : mv.capture = Option.none := by
        rw [hcap, if_neg hcapb]
      simp only [makeMove_white b mv hwtp]
      rw [whiteMover_queen { b with white_pieces := (b.white_pieces &&& not64 (1 <<< mv.start)) ||| (1 <<< mv.endSq) } mv hz1 hz2 hz3 hz4 hsT]
      dsimp only
      rw [whiteCaptureEp_none { b with white_pieces := (b.white_pieces &&& not64 (1 <<< mv.start)) ||| (1 <<< mv.endSq), white_queens := (b.white_queens &&& not64 (1 <<< mv.start)) ||| (1 <<< mv.endSq) } mv hcap0 hcep]
      rw [if_neg hcds]
      simp only [clearRightsOnEnd_proj_white_pawns, clearRightsOnEnd_proj_white_rooks, clearRightsOnEnd_proj_white_knights, clearRightsOnEnd_proj_white_bishops, clearRightsOnEnd_proj_white_queens, clearRightsOnEnd_proj_white_king, clearRightsOnEnd_proj_black_pawns, clearRightsOnEnd_proj_black_rooks, clearRightsOnEnd_proj_black_knights, clearRightsOnEnd_proj_black_bishops, clearRightsOnEnd_proj_black_queens, clearRightsOnEnd_proj_black_king, clearRightsOnEnd_proj_white_pieces, clearRightsOnEnd_proj_black_pieces, clearRightsOnEnd_proj_pieces, clearRightsOnEnd_proj_en_passant_target, clearRightsOnEnd_proj_white_to_play]
      rw [unmakeMove_white]
      dsimp only
      rw [whiteUnmover_queen]
      dsimp only
      rw [whiteUncaptureEp_none _ mv hcap0 hcep]
      rw [whiteRestoreMover_queen]
      simp only [finishUnmake]
      apply Board.ext
      · rfl
      · rfl
      · rfl
      · rfl
      · apply Nat.eq_of_testBit_eq
        intro i
        simp only [Nat.testBit_or, Nat.testBit_and, testBit_not64, testBit_single]
        by_cases hs : mv.start = i
        · subst hs
          simp [hT, hs64]
        · by_cases he : mv.endSq = i
          · subst he
            simp [hendQ, he64, hs]
          · by_cases hl : i < 64
            · simp [hs, he, hl]
            · simp [hs, he, hl, testBit_high _ i hcf.wq_lt (by omega)]
      · rfl
      · rfl
      · rfl
      · rfl
      · rfl
      · rfl
      · rfl
      · apply Nat.eq_of_testBit_eq
        intro i
        simp only [Nat.testBit_or, Nat.testBit_and, testBit_not64, testBit_single]
        by_cases hs : mv.start = i
        · subst hs
          simp [hstart, hs64]
        · by_cases he : mv.endSq = i
          · subst he
            simp [hend, he64, hs]
          · by_cases hl : i < 64
            · simp [hs, he, hl]
            · simp [hs, he, hl, testBit_high _ i hwplt (by omega)]
      · rfl
      · conv_rhs => rw [hcf.gagg]
        refine congrArg₂ (fun x y => x ||| y) ?_ ?_
        · apply Nat.eq_of_testBit_eq
          intro i
          simp only [Nat.testBit_or, Nat.testBit_and, testBit_not64, testBit_single]
          by_cases hs : mv.start = i
          · subst hs
            simp [hstart, hs64]
          · by_cases he : mv.endSq = i
            · subst he
              simp [hend, he64, hs]
            · by_cases hl : i < 64
              · simp [hs, he, hl]
              · simp [hs, he, hl, testBit_high _ i hwplt (by omega)]
        · rfl
      · exact hpe
      · exact hpq1
      · exact hpq2
      · exact hpq3
      · exact hpq4
      · exact hwtp.symm
      all_goals first
        | (exact hnp)
        | (exact hendP0)
        | (exact hendR0)
        | (exact hendN0)
        | (exact hendB0)
        | (exact hmT)
        | (simp [hwtp])
  · -- king
    have hz1 : b.white_pawns &&& (1 <<< mv.start) = 0 :=
      single_and_zero _ _ (disj_bit _ _ _ hcf.wp_wk (by rw [hT]; rw [testBit_single]; simp))
    have hz2 : b.white_rooks &&& (1 <<< mv.start) = 0 :=
      single_and_zero _ _ (disj_bit _ _ _ hcf.wr_wk (by rw [hT]; rw [testBit_single]; simp))
    have hz3 : b.white_knights &&& (1 <<< mv.start) = 0 :=
      single_and_zero _ _ (disj_bit _ _ _ hcf.wn_wk (by rw [hT]; rw [testBit_single]; simp))
    have hz4 : b.white_bishops &&& (1 <<< mv.start) = 0 :=
      single_and_zero _ _ (disj_bit _ _ _ hcf.wb_wk (by rw [hT]; rw [testBit_single]; simp))
    have hz5 : b.white_queens &&& (1 <<< mv.start) = 0 :=
      single_and_zero _ _ (disj_bit _ _ _ hcf.wq_wk (by rw [hT]; rw [testBit_single]; simp))
    by_cases hcapb : b.black_pieces &&& (1 <<< mv.endSq) ≠ 0
    · have hcapS : mv.capture = some (get_piece_type_on_square b mv.endSq) := by
        rw [hcap, if_pos hcapb]
      have htB : Nat.testBit b.black_pieces mv.endSq = true := single_sub _ _ hcapb
      have hptdef := get_piece_black b mv.endSq hendW0 hcapb
      simp only [makeMove_white b mv hwtp]
      rw [whiteMover_king { b with white_pieces := (b.white_pieces &&& not64 (1 <<< mv.start)) ||| (1 <<< mv.endSq) } mv hz1 hz2 hz3 hz4 hz5 hT hcq hck]
      dsimp only
      rw [whiteCaptureEp_some { b with white_pieces := (((b.white_pieces &&& not64 (1 <<< mv.start)) ||| (1 <<< mv.endSq)) &&& not64 (1 <<< b.white_king)) ||| (1 <<< mv.endSq), white_king := mv.endSq, white_queen_side_castling_right := false, white_king_side_castling_right := false } mv (get_piece_type_on_square b mv.endSq) hcapS]
      rw [if_neg hcds]
      simp only [clearRightsOnEnd_proj_white_pawns, clearRightsOnEnd_proj_white_rooks, clearRightsOnEnd_proj_white_knights, clearRightsOnEnd_proj_white_bishops, clearRightsOnEnd_proj_white_queens, clearRightsOnEnd_proj_white_king, clearRightsOnEnd_proj_black_pawns, clearRightsOnEnd_proj_black_rooks, clearRightsOnEnd_proj_black_knights, clearRightsOnEnd_proj_black_bishops, clearRightsOnEnd_proj_black_queens, clearRightsOnEnd_proj_black_king, clearRightsOnEnd_proj_white_pieces, clearRightsOnEnd_proj_black_pieces, clearRightsOnEnd_proj_pieces, clearRightsOnEnd_proj_en_passant_target, clearRightsOnEnd_proj_white_to_play]
      rw [unmakeMove_white]
      dsimp only
      rw [whiteUnmover_king]
      dsimp only
      rw [whiteUncaptureEp_some _ mv (get_piece_type_on_square b mv.endSq) hcapS]
      rw [whiteRestoreMover_king]
      simp only [finishUnmake]
      simp only [makeMoveCaptureBlack_proj_white_pawns, makeMoveCaptureBlack_proj_white_rooks, makeMoveCaptureBlack_proj_white_knights, makeMoveCaptureBlack_proj_white_bishops, makeMoveCaptureBlack_proj_white_queens, makeMoveCaptureBlack_proj_white_king, makeMoveCaptureBlack_proj_white_pieces, makeMoveCaptureBlack_proj_pieces, makeMoveCaptureBlack_proj_en_passant_target, makeMoveCaptureBlack_proj_white_queen_side_castling_right, makeMoveCaptureBlack_proj_white_king_side_castling_right, makeMoveCaptureBlack_proj_black_queen_side_castling_right, makeMoveCaptureBlack_proj_black_king_side_castling_right, makeMoveCaptureBlack_proj_white_to_play]
      simp only [unmakeRestoreBlack_proj_white_pawns, unmakeRestoreBlack_proj_white_rooks, unmakeRestoreBlack_proj_white_knights, unmakeRestoreBlack_proj_white_bishops, unmakeRestoreBlack_proj_white_queens, unmakeRestoreBlack_proj_white_king, unmakeRestoreBlack_proj_white_pieces, unmakeRestoreBlack_proj_pieces, unmakeRestoreBlack_proj_en_passant_target, unmakeRestoreBlack_proj_white_queen_side_castling_right, unmakeRestoreBlack_proj_white_king_side_castling_right, unmakeRestoreBlack_proj_black_queen_side_castling_right, unmakeRestoreBlack_proj_black_king_side_castling_right, unmakeRestoreBlack_proj_white_to_play]
      apply Board.ext
      · rfl
      · rfl
      · rfl
      · rfl
      · rfl
      · exact hT.symm
      · refine (black_capture_roundtrip b { b with white_pieces := (((b.white_pieces &&& not64 (1 <<< mv.start)) ||| (1 <<< mv.endSq)) &&& not64 (1 <<< b.white_king)) ||| (1 <<< mv.endSq), white_king := mv.endSq, white_queen_side_castling_right := false, white_king_side_castling_right := false } ?_ mv.endSq (get_piece_type_on_square b mv.endSq) hcf ?_ ?_ ?_ ?_ ?_ ?_ ?_ ?_ ?_ ?_ ?_ ?_ ?_ ?_ he64 htB hptdef).2.1 <;> first | rfl | exact (makeMoveCaptureBlack_proj_black_king _ _ _).symm
      · refine (black_capture_roundtrip b { b with white_pieces := (((b.white_pieces &&& not64 (1 <<< mv.start)) ||| (1 <<< mv.endSq)) &&& not64 (1 <<< b.white_king)) ||| (1 <<< mv.endSq), white_king := mv.endSq, white_queen_side_castling_right := false, white_king_side_castling_right := false } ?_ mv.endSq (get_piece_type_on_square b mv.endSq) hcf ?_ ?_ ?_ ?_ ?_ ?_ ?_ ?_ ?_ ?_ ?_ ?_ ?_ ?_ he64 htB hptdef).2.2.1 <;> first | rfl | exact (makeMoveCaptureBlack_proj_black_king _ _ _).symm
      · refine (black_capture_roundtrip b { b with white_pieces := (((b.white_pieces &&& not64 (1 <<< mv.start)) ||| (1 <<< mv.endSq)) &&& not64 (1 <<< b.white_king)) ||| (1 <<< mv.endSq), white_king := mv.endSq, white_queen_side_castling_right := false, white_king_side_castling_right := false } ?_ mv.endSq (get_piece_type_on_square b mv.endSq) hcf ?_ ?_ ?_ ?_ ?_ ?_ ?_ ?_ ?_ ?_ ?_ ?_ ?_ ?_ he64 htB hptdef).2.2.2.1 <;> first | rfl | exact (makeMoveCaptureBlack_proj_black_king _ _ _).symm
      · refine (black_capture_roundtrip b { b with white_pieces := (((b.white_pieces &&& not64 (1 <<< mv.start)) ||| (1 <<< mv.endSq)) &&& not64 (1 <<< b.white_king)) ||| (1 <<< mv.endSq), white_king := mv.endSq, white_queen_side_castling_right := false, white_king_side_castling_right := false } ?_ mv.endSq (get_piece_type_on_square b mv.endSq) hcf ?_ ?_ ?_ ?_ ?_ ?_ ?_ ?_ ?_ ?_ ?_ ?_ ?_ ?_ he64 htB hptdef).2.2.2.2.1 <;> first | rfl | exact (makeMoveCaptureBlack_proj_black_king _ _ _).symm
      · refine (black_capture_roundtrip b { b with white_pieces := (((b.white_pieces &&& not64 (1 <<< mv.start)) ||| (1 <<< mv.endSq)) &&& not64 (1 <<< b.white_king)) ||| (1 <<< mv.endSq), white_king := mv.endSq, white_queen_side_castling_right := false, white_king_side_castling_right := false } ?_ mv.endSq (get_piece_type_on_square b mv.endSq) hcf ?_ ?_ ?_ ?_ ?_ ?_ ?_ ?_ ?_ ?_ ?_ ?_ ?_ ?_ he64 htB hptdef).2.2.2.2.2.1 <;> first | rfl | exact (makeMoveCaptureBlack_proj_black_king _ _ _).symm
      · refine (black_capture_roundtrip b { b with white_pieces := (((b.white_pieces &&& not64 (1 <<< mv.start)) ||| (1 <<< mv.endSq)) &&& not64 (1 <<< b.white_king)) ||| (1 <<< mv.endSq), white_king := mv.endSq, white_queen_side_castling_right := false, white_king_side_castling_right := false } ?_ mv.endSq (get_piece_type_on_square b mv.endSq) hcf ?_ ?_ ?_ ?_ ?_ ?_ ?_ ?_ ?_ ?_ ?_ ?_ ?_ ?_ he64 htB hptdef).2.2.2.2.2.2 <;> first | rfl | exact (makeMoveCaptureBlack_proj_black_king _ _ _).symm
      · apply Nat.eq_of_testBit_eq
        intro i
        simp only [Nat.testBit_or, Nat.testBit_and, testBit_not64, testBit_single, hT]
        by_cases hs : mv.start = i
        · subst hs
          simp [hstart, hs64]
        · by_cases he : mv.endSq = i
          · subst he
            simp [hend, he64, hs]
          · by_cases hl : i < 64
            · simp [hs, he, hl]
            · simp [hs, he, hl, testBit_high _ i hwplt (by omega)]
      · refine (black_capture_roundtrip b { b with white_pieces := (((b.white_pieces &&& not64 (1 <<< mv.start)) ||| (1 <<< mv.endSq)) &&& not64 (1 <<< b.white_king)) ||| (1 <<< mv.endSq), white_king := mv.endSq, white_queen_side_castling_right := false, white_king_side_castling_right := false } ?_ mv.endSq (get_piece_type_on_square b mv.endSq) hcf ?_ ?_ ?_ ?_ ?_ ?_ ?_ ?_ ?_ ?_ ?_ ?_ ?_ ?_ he64 htB hptdef).1 <;> first | rfl | exact (makeMoveCaptureBlack_proj_black_king _ _ _).symm
      · conv_rhs => rw [hcf.gagg]
        refine congrArg₂ (fun x y => x ||| y) ?_ ?_
        · apply Nat.eq_of_testBit_eq
          intro i
          simp only [Nat.testBit_or, Nat.testBit_and, testBit_not64, testBit_single, hT]
          by_cases hs : mv.start = i
          · subst hs
            simp [hstart, hs64]
          · by_cases he : mv.endSq = i
            · subst he
              simp [hend, he64, hs]
            · by_cases hl : i < 64
              · simp [hs, he, hl]
              · simp [hs, he, hl, testBit_high _ i hwplt (by omega)]
        · refine (black_capture_roundtrip b { b with white_pieces := (((b.white_pieces &&& not64 (1 <<< mv.start)) ||| (1 <<< mv.endSq)) &&& not64 (1 <<< b.white_king)) ||| (1 <<< mv.endSq), white_king := mv.endSq, white_queen_side_castling_right := false, white_king_side_castling_right := false } ?_ mv.endSq (get_piece_type_on_square b mv.endSq) hcf ?_ ?_ ?_ ?_ ?_ ?_ ?_ ?_ ?_ ?_ ?_ ?_ ?_ ?_ he64 htB hptdef).1 <;> first | rfl | exact (makeMoveCaptureBlack_proj_black_king _ _ _).symm
      · exact hpe
      · exact hpq1
      · exact hpq2
      · exact hpq3
      · exact hpq4
      · exact hwtp.symm
      all_goals try simp only [makeMoveCaptureBlack_proj_white_pawns, makeMoveCaptureBlack_proj_white_rooks, makeMoveCaptureBlack_proj_white_knights, makeMoveCaptureBlack_proj_white_bishops, makeMoveCaptureBlack_proj_white_queens, makeMoveCaptureBlack_proj_white_king, makeMoveCaptureBlack_proj_black_king, makeMoveCaptureBlack_proj_white_pieces, makeMoveCaptureBlack_proj_pieces, makeMoveCaptureBlack_proj_en_passant_target, makeMoveCaptureBlack_proj_white_queen_side_castling_right, makeMoveCaptureBlack_proj_white_king_side_castling_right, makeMoveCaptureBlack_proj_black_queen_side_castling_right, makeMoveCaptureBlack_proj_black_king_side_castling_right, makeMoveCaptureBlack_proj_white_to_play]
      all_goals first
        | (exact hnp)
        | (exact hendP0)
        | (exact hendR0)
        | (exact hendN0)
        | (exact hendB0)
        | (exact hendQ0)
        | (rfl)
        | (exact hcq)
        | (exact hck)
        | (simp [hwtp])
    · have hcap0 : mv.capture = Option.none := by
        rw [hcap, if_neg hcapb]
      simp only [makeMove_white b mv hwtp]
      rw [whiteMover_king { b with white_pieces := (b.white_pieces &&& not64 (1 <<< mv.start)) ||| (1 <<< mv.endSq) } mv hz1 hz2 hz3 hz4 hz5 hT hcq hck]
      dsimp only
      rw [whiteCaptureEp_none { b with white_pieces := (((b.white_pieces &&& not64 (1 <<< mv.start)) ||| (1 <<< mv.endSq)) &&& not64 (1 <<< b.white_king)) ||| (1 <<< mv.endSq), white_king := mv.endSq, white_queen_side_castling_right := false, white_king_side_castling_right := false } mv hcap0 hcep]
      rw [if_neg hcds]
      simp only [clearRightsOnEnd_proj_white_pawns, clearRightsOnEnd_proj_white_rooks, clearRightsOnEnd_proj_white_knights, clearRightsOnEnd_proj_white_bishops, clearRightsOnEnd_proj_white_queens, clearRightsOnEnd_proj_white_king, clearRightsOnEnd_proj_black_pawns, clearRightsOnEnd_proj_black_rooks, clearRightsOnEnd_proj_black_knights, clearRightsOnEnd_proj_black_bishops, clearRightsOnEnd_proj_black_queens, clearRightsOnEnd_proj_black_king, clearRightsOnEnd_proj_white_pieces, clearRightsOnEnd_proj_black_pieces, clearRightsOnEnd_proj_pieces, clearRightsOnEnd_proj_en_passant_target, clearRightsOnEnd_proj_white_to_play]
      rw [unmakeMove_white]
      dsimp only
      rw [whiteUnmover_king]
      dsimp only
      rw [whiteUncaptureEp_none _ mv hcap0 hcep]
      rw [whiteRestoreMover_king]
      simp only [finishUnmake]
      apply Board.ext
      · rfl
      · rfl
      · rfl
      · rfl
      · rfl
      · exact hT.symm
      · rfl
      · rfl
      · rfl
      · rfl
      · rfl
      · rfl
      · apply Nat.eq_of_testBit_eq
        intro i
        simp only [Nat.testBit_or, Nat.testBit_and, testBit_not64, testBit_single, hT]
        by_cases hs : mv.start = i
        · subst hs
          simp [hstart, hs64]
        · by_cases he : mv.endSq = i
          · subst he
            simp [hend, he64, hs]
          · by_cases hl : i < 64
            · simp [hs, he, hl]
            · simp [hs, he, hl, testBit_high _ i hwplt (by omega)]
      · rfl
      · conv_rhs => rw [hcf.gagg]
        refine congrArg₂ (fun x y => x ||| y) ?_ ?_
        · apply Nat.eq_of_testBit_eq
          intro i
          simp only [Nat.testBit_or, Nat.testBit_and, testBit_not64, testBit_single, hT]
          by_cases hs : mv.start = i
          · subst hs
            simp [hstart, hs64]
          · by_cases he : mv.endSq = i
            · subst he
              simp [hend, he64, hs]
            · by_cases hl : i < 64
              · simp [hs, he, hl]
              · simp [hs, he, hl, testBit_high _ i hwplt (by omega)]
        · rfl
      · exact hpe
      · exact hpq1
      · exact hpq2
      · exact hpq3
      · exact hpq4
      · exact hwtp.symm
      all_goals first
        | (exact hnp)
        | (exact hendP0)
        | (exact hendR0)
        | (exact hendN0)
        | (exact hendB0)
        | (exact hendQ0)
        | (rfl)
        | (exact hcq)
        | (exact hck)
        | (simp [hwtp])


set_option maxHeartbeats 2000000 in
/-- Roundtrip of `make_move` then `unmake_move` for a plain (black) piece move:
tag `None`, capture field holding exactly the enemy piece found on the
destination, and the previous-state fields holding the current state. -/
theorem make_unmake_simple_black (b : Board) (mv : Move)
    (hcf : ConsistentFacts b)
    (hwtp : b.white_to_play = false)
    (hctx : mv.context = MoveContext.none)
    (hstart : Nat.testBit b.black_pieces mv.start = true)
    (hend : Nat.testBit b.black_pieces mv.endSq = false)
    (he64 : mv.endSq < 64)
    (hcap : mv.capture = (if b.white_pieces &&& (1 <<< mv.endSq) ≠ 0
        then some (get_piece_type_on_square b mv.endSq) else Option.none))
    (hpe : mv.previous_ep_target = b.en_passant_target)
    (hpq1 : mv.previous_wqs = b.white_queen_side_castling_right)
    (hpq2 : mv.previous_wks = b.white_king_side_castling_right)
    (hpq3 : mv.previous_bqs = b.black_queen_side_castling_right)
    (hpq4 : mv.previous_bks = b.black_king_side_castling_right) :
    unmakeMove (makeMove b mv) mv = b := by
  have hwplt := bpieces_lt b hcf
  have hoplt := wpieces_lt b hcf
  have hs64 : mv.start < 64 := testBit_of_lt_64 _ _ hwplt hstart
  have hnp : ∀ p, mv.context ≠ MoveContext.promotion p := by
    rw [hctx]
    intro p h
    exact absurd h (by simp)
  have hcq : mv.context ≠ MoveContext.queenSideCastle := by rw [hctx]; simp
  have hck : mv.context ≠ MoveContext.kingSideCastle := by rw [hctx]; simp
  have hcep : mv.context ≠ MoveContext.enPassant := by rw [hctx]; simp
  have hcds : mv.context ≠ MoveContext.doubleStep := by rw [hctx]; simp
  have hnotw : Nat.testBit b.black_pieces mv.endSq = true → False := by
    intro h
    rw [h] at hend
    exact absurd hend (by simp)
  have hendP : Nat.testBit b.black_pawns mv.endSq = false := by
    cases hx : Nat.testBit b.black_pawns mv.endSq
    · rfl
    · exact absurd (bunion_bit_of b hcf _ (Or.inl hx)) hnotw
  have hendR : Nat.testBit b.black_rooks mv.endSq = false := by
    cases hx : Nat.testBit b.black_rooks mv.endSq
    · rfl
    · exact absurd (bunion_bit_of b hcf _ (Or.inr (Or.inl hx))) hnotw
  have hendN : Nat.testBit b.black_knights mv.endSq = false := by
    cases hx : Nat.testBit b.black_knights mv.endSq
    · rfl
    · exact absurd (bunion_bit_of b hcf _ (Or.inr (Or.inr (Or.inl hx)))) hnotw
  have hendB : Nat.testBit b.black_bishops mv.endSq = false := by
    cases hx : Nat.testBit b.black_bishops mv.endSq
    · rfl
    · exact absurd (bunion_bit_of b hcf _ (Or.inr (Or.inr (Or.inr (Or.inl hx))))) hnotw
  have hendQ : Nat.testBit b.black_queens mv.endSq = false := by
    cases hx : Nat.testBit b.black_queens mv.endSq
    · rfl
    · exact absurd (bunion_bit_of b hcf _ (Or.inr (Or.inr (Or.inr (Or.inr (Or.inl hx)))))) hnotw
  have hendK : b.black_king ≠ mv.endSq := by
    intro h
    exact hnotw (bunion_bit_of b hcf _ (Or.inr (Or.inr (Or.inr (Or.inr (Or.inr h))))))
  have hendP0 : b.black_pawns &&& (1 <<< mv.endSq) = 0 := single_and_zero _ _ hendP
  have hendR0 : b.black_rooks &&& (1 <<< mv.endSq) = 0 := single_and_zero _ _ hendR
  have hendN0 : b.black_knights &&& (1 <<< mv.endSq) = 0 := single_and_zero _ _ hendN
  have hendB0 : b.black_bishops &&& (1 <<< mv.endSq) = 0 := single_and_zero _ _ hendB
  have hendQ0 : b.black_queens &&& (1 <<< mv.endSq) = 0 := single_and_zero _ _ hendQ
  have hendW0 : b.black_pieces &&& (1 <<< mv.endSq) = 0 := single_and_zero _ _ hend
  rcases bunion_bits b hcf mv.start hstart with hT | hT | hT | hT | hT | hT
  · -- pawn
    have hsT : b.black_pawns &&& (1 <<< mv.start) ≠ 0 := sub_single _ _ hT
    have hmT : ((b.black_pawns &&& not64 (1 <<< mv.start)) ||| (1 <<< mv.endSq)) &&&
        (1 <<< mv.endSq) ≠ 0 :=
      sub_single _ _ (bit_in_or_right _ _ _ (by rw [testBit_single]; simp))
    by_cases hcapb : b.white_pieces &&& (1 <<< mv.endSq) ≠ 0
    · have hcapS : mv.capture = some (get_piece_type_on_square b mv.endSq) := by
        rw [hcap, if_pos hcapb]
      have htB : Nat.testBit b.white_pieces mv.endSq = true := single_sub _ _ hcapb
      have hptdef := get_piece_white b mv.endSq hcapb
      simp only [makeMove_black b mv hwtp]
      rw [blackMover_pawn { b with black_pieces := (b.black_pieces &&& not64 (1 <<< mv.start)) ||| (1 <<< mv.endSq) } mv hsT hnp]
      dsimp only
      rw [blackCaptureEp_some { b with black_pieces := (b.black_pieces &&& not64 (1 <<< mv.start)) ||| (1 <<< mv.endSq), black_pawns := (b.black_pawns &&& not64 (1 <<< mv.start)) ||| (1 <<< mv.endSq) } mv (get_piece_type_on_square b mv.endSq) hcapS hcep]
      rw [if_neg hcds]
      simp only [clearRightsOnEnd_proj_white_pawns, clearRightsOnEnd_proj_white_rooks, clearRightsOnEnd_proj_white_knights, clearRightsOnEnd_proj_white_bishops, clearRightsOnEnd_proj_white_queens, clearRightsOnEnd_proj_white_king, clearRightsOnEnd_proj_black_pawns, clearRightsOnEnd_proj_black_rooks, clearRightsOnEnd_proj_black_knights, clearRightsOnEnd_proj_black_bishops, clearRightsOnEnd_proj_black_queens, clearRightsOnEnd_proj_black_king, clearRightsOnEnd_proj_white_pieces, clearRightsOnEnd_proj_black_pieces, clearRightsOnEnd_proj_pieces, clearRightsOnEnd_proj_en_passant_target, clearRightsOnEnd_proj_white_to_play]
      rw [unmakeMove_black]
      dsimp only
      rw [blackUnmover_pawn]
      dsimp only
      rw [blackUncaptureEp_some _ mv (get_piece_type_on_square b mv.endSq) hcapS]
      rw [blackRestoreMover_pawn]
      simp only [finishUnmake]
      simp only [makeMoveCaptureWhite_proj_black_pawns, makeMoveCaptureWhite_proj_black_rooks, makeMoveCaptureWhite_proj_black_knights, makeMoveCaptureWhite_proj_black_bishops, makeMoveCaptureWhite_proj_black_queens, makeMoveCaptureWhite_proj_black_king, makeMoveCaptureWhite_proj_black_pieces, makeMoveCaptureWhite_proj_pieces, makeMoveCaptureWhite_proj_en_passant_target, makeMoveCaptureWhite_proj_white_queen_side_castling_right, makeMoveCaptureWhite_proj_white_king_side_castling_right, makeMoveCaptureWhite_proj_black_queen_side_castling_right, makeMoveCaptureWhite_proj_black_king_side_castling_right, makeMoveCaptureWhite_proj_white_to_play]
      simp only [unmakeRestoreWhite_proj_black_pawns, unmakeRestoreWhite_proj_black_rooks, unmakeRestoreWhite_proj_black_knights, unmakeRestoreWhite_proj_black_bishops, unmakeRestoreWhite_proj_black_queens, unmakeRestoreWhite_proj_black_king, unmakeRestoreWhite_proj_black_pieces, unmakeRestoreWhite_proj_pieces, unmakeRestoreWhite_proj_en_passant_target, unmakeRestoreWhite_proj_white_queen_side_castling_right, unmakeRestoreWhite_proj_white_king_side_castling_right, unmakeRestoreWhite_proj_black_queen_side_castling_right, unmakeRestoreWhite_proj_black_king_side_castling_right, unmakeRestoreWhite_proj_white_to_play]
      apply Board.ext
      · refine (white_capture_roundtrip b { b with black_pieces := (b.black_pieces &&& not64 (1 <<< mv.start)) ||| (1 <<< mv.endSq), black_pawns := (b.black_pawns &&& not64 (1 <<< mv.start)) ||| (1 <<< mv.endSq) } ?_ mv.endSq (get_piece_type_on_square b mv.endSq) hcf ?_ ?_ ?_ ?_ ?_ ?_ ?_ ?_ ?_ ?_ ?_ ?_ ?_ ?_ he64 htB hptdef).2.1 <;> first | rfl | exact (makeMoveCaptureWhite_proj_white_king _ _ _).symm
      · refine (white_capture_roundtrip b { b with black_pieces := (b.black_pieces &&& not64 (1 <<< mv.start)) ||| (1 <<< mv.endSq), black_pawns := (b.black_pawns &&& not64 (1 <<< mv.start)) ||| (1 <<< mv.endSq) } ?_ mv.endSq (get_piece_type_on_square b mv.endSq) hcf ?_ ?_ ?_ ?_ ?_ ?_ ?_ ?_ ?_ ?_ ?_ ?_ ?_ ?_ he64 htB hptdef).2.2.1 <;> first | rfl | exact (makeMoveCaptureWhite_proj_white_king _ _ _).symm
      · refine (white_capture_roundtrip b { b with black_pieces := (b.black_pieces &&& not64 (1 <<< mv.start)) ||| (1 <<< mv.endSq), black_pawns := (b.black_pawns &&& not64 (1 <<< mv.start)) ||| (1 <<< mv.endSq) } ?_ mv.endSq (get_piece_type_on_square b mv.endSq) hcf ?_ ?_ ?_ ?_ ?_ ?_ ?_ ?_ ?_ ?_ ?_ ?_ ?_ ?_ he64 htB hptdef).2.2.2.1 <;> first | rfl | exact (makeMoveCaptureWhite_proj_white_king _ _ _).symm
      · refine (white_capture_roundtrip b { b with black_pieces := (b.black_pieces &&& not64 (1 <<< mv.start)) ||| (1 <<< mv.endSq), black_pawns := (b.black_pawns &&& not64 (1 <<< mv.start)) ||| (1 <<< mv.endSq) } ?_ mv.endSq (get_piece_type_on_square b mv.endSq) hcf ?_ ?_ ?_ ?_ ?_ ?_ ?_ ?_ ?_ ?_ ?_ ?_ ?_ ?_ he64 htB hptdef).2.2.2.2.1 <;> first | rfl | exact (makeMoveCaptureWhite_proj_white_king _ _ _).symm
      · refine (white_capture_roundtrip b { b with black_pieces := (b.black_pieces &&& not64 (1 <<< mv.start)) ||| (1 <<< mv.endSq), black_pawns := (b.black_pawns &&& not64 (1 <<< mv.start)) ||| (1 <<< mv.endSq) } ?_ mv.endSq (get_piece_type_on_square b mv.endSq) hcf ?_ ?_ ?_ ?_ ?_ ?_ ?_ ?_ ?_ ?_ ?_ ?_ ?_ ?_ he64 htB hptdef).2.2.2.2.2.1 <;> first | rfl | exact (makeMoveCaptureWhite_proj_white_king _ _ _).symm
      · refine (white_capture_roundtrip b { b with black_pieces := (b.black_pieces &&& not64 (1 <<< mv.start)) ||| (1 <<< mv.endSq), black_pawns := (b.black_pawns &&& not64 (1 <<< mv.start)) ||| (1 <<< mv.endSq) } ?_ mv.endSq (get_piece_type_on_square b mv.endSq) hcf ?_ ?_ ?_ ?_ ?_ ?_ ?_ ?_ ?_ ?_ ?_ ?_ ?_ ?_ he64 htB hptdef).2.2.2.2.2.2 <;> first | rfl | exact (makeMoveCaptureWhite_proj_white_king _ _ _).symm
      · apply Nat.eq_of_testBit_eq
        intro i
        simp only [Nat.testBit_or, Nat.testBit_and, testBit_not64, testBit_single]
        by_cases hs : mv.start = i
        · subst hs
          simp [hT, hs64]
        · by_cases he : mv.endSq = i
          · subst he
            simp [hendP, he64, hs]
          · by_cases hl : i < 64
            · simp [hs, he, hl]
            · simp [hs, he, hl, testBit_high _ i hcf.bp_lt (by omega)]
      · rfl
      · rfl
      · rfl
      · rfl
      · rfl
      · refine (white_capture_roundtrip b { b with black_pieces := (b.black_pieces &&& not64 (1 <<< mv.start)) ||| (1 <<< mv.endSq), black_pawns := (b.black_pawns &&& not64 (1 <<< mv.start)) ||| (1 <<< mv.endSq) } ?_ mv.endSq (get_piece_type_on_square b mv.endSq) hcf ?_ ?_ ?_ ?_ ?_ ?_ ?_ ?_ ?_ ?_ ?_ ?_ ?_ ?_ he64 htB hptdef).1 <;> first | rfl | exact (makeMoveCaptureWhite_proj_white_king _ _ _).symm
      · apply Nat.eq_of_testBit_eq
        intro i
        simp only [Nat.testBit_or, Nat.testBit_and, testBit_not64, testBit_single]
        by_cases hs : mv.start = i
        · subst hs
          simp [hstart, hs64]
        · by_cases he : mv.endSq = i
          · subst he
            simp [hend, he64, hs]
          · by_cases hl : i < 64
            · simp [hs, he, hl]
            · simp [hs, he, hl, testBit_high _ i hwplt (by omega)]
      · conv_rhs => rw [hcf.gagg]
        refine congrArg₂ (fun x y => x ||| y) ?_ ?_
        · refine (white_capture_roundtrip b { b with black_pieces := (b.black_pieces &&& not64 (1 <<< mv.start)) ||| (1 <<< mv.endSq), black_pawns := (b.black_pawns &&& not64 (1 <<< mv.start)) ||| (1 <<< mv.endSq) } ?_ mv.endSq (get_piece_type_on_square b mv.endSq) hcf ?_ ?_ ?_ ?_ ?_ ?_ ?_ ?_ ?_ ?_ ?_ ?_ ?_ ?_ he64 htB hptdef).1 <;> first | rfl | exact (makeMoveCaptureWhite_proj_white_king _ _ _).symm
        · apply Nat.eq_of_testBit_eq
          intro i
          simp only [Nat.testBit_or, Nat.testBit_and, testBit_not64, testBit_single]
          by_cases hs : mv.start = i
          · subst hs
            simp [hstart, hs64]
          · by_cases he : mv.endSq = i
            · subst he
              simp [hend, he64, hs]
            · by_cases hl : i < 64
              · simp [hs, he, hl]
              · simp [hs, he, hl, testBit_high _ i hwplt (by omega)]
      · exact hpe
      · exact hpq1
      · exact hpq2
      · exact hpq3
      · exact hpq4
      · exact hwtp.symm
      all_goals try simp only [makeMoveCaptureWhite_proj_white_king, makeMoveCaptureWhite_proj_black_pawns, makeMoveCaptureWhite_proj_black_rooks, makeMoveCaptureWhite_proj_black_knights, makeMoveCaptureWhite_proj_black_bishops, makeMoveCaptureWhite_proj_black_queens, makeMoveCaptureWhite_proj_black_king, makeMoveCaptureWhite_proj_black_pieces, makeMoveCaptureWhite_proj_pieces, makeMoveCaptureWhite_proj_en_passant_target, makeMoveCaptureWhite_proj_white_queen_side_castling_right, makeMoveCaptureWhite_proj_white_king_side_castling_right, makeMoveCaptureWhite_proj_black_queen_side_castling_right, makeMoveCaptureWhite_proj_black_king_side_castling_right, makeMoveCaptureWhite_proj_white_to_play]
      all_goals first
        | (exact hnp)
        | (exact hmT)
        | (simp [hwtp])
    · have hcap0 : mv.capture = Option.none := by
        rw [hcap, if_neg hcapb]
      simp only [makeMove_black b mv hwtp]
      rw [blackMover_pawn { b with black_pieces := (b.black_pieces &&& not64 (1 <<< mv.start)) ||| (1 <<< mv.endSq) } mv hsT hnp]
      dsimp only
      rw [blackCaptureEp_none { b with black_pieces := (b.black_pieces &&& not64 (1 <<< mv.start)) ||| (1 <<< mv.endSq), black_pawns := (b.black_pawns &&& not64 (1 <<< mv.start)) ||| (1 <<< mv.endSq) } mv hcap0 hcep]
      rw [if_neg hcds]
      simp only [clearRightsOnEnd_proj_white_pawns, clearRightsOnEnd_proj_white_rooks, clearRightsOnEnd_proj_white_knights, clearRightsOnEnd_proj_white_bishops, clearRightsOnEnd_proj_white_queens, clearRightsOnEnd_proj_white_king, clearRightsOnEnd_proj_black_pawns, clearRightsOnEnd_proj_black_rooks, clearRightsOnEnd_proj_black_knights, clearRightsOnEnd_proj_black_bishops, clearRightsOnEnd_proj_black_queens, clearRightsOnEnd_proj_black_king, clearRightsOnEnd_proj_white_pieces, clearRightsOnEnd_proj_black_pieces, clearRightsOnEnd_proj_pieces, clearRightsOnEnd_proj_en_passant_target, clearRightsOnEnd_proj_white_to_play]
      rw [unmakeMove_black]
      dsimp only
      rw [blackUnmover_pawn]
      dsimp only
      rw [blackUncaptureEp_none _ mv hcap0 hcep]
      rw [blackRestoreMover_pawn]
      simp only [finishUnmake]
      apply Board.ext
      · rfl
      · rfl
      · rfl
      · rfl
      · rfl
      · rfl
      · apply Nat.eq_of_testBit_eq
        intro i
        simp only [Nat.testBit_or, Nat.testBit_and, testBit_not64, testBit_single]
        by_cases hs : mv.start = i
        · subst hs
          simp [hT, hs64]
        · by_cases he : mv.endSq = i
          · subst he
            simp [hendP, he64, hs]
          · by_cases hl : i < 64
            · simp [hs, he, hl]
            · simp [hs, he, hl, testBit_high _ i hcf.bp_lt (by omega)]
      · rfl
      · rfl
      · rfl
      · rfl
      · rfl
      · rfl
      · apply Nat.eq_of_testBit_eq
        intro i
        simp only [Nat.testBit_or, Nat.testBit_and, testBit_not64, testBit_single]
        by_cases hs : mv.start = i
        · subst hs
          simp [hstart, hs64]
        · by_cases he : mv.endSq = i
          · subst he
            simp [hend, he64, hs]
          · by_cases hl : i < 64
            · simp [hs, he, hl]
            · simp [hs, he, hl, testBit_high _ i hwplt (by omega)]
      · conv_rhs => rw [hcf.gagg]
        refine congrArg₂ (fun x y => x ||| y) ?_ ?_
        · rfl
        · apply Nat.eq_of_testBit_eq
          intro i
          simp only [Nat.testBit_or, Nat.testBit_and, testBit_not64, testBit_single]
          by_cases hs : mv.start = i
          · subst hs
            simp [hstart, hs64]
          · by_cases he : mv.endSq = i
            · subst he
              simp [hend, he64, hs]
            · by_cases hl : i < 64
              · simp [hs, he, hl]
              · simp [hs, he, hl, testBit_high _ i hwplt (by omega)]
      · exact hpe
      · exact hpq1
      · exact hpq2
      · exact hpq3
      · exact hpq4
      · exact hwtp.symm
      all_goals first
        | (exact hnp)
        | (exact hmT)
        | (simp [hwtp])
  · -- rook
    have hz1 : b.black_pawns &&& (1 <<< mv.start) = 0 :=
      single_and_zero _ _ (disj_bit _ _ _ hcf.bp_br hT)
    have hsT : b.black_rooks &&& (1 <<< mv.start) ≠ 0 := sub_single _ _ hT
    have hmT : ((b.black_rooks &&& not64 (1 <<< mv.start)) ||| (1 <<< mv.endSq)) &&&
        (1 <<< mv.endSq) ≠ 0 :=
      sub_single _ _ (bit_in_or_right _ _ _ (by rw [testBit_single]; simp))
    by_cases hcapb : b.white_pieces &&& (1 <<< mv.endSq) ≠ 0
    · have hcapS : mv.capture = some (get_piece_type_on_square b mv.endSq) := by
        rw [hcap, if_pos hcapb]
      have htB : Nat.testBit b.white_pieces mv.endSq = true := single_sub _ _ hcapb
      have hptdef := get_piece_white b mv.endSq hcapb
      simp only [makeMove_black b mv hwtp]
      obtain ⟨qq1, qq2, hwmv⟩ := blackMover_rook { b with black_pieces := (b.black_pieces &&& not64 (1 <<< mv.start)) ||| (1 <<< mv.endSq) } mv hz1 hsT
      rw [hwmv]
      dsimp only
      rw [blackCaptureEp_some { b with black_pieces := (b.black_pieces &&& not64 (1 <<< mv.start)) ||| (1 <<< mv.endSq), black_rooks := (b.black_rooks &&& not64 (1 <<< mv.start)) ||| (1 <<< mv.endSq), black_queen_side_castling_right := qq1, black_king_side_castling_right := qq2 } mv (get_piece_type_on_square b mv.endSq) hcapS hcep]
      rw [if_neg hcds]
      simp only [clearRightsOnEnd_proj_white_pawns, clearRightsOnEnd_proj_white_rooks, clearRightsOnEnd_proj_white_knights, clearRightsOnEnd_proj_white_bishops, clearRightsOnEnd_proj_white_queens, clearRightsOnEnd_proj_white_king, clearRightsOnEnd_proj_black_pawns, clearRightsOnEnd_proj_black_rooks, clearRightsOnEnd_proj_black_knights, clearRightsOnEnd_proj_black_bishops, clearRightsOnEnd_proj_black_queens, clearRightsOnEnd_proj_black_king, clearRightsOnEnd_proj_white_pieces, clearRightsOnEnd_proj_black_pieces, clearRightsOnEnd_proj_pieces, clearRightsOnEnd_proj_en_passant_target, clearRightsOnEnd_proj_white_to_play]
      rw [unmakeMove_black]
      dsimp only
      rw [blackUnmover_rook]
      dsimp only
      rw [blackUncaptureEp_some _ mv (get_piece_type_on_square b mv.endSq) hcapS]
      rw [blackRestoreMover_rook]
      simp only [finishUnmake]
      simp only [makeMoveCaptureWhite_proj_black_pawns, makeMoveCaptureWhite_proj_black_rooks, makeMoveCaptureWhite_proj_black_knights, makeMoveCaptureWhite_proj_black_bishops, makeMoveCaptureWhite_proj_black_queens, makeMoveCaptureWhite_proj_black_king, makeMoveCaptureWhite_proj_black_pieces, makeMoveCaptureWhite_proj_pieces, makeMoveCaptureWhite_proj_en_passant_target, makeMoveCaptureWhite_proj_white_queen_side_castling_right, makeMoveCaptureWhite_proj_white_king_side_castling_right, makeMoveCaptureWhite_proj_black_queen_side_castling_right, makeMoveCaptureWhite_proj_black_king_side_castling_right, makeMoveCaptureWhite_proj_white_to_play]
      simp only [unmakeRestoreWhite_proj_black_pawns, unmakeRestoreWhite_proj_black_rooks, unmakeRestoreWhite_proj_black_knights, unmakeRestoreWhite_proj_black_bishops, unmakeRestoreWhite_proj_black_queens, unmakeRestoreWhite_proj_black_king, unmakeRestoreWhite_proj_black_pieces, unmakeRestoreWhite_proj_pieces, unmakeRestoreWhite_proj_en_passant_target, unmakeRestoreWhite_proj_white_queen_side_castling_right, unmakeRestoreWhite_proj_white_king_side_castling_right, unmakeRestoreWhite_proj_black_queen_side_castling_right, unmakeRestoreWhite_proj_black_king_side_castling_right, unmakeRestoreWhite_proj_white_to_play]
      apply Board.ext
      · refine (white_capture_roundtrip b { b with black_pieces := (b.black_pieces &&& not64 (1 <<< mv.start)) ||| (1 <<< mv.endSq), black_rooks := (b.black_rooks &&& not64 (1 <<< mv.start)) ||| (1 <<< mv.endSq), black_queen_side_castling_right := qq1, black_king_side_castling_right := qq2 } ?_ mv.endSq (get_piece_type_on_square b mv.endSq) hcf ?_ ?_ ?_ ?_ ?_ ?_ ?_ ?_ ?_ ?_ ?_ ?_ ?_ ?_ he64 htB hptdef).2.1 <;> first | rfl | exact (makeMoveCaptureWhite_proj_white_king _ _ _).symm
      · refine (white_capture_roundtrip b { b with black_pieces := (b.black_pieces &&& not64 (1 <<< mv.start)) ||| (1 <<< mv.endSq), black_rooks := (b.black_rooks &&& not64 (1 <<< mv.start)) ||| (1 <<< mv.endSq), black_queen_side_castling_right := qq1, black_king_side_castling_right := qq2 } ?_ mv.endSq (get_piece_type_on_square b mv.endSq) hcf ?_ ?_ ?_ ?_ ?_ ?_ ?_ ?_ ?_ ?_ ?_ ?_ ?_ ?_ he64 htB hptdef).2.2.1 <;> first | rfl | exact (makeMoveCaptureWhite_proj_white_king _ _ _).symm
      · refine (white_capture_roundtrip b { b with black_pieces := (b.black_pieces &&& not64 (1 <<< mv.start)) ||| (1 <<< mv.endSq), black_rooks := (b.black_rooks &&& not64 (1 <<< mv.start)) ||| (1 <<< mv.endSq), black_queen_side_castling_right := qq1, black_king_side_castling_right := qq2 } ?_ mv.endSq (get_piece_type_on_square b mv.endSq) hcf ?_ ?_ ?_ ?_ ?_ ?_ ?_ ?_ ?_ ?_ ?_ ?_ ?_ ?_ he64 htB hptdef).2.2.2.1 <;> first | rfl | exact (makeMoveCaptureWhite_proj_white_king _ _ _).symm
      · refine (white_capture_roundtrip b { b with black_pieces := (b.black_pieces &&& not64 (1 <<< mv.start)) ||| (1 <<< mv.endSq), black_rooks := (b.black_rooks &&& not64 (1 <<< mv.start)) ||| (1 <<< mv.endSq), black_queen_side_castling_right := qq1, black_king_side_castling_right := qq2 } ?_ mv.endSq (get_piece_type_on_square b mv.endSq) hcf ?_ ?_ ?_ ?_ ?_ ?_ ?_ ?_ ?_ ?_ ?_ ?_ ?_ ?_ he64 htB hptdef).2.2.2.2.1 <;> first | rfl | exact (makeMoveCaptureWhite_proj_white_king _ _ _).symm
      · refine (white_capture_roundtrip b { b with black_pieces := (b.black_pieces &&& not64 (1 <<< mv.start)) ||| (1 <<< mv.endSq), black_rooks := (b.black_rooks &&& not64 (1 <<< mv.start)) ||| (1 <<< mv.endSq), black_queen_side_castling_right := qq1, black_king_side_castling_right := qq2 } ?_ mv.endSq (get_piece_type_on_square b mv.endSq) hcf ?_ ?_ ?_ ?_ ?_ ?_ ?_ ?_ ?_ ?_ ?_ ?_ ?_ ?_ he64 htB hptdef).2.2.2.2.2.1 <;> first | rfl | exact (makeMoveCaptureWhite_proj_white_king _ _ _).symm
      · refine (white_capture_roundtrip b { b with black_pieces := (b.black_pieces &&& not64 (1 <<< mv.start)) ||| (1 <<< mv.endSq), black_rooks := (b.black_rooks &&& not64 (1 <<< mv.start)) ||| (1 <<< mv.endSq), black_queen_side_castling_right := qq1, black_king_side_castling_right := qq2 } ?_ mv.endSq (get_piece_type_on_square b mv.endSq) hcf ?_ ?_ ?_ ?_ ?_ ?_ ?_ ?_ ?_ ?_ ?_ ?_ ?_ ?_ he64 htB hptdef).2.2.2.2.2.2 <;> first | rfl | exact (makeMoveCaptureWhite_proj_white_king _ _ _).symm
      · rfl
      · apply Nat.eq_of_testBit_eq
        intro i
        simp only [Nat.testBit_or, Nat.testBit_and, testBit_not64, testBit_single]
        by_cases hs : mv.start = i
        · subst hs
          simp [hT, hs64]
        · by_cases he : mv.endSq = i
          · subst he
            simp [hendR, he64, hs]
          · by_cases hl : i < 64
            · simp [hs, he, hl]
            · simp [hs, he, hl, testBit_high _ i hcf.br_lt (by omega)]
      · rfl
      · rfl
      · rfl
      · rfl
      · refine (white_capture_roundtrip b { b with black_pieces := (b.black_pieces &&& not64 (1 <<< mv.start)) ||| (1 <<< mv.endSq), black_rooks := (b.black_rooks &&& not64 (1 <<< mv.start)) ||| (1 <<< mv.endSq), black_queen_side_castling_right := qq1, black_king_side_castling_right := qq2 } ?_ mv.endSq (get_piece_type_on_square b mv.endSq) hcf ?_ ?_ ?_ ?_ ?_ ?_ ?_ ?_ ?_ ?_ ?_ ?_ ?_ ?_ he64 htB hptdef).1 <;> first | rfl | exact (makeMoveCaptureWhite_proj_white_king _ _ _).symm
      · apply Nat.eq_of_testBit_eq
        intro i
        simp only [Nat.testBit_or, Nat.testBit_and, testBit_not64, testBit_single]
        by_cases hs : mv.start = i
        · subst hs
          simp [hstart, hs64]
        · by_cases he : mv.endSq = i
          · subst he
            simp [hend, he64, hs]
          · by_cases hl : i < 64
            · simp [hs, he, hl]
            · simp [hs, he, hl, testBit_high _ i hwplt (by omega)]
      · conv_rhs => rw [hcf.gagg]
        refine congrArg₂ (fun x y => x ||| y) ?_ ?_
        · refine (white_capture_roundtrip b { b with black_pieces := (b.black_pieces &&& not64 (1 <<< mv.start)) ||| (1 <<< mv.endSq), black_rooks := (b.black_rooks &&& not64 (1 <<< mv.start)) ||| (1 <<< mv.endSq), black_queen_side_castling_right := qq1, black_king_side_castling_right := qq2 } ?_ mv.endSq (get_piece_type_on_square b mv.endSq) hcf ?_ ?_ ?_ ?_ ?_ ?_ ?_ ?_ ?_ ?_ ?_ ?_ ?_ ?_ he64 htB hptdef).1 <;> first | rfl | exact (makeMoveCaptureWhite_proj_white_king _ _ _).symm
        · apply Nat.eq_of_testBit_eq
          intro i
          simp only [Nat.testBit_or, Nat.testBit_and, testBit_not64, testBit_single]
          by_cases hs : mv.start = i
          · subst hs
            simp [hstart, hs64]
          · by_cases he : mv.endSq = i
            · subst he
              simp [hend, he64, hs]
            · by_cases hl : i < 64
              · simp [hs, he, hl]
              · simp [hs, he, hl, testBit_high _ i hwplt (by omega)]
      · exact hpe
      · exact hpq1
      · exact hpq2
      · exact hpq3
      · exact hpq4
      · exact hwtp.symm
      all_goals try simp only [makeMoveCaptureWhite_proj_white_king, makeMoveCaptureWhite_proj_black_pawns, makeMoveCaptureWhite_proj_black_rooks, makeMoveCaptureWhite_proj_black_knights, makeMoveCaptureWhite_proj_black_bishops, makeMoveCaptureWhite_proj_black_queens, makeMoveCaptureWhite_proj_black_king, makeMoveCaptureWhite_proj_black_pieces, makeMoveCaptureWhite_proj_pieces, makeMoveCaptureWhite_proj_en_passant_target, makeMoveCaptureWhite_proj_white_queen_side_castling_right, makeMoveCaptureWhite_proj_white_king_side_castling_right, makeMoveCaptureWhite_proj_black_queen_side_castling_right, makeMoveCaptureWhite_proj_black_king_side_castling_right, makeMoveCaptureWhite_proj_white_to_play]
      all_goals first
        | (exact hnp)
        | (exact hendP0)
        | (exact hmT)
        | (simp [hwtp])
    · have hcap0 : mv.capture = Option.none := by
        rw [hcap, if_neg hcapb]
      simp only [makeMove_black b mv hwtp]
      obtain ⟨qq1, qq2, hwmv⟩ := blackMover_rook { b with black_pieces := (b.black_pieces &&& not64 (1 <<< mv.start)) ||| (1 <<< mv.endSq) } mv hz1 hsT
      rw [hwmv]
      dsimp only
      rw [blackCaptureEp_none { b with black_pieces := (b.black_pieces &&& not64 (1 <<< mv.start)) ||| (1 <<< mv.endSq), black_rooks := (b.black_rooks &&& not64 (1 <<< mv.start)) ||| (1 <<< mv.endSq), black_queen_side_castling_right := qq1, black_king_side_castling_right := qq2 } mv hcap0 hcep]
      rw [if_neg hcds]
      simp only [clearRightsOnEnd_proj_white_pawns, clearRightsOnEnd_proj_white_rooks, clearRightsOnEnd_proj_white_knights, clearRightsOnEnd_proj_white_bishops, clearRightsOnEnd_proj_white_queens, clearRightsOnEnd_proj_white_king, clearRightsOnEnd_proj_black_pawns, clearRightsOnEnd_proj_black_rooks, clearRightsOnEnd_proj_black_knights, clearRightsOnEnd_proj_black_bishops, clearRightsOnEnd_proj_black_queens, clearRightsOnEnd_proj_black_king, clearRightsOnEnd_proj_white_pieces, clearRightsOnEnd_proj_black_pieces, clearRightsOnEnd_proj_pieces, clearRightsOnEnd_proj_en_passant_target, clearRightsOnEnd_proj_white_to_play]
      rw [unmakeMove_black]
      dsimp only
      rw [blackUnmover_rook]
      dsimp only
      rw [blackUncaptureEp_none _ mv hcap0 hcep]
      rw [blackRestoreMover_rook]
      simp only [finishUnmake]
      apply Board.ext
      · rfl
      · rfl
      · rfl
      · rfl
      · rfl
      · rfl
      · rfl
      · apply Nat.eq_of_testBit_eq
        intro i
        simp only [Nat.testBit_or, Nat.testBit_and, testBit_not64, testBit_single]
        by_cases hs : mv.start = i
        · subst hs
          simp [hT, hs64]
        · by_cases he : mv.endSq = i
          · subst he
            simp [hendR, he64, hs]
          · by_cases hl : i < 64
            · simp [hs, he, hl]
            · simp [hs, he, hl, testBit_high _ i hcf.br_lt (by omega)]
      · rfl
      · rfl
      · rfl
      · rfl
      · rfl
      · apply Nat.eq_of_testBit_eq
        intro i
        simp only [Nat.testBit_or, Nat.testBit_and, testBit_not64, testBit_single]
        by_cases hs : mv.start = i
        · subst hs
          simp [hstart, hs64]
        · by_cases he : mv.endSq = i
          · subst he
            simp [hend, he64, hs]
          · by_cases hl : i < 64
            · simp [hs, he, hl]
            · simp [hs, he, hl, testBit_high _ i hwplt (by omega)]
      · conv_rhs => rw [hcf.gagg]
        refine congrArg₂ (fun x y => x ||| y) ?_ ?_
        · rfl
        · apply Nat.eq_of_testBit_eq
          intro i
          simp only [Nat.testBit_or, Nat.testBit_and, testBit_not64, testBit_single]
          by_cases hs : mv.start = i
          · subst hs
            simp [hstart, hs64]
          · by_cases he : mv.endSq = i
            · subst he
              simp [hend, he64, hs]
            · by_cases hl : i < 64
              · simp [hs, he, hl]
              · simp [hs, he, hl, testBit_high _ i hwplt (by omega)]
      · exact hpe
      · exact hpq1
      · exact hpq2
      · exact hpq3
      · exact hpq4
      · exact hwtp.symm
      all_goals first
        | (exact hnp)
        | (exact hendP0)
        | (exact hmT)
        | (simp [hwtp])
  · -- knight
    have hz1 : b.black_pawns &&& (1 <<< mv.start) = 0 :=
      single_and_zero _ _ (disj_bit _ _ _ hcf.bp_bn hT)
    have hz2 : b.black_rooks &&& (1 <<< mv.start) = 0 :=
      single_and_zero _ _ (disj_bit _ _ _ hcf.br_bn hT)
    have hsT : b.black_knights &&& (1 <<< mv.start) ≠ 0 := sub_single _ _ hT
    have hmT : ((b.black_knights &&& not64 (1 <<< mv.start)) ||| (1 <<< mv.endSq)) &&&
        (1 <<< mv.endSq) ≠ 0 :=
      sub_single _ _ (bit_in_or_right _ _ _ (by rw [testBit_single]; simp))
    by_cases hcapb : b.white_pieces &&& (1 <<< mv.endSq) ≠ 0
    · have hcapS : mv.capture = some (get_piece_type_on_square b mv.endSq) := by
        rw [hcap, if_pos hcapb]
      have htB : Nat.testBit b.white_pieces mv.endSq = true := single_sub _ _ hcapb
      have hptdef := get_piece_white b mv.endSq hcapb
      simp only [makeMove_black b mv hwtp]
      rw [blackMover_knight { b with black_pieces := (b.black_pieces &&& not64 (1 <<< mv.start)) ||| (1 <<< mv.endSq) } mv hz1 hz2 hsT]
      dsimp only
      rw [blackCaptureEp_some { b with black_pieces := (b.black_pieces &&& not64 (1 <<< mv.start)) ||| (1 <<< mv.endSq), black_knights := (b.black_knights &&& not64 (1 <<< mv.start)) ||| (1 <<< mv.endSq) } mv (get_piece_type_on_square b mv.endSq) hcapS hcep]
      rw [if_neg hcds]
      simp only [clearRightsOnEnd_proj_white_pawns, clearRightsOnEnd_proj_white_rooks, clearRightsOnEnd_proj_white_knights, clearRightsOnEnd_proj_white_bishops, clearRightsOnEnd_proj_white_queens, clearRightsOnEnd_proj_white_king, clearRightsOnEnd_proj_black_pawns, clearRightsOnEnd_proj_black_rooks, clearRightsOnEnd_proj_black_knights, clearRightsOnEnd_proj_black_bishops, clearRightsOnEnd_proj_black_queens, clearRightsOnEnd_proj_black_king, clearRightsOnEnd_proj_white_pieces, clearRightsOnEnd_proj_black_pieces, clearRightsOnEnd_proj_pieces, clearRightsOnEnd_proj_en_passant_target, clearRightsOnEnd_proj_white_to_play]
      rw [unmakeMove_black]
      dsimp only
      rw [blackUnmover_knight]
      dsimp only
      rw [blackUncaptureEp_some _ mv (get_piece_type_on_square b mv.endSq) hcapS]
      rw [blackRestoreMover_knight]
      simp only [finishUnmake]
      simp only [makeMoveCaptureWhite_proj_black_pawns, makeMoveCaptureWhite_proj_black_rooks, makeMoveCaptureWhite_proj_black_knights, makeMoveCaptureWhite_proj_black_bishops, makeMoveCaptureWhite_proj_black_queens, makeMoveCaptureWhite_proj_black_king, makeMoveCaptureWhite_proj_black_pieces, makeMoveCaptureWhite_proj_pieces, makeMoveCaptureWhite_proj_en_passant_target, makeMoveCaptureWhite_proj_white_queen_side_castling_right, makeMoveCaptureWhite_proj_white_king_side_castling_right, makeMoveCaptureWhite_proj_black_queen_side_castling_right, makeMoveCaptureWhite_proj_black_king_side_castling_right, makeMoveCaptureWhite_proj_white_to_play]
      simp only [unmakeRestoreWhite_proj_black_pawns, unmakeRestoreWhite_proj_black_rooks, unmakeRestoreWhite_proj_black_knights, unmakeRestoreWhite_proj_black_bishops, unmakeRestoreWhite_proj_black_queens, unmakeRestoreWhite_proj_black_king, unmakeRestoreWhite_proj_black_pieces, unmakeRestoreWhite_proj_pieces, unmakeRestoreWhite_proj_en_passant_target, unmakeRestoreWhite_proj_white_queen_side_castling_right, unmakeRestoreWhite_proj_white_king_side_castling_right, unmakeRestoreWhite_proj_black_queen_side_castling_right, unmakeRestoreWhite_proj_black_king_side_castling_right, unmakeRestoreWhite_proj_white_to_play]
      apply Board.ext
      · refine (white_capture_roundtrip b { b with black_pieces := (b.black_pieces &&& not64 (1 <<< mv.start)) ||| (1 <<< mv.endSq), black_knights := (b.black_knights &&& not64 (1 <<< mv.start)) ||| (1 <<< mv.endSq) } ?_ mv.endSq (get_piece_type_on_square b mv.endSq) hcf ?_ ?_ ?_ ?_ ?_ ?_ ?_ ?_ ?_ ?_ ?_ ?_ ?_ ?_ he64 htB hptdef).2.1 <;> first | rfl | exact (makeMoveCaptureWhite_proj_white_king _ _ _).symm
      · refine (white_capture_roundtrip b { b with black_pieces := (b.black_pieces &&& not64 (1 <<< mv.start)) ||| (1 <<< mv.endSq), black_knights := (b.black_knights &&& not64 (1 <<< mv.start)) ||| (1 <<< mv.endSq) } ?_ mv.endSq (get_piece_type_on_square b mv.endSq) hcf ?_ ?_ ?_ ?_ ?_ ?_ ?_ ?_ ?_ ?_ ?_ ?_ ?_ ?_ he64 htB hptdef).2.2.1 <;> first | rfl | exact (makeMoveCaptureWhite_proj_white_king _ _ _).symm
      · refine (white_capture_roundtrip b { b with black_pieces := (b.black_pieces &&& not64 (1 <<< mv.start)) ||| (1 <<< mv.endSq), black_knights := (b.black_knights &&& not64 (1 <<< mv.start)) ||| (1 <<< mv.endSq) } ?_ mv.endSq (get_piece_type_on_square b mv.endSq) hcf ?_ ?_ ?_ ?_ ?_ ?_ ?_ ?_ ?_ ?_ ?_ ?_ ?_ ?_ he64 htB hptdef).2.2.2.1 <;> first | rfl | exact (makeMoveCaptureWhite_proj_white_king _ _ _).symm
      · refine (white_capture_roundtrip b { b with black_pieces := (b.black_pieces &&& not64 (1 <<< mv.start)) ||| (1 <<< mv.endSq), black_knights := (b.black_knights &&& not64 (1 <<< mv.start)) ||| (1 <<< mv.endSq) } ?_ mv.endSq (get_piece_type_on_square b mv.endSq) hcf ?_ ?_ ?_ ?_ ?_ ?_ ?_ ?_ ?_ ?_ ?_ ?_ ?_ ?_ he64 htB hptdef).2.2.2.2.1 <;> first | rfl | exact (makeMoveCaptureWhite_proj_white_king _ _ _).symm
      · refine (white_capture_roundtrip b { b with black_pieces := (b.black_pieces &&& not64 (1 <<< mv.start)) ||| (1 <<< mv.endSq), black_knights := (b.black_knights &&& not64 (1 <<< mv.start)) ||| (1 <<< mv.endSq) } ?_ mv.endSq (get_piece_type_on_square b mv.endSq) hcf ?_ ?_ ?_ ?_ ?_ ?_ ?_ ?_ ?_ ?_ ?_ ?_ ?_ ?_ he64 htB hptdef).2.2.2.2.2.1 <;> first | rfl | exact (makeMoveCaptureWhite_proj_white_king _ _ _).symm
      · refine (white_capture_roundtrip b { b with black_pieces := (b.black_pieces &&& not64 (1 <<< mv.start)) ||| (1 <<< mv.endSq), black_knights := (b.black_knights &&& not64 (1 <<< mv.start)) ||| (1 <<< mv.endSq) } ?_ mv.endSq (get_piece_type_on_square b mv.endSq) hcf ?_ ?_ ?_ ?_ ?_ ?_ ?_ ?_ ?_ ?_ ?_ ?_ ?_ ?_ he64 htB hptdef).2.2.2.2.2.2 <;> first | rfl | exact (makeMoveCaptureWhite_proj_white_king _ _ _).symm
      · rfl
      · rfl
      · apply Nat.eq_of_testBit_eq
        intro i
        simp only [Nat.testBit_or, Nat.testBit_and, testBit_not64, testBit_single]
        by_cases hs : mv.start = i
        · subst hs
          simp [hT, hs64]
        · by_cases he : mv.endSq = i
          · subst he
            simp [hendN, he64, hs]
          · by_cases hl : i < 64
            · simp [hs, he, hl]
            · simp [hs, he, hl, testBit_high _ i hcf.bn_lt (by omega)]
      · rfl
      · rfl
      · rfl
      · refine (white_capture_roundtrip b { b with black_pieces := (b.black_pieces &&& not64 (1 <<< mv.start)) ||| (1 <<< mv.endSq), black_knights := (b.black_knights &&& not64 (1 <<< mv.start)) ||| (1 <<< mv.endSq) } ?_ mv.endSq (get_piece_type_on_square b mv.endSq) hcf ?_ ?_ ?_ ?_ ?_ ?_ ?_ ?_ ?_ ?_ ?_ ?_ ?_ ?_ he64 htB hptdef).1 <;> first | rfl | exact (makeMoveCaptureWhite_proj_white_king _ _ _).symm
      · apply Nat.eq_of_testBit_eq
        intro i
        simp only [Nat.testBit_or, Nat.testBit_and, testBit_not64, testBit_single]
        by_cases hs : mv.start = i
        · subst hs
          simp [hstart, hs64]
        · by_cases he : mv.endSq = i
          · subst he
            simp [hend, he64, hs]
          · by_cases hl : i < 64
            · simp [hs, he, hl]
            · simp [hs, he, hl, testBit_high _ i hwplt (by omega)]
      · conv_rhs => rw [hcf.gagg]
        refine congrArg₂ (fun x y => x ||| y) ?_ ?_
        · refine (white_capture_roundtrip b { b with black_pieces := (b.black_pieces &&& not64 (1 <<< mv.start)) ||| (1 <<< mv.endSq), black_knights := (b.black_knights &&& not64 (1 <<< mv.start)) ||| (1 <<< mv.endSq) } ?_ mv.endSq (get_piece_type_on_square b mv.endSq) hcf ?_ ?_ ?_ ?_ ?_ ?_ ?_ ?_ ?_ ?_ ?_ ?_ ?_ ?_ he64 htB hptdef).1 <;> first | rfl | exact (makeMoveCaptureWhite_proj_white_king _ _ _).symm
        · apply Nat.eq_of_testBit_eq
          intro i
          simp only [Nat.testBit_or, Nat.testBit_and, testBit_not64, testBit_single]
          by_cases hs : mv.start = i
          · subst hs
            simp [hstart, hs64]
          · by_cases he : mv.endSq = i
            · subst he
              simp [hend, he64, hs]
            · by_cases hl : i < 64
              · simp [hs, he, hl]
              · simp [hs, he, hl, testBit_high _ i hwplt (by omega)]
      · exact hpe
      · exact hpq1
      · exact hpq2
      · exact hpq3
      · exact hpq4
      · exact hwtp.symm
      all_goals try simp only [makeMoveCaptureWhite_proj_white_king, makeMoveCaptureWhite_proj_black_pawns, makeMoveCaptureWhite_proj_black_rooks, makeMoveCaptureWhite_proj_black_knights, makeMoveCaptureWhite_proj_black_bishops, makeMoveCaptureWhite_proj_black_queens, makeMoveCaptureWhite_proj_black_king, makeMoveCaptureWhite_proj_black_pieces, makeMoveCaptureWhite_proj_pieces, makeMoveCaptureWhite_proj_en_passant_target, makeMoveCaptureWhite_proj_white_queen_side_castling_right, makeMoveCaptureWhite_proj_white_king_side_castling_right, makeMoveCaptureWhite_proj_black_queen_side_castling_right, makeMoveCaptureWhite_proj_black_king_side_castling_right, makeMoveCaptureWhite_proj_white_to_play]
      all_goals first
        | (exact hnp)
        | (exact hendP0)
        | (exact hendR0)
        | (exact hmT)
        | (simp [hwtp])
    · have hcap0 : mv.capture = Option.none := by
        rw [hcap, if_neg hcapb]
      simp only [makeMove_black b mv hwtp]
      rw [blackMover_knight { b with black_pieces := (b.black_pieces &&& not64 (1 <<< mv.start)) ||| (1 <<< mv.endSq) } mv hz1 hz2 hsT]
      dsimp only
      rw [blackCaptureEp_none { b with black_pieces := (b.black_pieces &&& not64 (1 <<< mv.start)) ||| (1 <<< mv.endSq), black_knights := (b.black_knights &&& not64 (1 <<< mv.start)) ||| (1 <<< mv.endSq) } mv hcap0 hcep]
      rw [if_neg hcds]
      simp only [clearRightsOnEnd_proj_white_pawns, clearRightsOnEnd_proj_white_rooks, clearRightsOnEnd_proj_white_knights, clearRightsOnEnd_proj_white_bishops, clearRightsOnEnd_proj_white_queens, clearRightsOnEnd_proj_white_king, clearRightsOnEnd_proj_black_pawns, clearRightsOnEnd_proj_black_rooks, clearRightsOnEnd_proj_black_knights, clearRightsOnEnd_proj_black_bishops, clearRightsOnEnd_proj_black_queens, clearRightsOnEnd_proj_black_king, clearRightsOnEnd_proj_white_pieces, clearRightsOnEnd_proj_black_pieces, clearRightsOnEnd_proj_pieces, clearRightsOnEnd_proj_en_passant_target, clearRightsOnEnd_proj_white_to_play]
      rw [unmakeMove_black]
      dsimp only
      rw [blackUnmover_knight]
      dsimp only
      rw [blackUncaptureEp_none _ mv hcap0 hcep]
      rw [blackRestoreMover_knight]
      simp only [finishUnmake]
      apply Board.ext
      · rfl
      · rfl
      · rfl
      · rfl
      · rfl
      · rfl
      · rfl
      · rfl
      · apply Nat.eq_of_testBit_eq
        intro i
        simp only [Nat.testBit_or, Nat.testBit_and, testBit_not64, testBit_single]
        by_cases hs : mv.start = i
        · subst hs
          simp [hT, hs64]
        · by_cases he : mv.endSq = i
          · subst he
            simp [hendN, he64, hs]
          · by_cases hl : i < 64
            · simp [hs, he, hl]
            · simp [hs, he, hl, testBit_high _ i hcf.bn_lt (by omega)]
      · rfl
      · rfl
      · rfl
      · rfl
      · apply Nat.eq_of_testBit_eq
        intro i
        simp only [Nat.testBit_or, Nat.testBit_and, testBit_not64, testBit_single]
        by_cases hs : mv.start = i
        · subst hs
          simp [hstart, hs64]
        · by_cases he : mv.endSq = i
          · subst he
            simp [hend, he64, hs]
          · by_cases hl : i < 64
            · simp [hs, he, hl]
            · simp [hs, he, hl, testBit_high _ i hwplt (by omega)]
      · conv_rhs => rw [hcf.gagg]
        refine congrArg₂ (fun x y => x ||| y) ?_ ?_
        · rfl
        · apply Nat.eq_of_testBit_eq
          intro i
          simp only [Nat.testBit_or, Nat.testBit_and, testBit_not64, testBit_single]
          by_cases hs : mv.start = i
          · subst hs
            simp [hstart, hs64]
          · by_cases he : mv.endSq = i
            · subst he
              simp [hend, he64, hs]
            · by_cases hl : i < 64
              · simp [hs, he, hl]
              · simp [hs, he, hl, testBit_high _ i hwplt (by omega)]
      · exact hpe
      · exact hpq1
      · exact hpq2
      · exact hpq3
      · exact hpq4
      · exact hwtp.symm
      all_goals first
        | (exact hnp)
        | (exact hendP0)
        | (exact hendR0)
        | (exact hmT)
        | (simp [hwtp])
  · -- bishop
    have hz1 : b.black_pawns &&& (1 <<< mv.start) = 0 :=
      single_and_zero _ _ (disj_bit _ _ _ hcf.bp_bb hT)
    have hz2 : b.black_rooks &&& (1 <<< mv.start) = 0 :=
      single_and_zero _ _ (disj_bit _ _ _ hcf.br_bb hT)
    have hz3 : b.black_knights &&& (1 <<< mv.start) = 0 :=
      single_and_zero _ _ (disj_bit _ _ _ hcf.bn_bb hT)
    have hsT : b.black_bishops &&& (1 <<< mv.start) ≠ 0 := sub_single _ _ hT
    have hmT : ((b.black_bishops &&& not64 (1 <<< mv.start)) ||| (1 <<< mv.endSq)) &&&
        (1 <<< mv.endSq) ≠ 0 :=
      sub_single _ _ (bit_in_or_right _ _ _ (by rw [testBit_single]; simp))
    by_cases hcapb : b.white_pieces &&& (1 <<< mv.endSq) ≠ 0
    · have hcapS : mv.capture = some (get_piece_type_on_square b mv.endSq) := by
        rw [hcap, if_pos hcapb]
      have htB : Nat.testBit b.white_pieces mv.endSq = true := single_sub _ _ hcapb
      have hptdef := get_piece_white b mv.endSq hcapb
      simp only [makeMove_black b mv hwtp]
      rw [blackMover_bishop { b with black_pieces := (b.black_pieces &&& not64 (1 <<< mv.start)) ||| (1 <<< mv.endSq) } mv hz1 hz2 hz3 hsT]
      dsimp only
      rw [blackCaptureEp_some { b with black_pieces := (b.black_pieces &&& not64 (1 <<< mv.start)) ||| (1 <<< mv.endSq), black_bishops := (b.black_bishops &&& not64 (1 <<< mv.start)) ||| (1 <<< mv.endSq) } mv (get_piece_type_on_square b mv.endSq) hcapS hcep]
      rw [if_neg hcds]
      simp only [clearRightsOnEnd_proj_white_pawns, clearRightsOnEnd_proj_white_rooks, clearRightsOnEnd_proj_white_knights, clearRightsOnEnd_proj_white_bishops, clearRightsOnEnd_proj_white_queens, clearRightsOnEnd_proj_white_king, clearRightsOnEnd_proj_black_pawns, clearRightsOnEnd_proj_black_rooks, clearRightsOnEnd_proj_black_knights, clearRightsOnEnd_proj_black_bishops, clearRightsOnEnd_proj_black_queens, clearRightsOnEnd_proj_black_king, clearRightsOnEnd_proj_white_pieces, clearRightsOnEnd_proj_black_pieces, clearRightsOnEnd_proj_pieces, clearRightsOnEnd_proj_en_passant_target, clearRightsOnEnd_proj_white_to_play]
      rw [unmakeMove_black]
      dsimp only
      rw [blackUnmover_bishop]
      dsimp only
      rw [blackUncaptureEp_some _ mv (get_piece_type_on_square b mv.endSq) hcapS]
      rw [blackRestoreMover_bishop]
      simp only [finishUnmake]
      simp only [makeMoveCaptureWhite_proj_black_pawns, makeMoveCaptureWhite_proj_black_rooks, makeMoveCaptureWhite_proj_black_knights, makeMoveCaptureWhite_proj_black_bishops, makeMoveCaptureWhite_proj_black_queens, makeMoveCaptureWhite_proj_black_king, makeMoveCaptureWhite_proj_black_pieces, makeMoveCaptureWhite_proj_pieces, makeMoveCaptureWhite_proj_en_passant_target, makeMoveCaptureWhite_proj_white_queen_side_castling_right, makeMoveCaptureWhite_proj_white_king_side_castling_right, makeMoveCaptureWhite_proj_black_queen_side_castling_right, makeMoveCaptureWhite_proj_black_king_side_castling_right, makeMoveCaptureWhite_proj_white_to_play]
      simp only [unmakeRestoreWhite_proj_black_pawns, unmakeRestoreWhite_proj_black_rooks, unmakeRestoreWhite_proj_black_knights, unmakeRestoreWhite_proj_black_bishops, unmakeRestoreWhite_proj_black_queens, unmakeRestoreWhite_proj_black_king, unmakeRestoreWhite_proj_black_pieces, unmakeRestoreWhite_proj_pieces, unmakeRestoreWhite_proj_en_passant_target, unmakeRestoreWhite_proj_white_queen_side_castling_right, unmakeRestoreWhite_proj_white_king_side_castling_right, unmakeRestoreWhite_proj_black_queen_side_castling_right, unmakeRestoreWhite_proj_black_king_side_castling_right, unmakeRestoreWhite_proj_white_to_play]
      apply Board.ext
      · refine (white_capture_roundtrip b { b with black_pieces := (b.black_pieces &&& not64 (1 <<< mv.start)) ||| (1 <<< mv.endSq), black_bishops := (b.black_bishops &&& not64 (1 <<< mv.start)) ||| (1 <<< mv.endSq) } ?_ mv.endSq (get_piece_type_on_square b mv.endSq) hcf ?_ ?_ ?_ ?_ ?_ ?_ ?_ ?_ ?_ ?_ ?_ ?_ ?_ ?_ he64 htB hptdef).2.1 <;> first | rfl | exact (makeMoveCaptureWhite_proj_white_king _ _ _).symm
      · refine (white_capture_roundtrip b { b with black_pieces := (b.black_pieces &&& not64 (1 <<< mv.start)) ||| (1 <<< mv.endSq), black_bishops := (b.black_bishops &&& not64 (1 <<< mv.start)) ||| (1 <<< mv.endSq) } ?_ mv.endSq (get_piece_type_on_square b mv.endSq) hcf ?_ ?_ ?_ ?_ ?_ ?_ ?_ ?_ ?_ ?_ ?_ ?_ ?_ ?_ he64 htB hptdef).2.2.1 <;> first | rfl | exact (makeMoveCaptureWhite_proj_white_king _ _ _).symm
      · refine (white_capture_roundtrip b { b with black_pieces := (b.black_pieces &&& not64 (1 <<< mv.start)) ||| (1 <<< mv.endSq), black_bishops := (b.black_bishops &&& not64 (1 <<< mv.start)) ||| (1 <<< mv.endSq) } ?_ mv.endSq (get_piece_type_on_square b mv.endSq) hcf ?_ ?_ ?_ ?_ ?_ ?_ ?_ ?_ ?_ ?_ ?_ ?_ ?_ ?_ he64 htB hptdef).2.2.2.1 <;> first | rfl | exact (makeMoveCaptureWhite_proj_white_king _ _ _).symm
      · refine (white_capture_roundtrip b { b with black_pieces := (b.black_pieces &&& not64 (1 <<< mv.start)) ||| (1 <<< mv.endSq), black_bishops := (b.black_bishops &&& not64 (1 <<< mv.start)) ||| (1 <<< mv.endSq) } ?_ mv.endSq (get_piece_type_on_square b mv.endSq) hcf ?_ ?_ ?_ ?_ ?_ ?_ ?_ ?_ ?_ ?_ ?_ ?_ ?_ ?_ he64 htB hptdef).2.2.2.2.1 <;> first | rfl | exact (makeMoveCaptureWhite_proj_white_king _ _ _).symm
      · refine (white_capture_roundtrip b { b with black_pieces := (b.black_pieces &&& not64 (1 <<< mv.start)) ||| (1 <<< mv.endSq), black_bishops := (b.black_bishops &&& not64 (1 <<< mv.start)) ||| (1 <<< mv.endSq) } ?_ mv.endSq (get_piece_type_on_square b mv.endSq) hcf ?_ ?_ ?_ ?_ ?_ ?_ ?_ ?_ ?_ ?_ ?_ ?_ ?_ ?_ he64 htB hptdef).2.2.2.2.2.1 <;> first | rfl | exact (makeMoveCaptureWhite_proj_white_king _ _ _).symm
      · refine (white_capture_roundtrip b { b with black_pieces := (b.black_pieces &&& not64 (1 <<< mv.start)) ||| (1 <<< mv.endSq), black_bishops := (b.black_bishops &&& not64 (1 <<< mv.start)) ||| (1 <<< mv.endSq) } ?_ mv.endSq (get_piece_type_on_square b mv.endSq) hcf ?_ ?_ ?_ ?_ ?_ ?_ ?_ ?_ ?_ ?_ ?_ ?_ ?_ ?_ he64 htB hptdef).2.2.2.2.2.2 <;> first | rfl | exact (makeMoveCaptureWhite_proj_white_king _ _ _).symm
      · rfl
      · rfl
      · rfl
      · apply Nat.eq_of_testBit_eq
        intro i
        simp only [Nat.testBit_or, Nat.testBit_and, testBit_not64, testBit_single]
        by_cases hs : mv.start = i
        · subst hs
          simp [hT, hs64]
        · by_cases he : mv.endSq = i
          · subst he
            simp [hendB, he64, hs]
          · by_cases hl : i < 64
            · simp [hs, he, hl]
            · simp [hs, he, hl, testBit_high _ i hcf.bb_lt (by omega)]
      · rfl
      · rfl
      · refine (white_capture_roundtrip b { b with black_pieces := (b.black_pieces &&& not64 (1 <<< mv.start)) ||| (1 <<< mv.endSq), black_bishops := (b.black_bishops &&& not64 (1 <<< mv.start)) ||| (1 <<< mv.endSq) } ?_ mv.endSq (get_piece_type_on_square b mv.endSq) hcf ?_ ?_ ?_ ?_ ?_ ?_ ?_ ?_ ?_ ?_ ?_ ?_ ?_ ?_ he64 htB hptdef).1 <;> first | rfl | exact (makeMoveCaptureWhite_proj_white_king _ _ _).symm
      · apply Nat.eq_of_testBit_eq
        intro i
        simp only [Nat.testBit_or, Nat.testBit_and, testBit_not64, testBit_single]
        by_cases hs : mv.start = i
        · subst hs
          simp [hstart, hs64]
        · by_cases he : mv.endSq = i
          · subst he
            simp [hend, he64, hs]
          · by_cases hl : i < 64
            · simp [hs, he, hl]
            · simp [hs, he, hl, testBit_high _ i hwplt (by omega)]
      · conv_rhs => rw [hcf.gagg]
        refine congrArg₂ (fun x y => x ||| y) ?_ ?_
        · refine (white_capture_roundtrip b { b with black_pieces := (b.black_pieces &&& not64 (1 <<< mv.start)) ||| (1 <<< mv.endSq), black_bishops := (b.black_bishops &&& not64 (1 <<< mv.start)) ||| (1 <<< mv.endSq) } ?_ mv.endSq (get_piece_type_on_square b mv.endSq) hcf ?_ ?_ ?_ ?_ ?_ ?_ ?_ ?_ ?_ ?_ ?_ ?_ ?_ ?_ he64 htB hptdef).1 <;> first | rfl | exact (makeMoveCaptureWhite_proj_white_king _ _ _).symm
        · apply Nat.eq_of_testBit_eq
          intro i
          simp only [Nat.testBit_or, Nat.testBit_and, testBit_not64, testBit_single]
          by_cases hs : mv.start = i
          · subst hs
            simp [hstart, hs64]
          · by_cases he : mv.endSq = i
            · subst he
              simp [hend, he64, hs]
            · by_cases hl : i < 64
              · simp [hs, he, hl]
              · simp [hs, he, hl, testBit_high _ i hwplt (by omega)]
      · exact hpe
      · exact hpq1
      · exact hpq2
      · exact hpq3
      · exact hpq4
      · exact hwtp.symm
      all_goals try simp only [makeMoveCaptureWhite_proj_white_king, makeMoveCaptureWhite_proj_black_pawns, makeMoveCaptureWhite_proj_black_rooks, makeMoveCaptureWhite_proj_black_knights, makeMoveCaptureWhite_proj_black_bishops, makeMoveCaptureWhite_proj_black_queens, makeMoveCaptureWhite_proj_black_king, makeMoveCaptureWhite_proj_black_pieces, makeMoveCaptureWhite_proj_pieces, makeMoveCaptureWhite_proj_en_passant_target, makeMoveCaptureWhite_proj_white_queen_side_castling_right, makeMoveCaptureWhite_proj_white_king_side_castling_right, makeMoveCaptureWhite_proj_black_queen_side_castling_right, makeMoveCaptureWhite_proj_black_king_side_castling_right, makeMoveCaptureWhite_proj_white_to_play]
      all_goals first
        | (exact hnp)
        | (exact hendP0)
        | (exact hendR0)
        | (exact hendN0)
        | (exact hmT)
        | (simp [hwtp])
    · have hcap0 : mv.capture = Option.none := by
        rw [hcap, if_neg hcapb]
      simp only [makeMove_black b mv hwtp]
      rw [blackMover_bishop { b with black_pieces := (b.black_pieces &&& not64 (1 <<< mv.start)) ||| (1 <<< mv.endSq) } mv hz1 hz2 hz3 hsT]
      dsimp only
      rw [blackCaptureEp_none { b with black_pieces := (b.black_pieces &&& not64 (1 <<< mv.start)) ||| (1 <<< mv.endSq), black_bishops := (b.black_bishops &&& not64 (1 <<< mv.start)) ||| (1 <<< mv.endSq) } mv hcap0 hcep]
      rw [if_neg hcds]
      simp only [clearRightsOnEnd_proj_white_pawns, clearRightsOnEnd_proj_white_rooks, clearRightsOnEnd_proj_white_knights, clearRightsOnEnd_proj_white_bishops, clearRightsOnEnd_proj_white_queens, clearRightsOnEnd_proj_white_king, clearRightsOnEnd_proj_black_pawns, clearRightsOnEnd_proj_black_rooks, clearRightsOnEnd_proj_black_knights, clearRightsOnEnd_proj_black_bishops, clearRightsOnEnd_proj_black_queens, clearRightsOnEnd_proj_black_king, clearRightsOnEnd_proj_white_pieces, clearRightsOnEnd_proj_black_pieces, clearRightsOnEnd_proj_pieces, clearRightsOnEnd_proj_en_passant_target, clearRightsOnEnd_proj_white_to_play]
      rw [unmakeMove_black]
      dsimp only
      rw [blackUnmover_bishop]
      dsimp only
      rw [blackUncaptureEp_none _ mv hcap0 hcep]
      rw [blackRestoreMover_bishop]
      simp only [finishUnmake]
      apply Board.ext
      · rfl
      · rfl
      · rfl
      · rfl
      · rfl
      · rfl
      · rfl
      · rfl
      · rfl
      · apply Nat.eq_of_testBit_eq
        intro i
        simp only [Nat.testBit_or, Nat.testBit_and, testBit_not64, testBit_single]
        by_cases hs : mv.start = i
        · subst hs
          simp [hT, hs64]
        · by_cases he : mv.endSq = i
          · subst he
            simp [hendB, he64, hs]
          · by_cases hl : i < 64
            · simp [hs, he, hl]
            · simp [hs, he, hl, testBit_high _ i hcf.bb_lt (by omega)]
      · rfl
      · rfl
      · rfl
      · apply Nat.eq_of_testBit_eq
        intro i
        simp only [Nat.testBit_or, Nat.testBit_and, testBit_not64, testBit_single]
        by_cases hs : mv.start = i
        · subst hs
          simp [hstart, hs64]
        · by_cases he : mv.endSq = i
          · subst he
            simp [hend, he64, hs]
          · by_cases hl : i < 64
            · simp [hs, he, hl]
            · simp [hs, he, hl, testBit_high _ i hwplt (by omega)]
      · conv_rhs => rw [hcf.gagg]
        refine congrArg₂ (fun x y => x ||| y) ?_ ?_
        · rfl
        · apply Nat.eq_of_testBit_eq
          intro i
          simp only [Nat.testBit_or, Nat.testBit_and, testBit_not64, testBit_single]
          by_cases hs : mv.start = i
          · subst hs
            simp [hstart, hs64]
          · by_cases he : mv.endSq = i
            · subst he
              simp [hend, he64, hs]
            · by_cases hl : i < 64
              · simp [hs, he, hl]
              · simp [hs, he, hl, testBit_high _ i hwplt (by omega)]
      · exact hpe
      · exact hpq1
      · exact hpq2
      · exact hpq3
      · exact hpq4
      · exact hwtp.symm
      all_goals first
        | (exact hnp)
        | (exact hendP0)
        | (exact hendR0)
        | (exact hendN0)
        | (exact hmT)
        | (simp [hwtp])
  · -- queen
    have hz1 : b.black_pawns &&& (1 <<< mv.start) = 0 :=
      single_and_zero _ _ (disj_bit _ _ _ hcf.bp_bq hT)
    have hz2 : b.black_rooks &&& (1 <<< mv.start) = 0 :=
      single_and_zero _ _ (disj_bit _ _ _ hcf.br_bq hT)
    have hz3 : b.black_knights &&& (1 <<< mv.start) = 0 :=
      single_and_zero _ _ (disj_bit _ _ _ hcf.bn_bq hT)
    have hz4 : b.black_bishops &&& (1 <<< mv.start) = 0 :=
      single_and_zero _ _ (disj_bit _ _ _ hcf.bb_bq hT)
    have hsT : b.black_queens &&& (1 <<< mv.start) ≠ 0 := sub_single _ _ hT
    have hmT : ((b.black_queens &&& not64 (1 <<< mv.start)) ||| (1 <<< mv.endSq)) &&&
        (1 <<< mv.endSq) ≠ 0 :=
      sub_single _ _ (bit_in_or_right _ _ _ (by rw [testBit_single]; simp))
    by_cases hcapb : b.white_pieces &&& (1 <<< mv.endSq) ≠ 0
    · have hcapS : mv.capture = some (get_piece_type_on_square b mv.endSq) := by
        rw [hcap, if_pos hcapb]
      have htB : Nat.testBit b.white_pieces mv.endSq = true := single_sub _ _ hcapb
      have hptdef := get_piece_white b mv.endSq hcapb
      simp only [makeMove_black b mv hwtp]
      rw [blackMover_queen { b with black_pieces := (b.black_pieces &&& not64 (1 <<< mv.start)) ||| (1 <<< mv.endSq) } mv hz1 hz2 hz3 hz4 hsT]
      dsimp only
      rw [blackCaptureEp_some { b with black_pieces := (b.black_pieces &&& not64 (1 <<< mv.start)) ||| (1 <<< mv.endSq), black_queens := (b.black_queens &&& not64 (1 <<< mv.start)) ||| (1 <<< mv.endSq) } mv (get_piece_type_on_square b mv.endSq) hcapS hcep]
      rw [if_neg hcds]
      simp only [clearRightsOnEnd_proj_white_pawns, clearRightsOnEnd_proj_white_rooks, clearRightsOnEnd_proj_white_knights, clearRightsOnEnd_proj_white_bishops, clearRightsOnEnd_proj_white_queens, clearRightsOnEnd_proj_white_king, clearRightsOnEnd_proj_black_pawns, clearRightsOnEnd_proj_black_rooks, clearRightsOnEnd_proj_black_knights, clearRightsOnEnd_proj_black_bishops, clearRightsOnEnd_proj_black_queens, clearRightsOnEnd_proj_black_king, clearRightsOnEnd_proj_white_pieces, clearRightsOnEnd_proj_black_pieces, clearRightsOnEnd_proj_pieces, clearRightsOnEnd_proj_en_passant_target, clearRightsOnEnd_proj_white_to_play]
      rw [unmakeMove_black]
      dsimp only
      rw [blackUnmover_queen]
      dsimp only
      rw [blackUncaptureEp_some _ mv (get_piece_type_on_square b mv.endSq) hcapS]
      rw [blackRestoreMover_queen]
      simp only [finishUnmake]
      simp only [makeMoveCaptureWhite_proj_black_pawns, makeMoveCaptureWhite_proj_black_rooks, makeMoveCaptureWhite_proj_black_knights, makeMoveCaptureWhite_proj_black_bishops, makeMoveCaptureWhite_proj_black_queens, makeMoveCaptureWhite_proj_black_king, makeMoveCaptureWhite_proj_black_pieces, makeMoveCaptureWhite_proj_pieces, makeMoveCaptureWhite_proj_en_passant_target, makeMoveCaptureWhite_proj_white_queen_side_castling_right, makeMoveCaptureWhite_proj_white_king_side_castling_right, makeMoveCaptureWhite_proj_black_queen_side_castling_right, makeMoveCaptureWhite_proj_black_king_side_castling_right, makeMoveCaptureWhite_proj_white_to_play]
      simp only [unmakeRestoreWhite_proj_black_pawns, unmakeRestoreWhite_proj_black_rooks, unmakeRestoreWhite_proj_black_knights, unmakeRestoreWhite_proj_black_bishops, unmakeRestoreWhite_proj_black_queens, unmakeRestoreWhite_proj_black_king, unmakeRestoreWhite_proj_black_pieces, unmakeRestoreWhite_proj_pieces, unmakeRestoreWhite_proj_en_passant_target, unmakeRestoreWhite_proj_white_queen_side_castling_right, unmakeRestoreWhite_proj_white_king_side_castling_right, unmakeRestoreWhite_proj_black_queen_side_castling_right, unmakeRestoreWhite_proj_black_king_side_castling_right, unmakeRestoreWhite_proj_white_to_play]
      apply Board.ext
      · refine (white_capture_roundtrip b { b with black_pieces := (b.black_pieces &&& not64 (1 <<< mv.start)) ||| (1 <<< mv.endSq), black_queens := (b.black_queens &&& not64 (1 <<< mv.start)) ||| (1 <<< mv.endSq) } ?_ mv.endSq (get_piece_type_on_square b mv.endSq) hcf ?_ ?_ ?_ ?_ ?_ ?_ ?_ ?_ ?_ ?_ ?_ ?_ ?_ ?_ he64 htB hptdef).2.1 <;> first | rfl | exact (makeMoveCaptureWhite_proj_white_king _ _ _).symm
      · refine (white_capture_roundtrip b { b with black_pieces := (b.black_pieces &&& not64 (1 <<< mv.start)) ||| (1 <<< mv.endSq), black_queens := (b.black_queens &&& not64 (1 <<< mv.start)) ||| (1 <<< mv.endSq) } ?_ mv.endSq (get_piece_type_on_square b mv.endSq) hcf ?_ ?_ ?_ ?_ ?_ ?_ ?_ ?_ ?_ ?_ ?_ ?_ ?_ ?_ he64 htB hptdef).2.2.1 <;> first | rfl | exact (makeMoveCaptureWhite_proj_white_king _ _ _).symm
      · refine (white_capture_roundtrip b { b with black_pieces := (b.black_pieces &&& not64 (1 <<< mv.start)) ||| (1 <<< mv.endSq), black_queens := (b.black_queens &&& not64 (1 <<< mv.start)) ||| (1 <<< mv.endSq) } ?_ mv.endSq (get_piece_type_on_square b mv.endSq) hcf ?_ ?_ ?_ ?_ ?_ ?_ ?_ ?_ ?_ ?_ ?_ ?_ ?_ ?_ he64 htB hptdef).2.2.2.1 <;> first | rfl | exact (makeMoveCaptureWhite_proj_white_king _ _ _).symm
      · refine (white_capture_roundtrip b { b with black_pieces := (b.black_pieces &&& not64 (1 <<< mv.start)) ||| (1 <<< mv.endSq), black_queens := (b.black_queens &&& not64 (1 <<< mv.start)) ||| (1 <<< mv.endSq) } ?_ mv.endSq (get_piece_type_on_square b mv.endSq) hcf ?_ ?_ ?_ ?_ ?_ ?_ ?_ ?_ ?_ ?_ ?_ ?_ ?_ ?_ he64 htB hptdef).2.2.2.2.1 <;> first | rfl | exact (makeMoveCaptureWhite_proj_white_king _ _ _).symm
      · refine (white_capture_roundtrip b { b with black_pieces := (b.black_pieces &&& not64 (1 <<< mv.start)) ||| (1 <<< mv.endSq), black_queens := (b.black_queens &&& not64 (1 <<< mv.start)) ||| (1 <<< mv.endSq) } ?_ mv.endSq (get_piece_type_on_square b mv.endSq) hcf ?_ ?_ ?_ ?_ ?_ ?_ ?_ ?_ ?_ ?_ ?_ ?_ ?_ ?_ he64 htB hptdef).2.2.2.2.2.1 <;> first | rfl | exact (makeMoveCaptureWhite_proj_white_king _ _ _).symm
      · refine (white_capture_roundtrip b { b with black_pieces := (b.black_pieces &&& not64 (1 <<< mv.start)) ||| (1 <<< mv.endSq), black_queens := (b.black_queens &&& not64 (1 <<< mv.start)) ||| (1 <<< mv.endSq) } ?_ mv.endSq (get_piece_type_on_square b mv.endSq) hcf ?_ ?_ ?_ ?_ ?_ ?_ ?_ ?_ ?_ ?_ ?_ ?_ ?_ ?_ he64 htB hptdef).2.2.2.2.2.2 <;> first | rfl | exact (makeMoveCaptureWhite_proj_white_king _ _ _).symm
      · rfl
      · rfl
      · rfl
      · rfl
      · apply Nat.eq_of_testBit_eq
        intro i
        simp only [Nat.testBit_or, Nat.testBit_and, testBit_not64, testBit_single]
        by_cases hs : mv.start = i
        · subst hs
          simp [hT, hs64]
        · by_cases he : mv.endSq = i
          · subst he
            simp [hendQ, he64, hs]
          · by_cases hl : i < 64
            · simp [hs, he, hl]
            · simp [hs, he, hl, testBit_high _ i hcf.bq_lt (by omega)]
      · rfl
      · refine (white_capture_roundtrip b { b with black_pieces := (b.black_pieces &&& not64 (1 <<< mv.start)) ||| (1 <<< mv.endSq), black_queens := (b.black_queens &&& not64 (1 <<< mv.start)) ||| (1 <<< mv.endSq) } ?_ mv.endSq (get_piece_type_on_square b mv.endSq) hcf ?_ ?_ ?_ ?_ ?_ ?_ ?_ ?_ ?_ ?_ ?_ ?_ ?_ ?_ he64 htB hptdef).1 <;> first | rfl | exact (makeMoveCaptureWhite_proj_white_king _ _ _).symm
      · apply Nat.eq_of_testBit_eq
        intro i
        simp only [Nat.testBit_or, Nat.testBit_and, testBit_not64, testBit_single]
        by_cases hs : mv.start = i
        · subst hs
          simp [hstart, hs64]
        · by_cases he : mv.endSq = i
          · subst he
            simp [hend, he64, hs]
          · by_cases hl : i < 64
            · simp [hs, he, hl]
            · simp [hs, he, hl, testBit_high _ i hwplt (by omega)]
      · conv_rhs => rw [hcf.gagg]
        refine congrArg₂ (fun x y => x ||| y) ?_ ?_
        · refine (white_capture_roundtrip b { b with black_pieces := (b.black_pieces &&& not64 (1 <<< mv.start)) ||| (1 <<< mv.endSq), black_queens := (b.black_queens &&& not64 (1 <<< mv.start)) ||| (1 <<< mv.endSq) } ?_ mv.endSq (get_piece_type_on_square b mv.endSq) hcf ?_ ?_ ?_ ?_ ?_ ?_ ?_ ?_ ?_ ?_ ?_ ?_ ?_ ?_ he64 htB hptdef).1 <;> first | rfl | exact (makeMoveCaptureWhite_proj_white_king _ _ _).symm
        · apply Nat.eq_of_testBit_eq
          intro i
          simp only [Nat.testBit_or, Nat.testBit_and, testBit_not64, testBit_single]
          by_cases hs : mv.start = i
          · subst hs
            simp [hstart, hs64]
          · by_cases he : mv.endSq = i
            · subst he
              simp [hend, he64, hs]
            · by_cases hl : i < 64
              · simp [hs, he, hl]
              · simp [hs, he, hl, testBit_high _ i hwplt (by omega)]
      · exact hpe
      · exact hpq1
      · exact hpq2
      · exact hpq3
      · exact hpq4
      · exact hwtp.symm
      all_goals try simp only [makeMoveCaptureWhite_proj_white_king, makeMoveCaptureWhite_proj_black_pawns, makeMoveCaptureWhite_proj_black_rooks, makeMoveCaptureWhite_proj_black_knights, makeMoveCaptureWhite_proj_black_bishops, makeMoveCaptureWhite_proj_black_queens, makeMoveCaptureWhite_proj_black_king, makeMoveCaptureWhite_proj_black_pieces, makeMoveCaptureWhite_proj_pieces, makeMoveCaptureWhite_proj_en_passant_target, makeMoveCaptureWhite_proj_white_queen_side_castling_right, makeMoveCaptureWhite_proj_white_king_side_castling_right, makeMoveCaptureWhite_proj_black_queen_side_castling_right, makeMoveCaptureWhite_proj_black_king_side_castling_right, makeMoveCaptureWhite_proj_white_to_play]
      all_goals first
        | (exact hnp)
        | (exact hendP0)
        | (exact hendR0)
        | (exact hendN0)
        | (exact hendB0)
        | (exact hmT)
        | (simp [hwtp])
    · have hcap0 : mv.capture = Option.none := by
        rw [hcap, if_neg hcapb]
      simp only [makeMove_black b mv hwtp]
      rw [blackMover_queen { b with black_pieces := (b.black_pieces &&& not64 (1 <<< mv.start)) ||| (1 <<< mv.endSq) } mv hz1 hz2 hz3 hz4 hsT]
      dsimp only
      rw [blackCaptureEp_none { b with black_pieces := (b.black_pieces &&& not64 (1 <<< mv.start)) ||| (1 <<< mv.endSq), black_queens := (b.black_queens &&& not64 (1 <<< mv.start)) ||| (1 <<< mv.endSq) } mv hcap0 hcep]
      rw [if_neg hcds]
      simp only [clearRightsOnEnd_proj_white_pawns, clearRightsOnEnd_proj_white_rooks, clearRightsOnEnd_proj_white_knights, clearRightsOnEnd_proj_white_bishops, clearRightsOnEnd_proj_white_queens, clearRightsOnEnd_proj_white_king, clearRightsOnEnd_proj_black_pawns, clearRightsOnEnd_proj_black_rooks, clearRightsOnEnd_proj_black_knights, clearRightsOnEnd_proj_black_bishops, clearRightsOnEnd_proj_black_queens, clearRightsOnEnd_proj_black_king, clearRightsOnEnd_proj_white_pieces, clearRightsOnEnd_proj_black_pieces, clearRightsOnEnd_proj_pieces, clearRightsOnEnd_proj_en_passant_target, clearRightsOnEnd_proj_white_to_play]
      rw [unmakeMove_black]
      dsimp only
      rw [blackUnmover_queen]
      dsimp only
      rw [blackUncaptureEp_none _ mv hcap0 hcep]
      rw [blackRestoreMover_queen]
      simp only [finishUnmake]
      apply Board.ext
      · rfl
      · rfl
      · rfl
      · rfl
      · rfl
      · rfl
      · rfl
      · rfl
      · rfl
      · rfl
      · apply Nat.eq_of_testBit_eq
        intro i
        simp only [Nat.testBit_or, Nat.testBit_and, testBit_not64, testBit_single]
        by_cases hs : mv.start = i
        · subst hs
          simp [hT, hs64]
        · by_cases he : mv.endSq = i
          · subst he
            simp [hendQ, he64, hs]
          · by_cases hl : i < 64
            · simp [hs, he, hl]
            · simp [hs, he, hl, testBit_high _ i hcf.bq_lt (by omega)]
      · rfl
      · rfl
      · apply Nat.eq_of_testBit_eq
        intro i
        simp only [Nat.testBit_or, Nat.testBit_and, testBit_not64, testBit_single]
        by_cases hs : mv.start = i
        · subst hs
          simp [hstart, hs64]
        · by_cases he : mv.endSq = i
          · subst he
            simp [hend, he64, hs]
          · by_cases hl : i < 64
            · simp [hs, he, hl]
            · simp [hs, he, hl, testBit_high _ i hwplt (by omega)]
      · conv_rhs => rw [hcf.gagg]
        refine congrArg₂ (fun x y => x ||| y) ?_ ?_
        · rfl
        · apply Nat.eq_of_testBit_eq
          intro i
          simp only [Nat.testBit_or, Nat.testBit_and, testBit_not64, testBit_single]
          by_cases hs : mv.start = i
          · subst hs
            simp [hstart, hs64]
          · by_cases he : mv.endSq = i
            · subst he
              simp [hend, he64, hs]
            · by_cases hl : i < 64
              · simp [hs, he, hl]
              · simp [hs, he, hl, testBit_high _ i hwplt (by omega)]
      · exact hpe
      · exact hpq1
      · exact hpq2
      · exact hpq3
      · exact hpq4
      · exact hwtp.symm
      all_goals first
        | (exact hnp)
        | (exact hendP0)
        | (exact hendR0)
        | (exact hendN0)
        | (exact hendB0)
        | (exact hmT)
        | (simp [hwtp])
  · -- king
    have hz1 : b.black_pawns &&& (1 <<< mv.start) = 0 :=
      single_and_zero _ _ (disj_bit _ _ _ hcf.bp_bk (by rw [hT]; rw [testBit_single]; simp))
    have hz2 : b.black_rooks &&& (1 <<< mv.start) = 0 :=
      single_and_zero _ _ (disj_bit _ _ _ hcf.br_bk (by rw [hT]; rw [testBit_single]; simp))
    have hz3 : b.black_knights &&& (1 <<< mv.start) = 0 :=
      single_and_zero _ _ (disj_bit _ _ _ hcf.bn_bk (by rw [hT]; rw [testBit_single]; simp))
    have hz4 : b.black_bishops &&& (1 <<< mv.start) = 0 :=
      single_and_zero _ _ (disj_bit _ _ _ hcf.bb_bk (by rw [hT]; rw [testBit_single]; simp))
    have hz5 : b.black_queens &&& (1 <<< mv.start) = 0 :=
      single_and_zero _ _ (disj_bit _ _ _ hcf.bq_bk (by rw [hT]; rw [testBit_single]; simp))
    by_cases hcapb : b.white_pieces &&& (1 <<< mv.endSq) ≠ 0
    · have hcapS : mv.capture = some (get_piece_type_on_square b mv.endSq) := by
        rw [hcap, if_pos hcapb]
      have htB : Nat.testBit b.white_pieces mv.endSq = true := single_sub _ _ hcapb
      have hptdef := get_piece_white b mv.endSq hcapb
      simp only [makeMove_black b mv hwtp]
      rw [blackMover_king { b with black_pieces := (b.black_pieces &&& not64 (1 <<< mv.start)) ||| (1 <<< mv.endSq) } mv hz1 hz2 hz3 hz4 hz5 hT hcq hck]
      dsimp only
      rw [blackCaptureEp_some { b with black_pieces := (((b.black_pieces &&& not64 (1 <<< mv.start)) ||| (1 <<< mv.endSq)) &&& not64 (1 <<< b.black_king)) ||| (1 <<< mv.endSq), black_king := mv.endSq, black_queen_side_castling_right := false, black_king_side_castling_right := false } mv (get_piece_type_on_square b mv.endSq) hcapS hcep]
      rw [if_neg hcds]
      simp only [clearRightsOnEnd_proj_white_pawns, clearRightsOnEnd_proj_white_rooks, clearRightsOnEnd_proj_white_knights, clearRightsOnEnd_proj_white_bishops, clearRightsOnEnd_proj_white_queens, clearRightsOnEnd_proj_white_king, clearRightsOnEnd_proj_black_pawns, clearRightsOnEnd_proj_black_rooks, clearRightsOnEnd_proj_black_knights, clearRightsOnEnd_proj_black_bishops, clearRightsOnEnd_proj_black_queens, clearRightsOnEnd_proj_black_king, clearRightsOnEnd_proj_white_pieces, clearRightsOnEnd_proj_black_pieces, clearRightsOnEnd_proj_pieces, clearRightsOnEnd_proj_en_passant_target, clearRightsOnEnd_proj_white_to_play]
      rw [unmakeMove_black]
      dsimp only
      rw [blackUnmover_king]
      dsimp only
      rw [blackUncaptureEp_some _ mv (get_piece_type_on_square b mv.endSq) hcapS]
      rw [blackRestoreMover_king]
      simp only [finishUnmake]
      simp only [makeMoveCaptureWhite_proj_black_pawns, makeMoveCaptureWhite_proj_black_rooks, makeMoveCaptureWhite_proj_black_knights, makeMoveCaptureWhite_proj_black_bishops, makeMoveCaptureWhite_proj_black_queens, makeMoveCaptureWhite_proj_black_king, makeMoveCaptureWhite_proj_black_pieces, makeMoveCaptureWhite_proj_pieces, makeMoveCaptureWhite_proj_en_passant_target, makeMoveCaptureWhite_proj_white_queen_side_castling_right, makeMoveCaptureWhite_proj_white_king_side_castling_right, makeMoveCaptureWhite_proj_black_queen_side_castling_right, makeMoveCaptureWhite_proj_black_king_side_castling_right, makeMoveCaptureWhite_proj_white_to_play]
      simp only [unmakeRestoreWhite_proj_black_pawns, unmakeRestoreWhite_proj_black_rooks, unmakeRestoreWhite_proj_black_knights, unmakeRestoreWhite_proj_black_bishops, unmakeRestoreWhite_proj_black_queens, unmakeRestoreWhite_proj_black_king, unmakeRestoreWhite_proj_black_pieces, unmakeRestoreWhite_proj_pieces, unmakeRestoreWhite_proj_en_passant_target, unmakeRestoreWhite_proj_white_queen_side_castling_right, unmakeRestoreWhite_proj_white_king_side_castling_right, unmakeRestoreWhite_proj_black_queen_side_castling_right, unmakeRestoreWhite_proj_black_king_side_castling_right, unmakeRestoreWhite_proj_white_to_play]
      apply Board.ext
      · refine (white_capture_roundtrip b { b with black_pieces := (((b.black_pieces &&& not64 (1 <<< mv.start)) ||| (1 <<< mv.endSq)) &&& not64 (1 <<< b.black_king)) ||| (1 <<< mv.endSq), black_king := mv.endSq, black_queen_side_castling_right := false, black_king_side_castling_right := false } ?_ mv.endSq (get_piece_type_on_square b mv.endSq) hcf ?_ ?_ ?_ ?_ ?_ ?_ ?_ ?_ ?_ ?_ ?_ ?_ ?_ ?_ he64 htB hptdef).2.1 <;> first | rfl | exact (makeMoveCaptureWhite_proj_white_king _ _ _).symm
      · refine (white_capture_roundtrip b { b with black_pieces := (((b.black_pieces &&& not64 (1 <<< mv.start)) ||| (1 <<< mv.endSq)) &&& not64 (1 <<< b.black_king)) ||| (1 <<< mv.endSq), black_king := mv.endSq, black_queen_side_castling_right := false, black_king_side_castling_right := false } ?_ mv.endSq (get_piece_type_on_square b mv.endSq) hcf ?_ ?_ ?_ ?_ ?_ ?_ ?_ ?_ ?_ ?_ ?_ ?_ ?_ ?_ he64 htB hptdef).2.2.1 <;> first | rfl | exact (makeMoveCaptureWhite_proj_white_king _ _ _).symm
      · refine (white_capture_roundtrip b { b with black_pieces := (((b.black_pieces &&& not64 (1 <<< mv.start)) ||| (1 <<< mv.endSq)) &&& not64 (1 <<< b.black_king)) ||| (1 <<< mv.endSq), black_king := mv.endSq, black_queen_side_castling_right := false, black_king_side_castling_right := false } ?_ mv.endSq (get_piece_type_on_square b mv.endSq) hcf ?_ ?_ ?_ ?_ ?_ ?_ ?_ ?_ ?_ ?_ ?_ ?_ ?_ ?_ he64 htB hptdef).2.2.2.1 <;> first | rfl | exact (makeMoveCaptureWhite_proj_white_king _ _ _).symm
      · refine (white_capture_roundtrip b { b with black_pieces := (((b.black_pieces &&& not64 (1 <<< mv.start)) ||| (1 <<< mv.endSq)) &&& not64 (1 <<< b.black_king)) ||| (1 <<< mv.endSq), black_king := mv.endSq, black_queen_side_castling_right := false, black_king_side_castling_right := false } ?_ mv.endSq (get_piece_type_on_square b mv.endSq) hcf ?_ ?_ ?_ ?_ ?_ ?_ ?_ ?_ ?_ ?_ ?_ ?_ ?_ ?_ he64 htB hptdef).2.2.2.2.1 <;> first | rfl | exact (makeMoveCaptureWhite_proj_white_king _ _ _).symm
      · refine (white_capture_roundtrip b { b with black_pieces := (((b.black_pieces &&& not64 (1 <<< mv.start)) ||| (1 <<< mv.endSq)) &&& not64 (1 <<< b.black_king)) ||| (1 <<< mv.endSq), black_king := mv.endSq, black_queen_side_castling_right := false, black_king_side_castling_right := false } ?_ mv.endSq (get_piece_type_on_square b mv.endSq) hcf ?_ ?_ ?_ ?_ ?_ ?_ ?_ ?_ ?_ ?_ ?_ ?_ ?_ ?_ he64 htB hptdef).2.2.2.2.2.1 <;> first | rfl | exact (makeMoveCaptureWhite_proj_white_king _ _ _).symm
      · refine (white_capture_roundtrip b { b with black_pieces := (((b.black_pieces &&& not64 (1 <<< mv.start)) ||| (1 <<< mv.endSq)) &&& not64 (1 <<< b.black_king)) ||| (1 <<< mv.endSq), black_king := mv.endSq, black_queen_side_castling_right := false, black_king_side_castling_right := false } ?_ mv.endSq (get_piece_type_on_square b mv.endSq) hcf ?_ ?_ ?_ ?_ ?_ ?_ ?_ ?_ ?_ ?_ ?_ ?_ ?_ ?_ he64 htB hptdef).2.2.2.2.2.2 <;> first | rfl | exact (makeMoveCaptureWhite_proj_white_king _ _ _).symm
      · rfl
      · rfl
      · rfl
      · rfl
      · rfl
      · exact hT.symm
      · refine (white_capture_roundtrip b { b with black_pieces := (((b.black_pieces &&& not64 (1 <<< mv.start)) ||| (1 <<< mv.endSq)) &&& not64 (1 <<< b.black_king)) ||| (1 <<< mv.endSq), black_king := mv.endSq, black_queen_side_castling_right := false, black_king_side_castling_right := false } ?_ mv.endSq (get_piece_type_on_square b mv.endSq) hcf ?_ ?_ ?_ ?_ ?_ ?_ ?_ ?_ ?_ ?_ ?_ ?_ ?_ ?_ he64 htB hptdef).1 <;> first | rfl | exact (makeMoveCaptureWhite_proj_white_king _ _ _).symm
      · apply Nat.eq_of_testBit_eq
        intro i
        simp only [Nat.testBit_or, Nat.testBit_and, testBit_not64, testBit_single, hT]
        by_cases hs : mv.start = i
        · subst hs
          simp [hstart, hs64]
        · by_cases he : mv.endSq = i
          · subst he
            simp [hend, he64, hs]
          · by_cases hl : i < 64
            · simp [hs, he, hl]
            · simp [hs, he, hl, testBit_high _ i hwplt (by omega)]
      · conv_rhs => rw [hcf.gagg]
        refine congrArg₂ (fun x y => x ||| y) ?_ ?_
        · refine (white_capture_roundtrip b { b with black_pieces := (((b.black_pieces &&& not64 (1 <<< mv.start)) ||| (1 <<< mv.endSq)) &&& not64 (1 <<< b.black_king)) ||| (1 <<< mv.endSq), black_king := mv.endSq, black_queen_side_castling_right := false, black_king_side_castling_right := false } ?_ mv.endSq (get_piece_type_on_square b mv.endSq) hcf ?_ ?_ ?_ ?_ ?_ ?_ ?_ ?_ ?_ ?_ ?_ ?_ ?_ ?_ he64 htB hptdef).1 <;> first | rfl | exact (makeMoveCaptureWhite_proj_white_king _ _ _).symm
        · apply Nat.eq_of_testBit_eq
          intro i
          simp only [Nat.testBit_or, Nat.testBit_and, testBit_not64, testBit_single, hT]
          by_cases hs : mv.start = i
          · subst hs
            simp [hstart, hs64]
          · by_cases he : mv.endSq = i
            · subst he
              simp [hend, he64, hs]
            · by_cases hl : i < 64
              · simp [hs, he, hl]
              · simp [hs, he, hl, testBit_high _ i hwplt (by omega)]
      · exact hpe
      · exact hpq1
      · exact hpq2
      · exact hpq3
      · exact hpq4
      · exact hwtp.symm
      all_goals try simp only [makeMoveCaptureWhite_proj_white_king, makeMoveCaptureWhite_proj_black_pawns, makeMoveCaptureWhite_proj_black_rooks, makeMoveCaptureWhite_proj_black_knights, makeMoveCaptureWhite_proj_black_bishops, makeMoveCaptureWhite_proj_black_queens, makeMoveCaptureWhite_proj_black_king, makeMoveCaptureWhite_proj_black_pieces, makeMoveCaptureWhite_proj_pieces, makeMoveCaptureWhite_proj_en_passant_target, makeMoveCaptureWhite_proj_white_queen_side_castling_right, makeMoveCaptureWhite_proj_white_king_side_castling_right, makeMoveCaptureWhite_proj_black_queen_side_castling_right, makeMoveCaptureWhite_proj_black_king_side_castling_right, makeMoveCaptureWhite_proj_white_to_play]
      all_goals first
        | (exact hnp)
        | (exact hendP0)
        | (exact hendR0)
        | (exact hendN0)
        | (exact hendB0)
        | (exact hendQ0)
        | (rfl)
        | (exact hcq)
        | (exact hck)
        | (simp [hwtp])
    · have hcap0 : mv.capture = Option.none := by
        rw [hcap, if_neg hcapb]
      simp only [makeMove_black b mv hwtp]
      rw [blackMover_king { b with black_pieces := (b.black_pieces &&& not64 (1 <<< mv.start)) ||| (1 <<< mv.endSq) } mv hz1 hz2 hz3 hz4 hz5 hT hcq hck]
      dsimp only
      rw [blackCaptureEp_none { b with black_pieces := (((b.black_pieces &&& not64 (1 <<< mv.start)) ||| (1 <<< mv.endSq)) &&& not64 (1 <<< b.black_king)) ||| (1 <<< mv.endSq), black_king := mv.endSq, black_queen_side_castling_right := false, black_king_side_castling_right := false } mv hcap0 hcep]
      rw [if_neg hcds]
      simp only [clearRightsOnEnd_proj_white_pawns, clearRightsOnEnd_proj_white_rooks, clearRightsOnEnd_proj_white_knights, clearRightsOnEnd_proj_white_bishops, clearRightsOnEnd_proj_white_queens, clearRightsOnEnd_proj_white_king, clearRightsOnEnd_proj_black_pawns, clearRightsOnEnd_proj_black_rooks, clearRightsOnEnd_proj_black_knights, clearRightsOnEnd_proj_black_bishops, clearRightsOnEnd_proj_black_queens, clearRightsOnEnd_proj_black_king, clearRightsOnEnd_proj_white_pieces, clearRightsOnEnd_proj_black_pieces, clearRightsOnEnd_proj_pieces, clearRightsOnEnd_proj_en_passant_target, clearRightsOnEnd_proj_white_to_play]
      rw [unmakeMove_black]
      dsimp only
      rw [blackUnmover_king]
      dsimp only
      rw [blackUncaptureEp_none _ mv hcap0 hcep]
      rw [blackRestoreMover_king]
      simp only [finishUnmake]
      apply Board.ext
      · rfl
      · rfl
      · rfl
      · rfl
      · rfl
      · rfl
      · rfl
      · rfl
      · rfl
      · rfl
      · rfl
      · exact hT.symm
      · rfl
      · apply Nat.eq_of_testBit_eq
        intro i
        simp only [Nat.testBit_or, Nat.testBit_and, testBit_not64, testBit_single, hT]
        by_cases hs : mv.start = i
        · subst hs
          simp [hstart, hs64]
        · by_cases he : mv.endSq = i
          · subst he
            simp [hend, he64, hs]
          · by_cases hl : i < 64
            · simp [hs, he, hl]
            · simp [hs, he, hl, testBit_high _ i hwplt (by omega)]
      · conv_rhs => rw [hcf.gagg]
        refine congrArg₂ (fun x y => x ||| y) ?_ ?_
        · rfl
        · apply Nat.eq_of_testBit_eq
          intro i
          simp only [Nat.testBit_or, Nat.testBit_and, testBit_not64, testBit_single, hT]
          by_cases hs : mv.start = i
          · subst hs
            simp [hstart, hs64]
          · by_cases he : mv.endSq = i
            · subst he
              simp [hend, he64, hs]
            · by_cases hl : i < 64
              · simp [hs, he, hl]
              · simp [hs, he, hl, testBit_high _ i hwplt (by omega)]
      · exact hpe
      · exact hpq1
      · exact hpq2
      · exact hpq3
      · exact hpq4
      · exact hwtp.symm
      all_goals first
        | (exact hnp)
        | (exact hendP0)
        | (exact hendR0)
        | (exact hendN0)
        | (exact hendB0)
        | (exact hendQ0)
        | (rfl)
        | (exact hcq)
        | (exact hck)
        | (simp [hwtp])


end Barnarok

namespace Barnarok

/-- The side-to-move aggregate mask. -/
def moverPieces (b : Board) : Bitboard :=
  if b.white_to_play then b.white_pieces else b.black_pieces

/-- The opponent aggregate mask. -/
def opponentPieces (b : Board) : Bitboard :=
  if b.white_to_play then b.black_pieces else b.white_pieces

/-- Side-independent form of the plain-move roundtrip, the helper shared by
the threading lemmas of the generators. -/
theorem make_unmake_plain (b : Board) (mv : Move)
    (hc : Consistent b = true)
    (hctx : mv.context = MoveContext.none)
    (hstart : Nat.testBit (moverPieces b) mv.start = true)
    (hend : Nat.testBit (moverPieces b) mv.endSq = false)
    (he64 : mv.endSq < 64)
    (hcap : mv.capture = (if opponentPieces b &&& (1 <<< mv.endSq) ≠ 0
        then some (get_piece_type_on_square b mv.endSq) else Option.none))
    (hpe : mv.previous_ep_target = b.en_passant_target)
    (hpq1 : mv.previous_wqs = b.white_queen_side_castling_right)
    (hpq2 : mv.previous_wks = b.white_king_side_castling_right)
    (hpq3 : mv.previous_bqs = b.black_queen_side_castling_right)
    (hpq4 : mv.previous_bks = b.black_king_side_castling_right) :
    unmakeMove (makeMove b mv) mv = b := by
  have hcf := consistent_facts b hc
  cases hwtp : b.white_to_play
  · rw [moverPieces, hwtp] at hstart hend
    rw [opponentPieces, hwtp] at hcap
    simp only [Bool.false_eq_true, if_false] at hstart hend hcap
    exact make_unmake_simple_black b mv hcf hwtp hctx hstart hend he64 hcap
      hpe hpq1 hpq2 hpq3 hpq4
  · rw [moverPieces, hwtp] at hstart hend
    rw [opponentPieces, hwtp] at hcap
    simp only [if_true] at hstart hend hcap
    exact make_unmake_simple_white b mv hcf hwtp hctx hstart hend he64 hcap
      hpe hpq1 hpq2 hpq3 hpq4

/-- C1 (corrected): for every position whose redundant data is consistent
(`Consistent`) and every plain move of the side to move — kind tag `None`,
start square held by the mover side, destination not occupied by the mover
side, capture field holding exactly the enemy piece type standing on the
destination (`None` when it is empty), and the previous-state fields holding
the current en-passant target and castling rights — `make_move` followed by
`unmake_move` restores the position bit-for-bit: all ten per-type masks, both
king squares, the three aggregate masks, the four rights, the en-passant
target and the side to move. -/
theorem make_unmake_roundtrip (b : Board) (mv : Move)
    (hc : Consistent b = true)
    (hctx : mv.context = MoveContext.none)
    (hstart : Nat.testBit (moverPieces b) mv.start = true)
    (hend : Nat.testBit (moverPieces b) mv.endSq = false)
    (he64 : mv.endSq < 64)
    (hcap : mv.capture = (if opponentPieces b &&& (1 <<< mv.endSq) ≠ 0
        then some (get_piece_type_on_square b mv.endSq) else Option.none))
    (hpe : mv.previous_ep_target = b.en_passant_target)
    (hpq1 : mv.previous_wqs = b.white_queen_side_castling_right)
    (hpq2 : mv.previous_wks = b.white_king_side_castling_right)
    (hpq3 : mv.previous_bqs = b.black_queen_side_castling_right)
    (hpq4 : mv.previous_bks = b.black_king_side_castling_right) :
    unmakeMove (makeMove b mv) mv = b :=
  make_unmake_plain b mv hc hctx hstart hend he64 hcap hpe hpq1 hpq2 hpq3 hpq4

/-- A plain white king step a1-b1 on the two-kings board, with the
previous-state fields copied from the board. -/
def mvKingStep : Move :=
  { start := 0
    endSq := 1
    context := MoveContext.none
    capture := Option.none
    previous_ep_target := some 20
    previous_wqs := false
    previous_wks := false
    previous_bqs := false
    previous_bks := false }

theorem make_unmake_roundtrip_witness :
    Consistent boardKingsEp = true ∧
      unmakeMove (makeMove boardKingsEp mvKingStep) mvKingStep = boardKingsEp :=
  ⟨by decide, make_unmake_roundtrip boardKingsEp mvKingStep (by decide) (by decide)
    (by decide) (by decide) (by decide) (by decide) (by decide) (by decide)
    (by decide) (by decide) (by decide)⟩

end Barnarok

namespace Barnarok

/-- The first set bit found by `trailing_zeros` is a set bit below 64. -/
theorem trailing_zeros_spec (x : Nat) (hx : x ≠ 0) (hlt : x < 2 ^ 64) :
    trailing_zeros x < 64 ∧ Nat.testBit x (trailing_zeros x) = true := by
  cases hf : (List.range 64).find? (fun i => x.testBit i) with
  | none =>
    exfalso
    apply hx
    apply Nat.eq_of_testBit_eq
    intro i
    rw [Nat.zero_testBit]
    by_cases hi : i < 64
    · have h := List.find?_eq_none.mp hf i (List.mem_range.mpr hi)
      simpa using h
    · exact testBit_high x i hlt (by omega)
  | some k =>
    have hk := List.find?_some hf
    have hmem := List.mem_of_find?_eq_some hf
    rw [trailing_zeros, hf]
    exact ⟨List.mem_range.mp hmem, by simpa using hk⟩

/-- Clearing the lowest set bit keeps a subset of the bits. -/
theorem and_pred_subset (t i : Nat) (h : Nat.testBit (t &&& (t - 1)) i = true) :
    Nat.testBit t i = true := by
  rw [Nat.testBit_and, Bool.and_eq_true] at h
  exact h.1

/-- `not64` of a 64-bit word is a 64-bit word. -/
theorem not64_lt (x : Nat) (hx : x < 2 ^ 64) : not64 x < 2 ^ 64 := by
  rw [not64]
  exact Nat.xor_lt_two_pow hx (by norm_num [ones64])

/-- Membership in a conditionally extended accumulator. -/
theorem mem_ite_append {c : Prop} [Decidable c] {acc : List Move} {m mv : Move}
    (h : mv ∈ (if c then acc ++ [m] else acc)) : mv ∈ acc ∨ mv = m := by
  split at h
  · rcases List.mem_append.mp h with h1 | h2
    · exact Or.inl h1
    · exact Or.inr (List.mem_singleton.mp h2)
  · exact Or.inl h

/-- Every move the shared target loop appends carries the `None` tag. -/
theorem pieceTargetLoop_ctx (fuel : Nat) (bCur : Board) (enemy : Bitboard)
    (fromSq : Nat) (t : Bitboard) (acc : List Move) (mv : Move)
    (h : mv ∈ (pieceTargetLoop fuel bCur enemy fromSq t acc).1) :
    mv ∈ acc ∨ mv.context = MoveContext.none := by
  revert bCur t acc h
  induction fuel with
  | zero =>
    intro bCur t acc h
    exact Or.inl h
  | succ fuel ih =>
    intro bCur t acc h
    by_cases ht0 : t ≠ 0
    · simp only [pieceTargetLoop, if_pos ht0] at h
      rcases ih _ _ _ h with hacc | hctx
      · rcases mem_ite_append hacc with h1 | h2
        · exact Or.inl h1
        · right
          rw [h2]
      · exact Or.inr hctx
    · simp only [pieceTargetLoop, if_neg ht0] at h
      exact Or.inl h

/-- The shared target loop hands the board back unchanged: every probe is a
plain move of the side to move, so `unmake_move` undoes its `make_move`
(requires the mask consistency of `Consistent`). -/
theorem pieceTargetLoop_board (fuel : Nat) (b : Board) (enemy : Bitboard)
    (fromSq : Nat) (t : Bitboard) (acc : List Move)
    (hc : Consistent b = true)
    (henemy : enemy = (if b.white_to_play then b.black_pieces else b.white_pieces))
    (hfrom : Nat.testBit (if b.white_to_play then b.white_pieces else b.black_pieces)
        fromSq = true)
    (ht : ∀ i, Nat.testBit t i = true →
        Nat.testBit (if b.white_to_play then b.white_pieces else b.black_pieces) i = false)
    (hlt : t < 2 ^ 64) :
    (pieceTargetLoop fuel b enemy fromSq t acc).2 = b := by
  subst henemy
  revert t acc ht hlt
  induction fuel with
  | zero =>
    intro t acc ht hlt
    rfl
  | succ fuel ih =>
    intro t acc ht hlt
    by_cases ht0 : t ≠ 0
    · simp only [pieceTargetLoop, if_pos ht0]
      have htz := trailing_zeros_spec t ht0 hlt
      have hb2 := make_unmake_plain b
          { start := fromSq
            endSq := trailing_zeros t
            context := MoveContext.none
            capture := if (if b.white_to_play then b.black_pieces else b.white_pieces) &&&
                  (1 <<< trailing_zeros t) ≠ 0
                then some (get_piece_type_on_square b (trailing_zeros t))
                else Option.none
            previous_ep_target := b.en_passant_target
            previous_wqs := b.white_queen_side_castling_right
            previous_wks := b.white_king_side_castling_right
            previous_bqs := b.black_queen_side_castling_right
            previous_bks := b.black_king_side_castling_right }
          hc rfl hfrom (ht _ htz.2) htz.1 rfl rfl rfl rfl rfl rfl
      rw [hb2]
      exact ih _ _ (fun i hi => ht i (and_pred_subset t i hi))
        (lt_of_le_of_lt Nat.and_le_left hlt)
    · simp only [pieceTargetLoop, if_neg ht0]

/-- The side-to-move aggregate is a 64-bit word. -/
theorem mover_lt (b : Board) (hcf : ConsistentFacts b) :
    (if b.white_to_play then b.white_pieces else b.black_pieces) < 2 ^ 64 := by
  cases hw : b.white_to_play
  · simpa [hw] using bpieces_lt b hcf
  · simpa [hw] using wpieces_lt b hcf

/-- A target set masked with the complement of the friendly pieces avoids
every friendly square. -/
theorem targets_avoid_mover (b : Board) (hcf : ConsistentFacts b) (A : Bitboard) (i : Nat)
    (hi : Nat.testBit (A &&& not64
        (if b.white_to_play then b.white_pieces else b.black_pieces)) i = true) :
    Nat.testBit (if b.white_to_play then b.white_pieces else b.black_pieces) i = false := by
  rw [Nat.testBit_and, Bool.and_eq_true] at hi
  have h2 := hi.2
  rw [testBit_not64] at h2
  by_cases hl : i < 64
  · simpa [hl] using h2
  · exact testBit_high _ i (mover_lt b hcf) (by omega)

/-- A masked complement of a 64-bit word is a 64-bit word. -/
theorem targets_lt (F A : Bitboard) (hF : F < 2 ^ 64) : A &&& not64 F < 2 ^ 64 :=
  lt_of_le_of_lt Nat.and_le_right (not64_lt F hF)

/-- Every move of the shared outer bit loop carries the `None` tag. -/
theorem pieceBitsLoop_ctx (fuel : Nat) (attackOf : Nat → Bitboard)
    (friendly enemy bits : Bitboard) (bCur : Board) (acc : List Move) (mv : Move)
    (h : mv ∈ (pieceBitsLoop fuel attackOf friendly enemy bits bCur acc).1) :
    mv ∈ acc ∨ mv.context = MoveContext.none := by
  revert bits bCur acc h
  induction fuel with
  | zero =>
    intro bits bCur acc h
    exact Or.inl h
  | succ fuel ih =>
    intro bits bCur acc h
    by_cases hb0 : bits ≠ 0
    · simp only [pieceBitsLoop, if_pos hb0] at h
      rcases ih _ _ _ h with hacc | hctx
      · exact pieceTargetLoop_ctx _ _ _ _ _ _ _ hacc
      · exact Or.inr hctx
    · simp only [pieceBitsLoop, if_neg hb0] at h
      exact Or.inl h

/-- The shared outer bit loop hands the board back unchanged. -/
theorem pieceBitsLoop_board (fuel : Nat) (b : Board) (attackOf : Nat → Bitboard)
    (friendly enemy bits : Bitboard) (acc : List Move)
    (hc : Consistent b = true)
    (henemy : enemy = (if b.white_to_play then b.black_pieces else b.white_pieces))
    (hfriendly : friendly = (if b.white_to_play then b.white_pieces else b.black_pieces))
    (hbits : ∀ i, Nat.testBit bits i = true →
        Nat.testBit (if b.white_to_play then b.white_pieces else b.black_pieces) i = true)
    (hblt : bits < 2 ^ 64) :
    (pieceBitsLoop fuel attackOf friendly enemy bits b acc).2 = b := by
  have hcf := consistent_facts b hc
  subst henemy
  subst hfriendly
  revert bits acc hbits hblt
  induction fuel with
  | zero =>
    intro bits acc hbits hblt
    rfl
  | succ fuel ih =>
    intro bits acc hbits hblt
    by_cases hb0 : bits ≠ 0
    · simp only [pieceBitsLoop, if_pos hb0]
      have htz := trailing_zeros_spec bits hb0 hblt
      have hres := pieceTargetLoop_board 64 b _ (trailing_zeros bits)
          (attackOf (trailing_zeros bits) &&&
            not64 (if b.white_to_play then b.white_pieces else b.black_pieces))
          acc hc rfl (hbits _ htz.2)
          (fun i hi => targets_avoid_mover b hcf _ i hi)
          (targets_lt _ _ (mover_lt b hcf))
      rw [hres]
      exact ih _ _ (fun i hi => hbits i (and_pred_subset bits i hi))
        (lt_of_le_of_lt Nat.and_le_left hblt)
    · simp only [pieceBitsLoop, if_neg hb0]

/-- Case helper: a side-selected mask lands inside the side-selected
aggregate. -/
theorem ite_mask_in_mover (b : Board) (wmask bmask : Bitboard)
    (hw : ∀ i, Nat.testBit wmask i = true → Nat.testBit b.white_pieces i = true)
    (hb : ∀ i, Nat.testBit bmask i = true → Nat.testBit b.black_pieces i = true)
    (i : Nat)
    (hi : Nat.testBit (if b.white_to_play then wmask else bmask) i = true) :
    Nat.testBit (if b.white_to_play then b.white_pieces else b.black_pieces) i = true := by
  revert hi
  cases h : b.white_to_play
  · intro hi
    simpa using hb i (by simpa using hi)
  · intro hi
    simpa using hw i (by simpa using hi)

/-- Case helper: a side-selected 64-bit mask stays 64-bit. -/
theorem ite_mask_lt (b : Board) (wmask bmask : Bitboard)
    (h1 : wmask < 2 ^ 64) (h2 : bmask < 2 ^ 64) :
    (if b.white_to_play then wmask else bmask) < 2 ^ 64 := by
  cases h : b.white_to_play
  · simpa using h2
  · simpa using h1

/-- The mover king's square is set in the mover aggregate. -/
theorem king_in_mover (b : Board) (hcf : ConsistentFacts b) :
    Nat.testBit (if b.white_to_play then b.white_pieces else b.black_pieces)
      (if b.white_to_play then b.white_king else b.black_king) = true := by
  cases h : b.white_to_play
  · simpa using bunion_bit_of b hcf b.black_king
      (Or.inr (Or.inr (Or.inr (Or.inr (Or.inr rfl)))))
  · simpa using wunion_bit_of b hcf b.white_king
      (Or.inr (Or.inr (Or.inr (Or.inr (Or.inr rfl)))))

/-- The rook generator hands the board back unchanged. -/
theorem generate_rook_moves_board (b : Board) (hc : Consistent b = true) :
    (generate_rook_moves_hq b).2 = b := by
  have hcf := consistent_facts b hc
  unfold generate_rook_moves_hq
  dsimp only
  exact pieceBitsLoop_board 64 b _ _ _ _ [] hc rfl rfl
    (ite_mask_in_mover b _ _
      (fun i hi => wunion_bit_of b hcf i (Or.inr (Or.inl hi)))
      (fun i hi => bunion_bit_of b hcf i (Or.inr (Or.inl hi))))
    (ite_mask_lt b _ _ hcf.wr_lt hcf.br_lt)

/-- The bishop generator hands the board back unchanged. -/
theorem generate_bishop_moves_board (b : Board) (hc : Consistent b = true) :
    (generate_bishop_moves_hq b).2 = b := by
  have hcf := consistent_facts b hc
  unfold generate_bishop_moves_hq
  dsimp only
  exact pieceBitsLoop_board 64 b _ _ _ _ [] hc rfl rfl
    (ite_mask_in_mover b _ _
      (fun i hi => wunion_bit_of b hcf i (Or.inr (Or.inr (Or.inr (Or.inl hi)))))
      (fun i hi => bunion_bit_of b hcf i (Or.inr (Or.inr (Or.inr (Or.inl hi))))))
    (ite_mask_lt b _ _ hcf.wb_lt hcf.bb_lt)

/-- The queen generator hands the board back unchanged. -/
theorem generate_queen_moves_board (b : Board) (hc : Consistent b = true) :
    (generate_queen_moves_hq b).2 = b := by
  have hcf := consistent_facts b hc
  unfold generate_queen_moves_hq
  dsimp only
  exact pieceBitsLoop_board 64 b _ _ _ _ [] hc rfl rfl
    (ite_mask_in_mover b _ _
      (fun i hi => wunion_bit_of b hcf i (Or.inr (Or.inr (Or.inr (Or.inr (Or.inl hi))))))
      (fun i hi => bunion_bit_of b hcf i (Or.inr (Or.inr (Or.inr (Or.inr (Or.inl hi)))))))
    (ite_mask_lt b _ _ hcf.wq_lt hcf.bq_lt)

/-- The knight generator hands the board back unchanged. -/
theorem generate_knight_moves_board (b : Board) (hc : Consistent b = true) :
    (generate_knight_moves b).2 = b := by
  have hcf := consistent_facts b hc
  unfold generate_knight_moves
  dsimp only
  exact pieceBitsLoop_board 64 b _ _ _ _ [] hc rfl rfl
    (ite_mask_in_mover b _ _
      (fun i hi => wunion_bit_of b hcf i (Or.inr (Or.inr (Or.inl hi))))
      (fun i hi => bunion_bit_of b hcf i (Or.inr (Or.inr (Or.inl hi)))))
    (ite_mask_lt b _ _ hcf.wn_lt hcf.bn_lt)

/-- The king generator hands the board back unchanged. -/
theorem generate_king_moves_board (b : Board) (hc : Consistent b = true) :
    (generate_king_moves b).2 = b := by
  have hcf := consistent_facts b hc
  unfold generate_king_moves
  dsimp only
  have hres := pieceTargetLoop_board 64 b _
      (if b.white_to_play then b.white_king else b.black_king)
      (king_mask (if b.white_to_play then b.white_king else b.black_king) &&&
        not64 (if b.white_to_play then b.white_pieces else b.black_pieces))
      [] hc rfl (king_in_mover b hcf)
      (fun i hi => targets_avoid_mover b hcf _ i hi)
      (targets_lt _ _ (mover_lt b hcf))
  rw [hres]
  split
  · rfl
  · rfl

/-- Conditional append with the guard kept. -/
theorem mem_ite_append_cond {c : Prop} [Decidable c] {acc : List Move} {m mv : Move}
    (h : mv ∈ (if c then acc ++ [m] else acc)) : mv ∈ acc ∨ (c ∧ mv = m) := by
  split at h
  · rcases List.mem_append.mp h with h1 | h2
    · exact Or.inl h1
    · exact Or.inr ⟨by assumption, List.mem_singleton.mp h2⟩
  · exact Or.inl h

/-- The pawn tag selector never yields a castle tag. -/
theorem not_castle_of_ite (ep : Bool) (shift : Int) (c2 k : MoveContext)
    (hk1 : MoveContext.enPassant ≠ k) (hk2 : MoveContext.doubleStep ≠ k)
    (hk3 : c2 ≠ k) :
    (if ep then MoveContext.enPassant
     else if shift = -16 ∨ shift = 16 then MoveContext.doubleStep else c2) ≠ k := by
  split
  · exact hk1
  · split
    · exact hk2
    · exact hk3

/-- The pawn capture tag selector never yields a castle tag. -/
theorem not_castle_of_capture_ite (c : Prop) [Decidable c] (pt : Piece) (k : MoveContext)
    (h1 : MoveContext.capture pt ≠ k) (h2 : MoveContext.none ≠ k) :
    (if c then MoveContext.capture pt else MoveContext.none) ≠ k := by
  split
  · exact h1
  · exact h2

/-- No move of the pawn helper loop carries a castle tag. -/
theorem bitboard_to_moves_loop_ctx (fuel : Nat) (b : Board) (enemy : Bitboard)
    (shift : Int) (ep : Bool) (bits : Bitboard) (out : List Move) (mv : Move)
    (h : mv ∈ bitboard_to_moves_loop fuel b enemy shift ep bits out) :
    mv ∈ out ∨ (mv.context ≠ MoveContext.queenSideCastle ∧
      mv.context ≠ MoveContext.kingSideCastle) := by
  revert bits out h
  induction fuel with
  | zero =>
    intro bits out h
    exact Or.inl h
  | succ fuel ih =>
    intro bits out h
    by_cases hb0 : bits ≠ 0
    · simp only [bitboard_to_moves_loop, if_pos hb0] at h
      rcases ih _ _ h with hout | hctx
      · rcases mem_ite_append hout with h1 | h2
        · exact Or.inl h1
        · right
          rw [h2]
          dsimp only
          constructor
          · exact not_castle_of_ite _ _ _ _ (by simp) (by simp)
              (not_castle_of_capture_ite _ _ _ (by simp) (by simp))
          · exact not_castle_of_ite _ _ _ _ (by simp) (by simp)
              (not_castle_of_capture_ite _ _ _ (by simp) (by simp))
      · exact Or.inr hctx
    · simp only [bitboard_to_moves_loop, if_neg hb0] at h
      exact Or.inl h

/-- No generated pawn move carries a castle tag. -/
theorem generate_pawn_moves_ctx (b : Board) (mv : Move)
    (h : mv ∈ generate_pawn_moves b) :
    mv.context ≠ MoveContext.queenSideCastle ∧
      mv.context ≠ MoveContext.kingSideCastle := by
  unfold generate_pawn_moves bitboard_to_moves at h
  dsimp only at h
  split at h
  all_goals try split at h
  all_goals try split at h
  all_goals
    repeat' (rcases bitboard_to_moves_loop_ctx _ _ _ _ _ _ _ _ h with h | h)
  all_goals first
    | exact h
    | exact absurd h (List.not_mem_nil mv)

/-- Membership in the aggregated legal-move list splits into the six
generators, each run on the original board (the threading lemmas undo the
board passing). -/
theorem get_legal_moves_split (b : Board) (hc : Consistent b = true) (mv : Move)
    (h : mv ∈ get_legal_moves b) :
    mv ∈ generate_pawn_moves b ∨ mv ∈ (generate_rook_moves_hq b).1 ∨
    mv ∈ (generate_bishop_moves_hq b).1 ∨ mv ∈ (generate_queen_moves_hq b).1 ∨
    mv ∈ (generate_knight_moves b).1 ∨ mv ∈ (generate_king_moves b).1 := by
  unfold get_legal_moves at h
  dsimp only at h
  rw [generate_rook_moves_board b hc] at h
  rw [generate_bishop_moves_board b hc] at h
  rw [generate_queen_moves_board b hc] at h
  rw [generate_knight_moves_board b hc] at h
  simp only [List.mem_append] at h
  tauto

/-- C7 (corrected): a castle move appears in the generated move list only
when the corresponding right is still held, the fixed home path squares
(b1-d1, f1-g1, b8-d8, f8-g8) are free in the occupancy mask, and the fixed
home squares c1,d1,e1 / e1,f1,g1 / c8,d8,e8 / e8,f8,g8 are not attacked by
the opponent — the exact guard of `generate_king_moves`, which reads these
squares regardless of where the king actually stands (the original claim's
"king's start, transit and destination squares" is refuted by the
counterexample below). -/
theorem castle_generation_guarded (b : Board) (mv : Move)
    (hc : Consistent b = true)
    (hmem : mv ∈ get_legal_moves b) :
    (mv.context = MoveContext.queenSideCastle →
      (if b.white_to_play then
        b.white_queen_side_castling_right = true ∧ b.pieces &&& 0x0e = 0 ∧
        is_square_attacked 2 b false = false ∧ is_square_attacked 3 b false = false ∧
        is_square_attacked 4 b false = false
      else
        b.black_queen_side_castling_right = true ∧ b.pieces &&& (0x0e <<< 56) = 0 ∧
        is_square_attacked 58 b false = false ∧ is_square_attacked 59 b false = false ∧
        is_square_attacked 60 b false = false)) ∧
    (mv.context = MoveContext.kingSideCastle →
      (if b.white_to_play then
        b.white_king_side_castling_right = true ∧ b.pieces &&& 0x60 = 0 ∧
        is_square_attacked 4 b false = false ∧ is_square_attacked 5 b false = false ∧
        is_square_attacked 6 b false = false
      else
        b.black_king_side_castling_right = true ∧ b.pieces &&& (0x60 <<< 56) = 0 ∧
        is_square_attacked 60 b false = false ∧ is_square_attacked 61 b false = false ∧
        is_square_attacked 62 b false = false)) := by
  have hcf := consistent_facts b hc
  rcases get_legal_moves_split b hc mv hmem with hp | hr | hbp | hq | hn | hk
  · have hnc := generate_pawn_moves_ctx b mv hp
    exact ⟨fun hx => absurd hx hnc.1, fun hx => absurd hx hnc.2⟩
  · rcases pieceBitsLoop_ctx _ _ _ _ _ _ _ _ hr with h0 | hnone
    · exact absurd h0 (List.not_mem_nil mv)
    · constructor <;> (intro hx; rw [hx] at hnone; exact absurd hnone (by simp))
  · rcases pieceBitsLoop_ctx _ _ _ _ _ _ _ _ hbp with h0 | hnone
    · exact absurd h0 (List.not_mem_nil mv)
    · constructor <;> (intro hx; rw [hx] at hnone; exact absurd hnone (by simp))
  · rcases pieceBitsLoop_ctx _ _ _ _ _ _ _ _ hq with h0 | hnone
    · exact absurd h0 (List.not_mem_nil mv)
    · constructor <;> (intro hx; rw [hx] at hnone; exact absurd hnone (by simp))
  · rcases pieceBitsLoop_ctx _ _ _ _ _ _ _ _ hn with h0 | hnone
    · exact absurd h0 (List.not_mem_nil mv)
    · constructor <;> (intro hx; rw [hx] at hnone; exact absurd hnone (by simp))
  · unfold generate_king_moves at hk
    dsimp only at hk
    rw [pieceTargetLoop_board 64 b _
        (if b.white_to_play then b.white_king else b.black_king)
        (king_mask (if b.white_to_play then b.white_king else b.black_king) &&&
          not64 (if b.white_to_play then b.white_pieces else b.black_pieces))
        [] hc rfl (king_in_mover b hcf)
        (fun i hi => targets_avoid_mover b hcf _ i hi)
        (targets_lt _ _ (mover_lt b hcf))] at hk
    by_cases hwtp : b.white_to_play = true
    · rw [if_pos hwtp] at hk
      rcases mem_ite_append_cond hk with hk1 | hkK
      · rcases mem_ite_append_cond hk1 with hk2 | hkQ
        · rcases pieceTargetLoop_ctx _ _ _ _ _ _ _ hk2 with h0 | hnone
          · exact absurd h0 (List.not_mem_nil mv)
          · constructor <;> (intro hx; rw [hx] at hnone; exact absurd hnone (by simp))
        · constructor
          · intro hx
            rw [if_pos hwtp]
            exact hkQ.1
          · intro hx
            rw [hkQ.2] at hx
            exact absurd hx (by simp [castleMove])
      · constructor
        · intro hx
          rw [hkK.2] at hx
          exact absurd hx (by simp [castleMove])
        · intro hx
          rw [if_pos hwtp]
          exact hkK.1
    · rw [if_neg hwtp] at hk
      rcases mem_ite_append_cond hk with hk1 | hkK
      · rcases mem_ite_append_cond hk1 with hk2 | hkQ
        · rcases pieceTargetLoop_ctx _ _ _ _ _ _ _ hk2 with h0 | hnone
          · exact absurd h0 (List.not_mem_nil mv)
          · constructor <;> (intro hx; rw [hx] at hnone; exact absurd hnone (by simp))
        · constructor
          · intro hx
            rw [if_neg hwtp]
            exact hkQ.1
          · intro hx
            rw [hkQ.2] at hx
            exact absurd hx (by simp [castleMove])
      · constructor
        · intro hx
          rw [hkK.2] at hx
          exact absurd hx (by simp [castleMove])
        · intro hx
          rw [if_neg hwtp]
          exact hkK.1

/-- A castling-ready position: white king e1, rooks a1 and h1, both white
rights held, black king e8. -/
def boardCastleReady : Board :=
  { white_pawns := 0
    white_rooks := 0x81
    white_knights := 0
    white_bishops := 0
    white_queens := 0
    white_king := 4
    black_pawns := 0
    black_rooks := 0
    black_knights := 0
    black_bishops := 0
    black_queens := 0
    black_king := 60
    white_pieces := 0x91
    black_pieces := 0x1000000000000000
    pieces := 0x1000000000000091
    en_passant_target := Option.none
    white_queen_side_castling_right := true
    white_king_side_castling_right := true
    black_queen_side_castling_right := false
    black_king_side_castling_right := false
    white_to_play := true }

/-- The white queen-side castle as `generate_king_moves` builds it. -/
def mvWhiteQCastle : Move :=
  { start := 4
    endSq := 2
    context := MoveContext.queenSideCastle
    capture := Option.none
    previous_ep_target := Option.none
    previous_wqs := true
    previous_wks := true
    previous_bqs := false
    previous_bks := false }

set_option maxRecDepth 100000 in
set_option maxHeartbeats 2000000 in
theorem castle_generation_guarded_witness :
    Consistent boardCastleReady = true ∧
      mvWhiteQCastle ∈ get_legal_moves boardCastleReady ∧
      (mvWhiteQCastle.context = MoveContext.queenSideCastle →
        (if boardCastleReady.white_to_play then
          boardCastleReady.white_queen_side_castling_right = true ∧
          boardCastleReady.pieces &&& 0x0e = 0 ∧
          is_square_attacked 2 boardCastleReady false = false ∧
          is_square_attacked 3 boardCastleReady false = false ∧
          is_square_attacked 4 boardCastleReady false = false
        else
          boardCastleReady.black_queen_side_castling_right = true ∧
          boardCastleReady.pieces &&& (0x0e <<< 56) = 0 ∧
          is_square_attacked 58 boardCastleReady false = false ∧
          is_square_attacked 59 boardCastleReady false = false ∧
          is_square_attacked 60 boardCastleReady false = false)) :=
  ⟨by decide, by decide,
    (castle_generation_guarded boardCastleReady mvWhiteQCastle (by decide) (by decide)).1⟩

end Barnarok

namespace Barnarok

/-- After removing a captured black piece (not a king), the black aggregate
still equals the union of the black masks and the king bit. -/
theorem black_capture_aggok (b bX : Board) (e : Nat) (pt : Piece)
    (hcf : ConsistentFacts b)
    (hX1 : bX.black_pieces = b.black_pieces) (hX2 : bX.black_pawns = b.black_pawns)
    (hX3 : bX.black_rooks = b.black_rooks) (hX4 : bX.black_knights = b.black_knights)
    (hX5 : bX.black_bishops = b.black_bishops) (hX6 : bX.black_queens = b.black_queens)
    (hX7 : bX.black_king = b.black_king)
    (he64 : e < 64)
    (ht : Nat.testBit b.black_pieces e = true)
    (hpt : pt = (if b.black_pawns &&& (1 <<< e) ≠ 0 then PAWN
       else if b.black_rooks &&& (1 <<< e) ≠ 0 then ROOK
       else if b.black_knights &&& (1 <<< e) ≠ 0 then KNIGHT
       else if b.black_bishops &&& (1 <<< e) ≠ 0 then BISHOP
       else if b.black_queens &&& (1 <<< e) ≠ 0 then QUEEN
       else KING))
    (hnk : pt ≠ KING) :
    (makeMoveCaptureBlack bX pt (1 <<< e)).black_pieces =
      (makeMoveCaptureBlack bX pt (1 <<< e)).black_pawns |||
      (makeMoveCaptureBlack bX pt (1 <<< e)).black_rooks |||
      (makeMoveCaptureBlack bX pt (1 <<< e)).black_knights |||
      (makeMoveCaptureBlack bX pt (1 <<< e)).black_bishops |||
      (makeMoveCaptureBlack bX pt (1 <<< e)).black_queens |||
      (1 <<< (makeMoveCaptureBlack bX pt (1 <<< e)).black_king) := by
  by_cases h1 : b.black_pawns &&& (1 <<< e) ≠ 0
  · rw [if_pos h1] at hpt
    subst hpt
    rw [makeMoveCaptureBlack_pawn]
    dsimp only
    rw [hX1, hX2, hX3, hX4, hX5, hX6, hX7]
    have hbe : Nat.testBit b.black_pawns e = true := single_sub _ _ h1
    have hRe : Nat.testBit b.black_rooks e = false := disj_bit _ _ _
      (by rw [Nat.and_comm]; exact hcf.bp_br) hbe
    have hNe : Nat.testBit b.black_knights e = false := disj_bit _ _ _
      (by rw [Nat.and_comm]; exact hcf.bp_bn) hbe
    have hBe : Nat.testBit b.black_bishops e = false := disj_bit _ _ _
      (by rw [Nat.and_comm]; exact hcf.bp_bb) hbe
    have hQe : Nat.testBit b.black_queens e = false := disj_bit _ _ _
      (by rw [Nat.and_comm]; exact hcf.bp_bq) hbe
    have hKe := disj_bit _ _ _ (by rw [Nat.and_comm]; exact hcf.bp_bk) hbe
    have hKne : ¬ (b.black_king = e) := by
      intro hh
      rw [testBit_single] at hKe
      simp [hh] at hKe
    apply Nat.eq_of_testBit_eq
    intro i
    simp only [hcf.bagg, bunion, Nat.testBit_or, Nat.testBit_and, testBit_not64,
      testBit_single]
    by_cases hie : e = i
    · subst hie
      simp [he64, hRe, hNe, hBe, hQe, hKne]
    · by_cases hl : i < 64
      · simp [hie, hl]
      · simp [hie, hl, testBit_high _ i hcf.bp_lt (by omega),
          testBit_high _ i hcf.br_lt (by omega), testBit_high _ i hcf.bn_lt (by omega),
          testBit_high _ i hcf.bb_lt (by omega), testBit_high _ i hcf.bq_lt (by omega),
          (show ¬ (b.black_king = i) by have := hcf.bk_lt; omega)]
  · rw [if_neg h1] at hpt
    by_cases h2 : b.black_rooks &&& (1 <<< e) ≠ 0
    · rw [if_pos h2] at hpt
      subst hpt
      rw [makeMoveCaptureBlack_rook]
      dsimp only
      rw [hX1, hX2, hX3, hX4, hX5, hX6, hX7]
      have hbe : Nat.testBit b.black_rooks e = true := single_sub _ _ h2
      have hPe : Nat.testBit b.black_pawns e = false := disj_bit _ _ _ hcf.bp_br hbe
      have hNe : Nat.testBit b.black_knights e = false := disj_bit _ _ _
        (by rw [Nat.and_comm]; exact hcf.br_bn) hbe
      have hBe : Nat.testBit b.black_bishops e = false := disj_bit _ _ _
        (by rw [Nat.and_comm]; exact hcf.br_bb) hbe
      have hQe : Nat.testBit b.black_queens e = false := disj_bit _ _ _
        (by rw [Nat.and_comm]; exact hcf.br_bq) hbe
      have hKe := disj_bit _ _ _ (by rw [Nat.and_comm]; exact hcf.br_bk) hbe
      have hKne : ¬ (b.black_king = e) := by
        intro hh
        rw [testBit_single] at hKe
        simp [hh] at hKe
      apply Nat.eq_of_testBit_eq
      intro i
      simp only [hcf.bagg, bunion, Nat.testBit_or, Nat.testBit_and, testBit_not64,
        testBit_single]
      by_cases hie : e = i
      · subst hie
        simp [he64, hPe, hNe, hBe, hQe, hKne]
      · by_cases hl : i < 64
        · simp [hie, hl]
        · simp [hie, hl, testBit_high _ i hcf.bp_lt (by omega),
            testBit_high _ i hcf.br_lt (by omega), testBit_high _ i hcf.bn_lt (by omega),
            testBit_high _ i hcf.bb_lt (by omega), testBit_high _ i hcf.bq_lt (by omega),
            (show ¬ (b.black_king = i) by have := hcf.bk_lt; omega)]
    · rw [if_neg h2] at hpt
      by_cases h3 : b.black_knights &&& (1 <<< e) ≠ 0
      · rw [if_pos h3] at hpt
        subst hpt
        rw [makeMoveCaptureBlack_knight]
        dsimp only
        rw [hX1, hX2, hX3, hX4, hX5, hX6, hX7]
        have hbe : Nat.testBit b.black_knights e = true := single_sub _ _ h3
        have hPe : Nat.testBit b.black_pawns e = false := disj_bit _ _ _ hcf.bp_bn hbe
        have hRe : Nat.testBit b.black_rooks e = false := disj_bit _ _ _ hcf.br_bn hbe
        have hBe : Nat.testBit b.black_bishops e = false := disj_bit _ _ _
          (by rw [Nat.and_comm]; exact hcf.bn_bb) hbe
        have hQe : Nat.testBit b.black_queens e = false := disj_bit _ _ _
          (by rw [Nat.and_comm]; exact hcf.bn_bq) hbe
        have hKe := disj_bit _ _ _ (by rw [Nat.and_comm]; exact hcf.bn_bk) hbe
        have hKne : ¬ (b.black_king = e) := by
          intro hh
          rw [testBit_single] at hKe
          simp [hh] at hKe
        apply Nat.eq_of_testBit_eq
        intro i
        simp only [hcf.bagg, bunion, Nat.testBit_or, Nat.testBit_and, testBit_not64,
          testBit_single]
        by_cases hie : e = i
        · subst hie
          simp [he64, hPe, hRe, hBe, hQe, hKne]
        · by_cases hl : i < 64
          · simp [hie, hl]
          · simp [hie, hl, testBit_high _ i hcf.bp_lt (by omega),
              testBit_high _ i hcf.br_lt (by omega), testBit_high _ i hcf.bn_lt (by omega),
              testBit_high _ i hcf.bb_lt (by omega), testBit_high _ i hcf.bq_lt (by omega),
              (show ¬ (b.black_king = i) by have := hcf.bk_lt; omega)]
      · rw [if_neg h3] at hpt
        by_cases h4 : b.black_bishops &&& (1 <<< e) ≠ 0
        · rw [if_pos h4] at hpt
          subst hpt
          rw [makeMoveCaptureBlack_bishop]
          dsimp only
          rw [hX1, hX2, hX3, hX4, hX5, hX6, hX7]
          have hbe : Nat.testBit b.black_bishops e = true := single_sub _ _ h4
          have hPe : Nat.testBit b.black_pawns e = false := disj_bit _ _ _ hcf.bp_bb hbe
          have hRe : Nat.testBit b.black_rooks e = false := disj_bit _ _ _ hcf.br_bb hbe
          have hNe : Nat.testBit b.black_knights e = false := disj_bit _ _ _ hcf.bn_bb hbe
          have hQe : Nat.testBit b.black_queens e = false := disj_bit _ _ _
            (by rw [Nat.and_comm]; exact hcf.bb_bq) hbe
          have hKe := disj_bit _ _ _ (by rw [Nat.and_comm]; exact hcf.bb_bk) hbe
          have hKne : ¬ (b.black_king = e) := by
            intro hh
            rw [testBit_single] at hKe
            simp [hh] at hKe
          apply Nat.eq_of_testBit_eq
          intro i
          simp only [hcf.bagg, bunion, Nat.testBit_or, Nat.testBit_and, testBit_not64,
            testBit_single]
          by_cases hie : e = i
          · subst hie
            simp [he64, hPe, hRe, hNe, hQe, hKne]
          · by_cases hl : i < 64
            · simp [hie, hl]
            · simp [hie, hl, testBit_high _ i hcf.bp_lt (by omega),
                testBit_high _ i hcf.br_lt (by omega), testBit_high _ i hcf.bn_lt (by omega),
                testBit_high _ i hcf.bb_lt (by omega), testBit_high _ i hcf.bq_lt (by omega),
                (show ¬ (b.black_king = i) by have := hcf.bk_lt; omega)]
        · rw [if_neg h4] at hpt
          by_cases h5 : b.black_queens &&& (1 <<< e) ≠ 0
          · rw [if_pos h5] at hpt
            subst hpt
            rw [makeMoveCaptureBlack_queen]
            dsimp only
            rw [hX1, hX2, hX3, hX4, hX5, hX6, hX7]
            have hbe : Nat.testBit b.black_queens e = true := single_sub _ _ h5
            have hPe : Nat.testBit b.black_pawns e = false := disj_bit _ _ _ hcf.bp_bq hbe
            have hRe : Nat.testBit b.black_rooks e = false := disj_bit _ _ _ hcf.br_bq hbe
            have hNe : Nat.testBit b.black_knights e = false := disj_bit _ _ _ hcf.bn_bq hbe
            have hBe : Nat.testBit b.black_bishops e = false := disj_bit _ _ _ hcf.bb_bq hbe
            have hKe := disj_bit _ _ _ (by rw [Nat.and_comm]; exact hcf.bq_bk) hbe
            have hKne : ¬ (b.black_king = e) := by
              intro hh
              rw [testBit_single] at hKe
              simp [hh] at hKe
            apply Nat.eq_of_testBit_eq
            intro i
            simp only [hcf.bagg, bunion, Nat.testBit_or, Nat.testBit_and, testBit_not64,
              testBit_single]
            by_cases hie : e = i
            · subst hie
              simp [he64, hPe, hRe, hNe, hBe, hKne]
            · by_cases hl : i < 64
              · simp [hie, hl]
              · simp [hie, hl, testBit_high _ i hcf.bp_lt (by omega),
                  testBit_high _ i hcf.br_lt (by omega), testBit_high _ i hcf.bn_lt (by omega),
                  testBit_high _ i hcf.bb_lt (by omega), testBit_high _ i hcf.bq_lt (by omega),
                  (show ¬ (b.black_king = i) by have := hcf.bk_lt; omega)]
          · rw [if_neg h5] at hpt
            exact absurd hpt hnk

/-- After removing a captured white piece (not a king), the white aggregate
still equals the union of the white masks and the king bit. -/
theorem white_capture_aggok (b bX : Board) (e : Nat) (pt : Piece)
    (hcf : ConsistentFacts b)
    (hX1 : bX.white_pieces = b.white_pieces) (hX2 : bX.white_pawns = b.white_pawns)
    (hX3 : bX.white_rooks = b.white_rooks) (hX4 : bX.white_knights = b.white_knights)
    (hX5 : bX.white_bishops = b.white_bishops) (hX6 : bX.white_queens = b.white_queens)
    (hX7 : bX.white_king = b.white_king)
    (he64 : e < 64)
    (ht : Nat.testBit b.white_pieces e = true)
    (hpt : pt = (if b.white_pawns &&& (1 <<< e) ≠ 0 then PAWN
       else if b.white_rooks &&& (1 <<< e) ≠ 0 then ROOK
       else if b.white_knights &&& (1 <<< e) ≠ 0 then KNIGHT
       else if b.white_bishops &&& (1 <<< e) ≠ 0 then BISHOP
       else if b.white_queens &&& (1 <<< e) ≠ 0 then QUEEN
       else KING))
    (hnk : pt ≠ KING) :
    (makeMoveCaptureWhite bX pt (1 <<< e)).white_pieces =
      (makeMoveCaptureWhite bX pt (1 <<< e)).white_pawns |||
      (makeMoveCaptureWhite bX pt (1 <<< e)).white_rooks |||
      (makeMoveCaptureWhite bX pt (1 <<< e)).white_knights |||
      (makeMoveCaptureWhite bX pt (1 <<< e)).white_bishops |||
      (makeMoveCaptureWhite bX pt (1 <<< e)).white_queens |||
      (1 <<< (makeMoveCaptureWhite bX pt (1 <<< e)).white_king) := by
  by_cases h1 : b.white_pawns &&& (1 <<< e) ≠ 0
  · rw [if_pos h1] at hpt
    subst hpt
    rw [makeMoveCaptureWhite_pawn]
    dsimp only
    rw [hX1, hX2, hX3, hX4, hX5, hX6, hX7]
    have hbe : Nat.testBit b.white_pawns e = true := single_sub _ _ h1
    have hRe : Nat.testBit b.white_rooks e = false := disj_bit _ _ _
      (by rw [Nat.and_comm]; exact hcf.wp_wr) hbe
    have hNe : Nat.testBit b.white_knights e = false := disj_bit _ _ _
      (by rw [Nat.and_comm]; exact hcf.wp_wn) hbe
    have hBe : Nat.testBit b.white_bishops e = false := disj_bit _ _ _
      (by rw [Nat.and_comm]; exact hcf.wp_wb) hbe
    have hQe : Nat.testBit b.white_queens e = false := disj_bit _ _ _
      (by rw [Nat.and_comm]; exact hcf.wp_wq) hbe
    have hKe := disj_bit _ _ _ (by rw [Nat.and_comm]; exact hcf.wp_wk) hbe
    have hKne : ¬ (b.white_king = e) := by
      intro hh
      rw [testBit_single] at hKe
      simp [hh] at hKe
    apply Nat.eq_of_testBit_eq
    intro i
    simp only [hcf.wagg, wunion, Nat.testBit_or, Nat.testBit_and, testBit_not64,
      testBit_single]
    by_cases hie : e = i
    · subst hie
      simp [he64, hRe, hNe, hBe, hQe, hKne]
    · by_cases hl : i < 64
      · simp [hie, hl]
      · simp [hie, hl, testBit_high _ i hcf.wp_lt (by omega),
          testBit_high _ i hcf.wr_lt (by omega), testBit_high _ i hcf.wn_lt (by omega),
          testBit_high _ i hcf.wb_lt (by omega), testBit_high _ i hcf.wq_lt (by omega),
          (show ¬ (b.white_king = i) by have := hcf.wk_lt; omega)]
  · rw [if_neg h1] at hpt
    by_cases h2 : b.white_rooks &&& (1 <<< e) ≠ 0
    · rw [if_pos h2] at hpt
      subst hpt
      rw [makeMoveCaptureWhite_rook]
      dsimp only
      rw [hX1, hX2, hX3, hX4, hX5, hX6, hX7]
      have hbe : Nat.testBit b.white_rooks e = true := single_sub _ _ h2
      have hPe : Nat.testBit b.white_pawns e = false := disj_bit _ _ _ hcf.wp_wr hbe
      have hNe : Nat.testBit b.white_knights e = false := disj_bit _ _ _
        (by rw [Nat.and_comm]; exact hcf.wr_wn) hbe
      have hBe : Nat.testBit b.white_bishops e = false := disj_bit _ _ _
        (by rw [Nat.and_comm]; exact hcf.wr_wb) hbe
      have hQe : Nat.testBit b.white_queens e = false := disj_bit _ _ _
        (by rw [Nat.and_comm]; exact hcf.wr_wq) hbe
      have hKe := disj_bit _ _ _ (by rw [Nat.and_comm]; exact hcf.wr_wk) hbe
      have hKne : ¬ (b.white_king = e) := by
        intro hh
        rw [testBit_single] at hKe
        simp [hh] at hKe
      apply Nat.eq_of_testBit_eq
      intro i
      simp only [hcf.wagg, wunion, Nat.testBit_or, Nat.testBit_and, testBit_not64,
        testBit_single]
      by_cases hie : e = i
      · subst hie
        simp [he64, hPe, hNe, hBe, hQe, hKne]
      · by_cases hl : i < 64
        · simp [hie, hl]
        · simp [hie, hl, testBit_high _ i hcf.wp_lt (by omega),
            testBit_high _ i hcf.wr_lt (by omega), testBit_high _ i hcf.wn_lt (by omega),
            testBit_high _ i hcf.wb_lt (by omega), testBit_high _ i hcf.wq_lt (by omega),
            (show ¬ (b.white_king = i) by have := hcf.wk_lt; omega)]
    · rw [if_neg h2] at hpt
      by_cases h3 : b.white_knights &&& (1 <<< e) ≠ 0
      · rw [if_pos h3] at hpt
        subst hpt
        rw [makeMoveCaptureWhite_knight]
        dsimp only
        rw [hX1, hX2, hX3, hX4, hX5, hX6, hX7]
        have hbe : Nat.testBit b.white_knights e = true := single_sub _ _ h3
        have hPe : Nat.testBit b.white_pawns e = false := disj_bit _ _ _ hcf.wp_wn hbe
        have hRe : Nat.testBit b.white_rooks e = false := disj_bit _ _ _ hcf.wr_wn hbe
        have hBe : Nat.testBit b.white_bishops e = false := disj_bit _ _ _
          (by rw [Nat.and_comm]; exact hcf.wn_wb) hbe
        have hQe : Nat.testBit b.white_queens e = false := disj_bit _ _ _
          (by rw [Nat.and_comm]; exact hcf.wn_wq) hbe
        have hKe := disj_bit _ _ _ (by rw [Nat.and_comm]; exact hcf.wn_wk) hbe
        have hKne : ¬ (b.white_king = e) := by
          intro hh
          rw [testBit_single] at hKe
          simp [hh] at hKe
        apply Nat.eq_of_testBit_eq
        intro i
        simp only [hcf.wagg, wunion, Nat.testBit_or, Nat.testBit_and, testBit_not64,
          testBit_single]
        by_cases hie : e = i
        · subst hie
          simp [he64, hPe, hRe, hBe, hQe, hKne]
        · by_cases hl : i < 64
          · simp [hie, hl]
          · simp [hie, hl, testBit_high _ i hcf.wp_lt (by omega),
              testBit_high _ i hcf.wr_lt (by omega), testBit_high _ i hcf.wn_lt (by omega),
              testBit_high _ i hcf.wb_lt (by omega), testBit_high _ i hcf.wq_lt (by omega),
              (show ¬ (b.white_king = i) by have := hcf.wk_lt; omega)]
      · rw [if_neg h3] at hpt
        by_cases h4 : b.white_bishops &&& (1 <<< e) ≠ 0
        · rw [if_pos h4] at hpt
          subst hpt
          rw [makeMoveCaptureWhite_bishop]
          dsimp only
          rw [hX1, hX2, hX3, hX4, hX5, hX6, hX7]
          have hbe : Nat.testBit b.white_bishops e = true := single_sub _ _ h4
          have hPe : Nat.testBit b.white_pawns e = false := disj_bit _ _ _ hcf.wp_wb hbe
          have hRe : Nat.testBit b.white_rooks e = false := disj_bit _ _ _ hcf.wr_wb hbe
          have hNe : Nat.testBit b.white_knights e = false := disj_bit _ _ _ hcf.wn_wb hbe
          have hQe : Nat.testBit b.white_queens e = false := disj_bit _ _ _
            (by rw [Nat.and_comm]; exact hcf.wb_wq) hbe
          have hKe := disj_bit _ _ _ (by rw [Nat.and_comm]; exact hcf.wb_wk) hbe
          have hKne : ¬ (b.white_king = e) := by
            intro hh
            rw [testBit_single] at hKe
            simp [hh] at hKe
          apply Nat.eq_of_testBit_eq
          intro i
          simp only [hcf.wagg, wunion, Nat.testBit_or, Nat.testBit_and, testBit_not64,
            testBit_single]
          by_cases hie : e = i
          · subst hie
            simp [he64, hPe, hRe, hNe, hQe, hKne]
          · by_cases hl : i < 64
            · simp [hie, hl]
            · simp [hie, hl, testBit_high _ i hcf.wp_lt (by omega),
                testBit_high _ i hcf.wr_lt (by omega), testBit_high _ i hcf.wn_lt (by omega),
                testBit_high _ i hcf.wb_lt (by omega), testBit_high _ i hcf.wq_lt (by omega),
                (show ¬ (b.white_king = i) by have := hcf.wk_lt; omega)]
        · rw [if_neg h4] at hpt
          by_cases h5 : b.white_queens &&& (1 <<< e) ≠ 0
          · rw [if_pos h5] at hpt
            subst hpt
            rw [makeMoveCaptureWhite_queen]
            dsimp only
            rw [hX1, hX2, hX3, hX4, hX5, hX6, hX7]
            have hbe : Nat.testBit b.white_queens e = true := single_sub _ _ h5
            have hPe : Nat.testBit b.white_pawns e = false := disj_bit _ _ _ hcf.wp_wq hbe
            have hRe : Nat.testBit b.white_rooks e = false := disj_bit _ _ _ hcf.wr_wq hbe
            have hNe : Nat.testBit b.white_knights e = false := disj_bit _ _ _ hcf.wn_wq hbe
            have hBe : Nat.testBit b.white_bishops e = false := disj_bit _ _ _ hcf.wb_wq hbe
            have hKe := disj_bit _ _ _ (by rw [Nat.and_comm]; exact hcf.wq_wk) hbe
            have hKne : ¬ (b.white_king = e) := by
              intro hh
              rw [testBit_single] at hKe
              simp [hh] at hKe
            apply Nat.eq_of_testBit_eq
            intro i
            simp only [hcf.wagg, wunion, Nat.testBit_or, Nat.testBit_and, testBit_not64,
              testBit_single]
            by_cases hie : e = i
            · subst hie
              simp [he64, hPe, hRe, hNe, hBe, hKne]
            · by_cases hl : i < 64
              · simp [hie, hl]
              · simp [hie, hl, testBit_high _ i hcf.wp_lt (by omega),
                  testBit_high _ i hcf.wr_lt (by omega), testBit_high _ i hcf.wn_lt (by omega),
                  testBit_high _ i hcf.wb_lt (by omega), testBit_high _ i hcf.wq_lt (by omega),
                  (show ¬ (b.white_king = i) by have := hcf.wk_lt; omega)]
          · rw [if_neg h5] at hpt
            exact absurd hpt hnk

set_option maxHeartbeats 2000000 in
/-- After `make_move` of a plain (white) piece move whose capture is not a
king, the three aggregate equations hold on the resulting position. -/
theorem make_aggok_white (b : Board) (mv : Move)
    (hcf : ConsistentFacts b)
    (hwtp : b.white_to_play = true)
    (hctx : mv.context = MoveContext.none)
    (hstart : Nat.testBit b.white_pieces mv.start = true)
    (hend : Nat.testBit b.white_pieces mv.endSq = false)
    (he64 : mv.endSq < 64)
    (hcap : mv.capture = (if b.black_pieces &&& (1 <<< mv.endSq) ≠ 0
        then some (get_piece_type_on_square b mv.endSq) else Option.none))
    (hnk : mv.capture ≠ some KING) :
    (makeMove b mv).white_pieces = wunion (makeMove b mv) ∧
    (makeMove b mv).black_pieces = bunion (makeMove b mv) ∧
    (makeMove b mv).pieces = (makeMove b mv).white_pieces ||| (makeMove b mv).black_pieces := by
  have hwplt := wpieces_lt b hcf
  have hoplt := bpieces_lt b hcf
  have hs64 : mv.start < 64 := testBit_of_lt_64 _ _ hwplt hstart
  have hnp : ∀ p, mv.context ≠ MoveContext.promotion p := by
    rw [hctx]
    intro p h
    exact absurd h (by simp)
  have hcq : mv.context ≠ MoveContext.queenSideCastle := by rw [hctx]; simp
  have hck : mv.context ≠ MoveContext.kingSideCastle := by rw [hctx]; simp
  have hcep : mv.context ≠ MoveContext.enPassant := by rw [hctx]; simp
  have hcds : mv.context ≠ MoveContext.doubleStep := by rw [hctx]; simp
  have hne : mv.start ≠ mv.endSq := by
    intro h
    rw [h] at hstart
    rw [hstart] at hend
    exact absurd hend (by simp)
  have hnotw : Nat.testBit b.white_pieces mv.endSq = true → False := by
    intro h
    rw [h] at hend
    exact absurd hend (by simp)
  have hendP : Nat.testBit b.white_pawns mv.endSq = false := by
    cases hx : Nat.testBit b.white_pawns mv.endSq
    · rfl
    · exact absurd (wunion_bit_of b hcf _ (Or.inl hx)) hnotw
  have hendR : Nat.testBit b.white_rooks mv.endSq = false := by
    cases hx : Nat.testBit b.white_rooks mv.endSq
    · rfl
    · exact absurd (wunion_bit_of b hcf _ (Or.inr (Or.inl hx))) hnotw
  have hendN : Nat.testBit b.white_knights mv.endSq = false := by
    cases hx : Nat.testBit b.white_knights mv.endSq
    · rfl
    · exact absurd (wunion_bit_of b hcf _ (Or.inr (Or.inr (Or.inl hx)))) hnotw
  have hendB : Nat.testBit b.white_bishops mv.endSq = false := by
    cases hx : Nat.testBit b.white_bishops mv.endSq
    · rfl
    · exact absurd (wunion_bit_of b hcf _ (Or.inr (Or.inr (Or.inr (Or.inl hx))))) hnotw
  have hendQ : Nat.testBit b.white_queens mv.endSq = false := by
    cases hx : Nat.testBit b.white_queens mv.endSq
    · rfl
    · exact absurd (wunion_bit_of b hcf _ (Or.inr (Or.inr (Or.inr (Or.inr (Or.inl hx)))))) hnotw
  have hendP0 : b.white_pawns &&& (1 <<< mv.endSq) = 0 := single_and_zero _ _ hendP
  have hendR0 : b.white_rooks &&& (1 <<< mv.endSq) = 0 := single_and_zero _ _ hendR
  have hendN0 : b.white_knights &&& (1 <<< mv.endSq) = 0 := single_and_zero _ _ hendN
  have hendB0 : b.white_bishops &&& (1 <<< mv.endSq) = 0 := single_and_zero _ _ hendB
  have hendQ0 : b.white_queens &&& (1 <<< mv.endSq) = 0 := single_and_zero _ _ hendQ
  have hendW0 : b.white_pieces &&& (1 <<< mv.endSq) = 0 := single_and_zero _ _ hend
  rcases wunion_bits b hcf mv.start hstart with hT | hT | hT | hT | hT | hT
  · -- pawn
    have hsT : b.white_pawns &&& (1 <<< mv.start) ≠ 0 := sub_single _ _ hT
    have hsRb : Nat.testBit b.white_rooks mv.start = false :=
      disj_bit _ _ _ (by rw [Nat.and_comm]; exact hcf.wp_wr) hT
    have hsNb : Nat.testBit b.white_knights mv.start = false :=
      disj_bit _ _ _ (by rw [Nat.and_comm]; exact hcf.wp_wn) hT
    have hsBb : Nat.testBit b.white_bishops mv.start = false :=
      disj_bit _ _ _ (by rw [Nat.and_comm]; exact hcf.wp_wb) hT
    have hsQb : Nat.testBit b.white_queens mv.start = false :=
      disj_bit _ _ _ (by rw [Nat.and_comm]; exact hcf.wp_wq) hT
    have hKeS := disj_bit _ _ _ (by rw [Nat.and_comm]; exact hcf.wp_wk) hT
    have hKneS : ¬ (b.white_king = mv.start) := by
      intro hh
      rw [testBit_single] at hKeS
      simp [hh] at hKeS
    by_cases hcapb : b.black_pieces &&& (1 <<< mv.endSq) ≠ 0
    · have hcapS : mv.capture = some (get_piece_type_on_square b mv.endSq) := by
        rw [hcap, if_pos hcapb]
      have htB : Nat.testBit b.black_pieces mv.endSq = true := single_sub _ _ hcapb
      have hptdef := get_piece_black b mv.endSq hendW0 hcapb
      have hptk : get_piece_type_on_square b mv.endSq ≠ KING := by
        intro hh
        apply hnk
        rw [hcapS, hh]
      simp only [makeMove_white b mv hwtp]
      rw [whiteMover_pawn { b with white_pieces := (b.white_pieces &&& not64 (1 <<< mv.start)) ||| (1 <<< mv.endSq) } mv hsT hnp]
      dsimp only
      rw [whiteCaptureEp_some { b with white_pieces := (b.white_pieces &&& not64 (1 <<< mv.start)) ||| (1 <<< mv.endSq), white_pawns := (b.white_pawns &&& not64 (1 <<< mv.start)) ||| (1 <<< mv.endSq) } mv (get_piece_type_on_square b mv.endSq) hcapS]
      rw [if_neg hcds]
      simp only [clearRightsOnEnd_proj_white_pawns, clearRightsOnEnd_proj_white_rooks, clearRightsOnEnd_proj_white_knights, clearRightsOnEnd_proj_white_bishops, clearRightsOnEnd_proj_white_queens, clearRightsOnEnd_proj_white_king, clearRightsOnEnd_proj_black_pawns, clearRightsOnEnd_proj_black_rooks, clearRightsOnEnd_proj_black_knights, clearRightsOnEnd_proj_black_bishops, clearRightsOnEnd_proj_black_queens, clearRightsOnEnd_proj_black_king, clearRightsOnEnd_proj_white_pieces, clearRightsOnEnd_proj_black_pieces, clearRightsOnEnd_proj_pieces, clearRightsOnEnd_proj_en_passant_target, clearRightsOnEnd_proj_white_to_play]
      simp only [makeMoveCaptureBlack_proj_white_pawns, makeMoveCaptureBlack_proj_white_rooks, makeMoveCaptureBlack_proj_white_knights, makeMoveCaptureBlack_proj_white_bishops, makeMoveCaptureBlack_proj_white_queens, makeMoveCaptureBlack_proj_white_king, makeMoveCaptureBlack_proj_white_pieces, makeMoveCaptureBlack_proj_pieces, makeMoveCaptureBlack_proj_en_passant_target, makeMoveCaptureBlack_proj_white_queen_side_castling_right, makeMoveCaptureBlack_proj_white_king_side_castling_right, makeMoveCaptureBlack_proj_black_queen_side_castling_right, makeMoveCaptureBlack_proj_black_king_side_castling_right, makeMoveCaptureBlack_proj_white_to_play]
      refine ⟨?_, ?_, ?_⟩
      · try dsimp only
        simp only [wunion]
        try dsimp only
        apply Nat.eq_of_testBit_eq
        intro i
        simp only [hcf.wagg, wunion, Nat.testBit_or, Nat.testBit_and, testBit_not64,
          testBit_single]
        by_cases hs : mv.start = i
        · subst hs
          simp [hs64, hsRb, hsNb, hsBb, hsQb, hKneS, Ne.symm hne]
        · by_cases he : mv.endSq = i
          · subst he
            simp [hs]
          · by_cases hl : i < 64
            · simp [hs, he, hl]
            · simp [hs, he, hl, testBit_high _ i hcf.wp_lt (by omega), testBit_high _ i hcf.wr_lt (by omega), testBit_high _ i hcf.wn_lt (by omega), testBit_high _ i hcf.wb_lt (by omega), testBit_high _ i hcf.wq_lt (by omega), (show ¬ (b.white_king = i) by have := hcf.wk_lt; omega)]
      · try dsimp only
        simp only [bunion]
        try dsimp only
        exact black_capture_aggok b { b with white_pieces := (b.white_pieces &&& not64 (1 <<< mv.start)) ||| (1 <<< mv.endSq), white_pawns := (b.white_pawns &&& not64 (1 <<< mv.start)) ||| (1 <<< mv.endSq) } mv.endSq (get_piece_type_on_square b mv.endSq) hcf
          rfl rfl rfl rfl rfl rfl rfl he64 htB hptdef hptk
      · trivial
    · have hcap0 : mv.capture = Option.none := by
        rw [hcap, if_neg hcapb]
      simp only [makeMove_white b mv hwtp]
      rw [whiteMover_pawn { b with white_pieces := (b.white_pieces &&& not64 (1 <<< mv.start)) ||| (1 <<< mv.endSq) } mv hsT hnp]
      dsimp only
      rw [whiteCaptureEp_none { b with white_pieces := (b.white_pieces &&& not64 (1 <<< mv.start)) ||| (1 <<< mv.endSq), white_pawns := (b.white_pawns &&& not64 (1 <<< mv.start)) ||| (1 <<< mv.endSq) } mv hcap0 hcep]
      rw [if_neg hcds]
      simp only [clearRightsOnEnd_proj_white_pawns, clearRightsOnEnd_proj_white_rooks, clearRightsOnEnd_proj_white_knights, clearRightsOnEnd_proj_white_bishops, clearRightsOnEnd_proj_white_queens, clearRightsOnEnd_proj_white_king, clearRightsOnEnd_proj_black_pawns, clearRightsOnEnd_proj_black_rooks, clearRightsOnEnd_proj_black_knights, clearRightsOnEnd_proj_black_bishops, clearRightsOnEnd_proj_black_queens, clearRightsOnEnd_proj_black_king, clearRightsOnEnd_proj_white_pieces, clearRightsOnEnd_proj_black_pieces, clearRightsOnEnd_proj_pieces, clearRightsOnEnd_proj_en_passant_target, clearRightsOnEnd_proj_white_to_play]
      refine ⟨?_, ?_, ?_⟩
      · try dsimp only
        simp only [wunion]
        try dsimp only
        apply Nat.eq_of_testBit_eq
        intro i
        simp only [hcf.wagg, wunion, Nat.testBit_or, Nat.testBit_and, testBit_not64,
          testBit_single]
        by_cases hs : mv.start = i
        · subst hs
          simp [hs64, hsRb, hsNb, hsBb, hsQb, hKneS, Ne.symm hne]
        · by_cases he : mv.endSq = i
          · subst he
            simp [hs]
          · by_cases hl : i < 64
            · simp [hs, he, hl]
            · simp [hs, he, hl, testBit_high _ i hcf.wp_lt (by omega), testBit_high _ i hcf.wr_lt (by omega), testBit_high _ i hcf.wn_lt (by omega), testBit_high _ i hcf.wb_lt (by omega), testBit_high _ i hcf.wq_lt (by omega), (show ¬ (b.white_king = i) by have := hcf.wk_lt; omega)]
      · try dsimp only
        simp only [bunion]
        try dsimp only
        exact hcf.bagg
      · trivial
  · -- rook
    have hz1 : b.white_pawns &&& (1 <<< mv.start) = 0 :=
      single_and_zero _ _ (disj_bit _ _ _ hcf.wp_wr hT)
    have hsT : b.white_rooks &&& (1 <<< mv.start) ≠ 0 := sub_single _ _ hT
    have hsPb : Nat.testBit b.white_pawns mv.start = false :=
      disj_bit _ _ _ hcf.wp_wr hT
    have hsNb : Nat.testBit b.white_knights mv.start = false :=
      disj_bit _ _ _ (by rw [Nat.and_comm]; exact hcf.wr_wn) hT
    have hsBb : Nat.testBit b.white_bishops mv.start = false :=
      disj_bit _ _ _ (by rw [Nat.and_comm]; exact hcf.wr_wb) hT
    have hsQb : Nat.testBit b.white_queens mv.start = false :=
      disj_bit _ _ _ (by rw [Nat.and_comm]; exact hcf.wr_wq) hT
    have hKeS := disj_bit _ _ _ (by rw [Nat.and_comm]; exact hcf.wr_wk) hT
    have hKneS : ¬ (b.white_king = mv.start) := by
      intro hh
      rw [testBit_single] at hKeS
      simp [hh] at hKeS
    by_cases hcapb : b.black_pieces &&& (1 <<< mv.endSq) ≠ 0
    · have hcapS : mv.capture = some (get_piece_type_on_square b mv.endSq) := by
        rw [hcap, if_pos hcapb]
      have htB : Nat.testBit b.black_pieces mv.endSq = true := single_sub _ _ hcapb
      have hptdef := get_piece_black b mv.endSq hendW0 hcapb
      have hptk : get_piece_type_on_square b mv.endSq ≠ KING := by
        intro hh
        apply hnk
        rw [hcapS, hh]
      simp only [makeMove_white b mv hwtp]
      obtain ⟨qq1, qq2, hwmv⟩ := whiteMover_rook { b with white_pieces := (b.white_pieces &&& not64 (1 <<< mv.start)) ||| (1 <<< mv.endSq) } mv hz1 hsT
      rw [hwmv]
      dsimp only
      rw [whiteCaptureEp_some { b with white_pieces := (b.white_pieces &&& not64 (1 <<< mv.start)) ||| (1 <<< mv.endSq), white_rooks := (b.white_rooks &&& not64 (1 <<< mv.start)) ||| (1 <<< mv.endSq), white_queen_side_castling_right := qq1, white_king_side_castling_right := qq2 } mv (get_piece_type_on_square b mv.endSq) hcapS]
      rw [if_neg hcds]
      simp only [clearRightsOnEnd_proj_white_pawns, clearRightsOnEnd_proj_white_rooks, clearRightsOnEnd_proj_white_knights, clearRightsOnEnd_proj_white_bishops, clearRightsOnEnd_proj_white_queens, clearRightsOnEnd_proj_white_king, clearRightsOnEnd_proj_black_pawns, clearRightsOnEnd_proj_black_rooks, clearRightsOnEnd_proj_black_knights, clearRightsOnEnd_proj_black_bishops, clearRightsOnEnd_proj_black_queens, clearRightsOnEnd_proj_black_king, clearRightsOnEnd_proj_white_pieces, clearRightsOnEnd_proj_black_pieces, clearRightsOnEnd_proj_pieces, clearRightsOnEnd_proj_en_passant_target, clearRightsOnEnd_proj_white_to_play]
      simp only [makeMoveCaptureBlack_proj_white_pawns, makeMoveCaptureBlack_proj_white_rooks, makeMoveCaptureBlack_proj_white_knights, makeMoveCaptureBlack_proj_white_bishops, makeMoveCaptureBlack_proj_white_queens, makeMoveCaptureBlack_proj_white_king, makeMoveCaptureBlack_proj_white_pieces, makeMoveCaptureBlack_proj_pieces, makeMoveCaptureBlack_proj_en_passant_target, makeMoveCaptureBlack_proj_white_queen_side_castling_right, makeMoveCaptureBlack_proj_white_king_side_castling_right, makeMoveCaptureBlack_proj_black_queen_side_castling_right, makeMoveCaptureBlack_proj_black_king_side_castling_right, makeMoveCaptureBlack_proj_white_to_play]
      refine ⟨?_, ?_, ?_⟩
      · try dsimp only
        simp only [wunion]
        try dsimp only
        apply Nat.eq_of_testBit_eq
        intro i
        simp only [hcf.wagg, wunion, Nat.testBit_or, Nat.testBit_and, testBit_not64,
          testBit_single]
        by_cases hs : mv.start = i
        · subst hs
          simp [hs64, hsPb, hsNb, hsBb, hsQb, hKneS, Ne.symm hne]
        · by_cases he : mv.endSq = i
          · subst he
            simp [hs]
          · by_cases hl : i < 64
            · simp [hs, he, hl]
            · simp [hs, he, hl, testBit_high _ i hcf.wp_lt (by omega), testBit_high _ i hcf.wr_lt (by omega), testBit_high _ i hcf.wn_lt (by omega), testBit_high _ i hcf.wb_lt (by omega), testBit_high _ i hcf.wq_lt (by omega), (show ¬ (b.white_king = i) by have := hcf.wk_lt; omega)]
      · try dsimp only
        simp only [bunion]
        try dsimp only
        exact black_capture_aggok b { b with white_pieces := (b.white_pieces &&& not64 (1 <<< mv.start)) ||| (1 <<< mv.endSq), white_rooks := (b.white_rooks &&& not64 (1 <<< mv.start)) ||| (1 <<< mv.endSq), white_queen_side_castling_right := qq1, white_king_side_castling_right := qq2 } mv.endSq (get_piece_type_on_square b mv.endSq) hcf
          rfl rfl rfl rfl rfl rfl rfl he64 htB hptdef hptk
      · trivial
    · have hcap0 : mv.capture = Option.none := by
        rw [hcap, if_neg hcapb]
      simp only [makeMove_white b mv hwtp]
      obtain ⟨qq1, qq2, hwmv⟩ := whiteMover_rook { b with white_pieces := (b.white_pieces &&& not64 (1 <<< mv.start)) ||| (1 <<< mv.endSq) } mv hz1 hsT
      rw [hwmv]
      dsimp only
      rw [whiteCaptureEp_none { b with white_pieces := (b.white_pieces &&& not64 (1 <<< mv.start)) ||| (1 <<< mv.endSq), white_rooks := (b.white_rooks &&& not64 (1 <<< mv.start)) ||| (1 <<< mv.endSq), white_queen_side_castling_right := qq1, white_king_side_castling_right := qq2 } mv hcap0 hcep]
      rw [if_neg hcds]
      simp only [clearRightsOnEnd_proj_white_pawns, clearRightsOnEnd_proj_white_rooks, clearRightsOnEnd_proj_white_knights, clearRightsOnEnd_proj_white_bishops, clearRightsOnEnd_proj_white_queens, clearRightsOnEnd_proj_white_king, clearRightsOnEnd_proj_black_pawns, clearRightsOnEnd_proj_black_rooks, clearRightsOnEnd_proj_black_knights, clearRightsOnEnd_proj_black_bishops, clearRightsOnEnd_proj_black_queens, clearRightsOnEnd_proj_black_king, clearRightsOnEnd_proj_white_pieces, clearRightsOnEnd_proj_black_pieces, clearRightsOnEnd_proj_pieces, clearRightsOnEnd_proj_en_passant_target, clearRightsOnEnd_proj_white_to_play]
      refine ⟨?_, ?_, ?_⟩
      · try dsimp only
        simp only [wunion]
        try dsimp only
        apply Nat.eq_of_testBit_eq
        intro i
        simp only [hcf.wagg, wunion, Nat.testBit_or, Nat.testBit_and, testBit_not64,
          testBit_single]
        by_cases hs : mv.start = i
        · subst hs
          simp [hs64, hsPb, hsNb, hsBb, hsQb, hKneS, Ne.symm hne]
        · by_cases he : mv.endSq = i
          · subst he
            simp [hs]
          · by_cases hl : i < 64
            · simp [hs, he, hl]
            · simp [hs, he, hl, testBit_high _ i hcf.wp_lt (by omega), testBit_high _ i hcf.wr_lt (by omega), testBit_high _ i hcf.wn_lt (by omega), testBit_high _ i hcf.wb_lt (by omega), testBit_high _ i hcf.wq_lt (by omega), (show ¬ (b.white_king = i) by have := hcf.wk_lt; omega)]
      · try dsimp only
        simp only [bunion]
        try dsimp only
        exact hcf.bagg
      · trivial
  · -- knight
    have hz1 : b.white_pawns &&& (1 <<< mv.start) = 0 :=
      single_and_zero _ _ (disj_bit _ _ _ hcf.wp_wn hT)
    have hz2 : b.white_rooks &&& (1 <<< mv.start) = 0 :=
      single_and_zero _ _ (disj_bit _ _ _ hcf.wr_wn hT)
    have hsT : b.white_knights &&& (1 <<< mv.start) ≠ 0 := sub_single _ _ hT
    have hsPb : Nat.testBit b.white_pawns mv.start = false :=
      disj_bit _ _ _ hcf.wp_wn hT
    have hsRb : Nat.testBit b.white_rooks mv.start = false :=
      disj_bit _ _ _ hcf.wr_wn hT
    have hsBb : Nat.testBit b.white_bishops mv.start = false :=
      disj_bit _ _ _ (by rw [Nat.and_comm]; exact hcf.wn_wb) hT
    have hsQb : Nat.testBit b.white_queens mv.start = false :=
      disj_bit _ _ _ (by rw [Nat.and_comm]; exact hcf.wn_wq) hT
    have hKeS := disj_bit _ _ _ (by rw [Nat.and_comm]; exact hcf.wn_wk) hT
    have hKneS : ¬ (b.white_king = mv.start) := by
      intro hh
      rw [testBit_single] at hKeS
      simp [hh] at hKeS
    by_cases hcapb : b.black_pieces &&& (1 <<< mv.endSq) ≠ 0
    · have hcapS : mv.capture = some (get_piece_type_on_square b mv.endSq) := by
        rw [hcap, if_pos hcapb]
      have htB : Nat.testBit b.black_pieces mv.endSq = true := single_sub _ _ hcapb
      have hptdef := get_piece_black b mv.endSq hendW0 hcapb
      have hptk : get_piece_type_on_square b mv.endSq ≠ KING := by
        intro hh
        apply hnk
        rw [hcapS, hh]
      simp only [makeMove_white b mv hwtp]
      rw [whiteMover_knight { b with white_pieces := (b.white_pieces &&& not64 (1 <<< mv.start)) ||| (1 <<< mv.endSq) } mv hz1 hz2 hsT]
      dsimp only
      rw [whiteCaptureEp_some { b with white_pieces := (b.white_pieces &&& not64 (1 <<< mv.start)) ||| (1 <<< mv.endSq), white_knights := (b.white_knights &&& not64 (1 <<< mv.start)) ||| (1 <<< mv.endSq) } mv (get_piece_type_on_square b mv.endSq) hcapS]
      rw [if_neg hcds]
      simp only [clearRightsOnEnd_proj_white_pawns, clearRightsOnEnd_proj_white_rooks, clearRightsOnEnd_proj_white_knights, clearRightsOnEnd_proj_white_bishops, clearRightsOnEnd_proj_white_queens, clearRightsOnEnd_proj_white_king, clearRightsOnEnd_proj_black_pawns, clearRightsOnEnd_proj_black_rooks, clearRightsOnEnd_proj_black_knights, clearRightsOnEnd_proj_black_bishops, clearRightsOnEnd_proj_black_queens, clearRightsOnEnd_proj_black_king, clearRightsOnEnd_proj_white_pieces, clearRightsOnEnd_proj_black_pieces, clearRightsOnEnd_proj_pieces, clearRightsOnEnd_proj_en_passant_target, clearRightsOnEnd_proj_white_to_play]
      simp only [makeMoveCaptureBlack_proj_white_pawns, makeMoveCaptureBlack_proj_white_rooks, makeMoveCaptureBlack_proj_white_knights, makeMoveCaptureBlack_proj_white_bishops, makeMoveCaptureBlack_proj_white_queens, makeMoveCaptureBlack_proj_white_king, makeMoveCaptureBlack_proj_white_pieces, makeMoveCaptureBlack_proj_pieces, makeMoveCaptureBlack_proj_en_passant_target, makeMoveCaptureBlack_proj_white_queen_side_castling_right, makeMoveCaptureBlack_proj_white_king_side_castling_right, makeMoveCaptureBlack_proj_black_queen_side_castling_right, makeMoveCaptureBlack_proj_black_king_side_castling_right, makeMoveCaptureBlack_proj_white_to_play]
      refine ⟨?_, ?_, ?_⟩
      · try dsimp only
        simp only [wunion]
        try dsimp only
        apply Nat.eq_of_testBit_eq
        intro i
        simp only [hcf.wagg, wunion, Nat.testBit_or, Nat.testBit_and, testBit_not64,
          testBit_single]
        by_cases hs : mv.start = i
        · subst hs
          simp [hs64, hsPb, hsRb, hsBb, hsQb, hKneS, Ne.symm hne]
        · by_cases he : mv.endSq = i
          · subst he
            simp [hs]
          · by_cases hl : i < 64
            · simp [hs, he, hl]
            · simp [hs, he, hl, testBit_high _ i hcf.wp_lt (by omega), testBit_high _ i hcf.wr_lt (by omega), testBit_high _ i hcf.wn_lt (by omega), testBit_high _ i hcf.wb_lt (by omega), testBit_high _ i hcf.wq_lt (by omega), (show ¬ (b.white_king = i) by have := hcf.wk_lt; omega)]
      · try dsimp only
        simp only [bunion]
        try dsimp only
        exact black_capture_aggok b { b with white_pieces := (b.white_pieces &&& not64 (1 <<< mv.start)) ||| (1 <<< mv.endSq), white_knights := (b.white_knights &&& not64 (1 <<< mv.start)) ||| (1 <<< mv.endSq) } mv.endSq (get_piece_type_on_square b mv.endSq) hcf
          rfl rfl rfl rfl rfl rfl rfl he64 htB hptdef hptk
      · trivial
    · have hcap0 : mv.capture = Option.none := by
        rw [hcap, if_neg hcapb]
      simp only [makeMove_white b mv hwtp]
      rw [whiteMover_knight { b with white_pieces := (b.white_pieces &&& not64 (1 <<< mv.start)) ||| (1 <<< mv.endSq) } mv hz1 hz2 hsT]
      dsimp only
      rw [whiteCaptureEp_none { b with white_pieces := (b.white_pieces &&& not64 (1 <<< mv.start)) ||| (1 <<< mv.endSq), white_knights := (b.white_knights &&& not64 (1 <<< mv.start)) ||| (1 <<< mv.endSq) } mv hcap0 hcep]
      rw [if_neg hcds]
      simp only [clearRightsOnEnd_proj_white_pawns, clearRightsOnEnd_proj_white_rooks, clearRightsOnEnd_proj_white_knights, clearRightsOnEnd_proj_white_bishops, clearRightsOnEnd_proj_white_queens, clearRightsOnEnd_proj_white_king, clearRightsOnEnd_proj_black_pawns, clearRightsOnEnd_proj_black_rooks, clearRightsOnEnd_proj_black_knights, clearRightsOnEnd_proj_black_bishops, clearRightsOnEnd_proj_black_queens, clearRightsOnEnd_proj_black_king, clearRightsOnEnd_proj_white_pieces, clearRightsOnEnd_proj_black_pieces, clearRightsOnEnd_proj_pieces, clearRightsOnEnd_proj_en_passant_target, clearRightsOnEnd_proj_white_to_play]
      refine ⟨?_, ?_, ?_⟩
      · try dsimp only
        simp only [wunion]
        try dsimp only
        apply Nat.eq_of_testBit_eq
        intro i
        simp only [hcf.wagg, wunion, Nat.testBit_or, Nat.testBit_and, testBit_not64,
          testBit_single]
        by_cases hs : mv.start = i
        · subst hs
          simp [hs64, hsPb, hsRb, hsBb, hsQb, hKneS, Ne.symm hne]
        · by_cases he : mv.endSq = i
          · subst he
            simp [hs]
          · by_cases hl : i < 64
            · simp [hs, he, hl]
            · simp [hs, he, hl, testBit_high _ i hcf.wp_lt (by omega), testBit_high _ i hcf.wr_lt (by omega), testBit_high _ i hcf.wn_lt (by omega), testBit_high _ i hcf.wb_lt (by omega), testBit_high _ i hcf.wq_lt (by omega), (show ¬ (b.white_king = i) by have := hcf.wk_lt; omega)]
      · try dsimp only
        simp only [bunion]
        try dsimp only
        exact hcf.bagg
      · trivial
  · -- bishop
    have hz1 : b.white_pawns &&& (1 <<< mv.start) = 0 :=
      single_and_zero _ _ (disj_bit _ _ _ hcf.wp_wb hT)
    have hz2 : b.white_rooks &&& (1 <<< mv.start) = 0 :=
      single_and_zero _ _ (disj_bit _ _ _ hcf.wr_wb hT)
    have hz3 : b.white_knights &&& (1 <<< mv.start) = 0 :=
      single_and_zero _ _ (disj_bit _ _ _ hcf.wn_wb hT)
    have hsT : b.white_bishops &&& (1 <<< mv.start) ≠ 0 := sub_single _ _ hT
    have hsPb : Nat.testBit b.white_pawns mv.start = false :=
      disj_bit _ _ _ hcf.wp_wb hT
    have hsRb : Nat.testBit b.white_rooks mv.start = false :=
      disj_bit _ _ _ hcf.wr_wb hT
    have hsNb : Nat.testBit b.white_knights mv.start = false :=
      disj_bit _ _ _ hcf.wn_wb hT
    have hsQb : Nat.testBit b.white_queens mv.start = false :=
      disj_bit _ _ _ (by rw [Nat.and_comm]; exact hcf.wb_wq) hT
    have hKeS := disj_bit _ _ _ (by rw [Nat.and_comm]; exact hcf.wb_wk) hT
    have hKneS : ¬ (b.white_king = mv.start) := by
      intro hh
      rw [testBit_single] at hKeS
      simp [hh] at hKeS
    by_cases hcapb : b.black_pieces &&& (1 <<< mv.endSq) ≠ 0
    · have hcapS : mv.capture = some (get_piece_type_on_square b mv.endSq) := by
        rw [hcap, if_pos hcapb]
      have htB : Nat.testBit b.black_pieces mv.endSq = true := single_sub _ _ hcapb
      have hptdef := get_piece_black b mv.endSq hendW0 hcapb
      have hptk : get_piece_type_on_square b mv.endSq ≠ KING := by
        intro hh
        apply hnk
        rw [hcapS, hh]
      simp only [makeMove_white b mv hwtp]
      rw [whiteMover_bishop { b with white_pieces := (b.white_pieces &&& not64 (1 <<< mv.start)) ||| (1 <<< mv.endSq) } mv hz1 hz2 hz3 hsT]
      dsimp only
      rw [whiteCaptureEp_some { b with white_pieces := (b.white_pieces &&& not64 (1 <<< mv.start)) ||| (1 <<< mv.endSq), white_bishops := (b.white_bishops &&& not64 (1 <<< mv.start)) ||| (1 <<< mv.endSq) } mv (get_piece_type_on_square b mv.endSq) hcapS]
      rw [if_neg hcds]
      simp only [clearRightsOnEnd_proj_white_pawns, clearRightsOnEnd_proj_white_rooks, clearRightsOnEnd_proj_white_knights, clearRightsOnEnd_proj_white_bishops, clearRightsOnEnd_proj_white_queens, clearRightsOnEnd_proj_white_king, clearRightsOnEnd_proj_black_pawns, clearRightsOnEnd_proj_black_rooks, clearRightsOnEnd_proj_black_knights, clearRightsOnEnd_proj_black_bishops, clearRightsOnEnd_proj_black_queens, clearRightsOnEnd_proj_black_king, clearRightsOnEnd_proj_white_pieces, clearRightsOnEnd_proj_black_pieces, clearRightsOnEnd_proj_pieces, clearRightsOnEnd_proj_en_passant_target, clearRightsOnEnd_proj_white_to_play]
      simp only [makeMoveCaptureBlack_proj_white_pawns, makeMoveCaptureBlack_proj_white_rooks, makeMoveCaptureBlack_proj_white_knights, makeMoveCaptureBlack_proj_white_bishops, makeMoveCaptureBlack_proj_white_queens, makeMoveCaptureBlack_proj_white_king, makeMoveCaptureBlack_proj_white_pieces, makeMoveCaptureBlack_proj_pieces, makeMoveCaptureBlack_proj_en_passant_target, makeMoveCaptureBlack_proj_white_queen_side_castling_right, makeMoveCaptureBlack_proj_white_king_side_castling_right, makeMoveCaptureBlack_proj_black_queen_side_castling_right, makeMoveCaptureBlack_proj_black_king_side_castling_right, makeMoveCaptureBlack_proj_white_to_play]
      refine ⟨?_, ?_, ?_⟩
      · try dsimp only
        simp only [wunion]
        try dsimp only
        apply Nat.eq_of_testBit_eq
        intro i
        simp only [hcf.wagg, wunion, Nat.testBit_or, Nat.testBit_and, testBit_not64,
          testBit_single]
        by_cases hs : mv.start = i
        · subst hs
          simp [hs64, hsPb, hsRb, hsNb, hsQb, hKneS, Ne.symm hne]
        · by_cases he : mv.endSq = i
          · subst he
            simp [hs]
          · by_cases hl : i < 64
            · simp [hs, he, hl]
            · simp [hs, he, hl, testBit_high _ i hcf.wp_lt (by omega), testBit_high _ i hcf.wr_lt (by omega), testBit_high _ i hcf.wn_lt (by omega), testBit_high _ i hcf.wb_lt (by omega), testBit_high _ i hcf.wq_lt (by omega), (show ¬ (b.white_king = i) by have := hcf.wk_lt; omega)]
      · try dsimp only
        simp only [bunion]
        try dsimp only
        exact black_capture_aggok b { b with white_pieces := (b.white_pieces &&& not64 (1 <<< mv.start)) ||| (1 <<< mv.endSq), white_bishops := (b.white_bishops &&& not64 (1 <<< mv.start)) ||| (1 <<< mv.endSq) } mv.endSq (get_piece_type_on_square b mv.endSq) hcf
          rfl rfl rfl rfl rfl rfl rfl he64 htB hptdef hptk
      · trivial
    · have hcap0 : mv.capture = Option.none := by
        rw [hcap, if_neg hcapb]
      simp only [makeMove_white b mv hwtp]
      rw [whiteMover_bishop { b with white_pieces := (b.white_pieces &&& not64 (1 <<< mv.start)) ||| (1 <<< mv.endSq) } mv hz1 hz2 hz3 hsT]
      dsimp only
      rw [whiteCaptureEp_none { b with white_pieces := (b.white_pieces &&& not64 (1 <<< mv.start)) ||| (1 <<< mv.endSq), white_bishops := (b.white_bishops &&& not64 (1 <<< mv.start)) ||| (1 <<< mv.endSq) } mv hcap0 hcep]
      rw [if_neg hcds]
      simp only [clearRightsOnEnd_proj_white_pawns, clearRightsOnEnd_proj_white_rooks, clearRightsOnEnd_proj_white_knights, clearRightsOnEnd_proj_white_bishops, clearRightsOnEnd_proj_white_queens, clearRightsOnEnd_proj_white_king, clearRightsOnEnd_proj_black_pawns, clearRightsOnEnd_proj_black_rooks, clearRightsOnEnd_proj_black_knights, clearRightsOnEnd_proj_black_bishops, clearRightsOnEnd_proj_black_queens, clearRightsOnEnd_proj_black_king, clearRightsOnEnd_proj_white_pieces, clearRightsOnEnd_proj_black_pieces, clearRightsOnEnd_proj_pieces, clearRightsOnEnd_proj_en_passant_target, clearRightsOnEnd_proj_white_to_play]
      refine ⟨?_, ?_, ?_⟩
      · try dsimp only
        simp only [wunion]
        try dsimp only
        apply Nat.eq_of_testBit_eq
        intro i
        simp only [hcf.wagg, wunion, Nat.testBit_or, Nat.testBit_and, testBit_not64,
          testBit_single]
        by_cases hs : mv.start = i
        · subst hs
          simp [hs64, hsPb, hsRb, hsNb, hsQb, hKneS, Ne.symm hne]
        · by_cases he : mv.endSq = i
          · subst he
            simp [hs]
          · by_cases hl : i < 64
            · simp [hs, he, hl]
            · simp [hs, he, hl, testBit_high _ i hcf.wp_lt (by omega), testBit_high _ i hcf.wr_lt (by omega), testBit_high _ i hcf.wn_lt (by omega), testBit_high _ i hcf.wb_lt (by omega), testBit_high _ i hcf.wq_lt (by omega), (show ¬ (b.white_king = i) by have := hcf.wk_lt; omega)]
      · try dsimp only
        simp only [bunion]
        try dsimp only
        exact hcf.bagg
      · trivial
  · -- queen
    have hz1 : b.white_pawns &&& (1 <<< mv.start) = 0 :=
      single_and_zero _ _ (disj_bit _ _ _ hcf.wp_wq hT)
    have hz2 : b.white_rooks &&& (1 <<< mv.start) = 0 :=
      single_and_zero _ _ (disj_bit _ _ _ hcf.wr_wq hT)
    have hz3 : b.white_knights &&& (1 <<< mv.start) = 0 :=
      single_and_zero _ _ (disj_bit _ _ _ hcf.wn_wq hT)
    have hz4 : b.white_bishops &&& (1 <<< mv.start) = 0 :=
      single_and_zero _ _ (disj_bit _ _ _ hcf.wb_wq hT)
    have hsT : b.white_queens &&& (1 <<< mv.start) ≠ 0 := sub_single _ _ hT
    have hsPb : Nat.testBit b.white_pawns mv.start = false :=
      disj_bit _ _ _ hcf.wp_wq hT
    have hsRb : Nat.testBit b.white_rooks mv.start = false :=
      disj_bit _ _ _ hcf.wr_wq hT
    have hsNb : Nat.testBit b.white_knights mv.start = false :=
      disj_bit _ _ _ hcf.wn_wq hT
    have hsBb : Nat.testBit b.white_bishops mv.start = false :=
      disj_bit _ _ _ hcf.wb_wq hT
    have hKeS := disj_bit _ _ _ (by rw [Nat.and_comm]; exact hcf.wq_wk) hT
    have hKneS : ¬ (b.white_king = mv.start) := by
      intro hh
      rw [testBit_single] at hKeS
      simp [hh] at hKeS
    by_cases hcapb : b.black_pieces &&& (1 <<< mv.endSq) ≠ 0
    · have hcapS : mv.capture = some (get_piece_type_on_square b mv.endSq) := by
        rw [hcap, if_pos hcapb]
      have htB : Nat.testBit b.black_pieces mv.endSq = true := single_sub _ _ hcapb
      have hptdef := get_piece_black b mv.endSq hendW0 hcapb
      have hptk : get_piece_type_on_square b mv.endSq ≠ KING := by
        intro hh
        apply hnk
        rw [hcapS, hh]
      simp only [makeMove_white b mv hwtp]
      rw [whiteMover_queen { b with white_pieces := (b.white_pieces &&& not64 (1 <<< mv.start)) ||| (1 <<< mv.endSq) } mv hz1 hz2 hz3 hz4 hsT]
      dsimp only
      rw [whiteCaptureEp_some { b with white_pieces := (b.white_pieces &&& not64 (1 <<< mv.start)) ||| (1 <<< mv.endSq), white_queens := (b.white_queens &&& not64 (1 <<< mv.start)) ||| (1 <<< mv.endSq) } mv (get_piece_type_on_square b mv.endSq) hcapS]
      rw [if_neg hcds]
      simp only [clearRightsOnEnd_proj_white_pawns, clearRightsOnEnd_proj_white_rooks, clearRightsOnEnd_proj_white_knights, clearRightsOnEnd_proj_white_bishops, clearRightsOnEnd_proj_white_queens, clearRightsOnEnd_proj_white_king, clearRightsOnEnd_proj_black_pawns, clearRightsOnEnd_proj_black_rooks, clearRightsOnEnd_proj_black_knights, clearRightsOnEnd_proj_black_bishops, clearRightsOnEnd_proj_black_queens, clearRightsOnEnd_proj_black_king, clearRightsOnEnd_proj_white_pieces, clearRightsOnEnd_proj_black_pieces, clearRightsOnEnd_proj_pieces, clearRightsOnEnd_proj_en_passant_target, clearRightsOnEnd_proj_white_to_play]
      simp only [makeMoveCaptureBlack_proj_white_pawns, makeMoveCaptureBlack_proj_white_rooks, makeMoveCaptureBlack_proj_white_knights, makeMoveCaptureBlack_proj_white_bishops, makeMoveCaptureBlack_proj_white_queens, makeMoveCaptureBlack_proj_white_king, makeMoveCaptureBlack_proj_white_pieces, makeMoveCaptureBlack_proj_pieces, makeMoveCaptureBlack_proj_en_passant_target, makeMoveCaptureBlack_proj_white_queen_side_castling_right, makeMoveCaptureBlack_proj_white_king_side_castling_right, makeMoveCaptureBlack_proj_black_queen_side_castling_right, makeMoveCaptureBlack_proj_black_king_side_castling_right, makeMoveCaptureBlack_proj_white_to_play]
      refine ⟨?_, ?_, ?_⟩
      · try dsimp only
        simp only [wunion]
        try dsimp only
        apply Nat.eq_of_testBit_eq
        intro i
        simp only [hcf.wagg, wunion, Nat.testBit_or, Nat.testBit_and, testBit_not64,
          testBit_single]
        by_cases hs : mv.start = i
        · subst hs
          simp [hs64, hsPb, hsRb, hsNb, hsBb, hKneS, Ne.symm hne]
        · by_cases he : mv.endSq = i
          · subst he
            simp [hs]
          · by_cases hl : i < 64
            · simp [hs, he, hl]
            · simp [hs, he, hl, testBit_high _ i hcf.wp_lt (by omega), testBit_high _ i hcf.wr_lt (by omega), testBit_high _ i hcf.wn_lt (by omega), testBit_high _ i hcf.wb_lt (by omega), testBit_high _ i hcf.wq_lt (by omega), (show ¬ (b.white_king = i) by have := hcf.wk_lt; omega)]
      · try dsimp only
        simp only [bunion]
        try dsimp only
        exact black_capture_aggok b { b with white_pieces := (b.white_pieces &&& not64 (1 <<< mv.start)) ||| (1 <<< mv.endSq), white_queens := (b.white_queens &&& not64 (1 <<< mv.start)) ||| (1 <<< mv.endSq) } mv.endSq (get_piece_type_on_square b mv.endSq) hcf
          rfl rfl rfl rfl rfl rfl rfl he64 htB hptdef hptk
      · trivial
    · have hcap0 : mv.capture = Option.none := by
        rw [hcap, if_neg hcapb]
      simp only [makeMove_white b mv hwtp]
      rw [whiteMover_queen { b with white_pieces := (b.white_pieces &&& not64 (1 <<< mv.start)) ||| (1 <<< mv.endSq) } mv hz1 hz2 hz3 hz4 hsT]
      dsimp only
      rw [whiteCaptureEp_none { b with white_pieces := (b.white_pieces &&& not64 (1 <<< mv.start)) ||| (1 <<< mv.endSq), white_queens := (b.white_queens &&& not64 (1 <<< mv.start)) ||| (1 <<< mv.endSq) } mv hcap0 hcep]
      rw [if_neg hcds]
      simp only [clearRightsOnEnd_proj_white_pawns, clearRightsOnEnd_proj_white_rooks, clearRightsOnEnd_proj_white_knights, clearRightsOnEnd_proj_white_bishops, clearRightsOnEnd_proj_white_queens, clearRightsOnEnd_proj_white_king, clearRightsOnEnd_proj_black_pawns, clearRightsOnEnd_proj_black_rooks, clearRightsOnEnd_proj_black_knights, clearRightsOnEnd_proj_black_bishops, clearRightsOnEnd_proj_black_queens, clearRightsOnEnd_proj_black_king, clearRightsOnEnd_proj_white_pieces, clearRightsOnEnd_proj_black_pieces, clearRightsOnEnd_proj_pieces, clearRightsOnEnd_proj_en_passant_target, clearRightsOnEnd_proj_white_to_play]
      refine ⟨?_, ?_, ?_⟩
      · try dsimp only
        simp only [wunion]
        try dsimp only
        apply Nat.eq_of_testBit_eq
        intro i
        simp only [hcf.wagg, wunion, Nat.testBit_or, Nat.testBit_and, testBit_not64,
          testBit_single]
        by_cases hs : mv.start = i
        · subst hs
          simp [hs64, hsPb, hsRb, hsNb, hsBb, hKneS, Ne.symm hne]
        · by_cases he : mv.endSq = i
          · subst he
            simp [hs]
          · by_cases hl : i < 64
            · simp [hs, he, hl]
            · simp [hs, he, hl, testBit_high _ i hcf.wp_lt (by omega), testBit_high _ i hcf.wr_lt (by omega), testBit_high _ i hcf.wn_lt (by omega), testBit_high _ i hcf.wb_lt (by omega), testBit_high _ i hcf.wq_lt (by omega), (show ¬ (b.white_king = i) by have := hcf.wk_lt; omega)]
      · try dsimp only
        simp only [bunion]
        try dsimp only
        exact hcf.bagg
      · trivial
  · -- king
    have hz1 : b.white_pawns &&& (1 <<< mv.start) = 0 :=
      single_and_zero _ _ (disj_bit _ _ _ hcf.wp_wk (by rw [hT]; rw [testBit_single]; simp))
    have hz2 : b.white_rooks &&& (1 <<< mv.start) = 0 :=
      single_and_zero _ _ (disj_bit _ _ _ hcf.wr_wk (by rw [hT]; rw [testBit_single]; simp))
    have hz3 : b.white_knights &&& (1 <<< mv.start) = 0 :=
      single_and_zero _ _ (disj_bit _ _ _ hcf.wn_wk (by rw [hT]; rw [testBit_single]; simp))
    have hz4 : b.white_bishops &&& (1 <<< mv.start) = 0 :=
      single_and_zero _ _ (disj_bit _ _ _ hcf.wb_wk (by rw [hT]; rw [testBit_single]; simp))
    have hz5 : b.white_queens &&& (1 <<< mv.start) = 0 :=
      single_and_zero _ _ (disj_bit _ _ _ hcf.wq_wk (by rw [hT]; rw [testBit_single]; simp))
    have hKbitS : Nat.testBit (1 <<< b.white_king) mv.start = true := by
      rw [hT, testBit_single]
      simp
    have hsPb : Nat.testBit b.white_pawns mv.start = false :=
      disj_bit _ _ _ hcf.wp_wk hKbitS
    have hsRb : Nat.testBit b.white_rooks mv.start = false :=
      disj_bit _ _ _ hcf.wr_wk hKbitS
    have hsNb : Nat.testBit b.white_knights mv.start = false :=
      disj_bit _ _ _ hcf.wn_wk hKbitS
    have hsBb : Nat.testBit b.white_bishops mv.start = false :=
      disj_bit _ _ _ hcf.wb_wk hKbitS
    have hsQb : Nat.testBit b.white_queens mv.start = false :=
      disj_bit _ _ _ hcf.wq_wk hKbitS
    by_cases hcapb : b.black_pieces &&& (1 <<< mv.endSq) ≠ 0
    · have hcapS : mv.capture = some (get_piece_type_on_square b mv.endSq) := by
        rw [hcap, if_pos hcapb]
      have htB : Nat.testBit b.black_pieces mv.endSq = true := single_sub _ _ hcapb
      have hptdef := get_piece_black b mv.endSq hendW0 hcapb
      have hptk : get_piece_type_on_square b mv.endSq ≠ KING := by
        intro hh
        apply hnk
        rw [hcapS, hh]
      simp only [makeMove_white b mv hwtp]
      rw [whiteMover_king { b with white_pieces := (b.white_pieces &&& not64 (1 <<< mv.start)) ||| (1 <<< mv.endSq) } mv hz1 hz2 hz3 hz4 hz5 hT hcq hck]
      dsimp only
      rw [whiteCaptureEp_some { b with white_pieces := (((b.white_pieces &&& not64 (1 <<< mv.start)) ||| (1 <<< mv.endSq)) &&& not64 (1 <<< b.white_king)) ||| (1 <<< mv.endSq), white_king := mv.endSq, white_queen_side_castling_right := false, white_king_side_castling_right := false } mv (get_piece_type_on_square b mv.endSq) hcapS]
      rw [if_neg hcds]
      simp only [clearRightsOnEnd_proj_white_pawns, clearRightsOnEnd_proj_white_rooks, clearRightsOnEnd_proj_white_knights, clearRightsOnEnd_proj_white_bishops, clearRightsOnEnd_proj_white_queens, clearRightsOnEnd_proj_white_king, clearRightsOnEnd_proj_black_pawns, clearRightsOnEnd_proj_black_rooks, clearRightsOnEnd_proj_black_knights, clearRightsOnEnd_proj_black_bishops, clearRightsOnEnd_proj_black_queens, clearRightsOnEnd_proj_black_king, clearRightsOnEnd_proj_white_pieces, clearRightsOnEnd_proj_black_pieces, clearRightsOnEnd_proj_pieces, clearRightsOnEnd_proj_en_passant_target, clearRightsOnEnd_proj_white_to_play]
      simp only [makeMoveCaptureBlack_proj_white_pawns, makeMoveCaptureBlack_proj_white_rooks, makeMoveCaptureBlack_proj_white_knights, makeMoveCaptureBlack_proj_white_bishops, makeMoveCaptureBlack_proj_white_queens, makeMoveCaptureBlack_proj_white_king, makeMoveCaptureBlack_proj_white_pieces, makeMoveCaptureBlack_proj_pieces, makeMoveCaptureBlack_proj_en_passant_target, makeMoveCaptureBlack_proj_white_queen_side_castling_right, makeMoveCaptureBlack_proj_white_king_side_castling_right, makeMoveCaptureBlack_proj_black_queen_side_castling_right, makeMoveCaptureBlack_proj_black_king_side_castling_right, makeMoveCaptureBlack_proj_white_to_play]
      refine ⟨?_, ?_, ?_⟩
      · try dsimp only
        simp only [wunion]
        try dsimp only
        apply Nat.eq_of_testBit_eq
        intro i
        simp only [hcf.wagg, wunion, Nat.testBit_or, Nat.testBit_and, testBit_not64,
          testBit_single]
        by_cases hs : mv.start = i
        · subst hs
          simp [hT, hs64, hsPb, hsRb, hsNb, hsBb, hsQb, Ne.symm hne]
        · by_cases he : mv.endSq = i
          · subst he
            simp [hs, hT]
          · by_cases hl : i < 64
            · simp [hs, he, hl, hT]
            · simp [hs, he, hl, hT, testBit_high _ i hcf.wp_lt (by omega), testBit_high _ i hcf.wr_lt (by omega), testBit_high _ i hcf.wn_lt (by omega), testBit_high _ i hcf.wb_lt (by omega), testBit_high _ i hcf.wq_lt (by omega)]
      · try dsimp only
        simp only [bunion]
        try dsimp only
        exact black_capture_aggok b { b with white_pieces := (((b.white_pieces &&& not64 (1 <<< mv.start)) ||| (1 <<< mv.endSq)) &&& not64 (1 <<< b.white_king)) ||| (1 <<< mv.endSq), white_king := mv.endSq, white_queen_side_castling_right := false, white_king_side_castling_right := false } mv.endSq (get_piece_type_on_square b mv.endSq) hcf
          rfl rfl rfl rfl rfl rfl rfl he64 htB hptdef hptk
      · trivial
    · have hcap0 : mv.capture = Option.none := by
        rw [hcap, if_neg hcapb]
      simp only [makeMove_white b mv hwtp]
      rw [whiteMover_king { b with white_pieces := (b.white_pieces &&& not64 (1 <<< mv.start)) ||| (1 <<< mv.endSq) } mv hz1 hz2 hz3 hz4 hz5 hT hcq hck]
      dsimp only
      rw [whiteCaptureEp_none { b with white_pieces := (((b.white_pieces &&& not64 (1 <<< mv.start)) ||| (1 <<< mv.endSq)) &&& not64 (1 <<< b.white_king)) ||| (1 <<< mv.endSq), white_king := mv.endSq, white_queen_side_castling_right := false, white_king_side_castling_right := false } mv hcap0 hcep]
      rw [if_neg hcds]
      simp only [clearRightsOnEnd_proj_white_pawns, clearRightsOnEnd_proj_white_rooks, clearRightsOnEnd_proj_white_knights, clearRightsOnEnd_proj_white_bishops, clearRightsOnEnd_proj_white_queens, clearRightsOnEnd_proj_white_king, clearRightsOnEnd_proj_black_pawns, clearRightsOnEnd_proj_black_rooks, clearRightsOnEnd_proj_black_knights, clearRightsOnEnd_proj_black_bishops, clearRightsOnEnd_proj_black_queens, clearRightsOnEnd_proj_black_king, clearRightsOnEnd_proj_white_pieces, clearRightsOnEnd_proj_black_pieces, clearRightsOnEnd_proj_pieces, clearRightsOnEnd_proj_en_passant_target, clearRightsOnEnd_proj_white_to_play]
      refine ⟨?_, ?_, ?_⟩
      · try dsimp only
        simp only [wunion]
        try dsimp only
        apply Nat.eq_of_testBit_eq
        intro i
        simp only [hcf.wagg, wunion, Nat.testBit_or, Nat.testBit_and, testBit_not64,
          testBit_single]
        by_cases hs : mv.start = i
        · subst hs
          simp [hT, hs64, hsPb, hsRb, hsNb, hsBb, hsQb, Ne.symm hne]
        · by_cases he : mv.endSq = i
          · subst he
            simp [hs, hT]
          · by_cases hl : i < 64
            · simp [hs, he, hl, hT]
            · simp [hs, he, hl, hT, testBit_high _ i hcf.wp_lt (by omega), testBit_high _ i hcf.wr_lt (by omega), testBit_high _ i hcf.wn_lt (by omega), testBit_high _ i hcf.wb_lt (by omega), testBit_high _ i hcf.wq_lt (by omega)]
      · try dsimp only
        simp only [bunion]
        try dsimp only
        exact hcf.bagg
      · trivial

set_option maxHeartbeats 2000000 in
/-- After `make_move` of a plain (black) piece move whose capture is not a
king, the three aggregate equations hold on the resulting position. -/
theorem make_aggok_black (b : Board) (mv : Move)
    (hcf : ConsistentFacts b)
    (hwtp : b.white_to_play = false)
    (hctx : mv.context = MoveContext.none)
    (hstart : Nat.testBit b.black_pieces mv.start = true)
    (hend : Nat.testBit b.black_pieces mv.endSq = false)
    (he64 : mv.endSq < 64)
    (hcap : mv.capture = (if b.white_pieces &&& (1 <<< mv.endSq) ≠ 0
        then some (get_piece_type_on_square b mv.endSq) else Option.none))
    (hnk : mv.capture ≠ some KING) :
    (makeMove b mv).white_pieces = wunion (makeMove b mv) ∧
    (makeMove b mv).black_pieces = bunion (makeMove b mv) ∧
    (makeMove b mv).pieces = (makeMove b mv).white_pieces ||| (makeMove b mv).black_pieces := by
  have hwplt := bpieces_lt b hcf
  have hoplt := wpieces_lt b hcf
  have hs64 : mv.start < 64 := testBit_of_lt_64 _ _ hwplt hstart
  have hnp : ∀ p, mv.context ≠ MoveContext.promotion p := by
    rw [hctx]
    intro p h
    exact absurd h (by simp)
  have hcq : mv.context ≠ MoveContext.queenSideCastle := by rw [hctx]; simp
  have hck : mv.context ≠ MoveContext.kingSideCastle := by rw [hctx]; simp
  have hcep : mv.context ≠ MoveContext.enPassant := by rw [hctx]; simp
  have hcds : mv.context ≠ MoveContext.doubleStep := by rw [hctx]; simp
  have hne : mv.start ≠ mv.endSq := by
    intro h
    rw [h] at hstart
    rw [hstart] at hend
    exact absurd hend (by simp)
  have hnotw : Nat.testBit b.black_pieces mv.endSq = true → False := by
    intro h
    rw [h] at hend
    exact absurd hend (by simp)
  have hendP : Nat.testBit b.black_pawns mv.endSq = false := by
    cases hx : Nat.testBit b.black_pawns mv.endSq
    · rfl
    · exact absurd (bunion_bit_of b hcf _ (Or.inl hx)) hnotw
  have hendR : Nat.testBit b.black_rooks mv.endSq = false := by
    cases hx : Nat.testBit b.black_rooks mv.endSq
    · rfl
    · exact absurd (bunion_bit_of b hcf _ (Or.inr (Or.inl hx))) hnotw
  have hendN : Nat.testBit b.black_knights mv.endSq = false := by
    cases hx : Nat.testBit b.black_knights mv.endSq
    · rfl
    · exact absurd (bunion_bit_of b hcf _ (Or.inr (Or.inr (Or.inl hx)))) hnotw
  have hendB : Nat.testBit b.black_bishops mv.endSq = false := by
    cases hx : Nat.testBit b.black_bishops mv.endSq
    · rfl
    · exact absurd (bunion_bit_of b hcf _ (Or.inr (Or.inr (Or.inr (Or.inl hx))))) hnotw
  have hendQ : Nat.testBit b.black_queens mv.endSq = false := by
    cases hx : Nat.testBit b.black_queens mv.endSq
    · rfl
    · exact absurd (bunion_bit_of b hcf _ (Or.inr (Or.inr (Or.inr (Or.inr (Or.inl hx)))))) hnotw
  have hendP0 : b.black_pawns &&& (1 <<< mv.endSq) = 0 := single_and_zero _ _ hendP
  have hendR0 : b.black_rooks &&& (1 <<< mv.endSq) = 0 := single_and_zero _ _ hendR
  have hendN0 : b.black_knights &&& (1 <<< mv.endSq) = 0 := single_and_zero _ _ hendN
  have hendB0 : b.black_bishops &&& (1 <<< mv.endSq) = 0 := single_and_zero _ _ hendB
  have hendQ0 : b.black_queens &&& (1 <<< mv.endSq) = 0 := single_and_zero _ _ hendQ
  have hendW0 : b.black_pieces &&& (1 <<< mv.endSq) = 0 := single_and_zero _ _ hend
  rcases bunion_bits b hcf mv.start hstart with hT | hT | hT | hT | hT | hT
  · -- pawn
    have hsT : b.black_pawns &&& (1 <<< mv.start) ≠ 0 := sub_single _ _ hT
    have hsRb : Nat.testBit b.black_rooks mv.start = false :=
      disj_bit _ _ _ (by rw [Nat.and_comm]; exact hcf.bp_br) hT
    have hsNb : Nat.testBit b.black_knights mv.start = false :=
      disj_bit _ _ _ (by rw [Nat.and_comm]; exact hcf.bp_bn) hT
    have hsBb : Nat.testBit b.black_bishops mv.start = false :=
      disj_bit _ _ _ (by rw [Nat.and_comm]; exact hcf.bp_bb) hT
    have hsQb : Nat.testBit b.black_queens mv.start = false :=
      disj_bit _ _ _ (by rw [Nat.and_comm]; exact hcf.bp_bq) hT
    have hKeS := disj_bit _ _ _ (by rw [Nat.and_comm]; exact hcf.bp_bk) hT
    have hKneS : ¬ (b.black_king = mv.start) := by
      intro hh
      rw [testBit_single] at hKeS
      simp [hh] at hKeS
    by_cases hcapb : b.white_pieces &&& (1 <<< mv.endSq) ≠ 0
    · have hcapS : mv.capture = some (get_piece_type_on_square b mv.endSq) := by
        rw [hcap, if_pos hcapb]
      have htB : Nat.testBit b.white_pieces mv.endSq = true := single_sub _ _ hcapb
      have hptdef := get_piece_white b mv.endSq hcapb
      have hptk : get_piece_type_on_square b mv.endSq ≠ KING := by
        intro hh
        apply hnk
        rw [hcapS, hh]
      simp only [makeMove_black b mv hwtp]
      rw [blackMover_pawn { b with black_pieces := (b.black_pieces &&& not64 (1 <<< mv.start)) ||| (1 <<< mv.endSq) } mv hsT hnp]
      dsimp only
      rw [blackCaptureEp_some { b with black_pieces := (b.black_pieces &&& not64 (1 <<< mv.start)) ||| (1 <<< mv.endSq), black_pawns := (b.black_pawns &&& not64 (1 <<< mv.start)) ||| (1 <<< mv.endSq) } mv (get_piece_type_on_square b mv.endSq) hcapS hcep]
      rw [if_neg hcds]
      simp only [clearRightsOnEnd_proj_white_pawns, clearRightsOnEnd_proj_white_rooks, clearRightsOnEnd_proj_white_knights, clearRightsOnEnd_proj_white_bishops, clearRightsOnEnd_proj_white_queens, clearRightsOnEnd_proj_white_king, clearRightsOnEnd_proj_black_pawns, clearRightsOnEnd_proj_black_rooks, clearRightsOnEnd_proj_black_knights, clearRightsOnEnd_proj_black_bishops, clearRightsOnEnd_proj_black_queens, clearRightsOnEnd_proj_black_king, clearRightsOnEnd_proj_white_pieces, clearRightsOnEnd_proj_black_pieces, clearRightsOnEnd_proj_pieces, clearRightsOnEnd_proj_en_passant_target, clearRightsOnEnd_proj_white_to_play]
      simp only [makeMoveCaptureWhite_proj_black_pawns, makeMoveCaptureWhite_proj_black_rooks, makeMoveCaptureWhite_proj_black_knights, makeMoveCaptureWhite_proj_black_bishops, makeMoveCaptureWhite_proj_black_queens, makeMoveCaptureWhite_proj_black_king, makeMoveCaptureWhite_proj_black_pieces, makeMoveCaptureWhite_proj_pieces, makeMoveCaptureWhite_proj_en_passant_target, makeMoveCaptureWhite_proj_white_queen_side_castling_right, makeMoveCaptureWhite_proj_white_king_side_castling_right, makeMoveCaptureWhite_proj_black_queen_side_castling_right, makeMoveCaptureWhite_proj_black_king_side_castling_right, makeMoveCaptureWhite_proj_white_to_play]
      refine ⟨?_, ?_, ?_⟩
      · try dsimp only
        simp only [wunion]
        try dsimp only
        exact white_capture_aggok b { b with black_pieces := (b.black_pieces &&& not64 (1 <<< mv.start)) ||| (1 <<< mv.endSq), black_pawns := (b.black_pawns &&& not64 (1 <<< mv.start)) ||| (1 <<< mv.endSq) } mv.endSq (get_piece_type_on_square b mv.endSq) hcf
          rfl rfl rfl rfl rfl rfl rfl he64 htB hptdef hptk
      · try dsimp only
        simp only [bunion]
        try dsimp only
        apply Nat.eq_of_testBit_eq
        intro i
        simp only [hcf.bagg, bunion, Nat.testBit_or, Nat.testBit_and, testBit_not64,
          testBit_single]
        by_cases hs : mv.start = i
        · subst hs
          simp [hs64, hsRb, hsNb, hsBb, hsQb, hKneS, Ne.symm hne]
        · by_cases he : mv.endSq = i
          · subst he
            simp [hs]
          · by_cases hl : i < 64
            · simp [hs, he, hl]
            · simp [hs, he, hl, testBit_high _ i hcf.bp_lt (by omega), testBit_high _ i hcf.br_lt (by omega), testBit_high _ i hcf.bn_lt (by omega), testBit_high _ i hcf.bb_lt (by omega), testBit_high _ i hcf.bq_lt (by omega), (show ¬ (b.black_king = i) by have := hcf.bk_lt; omega)]
      · trivial
    · have hcap0 : mv.capture = Option.none := by
        rw [hcap, if_neg hcapb]
      simp only [makeMove_black b mv hwtp]
      rw [blackMover_pawn { b with black_pieces := (b.black_pieces &&& not64 (1 <<< mv.start)) ||| (1 <<< mv.endSq) } mv hsT hnp]
      dsimp only
      rw [blackCaptureEp_none { b with black_pieces := (b.black_pieces &&& not64 (1 <<< mv.start)) ||| (1 <<< mv.endSq), black_pawns := (b.black_pawns &&& not64 (1 <<< mv.start)) ||| (1 <<< mv.endSq) } mv hcap0 hcep]
      rw [if_neg hcds]
      simp only [clearRightsOnEnd_proj_white_pawns, clearRightsOnEnd_proj_white_rooks, clearRightsOnEnd_proj_white_knights, clearRightsOnEnd_proj_white_bishops, clearRightsOnEnd_proj_white_queens, clearRightsOnEnd_proj_white_king, clearRightsOnEnd_proj_black_pawns, clearRightsOnEnd_proj_black_rooks, clearRightsOnEnd_proj_black_knights, clearRightsOnEnd_proj_black_bishops, clearRightsOnEnd_proj_black_queens, clearRightsOnEnd_proj_black_king, clearRightsOnEnd_proj_white_pieces, clearRightsOnEnd_proj_black_pieces, clearRightsOnEnd_proj_pieces, clearRightsOnEnd_proj_en_passant_target, clearRightsOnEnd_proj_white_to_play]
      refine ⟨?_, ?_, ?_⟩
      · try dsimp only
        simp only [wunion]
        try dsimp only
        exact hcf.wagg
      · try dsimp only
        simp only [bunion]
        try dsimp only
        apply Nat.eq_of_testBit_eq
        intro i
        simp only [hcf.bagg, bunion, Nat.testBit_or, Nat.testBit_and, testBit_not64,
          testBit_single]
        by_cases hs : mv.start = i
        · subst hs
          simp [hs64, hsRb, hsNb, hsBb, hsQb, hKneS, Ne.symm hne]
        · by_cases he : mv.endSq = i
          · subst he
            simp [hs]
          · by_cases hl : i < 64
            · simp [hs, he, hl]
            · simp [hs, he, hl, testBit_high _ i hcf.bp_lt (by omega), testBit_high _ i hcf.br_lt (by omega), testBit_high _ i hcf.bn_lt (by omega), testBit_high _ i hcf.bb_lt (by omega), testBit_high _ i hcf.bq_lt (by omega), (show ¬ (b.black_king = i) by have := hcf.bk_lt; omega)]
      · trivial
  · -- rook
    have hz1 : b.black_pawns &&& (1 <<< mv.start) = 0 :=
      single_and_zero _ _ (disj_bit _ _ _ hcf.bp_br hT)
    have hsT : b.black_rooks &&& (1 <<< mv.start) ≠ 0 := sub_single _ _ hT
    have hsPb : Nat.testBit b.black_pawns mv.start = false :=
      disj_bit _ _ _ hcf.bp_br hT
    have hsNb : Nat.testBit b.black_knights mv.start = false :=
      disj_bit _ _ _ (by rw [Nat.and_comm]; exact hcf.br_bn) hT
    have hsBb : Nat.testBit b.black_bishops mv.start = false :=
      disj_bit _ _ _ (by rw [Nat.and_comm]; exact hcf.br_bb) hT
    have hsQb : Nat.testBit b.black_queens mv.start = false :=
      disj_bit _ _ _ (by rw [Nat.and_comm]; exact hcf.br_bq) hT
    have hKeS := disj_bit _ _ _ (by rw [Nat.and_comm]; exact hcf.br_bk) hT
    have hKneS : ¬ (b.black_king = mv.start) := by
      intro hh
      rw [testBit_single] at hKeS
      simp [hh] at hKeS
    by_cases hcapb : b.white_pieces &&& (1 <<< mv.endSq) ≠ 0
    · have hcapS : mv.capture = some (get_piece_type_on_square b mv.endSq) := by
        rw [hcap, if_pos hcapb]
      have htB : Nat.testBit b.white_pieces mv.endSq = true := single_sub _ _ hcapb
      have hptdef := get_piece_white b mv.endSq hcapb
      have hptk : get_piece_type_on_square b mv.endSq ≠ KING := by
        intro hh
        apply hnk
        rw [hcapS, hh]
      simp only [makeMove_black b mv hwtp]
      obtain ⟨qq1, qq2, hwmv⟩ := blackMover_rook { b with black_pieces := (b.black_pieces &&& not64 (1 <<< mv.start)) ||| (1 <<< mv.endSq) } mv hz1 hsT
      rw [hwmv]
      dsimp only
      rw [blackCaptureEp_some { b with black_pieces := (b.black_pieces &&& not64 (1 <<< mv.start)) ||| (1 <<< mv.endSq), black_rooks := (b.black_rooks &&& not64 (1 <<< mv.start)) ||| (1 <<< mv.endSq), black_queen_side_castling_right := qq1, black_king_side_castling_right := qq2 } mv (get_piece_type_on_square b mv.endSq) hcapS hcep]
      rw [if_neg hcds]
      simp only [clearRightsOnEnd_proj_white_pawns, clearRightsOnEnd_proj_white_rooks, clearRightsOnEnd_proj_white_knights, clearRightsOnEnd_proj_white_bishops, clearRightsOnEnd_proj_white_queens, clearRightsOnEnd_proj_white_king, clearRightsOnEnd_proj_black_pawns, clearRightsOnEnd_proj_black_rooks, clearRightsOnEnd_proj_black_knights, clearRightsOnEnd_proj_black_bishops, clearRightsOnEnd_proj_black_queens, clearRightsOnEnd_proj_black_king, clearRightsOnEnd_proj_white_pieces, clearRightsOnEnd_proj_black_pieces, clearRightsOnEnd_proj_pieces, clearRightsOnEnd_proj_en_passant_target, clearRightsOnEnd_proj_white_to_play]
      simp only [makeMoveCaptureWhite_proj_black_pawns, makeMoveCaptureWhite_proj_black_rooks, makeMoveCaptureWhite_proj_black_knights, makeMoveCaptureWhite_proj_black_bishops, makeMoveCaptureWhite_proj_black_queens, makeMoveCaptureWhite_proj_black_king, makeMoveCaptureWhite_proj_black_pieces, makeMoveCaptureWhite_proj_pieces, makeMoveCaptureWhite_proj_en_passant_target, makeMoveCaptureWhite_proj_white_queen_side_castling_right, makeMoveCaptureWhite_proj_white_king_side_castling_right, makeMoveCaptureWhite_proj_black_queen_side_castling_right, makeMoveCaptureWhite_proj_black_king_side_castling_right, makeMoveCaptureWhite_proj_white_to_play]
      refine ⟨?_, ?_, ?_⟩
      · try dsimp only
        simp only [wunion]
        try dsimp only
        exact white_capture_aggok b { b with black_pieces := (b.black_pieces &&& not64 (1 <<< mv.start)) ||| (1 <<< mv.endSq), black_rooks := (b.black_rooks &&& not64 (1 <<< mv.start)) ||| (1 <<< mv.endSq), black_queen_side_castling_right := qq1, black_king_side_castling_right := qq2 } mv.endSq (get_piece_type_on_square b mv.endSq) hcf
          rfl rfl rfl rfl rfl rfl rfl he64 htB hptdef hptk
      · try dsimp only
        simp only [bunion]
        try dsimp only
        apply Nat.eq_of_testBit_eq
        intro i
        simp only [hcf.bagg, bunion, Nat.testBit_or, Nat.testBit_and, testBit_not64,
          testBit_single]
        by_cases hs : mv.start = i
        · subst hs
          simp [hs64, hsPb, hsNb, hsBb, hsQb, hKneS, Ne.symm hne]
        · by_cases he : mv.endSq = i
          · subst he
            simp [hs]
          · by_cases hl : i < 64
            · simp [hs, he, hl]
            · simp [hs, he, hl, testBit_high _ i hcf.bp_lt (by omega), testBit_high _ i hcf.br_lt (by omega), testBit_high _ i hcf.bn_lt (by omega), testBit_high _ i hcf.bb_lt (by omega), testBit_high _ i hcf.bq_lt (by omega), (show ¬ (b.black_king = i) by have := hcf.bk_lt; omega)]
      · trivial
    · have hcap0 : mv.capture = Option.none := by
        rw [hcap, if_neg hcapb]
      simp only [makeMove_black b mv hwtp]
      obtain ⟨qq1, qq2, hwmv⟩ := blackMover_rook { b with black_pieces := (b.black_pieces &&& not64 (1 <<< mv.start)) ||| (1 <<< mv.endSq) } mv hz1 hsT
      rw [hwmv]
      dsimp only
      rw [blackCaptureEp_none { b with black_pieces := (b.black_pieces &&& not64 (1 <<< mv.start)) ||| (1 <<< mv.endSq), black_rooks := (b.black_rooks &&& not64 (1 <<< mv.start)) ||| (1 <<< mv.endSq), black_queen_side_castling_right := qq1, black_king_side_castling_right := qq2 } mv hcap0 hcep]
      rw [if_neg hcds]
      simp only [clearRightsOnEnd_proj_white_pawns, clearRightsOnEnd_proj_white_rooks, clearRightsOnEnd_proj_white_knights, clearRightsOnEnd_proj_white_bishops, clearRightsOnEnd_proj_white_queens, clearRightsOnEnd_proj_white_king, clearRightsOnEnd_proj_black_pawns, clearRightsOnEnd_proj_black_rooks, clearRightsOnEnd_proj_black_knights, clearRightsOnEnd_proj_black_bishops, clearRightsOnEnd_proj_black_queens, clearRightsOnEnd_proj_black_king, clearRightsOnEnd_proj_white_pieces, clearRightsOnEnd_proj_black_pieces, clearRightsOnEnd_proj_pieces, clearRightsOnEnd_proj_en_passant_target, clearRightsOnEnd_proj_white_to_play]
      refine ⟨?_, ?_, ?_⟩
      · try dsimp only
        simp only [wunion]
        try dsimp only
        exact hcf.wagg
      · try dsimp only
        simp only [bunion]
        try dsimp only
        apply Nat.eq_of_testBit_eq
        intro i
        simp only [hcf.bagg, bunion, Nat.testBit_or, Nat.testBit_and, testBit_not64,
          testBit_single]
        by_cases hs : mv.start = i
        · subst hs
          simp [hs64, hsPb, hsNb, hsBb, hsQb, hKneS, Ne.symm hne]
        · by_cases he : mv.endSq = i
          · subst he
            simp [hs]
          · by_cases hl : i < 64
            · simp [hs, he, hl]
            · simp [hs, he, hl, testBit_high _ i hcf.bp_lt (by omega), testBit_high _ i hcf.br_lt (by omega), testBit_high _ i hcf.bn_lt (by omega), testBit_high _ i hcf.bb_lt (by omega), testBit_high _ i hcf.bq_lt (by omega), (show ¬ (b.black_king = i) by have := hcf.bk_lt; omega)]
      · trivial
  · -- knight
    have hz1 : b.black_pawns &&& (1 <<< mv.start) = 0 :=
      single_and_zero _ _ (disj_bit _ _ _ hcf.bp_bn hT)
    have hz2 : b.black_rooks &&& (1 <<< mv.start) = 0 :=
      single_and_zero _ _ (disj_bit _ _ _ hcf.br_bn hT)
    have hsT : b.black_knights &&& (1 <<< mv.start) ≠ 0 := sub_single _ _ hT
    have hsPb : Nat.testBit b.black_pawns mv.start = false :=
      disj_bit _ _ _ hcf.bp_bn hT
    have hsRb : Nat.testBit b.black_rooks mv.start = false :=
      disj_bit _ _ _ hcf.br_bn hT
    have hsBb : Nat.testBit b.black_bishops mv.start = false :=
      disj_bit _ _ _ (by rw [Nat.and_comm]; exact hcf.bn_bb) hT
    have hsQb : Nat.testBit b.black_queens mv.start = false :=
      disj_bit _ _ _ (by rw [Nat.and_comm]; exact hcf.bn_bq) hT
    have hKeS := disj_bit _ _ _ (by rw [Nat.and_comm]; exact hcf.bn_bk) hT
    have hKneS : ¬ (b.black_king = mv.start) := by
      intro hh
      rw [testBit_single] at hKeS
      simp [hh] at hKeS
    by_cases hcapb : b.white_pieces &&& (1 <<< mv.endSq) ≠ 0
    · have hcapS : mv.capture = some (get_piece_type_on_square b mv.endSq) := by
        rw [hcap, if_pos hcapb]
      have htB : Nat.testBit b.white_pieces mv.endSq = true := single_sub _ _ hcapb
      have hptdef := get_piece_white b mv.endSq hcapb
      have hptk : get_piece_type_on_square b mv.endSq ≠ KING := by
        intro hh
        apply hnk
        rw [hcapS, hh]
      simp only [makeMove_black b mv hwtp]
      rw [blackMover_knight { b with black_pieces := (b.black_pieces &&& not64 (1 <<< mv.start)) ||| (1 <<< mv.endSq) } mv hz1 hz2 hsT]
      dsimp only
      rw [blackCaptureEp_some { b with black_pieces := (b.black_pieces &&& not64 (1 <<< mv.start)) ||| (1 <<< mv.endSq), black_knights := (b.black_knights &&& not64 (1 <<< mv.start)) ||| (1 <<< mv.endSq) } mv (get_piece_type_on_square b mv.endSq) hcapS hcep]
      rw [if_neg hcds]
      simp only [clearRightsOnEnd_proj_white_pawns, clearRightsOnEnd_proj_white_rooks, clearRightsOnEnd_proj_white_knights, clearRightsOnEnd_proj_white_bishops, clearRightsOnEnd_proj_white_queens, clearRightsOnEnd_proj_white_king, clearRightsOnEnd_proj_black_pawns, clearRightsOnEnd_proj_black_rooks, clearRightsOnEnd_proj_black_knights, clearRightsOnEnd_proj_black_bishops, clearRightsOnEnd_proj_black_queens, clearRightsOnEnd_proj_black_king, clearRightsOnEnd_proj_white_pieces, clearRightsOnEnd_proj_black_pieces, clearRightsOnEnd_proj_pieces, clearRightsOnEnd_proj_en_passant_target, clearRightsOnEnd_proj_white_to_play]
      simp only [makeMoveCaptureWhite_proj_black_pawns, makeMoveCaptureWhite_proj_black_rooks, makeMoveCaptureWhite_proj_black_knights, makeMoveCaptureWhite_proj_black_bishops, makeMoveCaptureWhite_proj_black_queens, makeMoveCaptureWhite_proj_black_king, makeMoveCaptureWhite_proj_black_pieces, makeMoveCaptureWhite_proj_pieces, makeMoveCaptureWhite_proj_en_passant_target, makeMoveCaptureWhite_proj_white_queen_side_castling_right, makeMoveCaptureWhite_proj_white_king_side_castling_right, makeMoveCaptureWhite_proj_black_queen_side_castling_right, makeMoveCaptureWhite_proj_black_king_side_castling_right, makeMoveCaptureWhite_proj_white_to_play]
      refine ⟨?_, ?_, ?_⟩
      · try dsimp only
        simp only [wunion]
        try dsimp only
        exact white_capture_aggok b { b with black_pieces := (b.black_pieces &&& not64 (1 <<< mv.start)) ||| (1 <<< mv.endSq), black_knights := (b.black_knights &&& not64 (1 <<< mv.start)) ||| (1 <<< mv.endSq) } mv.endSq (get_piece_type_on_square b mv.endSq) hcf
          rfl rfl rfl rfl rfl rfl rfl he64 htB hptdef hptk
      · try dsimp only
        simp only [bunion]
        try dsimp only
        apply Nat.eq_of_testBit_eq
        intro i
        simp only [hcf.bagg, bunion, Nat.testBit_or, Nat.testBit_and, testBit_not64,
          testBit_single]
        by_cases hs : mv.start = i
        · subst hs
          simp [hs64, hsPb, hsRb, hsBb, hsQb, hKneS, Ne.symm hne]
        · by_cases he : mv.endSq = i
          · subst he
            simp [hs]
          · by_cases hl : i < 64
            · simp [hs, he, hl]
            · simp [hs, he, hl, testBit_high _ i hcf.bp_lt (by omega), testBit_high _ i hcf.br_lt (by omega), testBit_high _ i hcf.bn_lt (by omega), testBit_high _ i hcf.bb_lt (by omega), testBit_high _ i hcf.bq_lt (by omega), (show ¬ (b.black_king = i) by have := hcf.bk_lt; omega)]
      · trivial
    · have hcap0 : mv.capture = Option.none := by
        rw [hcap, if_neg hcapb]
      simp only [makeMove_black b mv hwtp]
      rw [blackMover_knight { b with black_pieces := (b.black_pieces &&& not64 (1 <<< mv.start)) ||| (1 <<< mv.endSq) } mv hz1 hz2 hsT]
      dsimp only
      rw [blackCaptureEp_none { b with black_pieces := (b.black_pieces &&& not64 (1 <<< mv.start)) ||| (1 <<< mv.endSq), black_knights := (b.black_knights &&& not64 (1 <<< mv.start)) ||| (1 <<< mv.endSq) } mv hcap0 hcep]
      rw [if_neg hcds]
      simp only [clearRightsOnEnd_proj_white_pawns, clearRightsOnEnd_proj_white_rooks, clearRightsOnEnd_proj_white_knights, clearRightsOnEnd_proj_white_bishops, clearRightsOnEnd_proj_white_queens, clearRightsOnEnd_proj_white_king, clearRightsOnEnd_proj_black_pawns, clearRightsOnEnd_proj_black_rooks, clearRightsOnEnd_proj_black_knights, clearRightsOnEnd_proj_black_bishops, clearRightsOnEnd_proj_black_queens, clearRightsOnEnd_proj_black_king, clearRightsOnEnd_proj_white_pieces, clearRightsOnEnd_proj_black_pieces, clearRightsOnEnd_proj_pieces, clearRightsOnEnd_proj_en_passant_target, clearRightsOnEnd_proj_white_to_play]
      refine ⟨?_, ?_, ?_⟩
      · try dsimp only
        simp only [wunion]
        try dsimp only
        exact hcf.wagg
      · try dsimp only
        simp only [bunion]
        try dsimp only
        apply Nat.eq_of_testBit_eq
        intro i
        simp only [hcf.bagg, bunion, Nat.testBit_or, Nat.testBit_and, testBit_not64,
          testBit_single]
        by_cases hs : mv.start = i
        · subst hs
          simp [hs64, hsPb, hsRb, hsBb, hsQb, hKneS, Ne.symm hne]
        · by_cases he : mv.endSq = i
          · subst he
            simp [hs]
          · by_cases hl : i < 64
            · simp [hs, he, hl]
            · simp [hs, he, hl, testBit_high _ i hcf.bp_lt (by omega), testBit_high _ i hcf.br_lt (by omega), testBit_high _ i hcf.bn_lt (by omega), testBit_high _ i hcf.bb_lt (by omega), testBit_high _ i hcf.bq_lt (by omega), (show ¬ (b.black_king = i) by have := hcf.bk_lt; omega)]
      · trivial
  · -- bishop
    have hz1 : b.black_pawns &&& (1 <<< mv.start) = 0 :=
      single_and_zero _ _ (disj_bit _ _ _ hcf.bp_bb hT)
    have hz2 : b.black_rooks &&& (1 <<< mv.start) = 0 :=
      single_and_zero _ _ (disj_bit _ _ _ hcf.br_bb hT)
    have hz3 : b.black_knights &&& (1 <<< mv.start) = 0 :=
      single_and_zero _ _ (disj_bit _ _ _ hcf.bn_bb hT)
    have hsT : b.black_bishops &&& (1 <<< mv.start) ≠ 0 := sub_single _ _ hT
    have hsPb : Nat.testBit b.black_pawns mv.start = false :=
      disj_bit _ _ _ hcf.bp_bb hT
    have hsRb : Nat.testBit b.black_rooks mv.start = false :=
      disj_bit _ _ _ hcf.br_bb hT
    have hsNb : Nat.testBit b.black_knights mv.start = false :=
      disj_bit _ _ _ hcf.bn_bb hT
    have hsQb : Nat.testBit b.black_queens mv.start = false :=
      disj_bit _ _ _ (by rw [Nat.and_comm]; exact hcf.bb_bq) hT
    have hKeS := disj_bit _ _ _ (by rw [Nat.and_comm]; exact hcf.bb_bk) hT
    have hKneS : ¬ (b.black_king = mv.start) := by
      intro hh
      rw [testBit_single] at hKeS
      simp [hh] at hKeS
    by_cases hcapb : b.white_pieces &&& (1 <<< mv.endSq) ≠ 0
    · have hcapS : mv.capture = some (get_piece_type_on_square b mv.endSq) := by
        rw [hcap, if_pos hcapb]
      have htB : Nat.testBit b.white_pieces mv.endSq = true := single_sub _ _ hcapb
      have hptdef := get_piece_white b mv.endSq hcapb
      have hptk : get_piece_type_on_square b mv.endSq ≠ KING := by
        intro hh
        apply hnk
        rw [hcapS, hh]
      simp only [makeMove_black b mv hwtp]
      rw [blackMover_bishop { b with black_pieces := (b.black_pieces &&& not64 (1 <<< mv.start)) ||| (1 <<< mv.endSq) } mv hz1 hz2 hz3 hsT]
      dsimp only
      rw [blackCaptureEp_some { b with black_pieces := (b.black_pieces &&& not64 (1 <<< mv.start)) ||| (1 <<< mv.endSq), black_bishops := (b.black_bishops &&& not64 (1 <<< mv.start)) ||| (1 <<< mv.endSq) } mv (get_piece_type_on_square b mv.endSq) hcapS hcep]
      rw [if_neg hcds]
      simp only [clearRightsOnEnd_proj_white_pawns, clearRightsOnEnd_proj_white_rooks, clearRightsOnEnd_proj_white_knights, clearRightsOnEnd_proj_white_bishops, clearRightsOnEnd_proj_white_queens, clearRightsOnEnd_proj_white_king, clearRightsOnEnd_proj_black_pawns, clearRightsOnEnd_proj_black_rooks, clearRightsOnEnd_proj_black_knights, clearRightsOnEnd_proj_black_bishops, clearRightsOnEnd_proj_black_queens, clearRightsOnEnd_proj_black_king, clearRightsOnEnd_proj_white_pieces, clearRightsOnEnd_proj_black_pieces, clearRightsOnEnd_proj_pieces, clearRightsOnEnd_proj_en_passant_target, clearRightsOnEnd_proj_white_to_play]
      simp only [makeMoveCaptureWhite_proj_black_pawns, makeMoveCaptureWhite_proj_black_rooks, makeMoveCaptureWhite_proj_black_knights, makeMoveCaptureWhite_proj_black_bishops, makeMoveCaptureWhite_proj_black_queens, makeMoveCaptureWhite_proj_black_king, makeMoveCaptureWhite_proj_black_pieces, makeMoveCaptureWhite_proj_pieces, makeMoveCaptureWhite_proj_en_passant_target, makeMoveCaptureWhite_proj_white_queen_side_castling_right, makeMoveCaptureWhite_proj_white_king_side_castling_right, makeMoveCaptureWhite_proj_black_queen_side_castling_right, makeMoveCaptureWhite_proj_black_king_side_castling_right, makeMoveCaptureWhite_proj_white_to_play]
      refine ⟨?_, ?_, ?_⟩
      · try dsimp only
        simp only [wunion]
        try dsimp only
        exact white_capture_aggok b { b with black_pieces := (b.black_pieces &&& not64 (1 <<< mv.start)) ||| (1 <<< mv.endSq), black_bishops := (b.black_bishops &&& not64 (1 <<< mv.start)) ||| (1 <<< mv.endSq) } mv.endSq (get_piece_type_on_square b mv.endSq) hcf
          rfl rfl rfl rfl rfl rfl rfl he64 htB hptdef hptk
      · try dsimp only
        simp only [bunion]
        try dsimp only
        apply Nat.eq_of_testBit_eq
        intro i
        simp only [hcf.bagg, bunion, Nat.testBit_or, Nat.testBit_and, testBit_not64,
          testBit_single]
        by_cases hs : mv.start = i
        · subst hs
          simp [hs64, hsPb, hsRb, hsNb, hsQb, hKneS, Ne.symm hne]
        · by_cases he : mv.endSq = i
          · subst he
            simp [hs]
          · by_cases hl : i < 64
            · simp [hs, he, hl]
            · simp [hs, he, hl, testBit_high _ i hcf.bp_lt (by omega), testBit_high _ i hcf.br_lt (by omega), testBit_high _ i hcf.bn_lt (by omega), testBit_high _ i hcf.bb_lt (by omega), testBit_high _ i hcf.bq_lt (by omega), (show ¬ (b.black_king = i) by have := hcf.bk_lt; omega)]
      · trivial
    · have hcap0 : mv.capture = Option.none := by
        rw [hcap, if_neg hcapb]
      simp only [makeMove_black b mv hwtp]
      rw [blackMover_bishop { b with black_pieces := (b.black_pieces &&& not64 (1 <<< mv.start)) ||| (1 <<< mv.endSq) } mv hz1 hz2 hz3 hsT]
      dsimp only
      rw [blackCaptureEp_none { b with black_pieces := (b.black_pieces &&& not64 (1 <<< mv.start)) ||| (1 <<< mv.endSq), black_bishops := (b.black_bishops &&& not64 (1 <<< mv.start)) ||| (1 <<< mv.endSq) } mv hcap0 hcep]
      rw [if_neg hcds]
      simp only [clearRightsOnEnd_proj_white_pawns, clearRightsOnEnd_proj_white_rooks, clearRightsOnEnd_proj_white_knights, clearRightsOnEnd_proj_white_bishops, clearRightsOnEnd_proj_white_queens, clearRightsOnEnd_proj_white_king, clearRightsOnEnd_proj_black_pawns, clearRightsOnEnd_proj_black_rooks, clearRightsOnEnd_proj_black_knights, clearRightsOnEnd_proj_black_bishops, clearRightsOnEnd_proj_black_queens, clearRightsOnEnd_proj_black_king, clearRightsOnEnd_proj_white_pieces, clearRightsOnEnd_proj_black_pieces, clearRightsOnEnd_proj_pieces, clearRightsOnEnd_proj_en_passant_target, clearRightsOnEnd_proj_white_to_play]
      refine ⟨?_, ?_, ?_⟩
      · try dsimp only
        simp only [wunion]
        try dsimp only
        exact hcf.wagg
      · try dsimp only
        simp only [bunion]
        try dsimp only
        apply Nat.eq_of_testBit_eq
        intro i
        simp only [hcf.bagg, bunion, Nat.testBit_or, Nat.testBit_and, testBit_not64,
          testBit_single]
        by_cases hs : mv.start = i
        · subst hs
          simp [hs64, hsPb, hsRb, hsNb, hsQb, hKneS, Ne.symm hne]
        · by_cases he : mv.endSq = i
          · subst he
            simp [hs]
          · by_cases hl : i < 64
            · simp [hs, he, hl]
            · simp [hs, he, hl, testBit_high _ i hcf.bp_lt (by omega), testBit_high _ i hcf.br_lt (by omega), testBit_high _ i hcf.bn_lt (by omega), testBit_high _ i hcf.bb_lt (by omega), testBit_high _ i hcf.bq_lt (by omega), (show ¬ (b.black_king = i) by have := hcf.bk_lt; omega)]
      · trivial
  · -- queen
    have hz1 : b.black_pawns &&& (1 <<< mv.start) = 0 :=
      single_and_zero _ _ (disj_bit _ _ _ hcf.bp_bq hT)
    have hz2 : b.black_rooks &&& (1 <<< mv.start) = 0 :=
      single_and_zero _ _ (disj_bit _ _ _ hcf.br_bq hT)
    have hz3 : b.black_knights &&& (1 <<< mv.start) = 0 :=
      single_and_zero _ _ (disj_bit _ _ _ hcf.bn_bq hT)
    have hz4 : b.black_bishops &&& (1 <<< mv.start) = 0 :=
      single_and_zero _ _ (disj_bit _ _ _ hcf.bb_bq hT)
    have hsT : b.black_queens &&& (1 <<< mv.start) ≠ 0 := sub_single _ _ hT
    have hsPb : Nat.testBit b.black_pawns mv.start = false :=
      disj_bit _ _ _ hcf.bp_bq hT
    have hsRb : Nat.testBit b.black_rooks mv.start = false :=
      disj_bit _ _ _ hcf.br_bq hT
    have hsNb : Nat.testBit b.black_knights mv.start = false :=
      disj_bit _ _ _ hcf.bn_bq hT
    have hsBb : Nat.testBit b.black_bishops mv.start = false :=
      disj_bit _ _ _ hcf.bb_bq hT
    have hKeS := disj_bit _ _ _ (by rw [Nat.and_comm]; exact hcf.bq_bk) hT
    have hKneS : ¬ (b.black_king = mv.start) := by
      intro hh
      rw [testBit_single] at hKeS
      simp [hh] at hKeS
    by_cases hcapb : b.white_pieces &&& (1 <<< mv.endSq) ≠ 0
    · have hcapS : mv.capture = some (get_piece_type_on_square b mv.endSq) := by
        rw [hcap, if_pos hcapb]
      have htB : Nat.testBit b.white_pieces mv.endSq = true := single_sub _ _ hcapb
      have hptdef := get_piece_white b mv.endSq hcapb
      have hptk : get_piece_type_on_square b mv.endSq ≠ KING := by
        intro hh
        apply hnk
        rw [hcapS, hh]
      simp only [makeMove_black b mv hwtp]
      rw [blackMover_queen { b with black_pieces := (b.black_pieces &&& not64 (1 <<< mv.start)) ||| (1 <<< mv.endSq) } mv hz1 hz2 hz3 hz4 hsT]
      dsimp only
      rw [blackCaptureEp_some { b with black_pieces := (b.black_pieces &&& not64 (1 <<< mv.start)) ||| (1 <<< mv.endSq), black_queens := (b.black_queens &&& not64 (1 <<< mv.start)) ||| (1 <<< mv.endSq) } mv (get_piece_type_on_square b mv.endSq) hcapS hcep]
      rw [if_neg hcds]
      simp only [clearRightsOnEnd_proj_white_pawns, clearRightsOnEnd_proj_white_rooks, clearRightsOnEnd_proj_white_knights, clearRightsOnEnd_proj_white_bishops, clearRightsOnEnd_proj_white_queens, clearRightsOnEnd_proj_white_king, clearRightsOnEnd_proj_black_pawns, clearRightsOnEnd_proj_black_rooks, clearRightsOnEnd_proj_black_knights, clearRightsOnEnd_proj_black_bishops, clearRightsOnEnd_proj_black_queens, clearRightsOnEnd_proj_black_king, clearRightsOnEnd_proj_white_pieces, clearRightsOnEnd_proj_black_pieces, clearRightsOnEnd_proj_pieces, clearRightsOnEnd_proj_en_passant_target, clearRightsOnEnd_proj_white_to_play]
      simp only [makeMoveCaptureWhite_proj_black_pawns, makeMoveCaptureWhite_proj_black_rooks, makeMoveCaptureWhite_proj_black_knights, makeMoveCaptureWhite_proj_black_bishops, makeMoveCaptureWhite_proj_black_queens, makeMoveCaptureWhite_proj_black_king, makeMoveCaptureWhite_proj_black_pieces, makeMoveCaptureWhite_proj_pieces, makeMoveCaptureWhite_proj_en_passant_target, makeMoveCaptureWhite_proj_white_queen_side_castling_right, makeMoveCaptureWhite_proj_white_king_side_castling_right, makeMoveCaptureWhite_proj_black_queen_side_castling_right, makeMoveCaptureWhite_proj_black_king_side_castling_right, makeMoveCaptureWhite_proj_white_to_play]
      refine ⟨?_, ?_, ?_⟩
      · try dsimp only
        simp only [wunion]
        try dsimp only
        exact white_capture_aggok b { b with black_pieces := (b.black_pieces &&& not64 (1 <<< mv.start)) ||| (1 <<< mv.endSq), black_queens := (b.black_queens &&& not64 (1 <<< mv.start)) ||| (1 <<< mv.endSq) } mv.endSq (get_piece_type_on_square b mv.endSq) hcf
          rfl rfl rfl rfl rfl rfl rfl he64 htB hptdef hptk
      · try dsimp only
        simp only [bunion]
        try dsimp only
        apply Nat.eq_of_testBit_eq
        intro i
        simp only [hcf.bagg, bunion, Nat.testBit_or, Nat.testBit_and, testBit_not64,
          testBit_single]
        by_cases hs : mv.start = i
        · subst hs
          simp [hs64, hsPb, hsRb, hsNb, hsBb, hKneS, Ne.symm hne]
        · by_cases he : mv.endSq = i
          · subst he
            simp [hs]
          · by_cases hl : i < 64
            · simp [hs, he, hl]
            · simp [hs, he, hl, testBit_high _ i hcf.bp_lt (by omega), testBit_high _ i hcf.br_lt (by omega), testBit_high _ i hcf.bn_lt (by omega), testBit_high _ i hcf.bb_lt (by omega), testBit_high _ i hcf.bq_lt (by omega), (show ¬ (b.black_king = i) by have := hcf.bk_lt; omega)]
      · trivial
    · have hcap0 : mv.capture = Option.none := by
        rw [hcap, if_neg hcapb]
      simp only [makeMove_black b mv hwtp]
      rw [blackMover_queen { b with black_pieces := (b.black_pieces &&& not64 (1 <<< mv.start)) ||| (1 <<< mv.endSq) } mv hz1 hz2 hz3 hz4 hsT]
      dsimp only
      rw [blackCaptureEp_none { b with black_pieces := (b.black_pieces &&& not64 (1 <<< mv.start)) ||| (1 <<< mv.endSq), black_queens := (b.black_queens &&& not64 (1 <<< mv.start)) ||| (1 <<< mv.endSq) } mv hcap0 hcep]
      rw [if_neg hcds]
      simp only [clearRightsOnEnd_proj_white_pawns, clearRightsOnEnd_proj_white_rooks, clearRightsOnEnd_proj_white_knights, clearRightsOnEnd_proj_white_bishops, clearRightsOnEnd_proj_white_queens, clearRightsOnEnd_proj_white_king, clearRightsOnEnd_proj_black_pawns, clearRightsOnEnd_proj_black_rooks, clearRightsOnEnd_proj_black_knights, clearRightsOnEnd_proj_black_bishops, clearRightsOnEnd_proj_black_queens, clearRightsOnEnd_proj_black_king, clearRightsOnEnd_proj_white_pieces, clearRightsOnEnd_proj_black_pieces, clearRightsOnEnd_proj_pieces, clearRightsOnEnd_proj_en_passant_target, clearRightsOnEnd_proj_white_to_play]
      refine ⟨?_, ?_, ?_⟩
      · try dsimp only
        simp only [wunion]
        try dsimp only
        exact hcf.wagg
      · try dsimp only
        simp only [bunion]
        try dsimp only
        apply Nat.eq_of_testBit_eq
        intro i
        simp only [hcf.bagg, bunion, Nat.testBit_or, Nat.testBit_and, testBit_not64,
          testBit_single]
        by_cases hs : mv.start = i
        · subst hs
          simp [hs64, hsPb, hsRb, hsNb, hsBb, hKneS, Ne.symm hne]
        · by_cases he : mv.endSq = i
          · subst he
            simp [hs]
          · by_cases hl : i < 64
            · simp [hs, he, hl]
            · simp [hs, he, hl, testBit_high _ i hcf.bp_lt (by omega), testBit_high _ i hcf.br_lt (by omega), testBit_high _ i hcf.bn_lt (by omega), testBit_high _ i hcf.bb_lt (by omega), testBit_high _ i hcf.bq_lt (by omega), (show ¬ (b.black_king = i) by have := hcf.bk_lt; omega)]
      · trivial
  · -- king
    have hz1 : b.black_pawns &&& (1 <<< mv.start) = 0 :=
      single_and_zero _ _ (disj_bit _ _ _ hcf.bp_bk (by rw [hT]; rw [testBit_single]; simp))
    have hz2 : b.black_rooks &&& (1 <<< mv.start) = 0 :=
      single_and_zero _ _ (disj_bit _ _ _ hcf.br_bk (by rw [hT]; rw [testBit_single]; simp))
    have hz3 : b.black_knights &&& (1 <<< mv.start) = 0 :=
      single_and_zero _ _ (disj_bit _ _ _ hcf.bn_bk (by rw [hT]; rw [testBit_single]; simp))
    have hz4 : b.black_bishops &&& (1 <<< mv.start) = 0 :=
      single_and_zero _ _ (disj_bit _ _ _ hcf.bb_bk (by rw [hT]; rw [testBit_single]; simp))
    have hz5 : b.black_queens &&& (1 <<< mv.start) = 0 :=
      single_and_zero _ _ (disj_bit _ _ _ hcf.bq_bk (by rw [hT]; rw [testBit_single]; simp))
    have hKbitS : Nat.testBit (1 <<< b.black_king) mv.start = true := by
      rw [hT, testBit_single]
      simp
    have hsPb : Nat.testBit b.black_pawns mv.start = false :=
      disj_bit _ _ _ hcf.bp_bk hKbitS
    have hsRb : Nat.testBit b.black_rooks mv.start = false :=
      disj_bit _ _ _ hcf.br_bk hKbitS
    have hsNb : Nat.testBit b.black_knights mv.start = false :=
      disj_bit _ _ _ hcf.bn_bk hKbitS
    have hsBb : Nat.testBit b.black_bishops mv.start = false :=
      disj_bit _ _ _ hcf.bb_bk hKbitS
    have hsQb : Nat.testBit b.black_queens mv.start = false :=
      disj_bit _ _ _ hcf.bq_bk hKbitS
    by_cases hcapb : b.white_pieces &&& (1 <<< mv.endSq) ≠ 0
    · have hcapS : mv.capture = some (get_piece_type_on_square b mv.endSq) := by
        rw [hcap, if_pos hcapb]
      have htB : Nat.testBit b.white_pieces mv.endSq = true := single_sub _ _ hcapb
      have hptdef := get_piece_white b mv.endSq hcapb
      have hptk : get_piece_type_on_square b mv.endSq ≠ KING := by
        intro hh
        apply hnk
        rw [hcapS, hh]
      simp only [makeMove_black b mv hwtp]
      rw [blackMover_king { b with black_pieces := (b.black_pieces &&& not64 (1 <<< mv.start)) ||| (1 <<< mv.endSq) } mv hz1 hz2 hz3 hz4 hz5 hT hcq hck]
      dsimp only
      rw [blackCaptureEp_some { b with black_pieces := (((b.black_pieces &&& not64 (1 <<< mv.start)) ||| (1 <<< mv.endSq)) &&& not64 (1 <<< b.black_king)) ||| (1 <<< mv.endSq), black_king := mv.endSq, black_queen_side_castling_right := false, black_king_side_castling_right := false } mv (get_piece_type_on_square b mv.endSq) hcapS hcep]
      rw [if_neg hcds]
      simp only [clearRightsOnEnd_proj_white_pawns, clearRightsOnEnd_proj_white_rooks, clearRightsOnEnd_proj_white_knights, clearRightsOnEnd_proj_white_bishops, clearRightsOnEnd_proj_white_queens, clearRightsOnEnd_proj_white_king, clearRightsOnEnd_proj_black_pawns, clearRightsOnEnd_proj_black_rooks, clearRightsOnEnd_proj_black_knights, clearRightsOnEnd_proj_black_bishops, clearRightsOnEnd_proj_black_queens, clearRightsOnEnd_proj_black_king, clearRightsOnEnd_proj_white_pieces, clearRightsOnEnd_proj_black_pieces, clearRightsOnEnd_proj_pieces, clearRightsOnEnd_proj_en_passant_target, clearRightsOnEnd_proj_white_to_play]
      simp only [makeMoveCaptureWhite_proj_black_pawns, makeMoveCaptureWhite_proj_black_rooks, makeMoveCaptureWhite_proj_black_knights, makeMoveCaptureWhite_proj_black_bishops, makeMoveCaptureWhite_proj_black_queens, makeMoveCaptureWhite_proj_black_king, makeMoveCaptureWhite_proj_black_pieces, makeMoveCaptureWhite_proj_pieces, makeMoveCaptureWhite_proj_en_passant_target, makeMoveCaptureWhite_proj_white_queen_side_castling_right, makeMoveCaptureWhite_proj_white_king_side_castling_right, makeMoveCaptureWhite_proj_black_queen_side_castling_right, makeMoveCaptureWhite_proj_black_king_side_castling_right, makeMoveCaptureWhite_proj_white_to_play]
      refine ⟨?_, ?_, ?_⟩
      · try dsimp only
        simp only [wunion]
        try dsimp only
        exact white_capture_aggok b { b with black_pieces := (((b.black_pieces &&& not64 (1 <<< mv.start)) ||| (1 <<< mv.endSq)) &&& not64 (1 <<< b.black_king)) ||| (1 <<< mv.endSq), black_king := mv.endSq, black_queen_side_castling_right := false, black_king_side_castling_right := false } mv.endSq (get_piece_type_on_square b mv.endSq) hcf
          rfl rfl rfl rfl rfl rfl rfl he64 htB hptdef hptk
      · try dsimp only
        simp only [bunion]
        try dsimp only
        apply Nat.eq_of_testBit_eq
        intro i
        simp only [hcf.bagg, bunion, Nat.testBit_or, Nat.testBit_and, testBit_not64,
          testBit_single]
        by_cases hs : mv.start = i
        · subst hs
          simp [hT, hs64, hsPb, hsRb, hsNb, hsBb, hsQb, Ne.symm hne]
        · by_cases he : mv.endSq = i
          · subst he
            simp [hs, hT]
          · by_cases hl : i < 64
            · simp [hs, he, hl, hT]
            · simp [hs, he, hl, hT, testBit_high _ i hcf.bp_lt (by omega), testBit_high _ i hcf.br_lt (by omega), testBit_high _ i hcf.bn_lt (by omega), testBit_high _ i hcf.bb_lt (by omega), testBit_high _ i hcf.bq_lt (by omega)]
      · trivial
    · have hcap0 : mv.capture = Option.none := by
        rw [hcap, if_neg hcapb]
      simp only [makeMove_black b mv hwtp]
      rw [blackMover_king { b with black_pieces := (b.black_pieces &&& not64 (1 <<< mv.start)) ||| (1 <<< mv.endSq) } mv hz1 hz2 hz3 hz4 hz5 hT hcq hck]
      dsimp only
      rw [blackCaptureEp_none { b with black_pieces := (((b.black_pieces &&& not64 (1 <<< mv.start)) ||| (1 <<< mv.endSq)) &&& not64 (1 <<< b.black_king)) ||| (1 <<< mv.endSq), black_king := mv.endSq, black_queen_side_castling_right := false, black_king_side_castling_right := false } mv hcap0 hcep]
      rw [if_neg hcds]
      simp only [clearRightsOnEnd_proj_white_pawns, clearRightsOnEnd_proj_white_rooks, clearRightsOnEnd_proj_white_knights, clearRightsOnEnd_proj_white_bishops, clearRightsOnEnd_proj_white_queens, clearRightsOnEnd_proj_white_king, clearRightsOnEnd_proj_black_pawns, clearRightsOnEnd_proj_black_rooks, clearRightsOnEnd_proj_black_knights, clearRightsOnEnd_proj_black_bishops, clearRightsOnEnd_proj_black_queens, clearRightsOnEnd_proj_black_king, clearRightsOnEnd_proj_white_pieces, clearRightsOnEnd_proj_black_pieces, clearRightsOnEnd_proj_pieces, clearRightsOnEnd_proj_en_passant_target, clearRightsOnEnd_proj_white_to_play]
      refine ⟨?_, ?_, ?_⟩
      · try dsimp only
        simp only [wunion]
        try dsimp only
        exact hcf.wagg
      · try dsimp only
        simp only [bunion]
        try dsimp only
        apply Nat.eq_of_testBit_eq
        intro i
        simp only [hcf.bagg, bunion, Nat.testBit_or, Nat.testBit_and, testBit_not64,
          testBit_single]
        by_cases hs : mv.start = i
        · subst hs
          simp [hT, hs64, hsPb, hsRb, hsNb, hsBb, hsQb, Ne.symm hne]
        · by_cases he : mv.endSq = i
          · subst he
            simp [hs, hT]
          · by_cases hl : i < 64
            · simp [hs, he, hl, hT]
            · simp [hs, he, hl, hT, testBit_high _ i hcf.bp_lt (by omega), testBit_high _ i hcf.br_lt (by omega), testBit_high _ i hcf.bn_lt (by omega), testBit_high _ i hcf.bb_lt (by omega), testBit_high _ i hcf.bq_lt (by omega)]
      · trivial

end Barnarok

namespace Barnarok

/-- C8 (corrected): after `make_move` of any plain move of the side to move
(kind tag `None`, start held by the mover, destination free of the mover's
men, capture field holding exactly the enemy piece on the destination, and
not capturing a king) applied to a position whose redundant data is
consistent, the white aggregate equals the union of the five white masks and
the white king bit, the black aggregate equals the analogous black union,
and the global occupancy equals the union of the two aggregates; the
matching `unmake_move` then restores the original position bit-for-bit, so
the same three equations hold after it as well. -/
theorem aggregate_masks_consistent_reachable (b : Board) (mv : Move)
    (hc : Consistent b = true)
    (hctx : mv.context = MoveContext.none)
    (hstart : Nat.testBit (moverPieces b) mv.start = true)
    (hend : Nat.testBit (moverPieces b) mv.endSq = false)
    (he64 : mv.endSq < 64)
    (hcap : mv.capture = (if opponentPieces b &&& (1 <<< mv.endSq) ≠ 0
        then some (get_piece_type_on_square b mv.endSq) else Option.none))
    (hnk : mv.capture ≠ some KING)
    (hpe : mv.previous_ep_target = b.en_passant_target)
    (hpq1 : mv.previous_wqs = b.white_queen_side_castling_right)
    (hpq2 : mv.previous_wks = b.white_king_side_castling_right)
    (hpq3 : mv.previous_bqs = b.black_queen_side_castling_right)
    (hpq4 : mv.previous_bks = b.black_king_side_castling_right) :
    ((makeMove b mv).white_pieces = wunion (makeMove b mv) ∧
     (makeMove b mv).black_pieces = bunion (makeMove b mv) ∧
     (makeMove b mv).pieces =
       (makeMove b mv).white_pieces ||| (makeMove b mv).black_pieces) ∧
    unmakeMove (makeMove b mv) mv = b := by
  have hcf := consistent_facts b hc
  refine ⟨?_, make_unmake_plain b mv hc hctx hstart hend he64 hcap hpe hpq1 hpq2 hpq3 hpq4⟩
  cases hwtp : b.white_to_play
  · rw [moverPieces, hwtp] at hstart hend
    rw [opponentPieces, hwtp] at hcap
    simp only [Bool.false_eq_true, if_false] at hstart hend hcap
    exact make_aggok_black b mv hcf hwtp hctx hstart hend he64 hcap hnk
  · rw [moverPieces, hwtp] at hstart hend
    rw [opponentPieces, hwtp] at hcap
    simp only [if_true] at hstart hend hcap
    exact make_aggok_white b mv hcf hwtp hctx hstart hend he64 hcap hnk

theorem aggregate_masks_consistent_reachable_witness :
    Consistent boardKingsEp = true ∧
      (((makeMove boardKingsEp mvKingStep).white_pieces =
          wunion (makeMove boardKingsEp mvKingStep) ∧
        (makeMove boardKingsEp mvKingStep).black_pieces =
          bunion (makeMove boardKingsEp mvKingStep) ∧
        (makeMove boardKingsEp mvKingStep).pieces =
          (makeMove boardKingsEp mvKingStep).white_pieces |||
            (makeMove boardKingsEp mvKingStep).black_pieces) ∧
      unmakeMove (makeMove boardKingsEp mvKingStep) mvKingStep = boardKingsEp) :=
  ⟨by decide, aggregate_masks_consistent_reachable boardKingsEp mvKingStep (by decide)
    (by decide) (by decide) (by decide) (by decide) (by decide) (by decide) (by decide)
    (by decide) (by decide) (by decide) (by decide)⟩

end Barnarok

namespace Barnarok

/-- The position `k6r/8/8/8/7K/8/8/8 w K -`, accepted by `from_fen`: the
white king wanders on h4 while the white king-side castling right is still
recorded. -/
def boardWanderKing : Board :=
  { white_pawns := 0
    white_rooks := 0
    white_knights := 0
    white_bishops := 0
    white_queens := 0
    white_king := 31
    black_pawns := 0
    black_rooks := 0x8000000000000000
    black_knights := 0
    black_bishops := 0
    black_queens := 0
    black_king := 56
    white_pieces := 0x80000000
    black_pieces := 0x8100000000000000
    pieces := 0x8100000080000000
    en_passant_target := Option.none
    white_queen_side_castling_right := false
    white_king_side_castling_right := true
    black_queen_side_castling_right := false
    black_king_side_castling_right := false
    white_to_play := true }

/-- The king-side castle `generate_king_moves` emits on `boardWanderKing`:
it starts on h4, the current king square, not on the home square e1. -/
def mvWanderCastle : Move :=
  { start := 31
    endSq := 33
    context := MoveContext.kingSideCastle
    capture := Option.none
    previous_ep_target := Option.none
    previous_wqs := false
    previous_wks := true
    previous_bqs := false
    previous_bks := false }

set_option maxRecDepth 100000 in
set_option maxHeartbeats 2000000 in
/-- C7 counterexample: on `k6r/8/8/8/7K/8/8/8 w K -` (consistent masks, the
layout `from_fen` accepts) the generated move list contains a king-side
castle whose actual start square h4 is attacked by the rook on h8 — the
guard of `generate_king_moves` reads the fixed home squares e1, f1, g1, so
the claim's condition on the king's start, transit and destination squares
is not necessary for a castle to be generated. -/
theorem castle_guard_ignores_king_position :
    Consistent boardWanderKing = true ∧
    mvWanderCastle ∈ get_legal_moves boardWanderKing ∧
    mvWanderCastle.context = MoveContext.kingSideCastle ∧
    is_square_attacked mvWanderCastle.start boardWanderKing false = true :=
  ⟨by decide, by decide, by decide, by decide⟩

end Barnarok
